import Mathlib

/-!
# VSGL renderer: command-stream model

A shallow embedding of the two renderers of the repository,
`Renderer` (MiniEngine/ModelViewer/Renderer/Renderer.cpp) and
`MyRenderer` (ModelViewer/MyRenderer.cpp).

* A call on the `GraphicsContext` / `ComputeContext` is a value of `Cmd`;
  a pass is a function returning the `Trace` of the calls it makes, in order.
* `assert` is modelled as active: a failed assertion (or a division by zero)
  ends the trace at that point, and nothing after it is recorded.
* The type `float` is a parameter `α` of the embedding, with the operations
  the sources use on it (`*`, `/`, the conversion of an `unsigned int`, the
  literal `2.0f`). The statements about the numbers the code computes take
  `α := Binary32`, the IEEE 754 binary32 arithmetic defined below (round to
  nearest even, with infinities, NaN and signed zeros); the statement about
  the real numbers takes `α := ℝ`; the statements about the recorded calls
  hold for every `α`. The `unsigned int` product `RSM_WIDTH * RSM_WIDTH` is
  reduced modulo `2 ^ 32`.
* The loop over `m_pMesh[0 .. meshCount)` is a recursion over the list of
  meshes, with the tracked `materialIndex` passed as loop state.
* The file-scope buffers are a value of `Buffers`, read by the passes; what
  the recorded calls do to them is `Cmd.effect`.

The file has three parts: the embedding of the sources, the definitions used
to read traces and to state the properties (with the concrete inputs), and
the theorems, grouped by the claim they settle.
-/

set_option autoImplicit false

namespace VSGL

/-! ## Constants -/

/-- VSGLGenerationSetting.h: resolution of a reflective shadow map. -/
def RSM_WIDTH : Nat := 128

/-- VSGLGenerationSetting.h: thread-group width for VSGL generation. -/
def THREAD_GROUP_WIDTH : Nat := 32

/-- The value of `std::numeric_limits<uint32_t>::max()`. -/
def UINT32_MAX : Nat := 4294967295

/-- Scene.h: `Scene::MODEL_SRV_COUNT`. -/
def MODEL_SRV_COUNT : Nat := 4

/-- Scene.h: `Scene::CUTOUT_SRV_COUNT` (alpha cutout for the depth pass). -/
def CUTOUT_SRV_COUNT : Nat := 1

/-- The value of `sizeof(uint16_t)`. -/
def SIZEOF_UINT16 : Nat := 2

/-- The value of `sizeof(uint32_t)`. -/
def SIZEOF_UINT32 : Nat := 4

/-! ## Data model -/

/-- The eight GPU resources a frame touches: the six file-scope statics of the
renderer and the two scene buffers of `Graphics`. -/
inductive Resource where
  | s_shadowMap
  | s_rsmDepthBuffer
  | s_rsmNormalBuffer
  | s_rsmDiffuseBuffer
  | s_rsmSpecularBuffer
  | s_sgLightBuffer
  | g_SceneDepthBuffer
  | g_SceneColorBuffer
  deriving DecidableEq, Repr

/-- The `D3D12_RESOURCE_STATES` values the renderer names. -/
inductive ResourceState where
  | COMMON
  | RENDER_TARGET
  | DEPTH_WRITE
  | DEPTH_READ
  | UNORDERED_ACCESS
  | NON_PIXEL_SHADER_RESOURCE
  | PIXEL_SHADER_RESOURCE
  | VERTEX_AND_CONSTANT_BUFFER
  deriving DecidableEq, Repr

/-- The root signatures built by `Create` / `Initialize`. -/
inductive RootSig where
  | s_depthRootSignature
  | s_rsmRootSignature
  | s_lightingRootSignature
  | s_vsglRootSignature
  deriving DecidableEq, Repr

/-- The pipeline state objects built by `Create` / `Initialize`. -/
inductive PSO where
  | s_depthPSO
  | s_depthCutoutPSO
  | s_shadowMapPSO
  | s_shadowMapCutoutPSO
  | s_reflectiveShadowMapPSO
  | s_reflectiveShadowMapCutoutPSO
  | s_lightingPSO
  | s_lightingCutoutPSO
  | s_lightingHSGPSO
  | s_lightingHSGCutoutPSO
  | s_vsglGenerationDiffusePSO
  | s_vsglGenerationSpecularPSO
  deriving DecidableEq, Repr

/-- The pipelines of the alpha-cutout variants. -/
def PSO.isCutout : PSO → Bool
  | .s_depthCutoutPSO => true
  | .s_shadowMapCutoutPSO => true
  | .s_reflectiveShadowMapCutoutPSO => true
  | .s_lightingCutoutPSO => true
  | .s_lightingHSGCutoutPSO => true
  | _ => false

/-- The five passes, named by the label of their `ScopedTimer`:
"Reflective Shadow Map", "Shadow Map", "VSGL Generation", "Depth", "Lighting". -/
inductive Pass where
  | ReflectiveShadowMapPass
  | ShadowMapPass
  | VSGLGenerationPass
  | DepthPass
  | LightingPass
  deriving DecidableEq, Repr

/-- Which of the two models of a scene a reference `const Model&` points to. -/
inductive ModelRef where
  | m_model
  | m_modelCutout
  deriving DecidableEq, Repr

/-- A descriptor handle obtained from a resource. -/
inductive Descriptor where
  | RTV (r : Resource)
  | DSV (r : Resource)
  | DSV_DepthReadOnly (r : Resource)
  | SRV (r : Resource)
  | DepthSRV (r : Resource)
  deriving DecidableEq, Repr

/-- What a binding call is handed: a local array of descriptor handles, the
material table `model.GetSRVs(materialIndex)`, or the descriptor table
`s_lightingDescriptorTable` of `MyRenderer`. -/
inductive DescriptorArray where
  | handles (hs : List Descriptor)
  | GetSRVs (model : ModelRef) (materialIndex : Nat)
  | s_lightingDescriptorTable
  deriving DecidableEq, Repr

/-- The type `XMMATRIX`, as its entries. -/
abbrev XMMATRIX (α : Type) := List α

/-- The types `XMVECTOR` and `XMFLOAT3`, as their entries. -/
abbrev XMVECTOR (α : Type) := List α

/-- The contents of the constant blocks uploaded with
`SetDynamicConstantBufferView`. -/
inductive Constants (α : Type) where
  | viewProjection (m : XMMATRIX α)
  | lighting (lightViewProjection : XMMATRIX α) (cameraPosition : XMVECTOR α)
      (lightPosition : XMVECTOR α) (lightIntensity : α)
  | vsgl (lightViewProjectionInv : XMMATRIX α) (lightPosition : XMVECTOR α)
      (lightAxis : XMVECTOR α) (photonPower : α)
  deriving DecidableEq, Repr

/-- One call on the command context. -/
inductive Cmd (α : Type) where
  | TransitionResource (r : Resource) (newState : ResourceState) (flushImmediate : Bool)
  | BeginResourceTransition (r : Resource) (newState : ResourceState)
  | ClearDepth (r : Resource)
  | ClearColor (r : Resource)
  | BeginBlock (pass : Pass)
  | EndBlock (pass : Pass)
  | SetRootSignature (s : RootSig)
  | SetDescriptorHeap
  | SetViewportAndScissor (x y w h : Nat)
  | SetPrimitiveTopology
  | SetDynamicConstantBufferView (rootIndex : Nat) (data : Constants α)
  | SetConstantBuffer (rootIndex : Nat) (r : Resource)
  | SetBufferUAV (rootIndex : Nat) (r : Resource)
  | SetDynamicDescriptors (rootIndex offset count : Nat) (handles : DescriptorArray)
  | SetDynamicDescriptor (rootIndex offset : Nat) (handle : Descriptor)
  | SetDescriptorTable (rootIndex : Nat) (table : DescriptorArray)
  | SetConstants (rootIndex : Nat) (x : Nat)
  | SetRenderTargets (rtvs : List Descriptor) (dsv : Descriptor)
  | SetRenderTarget (rtv : Descriptor) (dsv : Descriptor)
  | SetDepthStencilTarget (dsv : Descriptor)
  | SetPipelineState (pso : PSO)
  | SetIndexBuffer (model : ModelRef) (depthOnly : Bool)
  | SetVertexBuffer (slot : Nat) (model : ModelRef) (depthOnly : Bool)
  | DrawIndexed (indexCount startIndex baseVertexLocation : Nat)
  | Dispatch (x y z : Nat)
  deriving DecidableEq, Repr

/-- Why a frame was aborted. -/
inductive Failure where
  | indexCountNotTriangles
  | indexOffsetNotTriangles
  | vertexOffsetNotAligned
  | divisionByZero
  | rsmWidthMismatch (r : Resource)
  | rsmHeightMismatch (r : Resource)
  deriving DecidableEq, Repr

/-- What a piece of code recorded: the calls made, in order, and the failure
that ended it, if one did. -/
structure Trace (α : Type) where
  cmds : List (Cmd α)
  failure : Option Failure
  deriving DecidableEq, Repr

namespace Trace

variable {α : Type}

/-- Code that records nothing. -/
def skip : Trace α := ⟨[], none⟩

/-- One call on the context. -/
def call (c : Cmd α) : Trace α := ⟨[c], none⟩

/-- An `assert`: nothing is recorded; a false condition aborts. -/
def assert (cond : Bool) (f : Failure) : Trace α :=
  if cond then ⟨[], none⟩ else ⟨[], some f⟩

/-- Sequential composition: the second part runs only if the first did not
abort. -/
def seq (a b : Trace α) : Trace α :=
  match a.failure with
  | some f => ⟨a.cmds, some f⟩
  | none => ⟨a.cmds ++ b.cmds, b.failure⟩

/-- A block of statements, executed in order. -/
def block : List (Trace α) → Trace α
  | [] => skip
  | s :: rest => seq s (block rest)

/-- Modelled from the spec: the `ScopedTimer` that opens each pass (its class is
not among the sources), around the rest of the function body. The timer opens
the profiling block of the pass when it is constructed and closes it when the
scope is left; the two calls delimit the pass in the command stream. An abort
runs no destructor, so an aborted pass is not closed. -/
def ScopedTimer (pass : Pass) (body : Trace α) : Trace α :=
  block [call (.BeginBlock pass), body, call (.EndBlock pass)]

/-- The frame ran to its end. -/
def completed (t : Trace α) : Bool := t.failure.isNone

end Trace

/-- A submesh record of `Model::Mesh` / `ModelH3D::Mesh`: the members the draw
routines read, all unsigned 32-bit integers (the declaration is not among the
sources). -/
structure Mesh where
  indexCount : Nat
  indexDataByteOffset : Nat
  vertexDataByteOffset : Nat
  vertexDataByteOffsetDepth : Nat
  materialIndex : Nat
  deriving DecidableEq, Repr

/-- A drawable batch (`Model` / `ModelH3D`, declared outside the sources): the
submeshes `m_pMesh[0 .. m_Header.meshCount)` and the two vertex strides. -/
structure Model where
  m_pMesh : List Mesh
  m_VertexStride : Nat
  m_VertexStrideDepth : Nat
  deriving DecidableEq, Repr

/-- The field `m_Header.meshCount` / the getter `GetMeshCount()`. -/
def Model.meshCount (m : Model) : Nat := m.m_pMesh.length

/-- A camera-like projector (`Math::Camera`), by the values of the getters the
passes call (the declaration is not among the sources). -/
structure Camera (α : Type) where
  GetViewProjMatrix : XMMATRIX α
  GetPosition : XMVECTOR α
  GetUpVec : XMVECTOR α
  GetRightVec : XMVECTOR α
  GetFOV : α
  deriving DecidableEq, Repr

/-- The scene handed to `Render`. -/
structure Scene (α : Type) where
  m_model : Model
  m_modelCutout : Model
  m_camera : Camera α
  m_spotLight : Camera α
  m_spotLightIntensity : α
  deriving DecidableEq, Repr

/-- Functions of the math libraries the renderer calls (`tan` of `<cmath>`,
`XMMatrixInverse` and `XMVector3Cross` of DirectXMath). -/
structure MathLib (α : Type) where
  tan : α → α
  XMMatrixInverse : XMMATRIX α → XMMATRIX α
  XMVector3Cross : XMVECTOR α → XMVECTOR α → XMVECTOR α

/-- The bookkeeping members of a `GpuResource` (GpuResource.h): the state the
resource is in and the state of a transition that was begun and not yet
completed (`(D3D12_RESOURCE_STATES)-1`, none pending, is `none`). -/
structure GpuResource where
  m_UsageState : ResourceState
  m_TransitioningState : Option ResourceState
  deriving DecidableEq, Repr

/-- The constructor `GpuResource()`: state `D3D12_RESOURCE_STATE_COMMON`, no
transition pending. -/
def GpuResource.new : GpuResource :=
  { m_UsageState := .COMMON, m_TransitioningState := none }

/-- A `DepthBuffer` / `ColorBuffer`: a GPU resource with a width and a height. -/
structure PixelBuffer extends GpuResource where
  GetWidth : Nat
  GetHeight : Nat
  deriving DecidableEq, Repr

/-- A `StructuredBuffer`: a GPU resource with an element count and an element
size in bytes. -/
structure StructuredBuffer extends GpuResource where
  numElements : Nat
  elementSize : Nat
  deriving DecidableEq, Repr

/-- Modelled from the spec: the calls `DepthBuffer::Create(name, width, height,
format)` and `ColorBuffer::Create(name, width, height, numMips, format)`
(their classes are not among the sources) allocate a target of the declared
dimensions; the resource starts in the state of the constructor of
`GpuResource`. -/
def PixelBuffer.Create (width height : Nat) : PixelBuffer :=
  { toGpuResource := GpuResource.new, GetWidth := width, GetHeight := height }

/-- Modelled from the spec: the call `StructuredBuffer::Create(name, numElements,
elementSize)` (its class is not among the sources) allocates a buffer of the
declared element count and element size; the resource starts in the state of
the constructor of `GpuResource`. -/
def StructuredBuffer.Create (numElements elementSize : Nat) : StructuredBuffer :=
  { toGpuResource := GpuResource.new, numElements := numElements, elementSize := elementSize }

/-- The buffers of the frame: the six statics made by `Create` and the two
scene buffers owned by `Graphics`. -/
structure Buffers where
  s_shadowMap : PixelBuffer
  s_rsmDepthBuffer : PixelBuffer
  s_rsmNormalBuffer : PixelBuffer
  s_rsmDiffuseBuffer : PixelBuffer
  s_rsmSpecularBuffer : PixelBuffer
  s_sgLightBuffer : StructuredBuffer
  g_SceneDepthBuffer : PixelBuffer
  g_SceneColorBuffer : PixelBuffer
  deriving DecidableEq, Repr

/-! ## The arithmetic of `float` (IEEE 754 binary32) -/

/-- A value of the C++ type `float`, an IEEE 754 binary32 number: a NaN, an
infinity, or a finite number given by its sign bit and its magnitude (so that
`+0` and `-0` are different values). Every operation below rounds its exact
result once, to the nearest binary32 number (no fused or extended-precision
evaluation); the magnitudes the operations return are those of the format
(`isRepresentable`). -/
inductive Binary32 where
  | nan
  | inf (negative : Bool)
  | finite (negative : Bool) (magnitude : ℚ≥0)
  deriving DecidableEq

namespace Binary32

/-- The power `2 ^ e` as a rational number. -/
def pow2 (e : ℤ) : ℚ :=
  if 0 ≤ e then ((2 ^ e.toNat : ℕ) : ℚ) else 1 / ((2 ^ (-e).toNat : ℕ) : ℚ)

/-- The number of binary digits of `n`, computed with at most `fuel` halvings. -/
def bitLength : ℕ → ℕ → ℕ
  | 0, _ => 0
  | fuel + 1, n => if n = 0 then 0 else bitLength fuel (n / 2) + 1

/-- The exponent of the binade of a positive rational `q`: the `e` with
`2 ^ e ≤ q < 2 ^ (e + 1)`, and `-126` (the exponent of the subnormal numbers)
when `q` is below `2 ^ (-126)`. -/
def exponent (q : ℚ) : ℤ :=
  let e : ℤ := (bitLength q.num.natAbs q.num.natAbs : ℤ) - (bitLength q.den q.den : ℤ)
  max (if pow2 e ≤ q then e else e - 1) (-126)

/-- The distance between neighbouring binary32 numbers around `q`: a significand
has 24 binary digits. -/
def ulp (q : ℚ) : ℚ :=
  pow2 (exponent q - 23)

/-- The integer nearest to `x`, the even one of the two when `x` lies half way. -/
def roundHalfEven (x : ℚ) : ℤ :=
  if x - ⌊x⌋ < 1 / 2 then ⌊x⌋
  else if 1 / 2 < x - ⌊x⌋ then ⌊x⌋ + 1
  else if ⌊x⌋ % 2 = 0 then ⌊x⌋ else ⌊x⌋ + 1

/-- The magnitude `q ≥ 0` rounded to the nearest multiple of `ulp q`, ties to the
even significand (the default rounding mode, round to nearest even). -/
def roundMagnitude (q : ℚ) : ℚ :=
  roundHalfEven (q / ulp q) * ulp q

/-- The binary32 result of an operation whose exact result has the sign
`negative` and the magnitude `q`: the rounded magnitude, or an infinity when
the rounded magnitude reaches `2 ^ 128`. -/
def round (negative : Bool) (q : ℚ) : Binary32 :=
  if pow2 128 ≤ roundMagnitude q then inf negative
  else finite negative (roundMagnitude q).toNNRat

/-- The operator `*` on `float`. -/
def mul : Binary32 → Binary32 → Binary32
  | nan, _ => nan
  | _, nan => nan
  | inf s, inf t => inf (xor s t)
  | inf s, finite t q => if q = 0 then nan else inf (xor s t)
  | finite s p, inf t => if p = 0 then nan else inf (xor s t)
  | finite s p, finite t q => round (xor s t) (p * q : ℚ≥0)

/-- The operator `/` on `float`. -/
def div : Binary32 → Binary32 → Binary32
  | nan, _ => nan
  | _, nan => nan
  | inf _, inf _ => nan
  | inf s, finite t _ => inf (xor s t)
  | finite s _, inf t => finite (xor s t) 0
  | finite s p, finite t q =>
    if q = 0 then (if p = 0 then nan else inf (xor s t)) else round (xor s t) (p / q : ℚ≥0)

instance : Mul Binary32 := ⟨mul⟩

instance : Div Binary32 := ⟨div⟩

/-- The conversion of an `unsigned int` to `float`. -/
instance : NatCast Binary32 := ⟨fun n => round false n⟩

/-- A literal such as `2.0f`. -/
instance (n : ℕ) : OfNat Binary32 n := ⟨round false n⟩

/-- The rational value of a finite number with the given sign and magnitude. -/
def signed (negative : Bool) (magnitude : ℚ≥0) : ℚ :=
  if negative then -(magnitude : ℚ) else magnitude

/-- The comparison `x <= y` on `float`: false when an operand is a NaN, and
`-0 <= +0 <= -0`. -/
def le : Binary32 → Binary32 → Bool
  | nan, _ => false
  | _, nan => false
  | inf true, _ => true
  | _, inf false => true
  | inf false, _ => false
  | _, inf true => false
  | finite s p, finite t q => decide (signed s p ≤ signed t q)

instance : LE Binary32 := ⟨fun x y => le x y = true⟩

/-- The comparison `x < y` on `float`. -/
instance : LT Binary32 := ⟨fun x y => le x y = true ∧ le y x = false⟩

instance (x y : Binary32) : Decidable (x ≤ y) := inferInstanceAs (Decidable (le x y = true))

instance (x y : Binary32) : Decidable (x < y) :=
  inferInstanceAs (Decidable (le x y = true ∧ le y x = false))

/-- Whether the value is a finite number. -/
def isFinite : Binary32 → Bool
  | finite _ _ => true
  | _ => false

/-- Whether the value is a normal number: finite and at least `2 ^ (-126)` in
magnitude. -/
def isNormal : Binary32 → Bool
  | finite _ q => decide (pow2 (-126) ≤ (q : ℚ))
  | _ => false

/-- Whether the value is one of the format: a NaN, an infinity, or a finite
number whose magnitude is below `2 ^ 128` and is left as it is by the rounding
(a multiple of the `ulp` of its binade). The inputs of the statements below
that are named by their digits are of this kind. -/
def isRepresentable : Binary32 → Bool
  | finite _ q => decide (roundMagnitude q = q ∧ (q : ℚ) < pow2 128)
  | _ => true

/-- The rational value of a finite number (`0` for the other values). -/
def toRat : Binary32 → ℚ
  | finite s q => signed s q
  | _ => 0

end Binary32

/-! ## Photon power (both renderers, `VSGLGenerationPass`) -/

section PhotonPower

variable {α : Type}

/-- The line `planeWidth = 2.0f * tan(spotLight.GetFOV() / 2.0f)`. -/
def planeWidth [Mul α] [Div α] [OfNat α 2] (tan : α → α) (fov : α) : α :=
  2 * tan (fov / 2)

/-- The denominator `(RSM_WIDTH * RSM_WIDTH)`: a product of two `unsigned int`,
converted to `float` afterwards. -/
def rsmTexelCount (rsmWidth : Nat) : Nat :=
  (rsmWidth * rsmWidth) % 2 ^ 32

/-- The line
`photonPower = lightIntensity * (planeWidth * planeWidth) / (RSM_WIDTH * RSM_WIDTH)`,
with the constant `RSM_WIDTH` as the parameter `rsmWidth`. -/
def photonPower [Mul α] [Div α] [NatCast α] (rsmWidth : Nat) (lightIntensity planeWidth : α) :
    α :=
  lightIntensity * (planeWidth * planeWidth) / ((rsmTexelCount rsmWidth : Nat) : α)

end PhotonPower

/-! ## Renderer (MiniEngine/ModelViewer/Renderer/Renderer.cpp) -/

namespace Renderer

variable {α : Type}

/-- The enumerator `GFX_ROOT_INDEX::ROOT_INDEX_VS_CBV`. -/
def ROOT_INDEX_VS_CBV : Nat := 0
/-- The enumerator `GFX_ROOT_INDEX::ROOT_INDEX_PS_SRV`. -/
def ROOT_INDEX_PS_SRV : Nat := 1
/-- The enumerator `GFX_ROOT_INDEX::ROOT_INDEX_PS_CBV0`. -/
def ROOT_INDEX_PS_CBV0 : Nat := 2
/-- The enumerator `GFX_ROOT_INDEX::ROOT_INDEX_PS_CBV1`. -/
def ROOT_INDEX_PS_CBV1 : Nat := 3
/-- The enumerator `VSGL_ROOT_INDEX::VSGL_ROOT_INDEX_CBV`. -/
def VSGL_ROOT_INDEX_CBV : Nat := 0
/-- The enumerator `VSGL_ROOT_INDEX::VSGL_ROOT_INDEX_CONSTANTS`. -/
def VSGL_ROOT_INDEX_CONSTANTS : Nat := 1
/-- The enumerator `VSGL_ROOT_INDEX::VSGL_ROOT_INDEX_SRV`. -/
def VSGL_ROOT_INDEX_SRV : Nat := 2
/-- The enumerator `VSGL_ROOT_INDEX::VSGL_ROOT_INDEX_UAV`. -/
def VSGL_ROOT_INDEX_UAV : Nat := 3

/-- The default of the toggle `EnableHSGConvolution`
(`BoolVar EnableHSGConvolution("VSGL/Hemispherical Convolution", false)`). -/
def EnableHSGConvolution_default : Bool := false

/-- The buffer creation of `Renderer::Create` (lines 76-81); the two scene
buffers belong to `Graphics` and are handed in. -/
def Create (g_SceneDepthBuffer g_SceneColorBuffer : PixelBuffer) : Buffers :=
  { s_shadowMap := PixelBuffer.Create 2048 2048
    s_rsmDepthBuffer := PixelBuffer.Create RSM_WIDTH RSM_WIDTH
    s_rsmNormalBuffer := PixelBuffer.Create RSM_WIDTH RSM_WIDTH
    s_rsmDiffuseBuffer := PixelBuffer.Create RSM_WIDTH RSM_WIDTH
    s_rsmSpecularBuffer := PixelBuffer.Create RSM_WIDTH RSM_WIDTH
    s_sgLightBuffer := StructuredBuffer.Create 2 (SIZEOF_UINT32 * 12)
    g_SceneDepthBuffer := g_SceneDepthBuffer
    g_SceneColorBuffer := g_SceneColorBuffer }

/-- The loop of `Renderer::DrawDepth` over the remaining meshes. -/
def DrawDepth.loop (vertexStride : Nat) : List Mesh → Trace α
  | [] => Trace.skip
  | mesh :: rest =>
    Trace.block [
      Trace.assert (mesh.indexCount % 3 == 0) .indexCountNotTriangles,
      Trace.assert (mesh.indexDataByteOffset % (SIZEOF_UINT16 * 3) == 0) .indexOffsetNotTriangles,
      Trace.assert (vertexStride != 0) .divisionByZero,
      Trace.assert (mesh.vertexDataByteOffsetDepth % vertexStride == 0) .vertexOffsetNotAligned,
      Trace.call (.DrawIndexed mesh.indexCount (mesh.indexDataByteOffset / SIZEOF_UINT16)
        (mesh.vertexDataByteOffsetDepth / vertexStride)),
      DrawDepth.loop vertexStride rest]

/-- The function `Renderer::DrawDepth`. -/
def DrawDepth (ref : ModelRef) (model : Model) : Trace α :=
  Trace.block [
    Trace.call (.SetIndexBuffer ref true),
    Trace.call (.SetVertexBuffer 0 ref true),
    DrawDepth.loop model.m_VertexStrideDepth model.m_pMesh]

/-- The loop of `Renderer::Draw` over the remaining meshes; `materialIndex` is
the local variable of that name. -/
def Draw.loop (ref : ModelRef) (vertexStride srvCount : Nat) : List Mesh → Nat → Trace α
  | [], _ => Trace.skip
  | mesh :: rest, materialIndex =>
    Trace.block [
      Trace.assert (mesh.indexCount % 3 == 0) .indexCountNotTriangles,
      Trace.assert (mesh.indexDataByteOffset % (SIZEOF_UINT16 * 3) == 0) .indexOffsetNotTriangles,
      Trace.assert (vertexStride != 0) .divisionByZero,
      Trace.assert (mesh.vertexDataByteOffset % vertexStride == 0) .vertexOffsetNotAligned,
      if materialIndex != mesh.materialIndex then
        Trace.call (.SetDynamicDescriptors ROOT_INDEX_PS_SRV 0 srvCount
          (.GetSRVs ref mesh.materialIndex))
      else Trace.skip,
      Trace.call (.DrawIndexed mesh.indexCount (mesh.indexDataByteOffset / SIZEOF_UINT16)
        (mesh.vertexDataByteOffset / vertexStride)),
      Draw.loop ref vertexStride srvCount rest
        (if materialIndex != mesh.materialIndex then mesh.materialIndex else materialIndex)]

/-- The function `Renderer::Draw`. -/
def Draw (ref : ModelRef) (model : Model) (srvCount : Nat) : Trace α :=
  Trace.block [
    Trace.call (.SetIndexBuffer ref false),
    Trace.call (.SetVertexBuffer 0 ref false),
    Draw.loop ref model.m_VertexStride srvCount model.m_pMesh UINT32_MAX]

/-- The function `Renderer::ReflectiveShadowMapPass`. -/
def ReflectiveShadowMapPass (b : Buffers) (scene : Scene α) : Trace α :=
  Trace.ScopedTimer .ReflectiveShadowMapPass (Trace.block [
    Trace.call (.SetRootSignature .s_rsmRootSignature),
    Trace.call (.SetViewportAndScissor 0 0 b.s_rsmDepthBuffer.GetWidth b.s_rsmDepthBuffer.GetHeight),
    Trace.call .SetPrimitiveTopology,
    Trace.call (.SetDynamicConstantBufferView ROOT_INDEX_VS_CBV
      (.viewProjection scene.m_spotLight.GetViewProjMatrix)),
    Trace.call (.SetRenderTargets
      [.RTV .s_rsmNormalBuffer, .RTV .s_rsmDiffuseBuffer, .RTV .s_rsmSpecularBuffer]
      (.DSV .s_rsmDepthBuffer)),
    Trace.call (.SetPipelineState .s_reflectiveShadowMapPSO),
    Draw .m_model scene.m_model MODEL_SRV_COUNT,
    if scene.m_modelCutout.meshCount > 0 then
      Trace.block [
        Trace.call (.SetPipelineState .s_reflectiveShadowMapCutoutPSO),
        Draw .m_modelCutout scene.m_modelCutout MODEL_SRV_COUNT]
    else Trace.skip,
    Trace.call (.BeginResourceTransition .s_rsmDepthBuffer .NON_PIXEL_SHADER_RESOURCE),
    Trace.call (.BeginResourceTransition .s_rsmNormalBuffer .NON_PIXEL_SHADER_RESOURCE),
    Trace.call (.BeginResourceTransition .s_rsmDiffuseBuffer .NON_PIXEL_SHADER_RESOURCE),
    Trace.call (.BeginResourceTransition .s_rsmSpecularBuffer .NON_PIXEL_SHADER_RESOURCE)])

/-- The function `Renderer::ShadowMapPass`. -/
def ShadowMapPass (b : Buffers) (scene : Scene α) : Trace α :=
  Trace.ScopedTimer .ShadowMapPass (Trace.block [
    Trace.call (.SetRootSignature .s_depthRootSignature),
    Trace.call (.SetViewportAndScissor 0 0 b.s_shadowMap.GetWidth b.s_shadowMap.GetHeight),
    Trace.call .SetPrimitiveTopology,
    Trace.call (.SetDynamicConstantBufferView ROOT_INDEX_VS_CBV
      (.viewProjection scene.m_spotLight.GetViewProjMatrix)),
    Trace.call (.SetDepthStencilTarget (.DSV .s_shadowMap)),
    Trace.call (.SetPipelineState .s_shadowMapPSO),
    DrawDepth .m_model scene.m_model,
    if scene.m_modelCutout.meshCount > 0 then
      Trace.block [
        Trace.call (.SetPipelineState .s_shadowMapCutoutPSO),
        Draw .m_modelCutout scene.m_modelCutout CUTOUT_SRV_COUNT]
    else Trace.skip,
    Trace.call (.BeginResourceTransition .s_shadowMap .PIXEL_SHADER_RESOURCE)])

/-- The function `Renderer::DepthPass`. -/
def DepthPass (b : Buffers) (scene : Scene α) : Trace α :=
  Trace.ScopedTimer .DepthPass (Trace.block [
    Trace.call (.SetRootSignature .s_depthRootSignature),
    Trace.call (.SetViewportAndScissor 0 0 b.g_SceneDepthBuffer.GetWidth b.g_SceneDepthBuffer.GetHeight),
    Trace.call .SetPrimitiveTopology,
    Trace.call (.SetDynamicConstantBufferView ROOT_INDEX_VS_CBV
      (.viewProjection scene.m_camera.GetViewProjMatrix)),
    Trace.call (.SetDepthStencilTarget (.DSV .g_SceneDepthBuffer)),
    Trace.call (.SetPipelineState .s_depthPSO),
    DrawDepth .m_model scene.m_model,
    if scene.m_modelCutout.meshCount > 0 then
      Trace.block [
        Trace.call (.SetPipelineState .s_depthCutoutPSO),
        Draw .m_modelCutout scene.m_modelCutout CUTOUT_SRV_COUNT]
    else Trace.skip])

/-- The function `Renderer::LightingPass`; the global toggle
`EnableHSGConvolution` is the parameter of that name. -/
def LightingPass (b : Buffers) (scene : Scene α) (EnableHSGConvolution : Bool) : Trace α :=
  Trace.ScopedTimer .LightingPass (Trace.block [
    Trace.call (.TransitionResource .g_SceneDepthBuffer .DEPTH_READ false),
    Trace.call (.TransitionResource .s_shadowMap .PIXEL_SHADER_RESOURCE false),
    Trace.call (.TransitionResource .s_sgLightBuffer .VERTEX_AND_CONSTANT_BUFFER false),
    Trace.call (.SetRootSignature .s_lightingRootSignature),
    Trace.call (.SetViewportAndScissor 0 0 b.g_SceneDepthBuffer.GetWidth b.g_SceneDepthBuffer.GetHeight),
    Trace.call .SetPrimitiveTopology,
    Trace.call (.SetDynamicConstantBufferView ROOT_INDEX_VS_CBV
      (.viewProjection scene.m_camera.GetViewProjMatrix)),
    Trace.call (.SetDynamicConstantBufferView ROOT_INDEX_PS_CBV0
      (.lighting scene.m_spotLight.GetViewProjMatrix scene.m_camera.GetPosition
        scene.m_spotLight.GetPosition scene.m_spotLightIntensity)),
    Trace.call (.SetConstantBuffer ROOT_INDEX_PS_CBV1 .s_sgLightBuffer),
    Trace.call (.SetDynamicDescriptors ROOT_INDEX_PS_SRV MODEL_SRV_COUNT 1
      (.handles [.DepthSRV .s_shadowMap])),
    Trace.call (.SetRenderTarget (.RTV .g_SceneColorBuffer) (.DSV_DepthReadOnly .g_SceneDepthBuffer)),
    Trace.call (.SetPipelineState
      (if EnableHSGConvolution then .s_lightingHSGPSO else .s_lightingPSO)),
    Draw .m_model scene.m_model MODEL_SRV_COUNT,
    if scene.m_modelCutout.meshCount > 0 then
      Trace.block [
        Trace.call (.SetPipelineState
          (if EnableHSGConvolution then .s_lightingHSGCutoutPSO else .s_lightingCutoutPSO)),
        Draw .m_modelCutout scene.m_modelCutout MODEL_SRV_COUNT]
    else Trace.skip])

/-- The function `Renderer::VSGLGenerationPass`. The `static_assert` is checked
when the program is compiled and records nothing. -/
def VSGLGenerationPass [Mul α] [Div α] [NatCast α] [OfNat α 2] (math : MathLib α) (b : Buffers) (spotLight : Camera α)
    (lightIntensity : α) : Trace α :=
  Trace.block [
    Trace.assert (b.s_rsmDepthBuffer.GetWidth == RSM_WIDTH) (.rsmWidthMismatch .s_rsmDepthBuffer),
    Trace.assert (b.s_rsmDepthBuffer.GetHeight == RSM_WIDTH) (.rsmHeightMismatch .s_rsmDepthBuffer),
    Trace.assert (b.s_rsmNormalBuffer.GetWidth == RSM_WIDTH) (.rsmWidthMismatch .s_rsmNormalBuffer),
    Trace.assert (b.s_rsmNormalBuffer.GetHeight == RSM_WIDTH) (.rsmHeightMismatch .s_rsmNormalBuffer),
    Trace.assert (b.s_rsmDiffuseBuffer.GetWidth == RSM_WIDTH) (.rsmWidthMismatch .s_rsmDiffuseBuffer),
    Trace.assert (b.s_rsmDiffuseBuffer.GetHeight == RSM_WIDTH) (.rsmHeightMismatch .s_rsmDiffuseBuffer),
    Trace.assert (b.s_rsmSpecularBuffer.GetWidth == RSM_WIDTH) (.rsmWidthMismatch .s_rsmSpecularBuffer),
    Trace.assert (b.s_rsmSpecularBuffer.GetHeight == RSM_WIDTH) (.rsmHeightMismatch .s_rsmSpecularBuffer),
    Trace.ScopedTimer .VSGLGenerationPass (Trace.block [
      Trace.call (.TransitionResource .s_rsmDepthBuffer .NON_PIXEL_SHADER_RESOURCE false),
      Trace.call (.TransitionResource .s_rsmNormalBuffer .NON_PIXEL_SHADER_RESOURCE false),
      Trace.call (.TransitionResource .s_rsmDiffuseBuffer .NON_PIXEL_SHADER_RESOURCE false),
      Trace.call (.TransitionResource .s_rsmSpecularBuffer .NON_PIXEL_SHADER_RESOURCE false),
      Trace.call (.SetRootSignature .s_vsglRootSignature),
      Trace.call (.SetDynamicConstantBufferView VSGL_ROOT_INDEX_CBV
        (.vsgl (math.XMMatrixInverse spotLight.GetViewProjMatrix) spotLight.GetPosition
          (math.XMVector3Cross spotLight.GetUpVec spotLight.GetRightVec)
          (photonPower RSM_WIDTH lightIntensity (planeWidth math.tan spotLight.GetFOV)))),
      Trace.call (.SetBufferUAV VSGL_ROOT_INDEX_UAV .s_sgLightBuffer),
      Trace.call (.SetDynamicDescriptors VSGL_ROOT_INDEX_SRV 0 3
        (.handles [.DepthSRV .s_rsmDepthBuffer, .SRV .s_rsmNormalBuffer, .SRV .s_rsmDiffuseBuffer])),
      Trace.call (.SetConstants VSGL_ROOT_INDEX_CONSTANTS 0),
      Trace.call (.SetPipelineState .s_vsglGenerationDiffusePSO),
      Trace.call (.Dispatch 1 1 1),
      Trace.call (.SetDynamicDescriptor VSGL_ROOT_INDEX_SRV 2 (.SRV .s_rsmSpecularBuffer)),
      Trace.call (.SetConstants VSGL_ROOT_INDEX_CONSTANTS 1),
      Trace.call (.SetPipelineState .s_vsglGenerationSpecularPSO),
      Trace.call (.Dispatch 1 1 1)])]

/-- The resource-initialisation statements at the head of `Renderer::Render`
(lines 258-271). -/
def ResourceInit : Trace α :=
  Trace.block [
    Trace.call (.TransitionResource .s_rsmDepthBuffer .DEPTH_WRITE false),
    Trace.call (.TransitionResource .s_rsmNormalBuffer .RENDER_TARGET false),
    Trace.call (.TransitionResource .s_rsmDiffuseBuffer .RENDER_TARGET false),
    Trace.call (.TransitionResource .s_rsmSpecularBuffer .RENDER_TARGET false),
    Trace.call (.TransitionResource .s_shadowMap .DEPTH_WRITE false),
    Trace.call (.TransitionResource .s_sgLightBuffer .UNORDERED_ACCESS false),
    Trace.call (.TransitionResource .g_SceneDepthBuffer .DEPTH_WRITE false),
    Trace.call (.TransitionResource .g_SceneColorBuffer .RENDER_TARGET true),
    Trace.call (.ClearDepth .s_rsmDepthBuffer),
    Trace.call (.ClearColor .s_rsmDiffuseBuffer),
    Trace.call (.ClearColor .s_rsmSpecularBuffer),
    Trace.call (.ClearDepth .s_shadowMap),
    Trace.call (.ClearDepth .g_SceneDepthBuffer),
    Trace.call (.ClearColor .g_SceneColorBuffer)]

/-- The function `Renderer::Render`. -/
def Render [Mul α] [Div α] [NatCast α] [OfNat α 2] (math : MathLib α) (b : Buffers)
    (scene : Scene α) (EnableHSGConvolution : Bool) : Trace α :=
  Trace.block [
    ResourceInit,
    ReflectiveShadowMapPass b scene,
    ShadowMapPass b scene,
    VSGLGenerationPass math b scene.m_spotLight scene.m_spotLightIntensity,
    DepthPass b scene,
    LightingPass b scene EnableHSGConvolution]

end Renderer

/-! ## MyRenderer (ModelViewer/MyRenderer.cpp)

The scene of this renderer names its spotlight members `m_spotlight` and
`m_spotlightIntensity`, and its models are `ModelH3D` read through getters;
they are the fields `m_spotLight`, `m_spotLightIntensity`, `m_pMesh` and
`m_VertexStride` here. This renderer has no HSG toggle. -/

namespace MyRenderer

variable {α : Type}

/-- The enumerator `GFX_ROOT_INDEX::ROOT_INDEX_VS_CBV`. -/
def ROOT_INDEX_VS_CBV : Nat := 0
/-- The enumerator `GFX_ROOT_INDEX::ROOT_INDEX_PS_SRV0`. -/
def ROOT_INDEX_PS_SRV0 : Nat := 1
/-- The enumerator `GFX_ROOT_INDEX::ROOT_INDEX_PS_SRV1`. -/
def ROOT_INDEX_PS_SRV1 : Nat := 2
/-- The enumerator `GFX_ROOT_INDEX::ROOT_INDEX_PS_CBV0`. -/
def ROOT_INDEX_PS_CBV0 : Nat := 3
/-- The enumerator `GFX_ROOT_INDEX::ROOT_INDEX_PS_CBV1`. -/
def ROOT_INDEX_PS_CBV1 : Nat := 4
/-- The enumerator `VSGL_ROOT_INDEX::VSGL_ROOT_INDEX_CBV`. -/
def VSGL_ROOT_INDEX_CBV : Nat := 0
/-- The enumerator `VSGL_ROOT_INDEX::VSGL_ROOT_INDEX_CONSTANTS`. -/
def VSGL_ROOT_INDEX_CONSTANTS : Nat := 1
/-- The enumerator `VSGL_ROOT_INDEX::VSGL_ROOT_INDEX_SRV`. -/
def VSGL_ROOT_INDEX_SRV : Nat := 2
/-- The enumerator `VSGL_ROOT_INDEX::VSGL_ROOT_INDEX_UAV`. -/
def VSGL_ROOT_INDEX_UAV : Nat := 3

/-- The buffer creation of `MyRenderer::Initialize` (lines 72-77); the two
scene buffers belong to `Graphics` and are handed in. -/
def Initialize (g_SceneDepthBuffer g_SceneColorBuffer : PixelBuffer) : Buffers :=
  { s_shadowMap := PixelBuffer.Create 2048 2048
    s_rsmDepthBuffer := PixelBuffer.Create RSM_WIDTH RSM_WIDTH
    s_rsmNormalBuffer := PixelBuffer.Create RSM_WIDTH RSM_WIDTH
    s_rsmDiffuseBuffer := PixelBuffer.Create RSM_WIDTH RSM_WIDTH
    s_rsmSpecularBuffer := PixelBuffer.Create RSM_WIDTH RSM_WIDTH
    s_sgLightBuffer := StructuredBuffer.Create 2 (SIZEOF_UINT32 * 12)
    g_SceneDepthBuffer := g_SceneDepthBuffer
    g_SceneColorBuffer := g_SceneColorBuffer }

/-- The loop of `MyRenderer::DrawDepth` over the remaining meshes. -/
def DrawDepth.loop (vertexStride : Nat) : List Mesh → Trace α
  | [] => Trace.skip
  | mesh :: rest =>
    Trace.block [
      Trace.assert (mesh.indexCount % 3 == 0) .indexCountNotTriangles,
      Trace.assert (mesh.indexDataByteOffset % (SIZEOF_UINT16 * 3) == 0) .indexOffsetNotTriangles,
      Trace.assert (vertexStride != 0) .divisionByZero,
      Trace.assert (mesh.vertexDataByteOffset % vertexStride == 0) .vertexOffsetNotAligned,
      Trace.call (.DrawIndexed mesh.indexCount (mesh.indexDataByteOffset / SIZEOF_UINT16)
        (mesh.vertexDataByteOffset / vertexStride)),
      DrawDepth.loop vertexStride rest]

/-- The function `MyRenderer::DrawDepth`; it binds `GetIndexBuffer()` and
`GetVertexBuffer()`, the buffers `Draw` binds. -/
def DrawDepth (ref : ModelRef) (model : Model) : Trace α :=
  Trace.block [
    Trace.call (.SetIndexBuffer ref false),
    Trace.call (.SetVertexBuffer 0 ref false),
    DrawDepth.loop model.m_VertexStride model.m_pMesh]

/-- The loop of `MyRenderer::Draw` over the remaining meshes; `materialIndex`
is the local variable of that name. -/
def Draw.loop (ref : ModelRef) (vertexStride : Nat) : List Mesh → Nat → Trace α
  | [], _ => Trace.skip
  | mesh :: rest, materialIndex =>
    Trace.block [
      Trace.assert (mesh.indexCount % 3 == 0) .indexCountNotTriangles,
      Trace.assert (mesh.indexDataByteOffset % (SIZEOF_UINT16 * 3) == 0) .indexOffsetNotTriangles,
      Trace.assert (vertexStride != 0) .divisionByZero,
      Trace.assert (mesh.vertexDataByteOffset % vertexStride == 0) .vertexOffsetNotAligned,
      if mesh.materialIndex != materialIndex then
        Trace.call (.SetDescriptorTable ROOT_INDEX_PS_SRV0 (.GetSRVs ref mesh.materialIndex))
      else Trace.skip,
      Trace.call (.DrawIndexed mesh.indexCount (mesh.indexDataByteOffset / SIZEOF_UINT16)
        (mesh.vertexDataByteOffset / vertexStride)),
      Draw.loop ref vertexStride rest
        (if mesh.materialIndex != materialIndex then mesh.materialIndex else materialIndex)]

/-- The function `MyRenderer::Draw`. -/
def Draw (ref : ModelRef) (model : Model) : Trace α :=
  Trace.block [
    Trace.call (.SetIndexBuffer ref false),
    Trace.call (.SetVertexBuffer 0 ref false),
    Draw.loop ref model.m_VertexStride model.m_pMesh UINT32_MAX]

/-- The function `MyRenderer::ReflectiveShadowMapPass`. -/
def ReflectiveShadowMapPass (b : Buffers) (scene : Scene α) : Trace α :=
  Trace.ScopedTimer .ReflectiveShadowMapPass (Trace.block [
    Trace.call (.SetRootSignature .s_rsmRootSignature),
    Trace.call .SetDescriptorHeap,
    Trace.call (.SetViewportAndScissor 0 0 b.s_rsmDepthBuffer.GetWidth b.s_rsmDepthBuffer.GetHeight),
    Trace.call .SetPrimitiveTopology,
    Trace.call (.SetDynamicConstantBufferView ROOT_INDEX_VS_CBV
      (.viewProjection scene.m_spotLight.GetViewProjMatrix)),
    Trace.call (.SetRenderTargets
      [.RTV .s_rsmNormalBuffer, .RTV .s_rsmDiffuseBuffer, .RTV .s_rsmSpecularBuffer]
      (.DSV .s_rsmDepthBuffer)),
    Trace.call (.SetPipelineState .s_reflectiveShadowMapPSO),
    Draw .m_model scene.m_model,
    if scene.m_modelCutout.meshCount > 0 then
      Trace.block [
        Trace.call (.SetPipelineState .s_reflectiveShadowMapCutoutPSO),
        Draw .m_modelCutout scene.m_modelCutout]
    else Trace.skip,
    Trace.call (.BeginResourceTransition .s_rsmDepthBuffer .NON_PIXEL_SHADER_RESOURCE),
    Trace.call (.BeginResourceTransition .s_rsmNormalBuffer .NON_PIXEL_SHADER_RESOURCE),
    Trace.call (.BeginResourceTransition .s_rsmDiffuseBuffer .NON_PIXEL_SHADER_RESOURCE),
    Trace.call (.BeginResourceTransition .s_rsmSpecularBuffer .NON_PIXEL_SHADER_RESOURCE)])

/-- The function `MyRenderer::ShadowMapPass`. -/
def ShadowMapPass (b : Buffers) (scene : Scene α) : Trace α :=
  Trace.ScopedTimer .ShadowMapPass (Trace.block [
    Trace.call (.SetRootSignature .s_depthRootSignature),
    Trace.call (.SetViewportAndScissor 0 0 b.s_shadowMap.GetWidth b.s_shadowMap.GetHeight),
    Trace.call .SetPrimitiveTopology,
    Trace.call (.SetDynamicConstantBufferView ROOT_INDEX_VS_CBV
      (.viewProjection scene.m_spotLight.GetViewProjMatrix)),
    Trace.call (.SetDepthStencilTarget (.DSV .s_shadowMap)),
    Trace.call (.SetPipelineState .s_shadowMapPSO),
    DrawDepth .m_model scene.m_model,
    if scene.m_modelCutout.meshCount > 0 then
      Trace.block [
        Trace.call .SetDescriptorHeap,
        Trace.call (.SetPipelineState .s_shadowMapCutoutPSO),
        Draw .m_modelCutout scene.m_modelCutout]
    else Trace.skip,
    Trace.call (.BeginResourceTransition .s_shadowMap .PIXEL_SHADER_RESOURCE)])

/-- The function `MyRenderer::DepthPass`. -/
def DepthPass (b : Buffers) (scene : Scene α) : Trace α :=
  Trace.ScopedTimer .DepthPass (Trace.block [
    Trace.call (.SetRootSignature .s_depthRootSignature),
    Trace.call (.SetViewportAndScissor 0 0 b.g_SceneDepthBuffer.GetWidth b.g_SceneDepthBuffer.GetHeight),
    Trace.call .SetPrimitiveTopology,
    Trace.call (.SetDynamicConstantBufferView ROOT_INDEX_VS_CBV
      (.viewProjection scene.m_camera.GetViewProjMatrix)),
    Trace.call (.SetDepthStencilTarget (.DSV .g_SceneDepthBuffer)),
    Trace.call (.SetPipelineState .s_depthPSO),
    DrawDepth .m_model scene.m_model,
    if scene.m_modelCutout.meshCount > 0 then
      Trace.block [
        Trace.call .SetDescriptorHeap,
        Trace.call (.SetPipelineState .s_depthCutoutPSO),
        Draw .m_modelCutout scene.m_modelCutout]
    else Trace.skip])

/-- The function `MyRenderer::LightingPass`. -/
def LightingPass (b : Buffers) (scene : Scene α) : Trace α :=
  Trace.ScopedTimer .LightingPass (Trace.block [
    Trace.call (.TransitionResource .g_SceneDepthBuffer .DEPTH_READ false),
    Trace.call (.TransitionResource .s_shadowMap .PIXEL_SHADER_RESOURCE false),
    Trace.call (.TransitionResource .s_sgLightBuffer .VERTEX_AND_CONSTANT_BUFFER false),
    Trace.call (.SetRootSignature .s_lightingRootSignature),
    Trace.call .SetDescriptorHeap,
    Trace.call (.SetViewportAndScissor 0 0 b.g_SceneDepthBuffer.GetWidth b.g_SceneDepthBuffer.GetHeight),
    Trace.call .SetPrimitiveTopology,
    Trace.call (.SetDynamicConstantBufferView ROOT_INDEX_VS_CBV
      (.viewProjection scene.m_camera.GetViewProjMatrix)),
    Trace.call (.SetDynamicConstantBufferView ROOT_INDEX_PS_CBV0
      (.lighting scene.m_spotLight.GetViewProjMatrix scene.m_camera.GetPosition
        scene.m_spotLight.GetPosition scene.m_spotLightIntensity)),
    Trace.call (.SetConstantBuffer ROOT_INDEX_PS_CBV1 .s_sgLightBuffer),
    Trace.call (.SetDescriptorTable ROOT_INDEX_PS_SRV1 .s_lightingDescriptorTable),
    Trace.call (.SetRenderTarget (.RTV .g_SceneColorBuffer) (.DSV_DepthReadOnly .g_SceneDepthBuffer)),
    Trace.call (.SetPipelineState .s_lightingPSO),
    Draw .m_model scene.m_model,
    if scene.m_modelCutout.meshCount > 0 then
      Trace.block [
        Trace.call (.SetPipelineState .s_lightingCutoutPSO),
        Draw .m_modelCutout scene.m_modelCutout]
    else Trace.skip])

/-- The function `MyRenderer::VSGLGenerationPass`. The `static_assert` is
checked when the program is compiled and records nothing. -/
def VSGLGenerationPass [Mul α] [Div α] [NatCast α] [OfNat α 2] (math : MathLib α) (b : Buffers) (spotLight : Camera α)
    (lightIntensity : α) : Trace α :=
  Trace.block [
    Trace.assert (b.s_rsmDepthBuffer.GetWidth == RSM_WIDTH) (.rsmWidthMismatch .s_rsmDepthBuffer),
    Trace.assert (b.s_rsmDepthBuffer.GetHeight == RSM_WIDTH) (.rsmHeightMismatch .s_rsmDepthBuffer),
    Trace.assert (b.s_rsmNormalBuffer.GetWidth == RSM_WIDTH) (.rsmWidthMismatch .s_rsmNormalBuffer),
    Trace.assert (b.s_rsmNormalBuffer.GetHeight == RSM_WIDTH) (.rsmHeightMismatch .s_rsmNormalBuffer),
    Trace.assert (b.s_rsmDiffuseBuffer.GetWidth == RSM_WIDTH) (.rsmWidthMismatch .s_rsmDiffuseBuffer),
    Trace.assert (b.s_rsmDiffuseBuffer.GetHeight == RSM_WIDTH) (.rsmHeightMismatch .s_rsmDiffuseBuffer),
    Trace.assert (b.s_rsmSpecularBuffer.GetWidth == RSM_WIDTH) (.rsmWidthMismatch .s_rsmSpecularBuffer),
    Trace.assert (b.s_rsmSpecularBuffer.GetHeight == RSM_WIDTH) (.rsmHeightMismatch .s_rsmSpecularBuffer),
    Trace.ScopedTimer .VSGLGenerationPass (Trace.block [
      Trace.call (.TransitionResource .s_rsmDepthBuffer .NON_PIXEL_SHADER_RESOURCE false),
      Trace.call (.TransitionResource .s_rsmNormalBuffer .NON_PIXEL_SHADER_RESOURCE false),
      Trace.call (.TransitionResource .s_rsmDiffuseBuffer .NON_PIXEL_SHADER_RESOURCE false),
      Trace.call (.TransitionResource .s_rsmSpecularBuffer .NON_PIXEL_SHADER_RESOURCE false),
      Trace.call (.SetRootSignature .s_vsglRootSignature),
      Trace.call (.SetDynamicConstantBufferView VSGL_ROOT_INDEX_CBV
        (.vsgl (math.XMMatrixInverse spotLight.GetViewProjMatrix) spotLight.GetPosition
          (math.XMVector3Cross spotLight.GetUpVec spotLight.GetRightVec)
          (photonPower RSM_WIDTH lightIntensity (planeWidth math.tan spotLight.GetFOV)))),
      Trace.call (.SetBufferUAV VSGL_ROOT_INDEX_UAV .s_sgLightBuffer),
      Trace.call (.SetDynamicDescriptors VSGL_ROOT_INDEX_SRV 0 3
        (.handles [.DepthSRV .s_rsmDepthBuffer, .SRV .s_rsmNormalBuffer, .SRV .s_rsmDiffuseBuffer])),
      Trace.call (.SetConstants VSGL_ROOT_INDEX_CONSTANTS 0),
      Trace.call (.SetPipelineState .s_vsglGenerationDiffusePSO),
      Trace.call (.Dispatch 1 1 1),
      Trace.call (.SetDynamicDescriptor VSGL_ROOT_INDEX_SRV 2 (.SRV .s_rsmSpecularBuffer)),
      Trace.call (.SetConstants VSGL_ROOT_INDEX_CONSTANTS 1),
      Trace.call (.SetPipelineState .s_vsglGenerationSpecularPSO),
      Trace.call (.Dispatch 1 1 1)])]

/-- The resource-initialisation statements at the head of `MyRenderer::Render`
(lines 248-261). -/
def ResourceInit : Trace α :=
  Trace.block [
    Trace.call (.TransitionResource .s_rsmDepthBuffer .DEPTH_WRITE false),
    Trace.call (.TransitionResource .s_rsmNormalBuffer .RENDER_TARGET false),
    Trace.call (.TransitionResource .s_rsmDiffuseBuffer .RENDER_TARGET false),
    Trace.call (.TransitionResource .s_rsmSpecularBuffer .RENDER_TARGET false),
    Trace.call (.TransitionResource .s_shadowMap .DEPTH_WRITE false),
    Trace.call (.TransitionResource .s_sgLightBuffer .UNORDERED_ACCESS false),
    Trace.call (.TransitionResource .g_SceneDepthBuffer .DEPTH_WRITE false),
    Trace.call (.TransitionResource .g_SceneColorBuffer .RENDER_TARGET false),
    Trace.call (.ClearDepth .s_rsmDepthBuffer),
    Trace.call (.ClearColor .s_rsmDiffuseBuffer),
    Trace.call (.ClearColor .s_rsmSpecularBuffer),
    Trace.call (.ClearDepth .s_shadowMap),
    Trace.call (.ClearDepth .g_SceneDepthBuffer),
    Trace.call (.ClearColor .g_SceneColorBuffer)]

/-- The function `MyRenderer::Render`. -/
def Render [Mul α] [Div α] [NatCast α] [OfNat α 2] (math : MathLib α) (b : Buffers)
    (scene : Scene α) : Trace α :=
  Trace.block [
    ResourceInit,
    ReflectiveShadowMapPass b scene,
    ShadowMapPass b scene,
    VSGLGenerationPass math b scene.m_spotLight scene.m_spotLightIntensity,
    DepthPass b scene,
    LightingPass b scene]

end MyRenderer

/-! ## Reading a trace -/

namespace Cmd

variable {α : Type}

/-- The calls that open or close the profiling block of a pass. -/
def isMarker : Cmd α → Bool
  | .BeginBlock _ => true
  | .EndBlock _ => true
  | _ => false

/-- The calls that bind the material table of a submesh, `model.GetSRVs(..)`:
`SetDynamicDescriptors` in `Renderer::Draw`, `SetDescriptorTable` in
`MyRenderer::Draw`. -/
def isMaterialBind : Cmd α → Bool
  | .SetDynamicDescriptors _ _ _ (.GetSRVs _ _) => true
  | .SetDescriptorTable _ (.GetSRVs _ _) => true
  | _ => false

/-- The indexed draw calls. -/
def isDrawIndexed : Cmd α → Bool
  | .DrawIndexed _ _ _ => true
  | _ => false

/-- The outline of a frame: pass markers, pipeline selections, index-buffer
bindings (they tell which batch the following draws belong to), indexed draws
and compute dispatches. -/
def isOutline : Cmd α → Bool
  | .BeginBlock _ => true
  | .EndBlock _ => true
  | .SetPipelineState _ => true
  | .SetIndexBuffer _ _ => true
  | .DrawIndexed _ _ _ => true
  | .Dispatch _ _ _ => true
  | _ => false

end Cmd

/-- The call neither selects a cutout pipeline nor binds an index buffer, a
vertex buffer or a material table of the cutout batch. -/
def Cmd.avoidsCutout {α : Type} : Cmd α → Bool
  | .SetPipelineState pso => !pso.isCutout
  | .SetIndexBuffer .m_modelCutout _ => false
  | .SetVertexBuffer _ .m_modelCutout _ => false
  | .SetDynamicDescriptors _ _ _ (.GetSRVs .m_modelCutout _) => false
  | .SetDescriptorTable _ (.GetSRVs .m_modelCutout _) => false
  | _ => true

/-- The `photonPower` member of a constant block of `VSGLGenerationPass`, if the
call uploads one. -/
def Cmd.photonPower? {α : Type} : Cmd α → Option α
  | .SetDynamicConstantBufferView _ (.vsgl _ _ _ p) => some p
  | _ => none

/-- The three assertions of `Draw` hold for a mesh and its `%` and `/` by the
vertex stride are defined. -/
def Mesh.passesDraw (vertexStride : Nat) (mesh : Mesh) : Bool :=
  mesh.indexCount % 3 == 0 && mesh.indexDataByteOffset % (SIZEOF_UINT16 * 3) == 0 &&
    vertexStride != 0 && mesh.vertexDataByteOffset % vertexStride == 0

/-- The three assertions of `Renderer::DrawDepth` hold for a mesh and its `%`
and `/` by the vertex stride are defined. -/
def Mesh.passesDrawDepth (vertexStride : Nat) (mesh : Mesh) : Bool :=
  mesh.indexCount % 3 == 0 && mesh.indexDataByteOffset % (SIZEOF_UINT16 * 3) == 0 &&
    vertexStride != 0 && mesh.vertexDataByteOffsetDepth % vertexStride == 0

/-- Every mesh of the model passes the checks of `Draw`. -/
def Model.passesDraw (m : Model) : Bool :=
  m.m_pMesh.all (Mesh.passesDraw m.m_VertexStride)

/-- Every mesh of the model passes the checks of `Renderer::DrawDepth`. -/
def Model.passesDrawDepth (m : Model) : Bool :=
  m.m_pMesh.all (Mesh.passesDrawDepth m.m_VertexStrideDepth)

/-- The indexed draw `Draw` issues for a mesh. -/
def Mesh.drawCall {α : Type} (vertexStride : Nat) (mesh : Mesh) : Cmd α :=
  .DrawIndexed mesh.indexCount (mesh.indexDataByteOffset / SIZEOF_UINT16)
    (mesh.vertexDataByteOffset / vertexStride)

/-- The indexed draw `Renderer::DrawDepth` issues for a mesh. -/
def Mesh.drawCallDepth {α : Type} (vertexStride : Nat) (mesh : Mesh) : Cmd α :=
  .DrawIndexed mesh.indexCount (mesh.indexDataByteOffset / SIZEOF_UINT16)
    (mesh.vertexDataByteOffsetDepth / vertexStride)

/-- The maximal contiguous runs of submeshes sharing a material index. -/
def materialRuns (meshes : List Mesh) : List (List Mesh) :=
  meshes.splitBy (fun a b => a.materialIndex == b.materialIndex)

/-- The batching rule in the words of the spec, for one run: the material
table of the run is bound once, before the draw of its first submesh. -/
def drawRun {α : Type} (bind : Nat → Cmd α) (draw : Mesh → Cmd α) : List Mesh → List (Cmd α)
  | [] => []
  | mesh :: rest => bind mesh.materialIndex :: draw mesh :: rest.map draw

/-- The batching rule in the words of the spec, for a batch: run after run. -/
def drawByRuns {α : Type} (bind : Nat → Cmd α) (draw : Mesh → Cmd α)
    (meshes : List Mesh) : List (Cmd α) :=
  (materialRuns meshes).flatMap (drawRun bind draw)

/-- What the loop of `Draw` records when no check fails: a bind whenever the
material index differs from the tracked one, and a draw per mesh. -/
def drawCmds {α : Type} (bind : Nat → Cmd α) (draw : Mesh → Cmd α) :
    List Mesh → Nat → List (Cmd α)
  | [], _ => []
  | mesh :: rest, materialIndex =>
    (if materialIndex = mesh.materialIndex then [] else [bind mesh.materialIndex]) ++
      draw mesh :: drawCmds bind draw rest mesh.materialIndex

/-- The material bind of `Renderer::Draw`. -/
def Renderer.bindCall {α : Type} (ref : ModelRef) (srvCount materialIndex : Nat) : Cmd α :=
  .SetDynamicDescriptors Renderer.ROOT_INDEX_PS_SRV 0 srvCount (.GetSRVs ref materialIndex)

/-- The material bind of `MyRenderer::Draw`. -/
def MyRenderer.bindCall {α : Type} (ref : ModelRef) (materialIndex : Nat) : Cmd α :=
  .SetDescriptorTable MyRenderer.ROOT_INDEX_PS_SRV0 (.GetSRVs ref materialIndex)

/-- The RSM targets have the dimensions `VSGLGenerationPass` asserts. -/
def Buffers.rsmMatches (b : Buffers) : Bool :=
  b.s_rsmDepthBuffer.GetWidth == RSM_WIDTH && b.s_rsmDepthBuffer.GetHeight == RSM_WIDTH &&
  b.s_rsmNormalBuffer.GetWidth == RSM_WIDTH && b.s_rsmNormalBuffer.GetHeight == RSM_WIDTH &&
  b.s_rsmDiffuseBuffer.GetWidth == RSM_WIDTH && b.s_rsmDiffuseBuffer.GetHeight == RSM_WIDTH &&
  b.s_rsmSpecularBuffer.GetWidth == RSM_WIDTH && b.s_rsmSpecularBuffer.GetHeight == RSM_WIDTH

/-- No check of `Renderer::Render` fails on the scene: the first batch passes
`Draw` and `DrawDepth`, the cutout batch passes `Draw`. -/
def Renderer.checksPass {α : Type} (scene : Scene α) : Bool :=
  scene.m_model.passesDraw && scene.m_model.passesDrawDepth && scene.m_modelCutout.passesDraw

/-- No check of `MyRenderer::Render` fails on the scene: both batches pass
`Draw` (its `DrawDepth` makes the same checks). -/
def MyRenderer.checksPass {α : Type} (scene : Scene α) : Bool :=
  scene.m_model.passesDraw && scene.m_modelCutout.passesDraw

/-- The markers of a frame in which each of the five passes runs once, in the
order of `Render`. -/
def frameMarkers {α : Type} : List (Cmd α) :=
  [.BeginBlock .ReflectiveShadowMapPass, .EndBlock .ReflectiveShadowMapPass,
   .BeginBlock .ShadowMapPass, .EndBlock .ShadowMapPass,
   .BeginBlock .VSGLGenerationPass, .EndBlock .VSGLGenerationPass,
   .BeginBlock .DepthPass, .EndBlock .DepthPass,
   .BeginBlock .LightingPass, .EndBlock .LightingPass]

/-! ## The effect of the recorded calls on the buffers -/

/-- Modelled from the spec: the bookkeeping of `CommandContext::TransitionResource`
(CommandContext.cpp is not among the sources). The resource enters the new
state; a transition that was begun toward that state is thereby completed. -/
def GpuResource.TransitionResource (r : GpuResource) (newState : ResourceState) : GpuResource :=
  { m_UsageState := newState
    m_TransitioningState :=
      if r.m_TransitioningState = some newState then none else r.m_TransitioningState }

/-- Modelled from the spec: the bookkeeping of
`CommandContext::BeginResourceTransition` (CommandContext.cpp is not among the
sources). The transition is declared and stays pending until a
`TransitionResource` applies it. -/
def GpuResource.BeginResourceTransition (r : GpuResource) (newState : ResourceState) :
    GpuResource :=
  { r with m_TransitioningState := some newState }

/-- Update the bookkeeping members of one of the eight resources. -/
def Buffers.modify (b : Buffers) (r : Resource) (f : GpuResource → GpuResource) : Buffers :=
  match r with
  | .s_shadowMap =>
    { b with s_shadowMap := { b.s_shadowMap with toGpuResource := f b.s_shadowMap.toGpuResource } }
  | .s_rsmDepthBuffer =>
    { b with s_rsmDepthBuffer :=
        { b.s_rsmDepthBuffer with toGpuResource := f b.s_rsmDepthBuffer.toGpuResource } }
  | .s_rsmNormalBuffer =>
    { b with s_rsmNormalBuffer :=
        { b.s_rsmNormalBuffer with toGpuResource := f b.s_rsmNormalBuffer.toGpuResource } }
  | .s_rsmDiffuseBuffer =>
    { b with s_rsmDiffuseBuffer :=
        { b.s_rsmDiffuseBuffer with toGpuResource := f b.s_rsmDiffuseBuffer.toGpuResource } }
  | .s_rsmSpecularBuffer =>
    { b with s_rsmSpecularBuffer :=
        { b.s_rsmSpecularBuffer with toGpuResource := f b.s_rsmSpecularBuffer.toGpuResource } }
  | .s_sgLightBuffer =>
    { b with s_sgLightBuffer :=
        { b.s_sgLightBuffer with toGpuResource := f b.s_sgLightBuffer.toGpuResource } }
  | .g_SceneDepthBuffer =>
    { b with g_SceneDepthBuffer :=
        { b.g_SceneDepthBuffer with toGpuResource := f b.g_SceneDepthBuffer.toGpuResource } }
  | .g_SceneColorBuffer =>
    { b with g_SceneColorBuffer :=
        { b.g_SceneColorBuffer with toGpuResource := f b.g_SceneColorBuffer.toGpuResource } }

/-- Modelled from the spec: what a recorded call does to the buffer objects.
The two transition calls update the bookkeeping of the resource they name; no
call creates, resizes or reformats a buffer (the spec, 4.1: no resize or
reformat operation exists). -/
def Cmd.effect {α : Type} (b : Buffers) : Cmd α → Buffers
  | .TransitionResource r newState _ => b.modify r (fun g => g.TransitionResource newState)
  | .BeginResourceTransition r newState =>
    b.modify r (fun g => g.BeginResourceTransition newState)
  | _ => b

/-- The buffers after a sequence of recorded calls. -/
def Buffers.after {α : Type} (b : Buffers) (cmds : List (Cmd α)) : Buffers :=
  cmds.foldl Cmd.effect b

/-- The dimensions of the eight buffers: width and height of the pixel buffers,
element count and element size of the light-probe buffer. -/
def Buffers.dimensions (b : Buffers) : List (Nat × Nat) :=
  [(b.s_shadowMap.GetWidth, b.s_shadowMap.GetHeight),
   (b.s_rsmDepthBuffer.GetWidth, b.s_rsmDepthBuffer.GetHeight),
   (b.s_rsmNormalBuffer.GetWidth, b.s_rsmNormalBuffer.GetHeight),
   (b.s_rsmDiffuseBuffer.GetWidth, b.s_rsmDiffuseBuffer.GetHeight),
   (b.s_rsmSpecularBuffer.GetWidth, b.s_rsmSpecularBuffer.GetHeight),
   (b.s_sgLightBuffer.numElements, b.s_sgLightBuffer.elementSize),
   (b.g_SceneDepthBuffer.GetWidth, b.g_SceneDepthBuffer.GetHeight),
   (b.g_SceneColorBuffer.GetWidth, b.g_SceneColorBuffer.GetHeight)]

/-- A run of frames of `Renderer::Render`, each on the buffers the frames
before it left; a frame is a scene and a value of the HSG toggle. -/
def Renderer.frames {α : Type} [Mul α] [Div α] [NatCast α] [OfNat α 2] (math : MathLib α) :
    Buffers → List (Scene α × Bool) → Buffers
  | b, [] => b
  | b, frame :: rest =>
    Renderer.frames math (b.after (Renderer.Render math b frame.1 frame.2).cmds) rest

/-- A run of frames of `MyRenderer::Render`, each on the buffers the frames
before it left. -/
def MyRenderer.frames {α : Type} [Mul α] [Div α] [NatCast α] [OfNat α 2] (math : MathLib α) :
    Buffers → List (Scene α) → Buffers
  | b, [] => b
  | b, scene :: rest =>
    MyRenderer.frames math (b.after (MyRenderer.Render math b scene).cmds) rest

/-- The widths of the four RSM targets are equal and so are their heights. -/
def Buffers.rsmAllEqual (b : Buffers) : Bool :=
  b.s_rsmNormalBuffer.GetWidth == b.s_rsmDepthBuffer.GetWidth &&
  b.s_rsmDiffuseBuffer.GetWidth == b.s_rsmDepthBuffer.GetWidth &&
  b.s_rsmSpecularBuffer.GetWidth == b.s_rsmDepthBuffer.GetWidth &&
  b.s_rsmNormalBuffer.GetHeight == b.s_rsmDepthBuffer.GetHeight &&
  b.s_rsmDiffuseBuffer.GetHeight == b.s_rsmDepthBuffer.GetHeight &&
  b.s_rsmSpecularBuffer.GetHeight == b.s_rsmDepthBuffer.GetHeight

/-- The failures of the dimension assertions of `VSGLGenerationPass`. -/
def Failure.isRsmMismatch : Failure → Bool
  | .rsmWidthMismatch _ => true
  | .rsmHeightMismatch _ => true
  | _ => false

/-! ## Concrete inputs -/

/-- A math library over the rationals (any three functions will do: the
statements evaluated on it do not look inside). -/
def mathQ : MathLib ℚ :=
  { tan := fun x => x
    XMMatrixInverse := fun m => m
    XMVector3Cross := fun a _ => a }

/-- A projector over the rationals. -/
def cameraQ : Camera ℚ :=
  { GetViewProjMatrix := [1, 0, 0, 0, 0, 1, 0, 0, 0, 0, 1, 0, 0, 0, 0, 1]
    GetPosition := [0, 0, 0]
    GetUpVec := [0, 1, 0]
    GetRightVec := [1, 0, 0]
    GetFOV := 1 }

/-- The scene buffers of a 1920 x 1080 frame. -/
def hdBuffer : PixelBuffer := PixelBuffer.Create 1920 1080

/-- A batch of three aligned meshes in two material runs. -/
def modelThree : Model :=
  { m_pMesh := [⟨3, 0, 0, 0, 7⟩, ⟨6, 6, 64, 24, 7⟩, ⟨3, 18, 192, 72, 9⟩]
    m_VertexStride := 32
    m_VertexStrideDepth := 12 }

/-- A cutout batch of one aligned mesh. -/
def modelOne : Model :=
  { m_pMesh := [⟨3, 0, 0, 0, 2⟩]
    m_VertexStride := 32
    m_VertexStrideDepth := 12 }

/-- A batch without meshes. -/
def modelEmpty : Model :=
  { m_pMesh := []
    m_VertexStride := 32
    m_VertexStrideDepth := 12 }

/-- A batch whose only mesh has four indices, not a whole number of triangles. -/
def modelFourIndices : Model :=
  { m_pMesh := [⟨4, 0, 0, 0, 0⟩]
    m_VertexStride := 32
    m_VertexStrideDepth := 12 }

/-- A scene on which every check passes, with a non-empty cutout batch. -/
def sceneGood : Scene ℚ :=
  { m_model := modelThree
    m_modelCutout := modelOne
    m_camera := cameraQ
    m_spotLight := cameraQ
    m_spotLightIntensity := 4000000 }

/-- A scene whose first batch fails the first assertion of `Draw`. -/
def sceneFourIndices : Scene ℚ :=
  { m_model := modelFourIndices
    m_modelCutout := modelOne
    m_camera := cameraQ
    m_spotLight := cameraQ
    m_spotLightIntensity := 4000000 }

/-- A batch whose only mesh carries the material index `0xFFFFFFFF`, the value
the tracked index of `Draw` starts from. -/
def modelSentinel : Model :=
  { m_pMesh := [⟨3, 0, 0, 0, 4294967295⟩]
    m_VertexStride := 32
    m_VertexStrideDepth := 12 }

/-- A batch of two material runs whose second mesh fails an assertion. -/
def modelSecondFails : Model :=
  { m_pMesh := [⟨3, 0, 0, 0, 0⟩, ⟨4, 6, 32, 12, 1⟩]
    m_VertexStride := 32
    m_VertexStrideDepth := 12 }

/-- A batch whose only mesh starts at index byte offset 4, not a multiple of
the size of a triangle of 16-bit indices. -/
def modelOffsetFour : Model :=
  { m_pMesh := [⟨3, 4, 0, 0, 0⟩]
    m_VertexStride := 32
    m_VertexStrideDepth := 12 }

/-- A scene with an empty cutout batch on which every check passes. -/
def sceneNoCutout : Scene ℚ :=
  { m_model := modelThree
    m_modelCutout := modelEmpty
    m_camera := cameraQ
    m_spotLight := cameraQ
    m_spotLightIntensity := 4000000 }

/-- A scene with an empty cutout batch whose first batch fails the second
assertion of `Draw`. -/
def sceneNoCutoutOffsetFour : Scene ℚ :=
  { m_model := modelOffsetFour
    m_modelCutout := modelEmpty
    m_camera := cameraQ
    m_spotLight := cameraQ
    m_spotLightIntensity := 4000000 }

/-- A resource set whose RSM normal target is 64 x 64 while the other RSM
targets are 128 x 128. -/
def buffersMismatched : Buffers :=
  { Renderer.Create hdBuffer hdBuffer with s_rsmNormalBuffer := PixelBuffer.Create 64 64 }

/-! ## Root signatures (`Create` / `Initialize`, first half) -/

/-- The shader stages a root parameter is made visible to. -/
inductive ShaderVisibility where
  | D3D12_SHADER_VISIBILITY_VERTEX
  | D3D12_SHADER_VISIBILITY_PIXEL
  deriving DecidableEq, Repr

/-- A root parameter as `Create` initialises it. The visibility is `none` where
the call leaves the argument out (the compute root signature); every
descriptor range is of type `D3D12_DESCRIPTOR_RANGE_TYPE_SRV`. -/
inductive RootParameter where
  | InitAsConstantBuffer (register : Nat) (visibility : Option ShaderVisibility)
  | InitAsDescriptorRange (register count : Nat) (visibility : Option ShaderVisibility)
  | InitAsConstants (register numDwords : Nat)
  | InitAsBufferUAV (register : Nat)
  deriving DecidableEq, Repr

/-- The root parameters of the four root signatures of `Renderer::Create`
(lines 90-117), in the order of their root index. -/
def Renderer.CreateRootSignature : RootSig → List RootParameter
  | .s_depthRootSignature =>
    [.InitAsConstantBuffer 0 (some .D3D12_SHADER_VISIBILITY_VERTEX),
     .InitAsDescriptorRange 0 CUTOUT_SRV_COUNT (some .D3D12_SHADER_VISIBILITY_PIXEL)]
  | .s_rsmRootSignature =>
    [.InitAsConstantBuffer 0 (some .D3D12_SHADER_VISIBILITY_VERTEX),
     .InitAsDescriptorRange 0 MODEL_SRV_COUNT (some .D3D12_SHADER_VISIBILITY_PIXEL)]
  | .s_lightingRootSignature =>
    [.InitAsConstantBuffer 0 (some .D3D12_SHADER_VISIBILITY_VERTEX),
     .InitAsDescriptorRange 0 (MODEL_SRV_COUNT + 1) (some .D3D12_SHADER_VISIBILITY_PIXEL),
     .InitAsConstantBuffer 0 (some .D3D12_SHADER_VISIBILITY_PIXEL),
     .InitAsConstantBuffer 1 (some .D3D12_SHADER_VISIBILITY_PIXEL)]
  | .s_vsglRootSignature =>
    [.InitAsConstantBuffer 0 none,
     .InitAsConstants 1 1,
     .InitAsDescriptorRange 0 3 none,
     .InitAsBufferUAV 0]

/-- The size of the table `s_lightingDescriptorTable` of `MyRenderer`. -/
def MyRenderer.LIGHTING_DESCRIPTOR_TABLE_SIZE : Nat := 1

/-- The root parameters of the four root signatures of `MyRenderer::Initialize`
(lines 92-120), in the order of their root index; the members are named
`s_depthRootSig`, `s_rsmRootSig`, `s_lightingRootSig`, `s_vsglRootSig` there. -/
def MyRenderer.InitializeRootSignature : RootSig → List RootParameter
  | .s_depthRootSignature =>
    [.InitAsConstantBuffer 0 (some .D3D12_SHADER_VISIBILITY_VERTEX),
     .InitAsDescriptorRange 0 CUTOUT_SRV_COUNT (some .D3D12_SHADER_VISIBILITY_PIXEL)]
  | .s_rsmRootSignature =>
    [.InitAsConstantBuffer 0 (some .D3D12_SHADER_VISIBILITY_VERTEX),
     .InitAsDescriptorRange 0 MODEL_SRV_COUNT (some .D3D12_SHADER_VISIBILITY_PIXEL)]
  | .s_lightingRootSignature =>
    [.InitAsConstantBuffer 0 (some .D3D12_SHADER_VISIBILITY_VERTEX),
     .InitAsDescriptorRange 0 MODEL_SRV_COUNT (some .D3D12_SHADER_VISIBILITY_PIXEL),
     .InitAsDescriptorRange MODEL_SRV_COUNT MyRenderer.LIGHTING_DESCRIPTOR_TABLE_SIZE
       (some .D3D12_SHADER_VISIBILITY_PIXEL),
     .InitAsConstantBuffer 0 (some .D3D12_SHADER_VISIBILITY_PIXEL),
     .InitAsConstantBuffer 1 (some .D3D12_SHADER_VISIBILITY_PIXEL)]
  | .s_vsglRootSignature =>
    [.InitAsConstantBuffer 0 none,
     .InitAsConstants 1 1,
     .InitAsDescriptorRange 0 3 none,
     .InitAsBufferUAV 0]

/-! ## Pipeline configuration (`Create` / `Initialize`, second half) -/

/-- The rasterizer states of `Graphics` the pipelines are configured with. -/
inductive RasterizerState where
  | RasterizerDefault
  | RasterizerTwoSided
  | RasterizerShadow
  | RasterizerShadowTwoSided
  deriving DecidableEq, Repr

/-- Modelled from the spec: which rasterizer states of `Graphics` (they are
defined outside the sources) are two-sided, that is, cull no face: the two
whose name says so. The glossary of the spec gives the cutout variants a
distinct two-sided rasterizer. -/
def RasterizerState.isTwoSided : RasterizerState → Bool
  | .RasterizerTwoSided => true
  | .RasterizerShadowTwoSided => true
  | _ => false

/-- The blend states of `Graphics` the pipelines are configured with. -/
inductive BlendState where
  | BlendNoColorWrite
  | BlendDisable
  deriving DecidableEq, Repr

/-- The depth-stencil states of `Graphics` the pipelines are configured with:
depth read-write and the equal-depth test. -/
inductive DepthStencilState where
  | DepthStateReadWrite
  | DepthStateTestEqual
  deriving DecidableEq, Repr

/-- The compiled shaders the pipelines are configured with. -/
inductive Shader where
  | g_pDepthVS
  | g_pDepthCutoutVS
  | g_pDepthCutoutPS
  | g_pReflectiveShadowMapVS
  | g_pReflectiveShadowMapPS
  | g_pReflectiveShadowMapCutoutPS
  | g_pVSGLGenerationDiffuseCS
  | g_pVSGLGenerationSpecularCS
  | g_pLightingVS
  | g_pLightingPS
  | g_pLightingCutoutPS
  | g_pLightingHSGPS
  | g_pLightingHSGCutoutPS
  deriving DecidableEq, Repr

/-- The semantic names of the input elements. -/
inductive Semantic where
  | POSITION
  | TEXCOORD
  | NORMAL
  | TANGENT
  | BITANGENT
  deriving DecidableEq, Repr

/-- The input layout `DEPTH_ELEMENT_DESCS`. -/
def DEPTH_ELEMENT_DESCS : List Semantic := [.POSITION]

/-- The input layout `CUTOUT_ELEMENT_DESCS`. -/
def CUTOUT_ELEMENT_DESCS : List Semantic := [.POSITION, .TEXCOORD]

/-- The input layout `ELEMENT_DESCS` of the full vertex. -/
def ELEMENT_DESCS : List Semantic := [.POSITION, .TEXCOORD, .NORMAL, .TANGENT, .BITANGENT]

/-- What a `GraphicsPSO` is configured with before `Finalize()`. A format is
named by the buffer whose `GetFormat()` gives it; the primitive topology type
is `D3D12_PRIMITIVE_TOPOLOGY_TYPE_TRIANGLE` for every pipeline. -/
structure GraphicsPSO where
  rootSignature : RootSig
  rasterizerState : RasterizerState
  blendState : BlendState
  depthStencilState : DepthStencilState
  inputLayout : List Semantic
  renderTargetFormats : List Resource
  depthFormat : Resource
  vertexShader : Shader
  pixelShader : Option Shader
  deriving DecidableEq, Repr

/-- What a `ComputePSO` is configured with before `Finalize()`. -/
structure ComputePSO where
  rootSignature : RootSig
  computeShader : Shader
  deriving DecidableEq, Repr

/-- The graphics pipelines `Renderer::Create` configures (lines 126-252), by
the static they are stored in; the two compute pipelines have none. -/
def Renderer.CreateGraphicsPSO : PSO → Option GraphicsPSO
  | .s_depthPSO => some
    { rootSignature := .s_depthRootSignature
      rasterizerState := .RasterizerDefault
      blendState := .BlendNoColorWrite
      depthStencilState := .DepthStateReadWrite
      inputLayout := DEPTH_ELEMENT_DESCS
      renderTargetFormats := []
      depthFormat := .g_SceneDepthBuffer
      vertexShader := .g_pDepthVS
      pixelShader := none }
  | .s_depthCutoutPSO => some
    { rootSignature := .s_depthRootSignature
      rasterizerState := .RasterizerTwoSided
      blendState := .BlendNoColorWrite
      depthStencilState := .DepthStateReadWrite
      inputLayout := CUTOUT_ELEMENT_DESCS
      renderTargetFormats := []
      depthFormat := .g_SceneDepthBuffer
      vertexShader := .g_pDepthCutoutVS
      pixelShader := some .g_pDepthCutoutPS }
  | .s_shadowMapPSO => some
    { rootSignature := .s_depthRootSignature
      rasterizerState := .RasterizerShadow
      blendState := .BlendNoColorWrite
      depthStencilState := .DepthStateReadWrite
      inputLayout := DEPTH_ELEMENT_DESCS
      renderTargetFormats := []
      depthFormat := .s_shadowMap
      vertexShader := .g_pDepthVS
      pixelShader := none }
  | .s_shadowMapCutoutPSO => some
    { rootSignature := .s_depthRootSignature
      rasterizerState := .RasterizerShadowTwoSided
      blendState := .BlendNoColorWrite
      depthStencilState := .DepthStateReadWrite
      inputLayout := CUTOUT_ELEMENT_DESCS
      renderTargetFormats := []
      depthFormat := .s_shadowMap
      vertexShader := .g_pDepthCutoutVS
      pixelShader := some .g_pDepthCutoutPS }
  | .s_reflectiveShadowMapPSO => some
    { rootSignature := .s_rsmRootSignature
      rasterizerState := .RasterizerDefault
      blendState := .BlendDisable
      depthStencilState := .DepthStateReadWrite
      inputLayout := ELEMENT_DESCS
      renderTargetFormats := [.s_rsmNormalBuffer, .s_rsmDiffuseBuffer, .s_rsmSpecularBuffer]
      depthFormat := .s_rsmDepthBuffer
      vertexShader := .g_pReflectiveShadowMapVS
      pixelShader := some .g_pReflectiveShadowMapPS }
  | .s_reflectiveShadowMapCutoutPSO => some
    { rootSignature := .s_rsmRootSignature
      rasterizerState := .RasterizerTwoSided
      blendState := .BlendDisable
      depthStencilState := .DepthStateReadWrite
      inputLayout := ELEMENT_DESCS
      renderTargetFormats := [.s_rsmNormalBuffer, .s_rsmDiffuseBuffer, .s_rsmSpecularBuffer]
      depthFormat := .s_rsmDepthBuffer
      vertexShader := .g_pReflectiveShadowMapVS
      pixelShader := some .g_pReflectiveShadowMapCutoutPS }
  | .s_lightingPSO => some
    { rootSignature := .s_lightingRootSignature
      rasterizerState := .RasterizerDefault
      blendState := .BlendDisable
      depthStencilState := .DepthStateTestEqual
      inputLayout := ELEMENT_DESCS
      renderTargetFormats := [.g_SceneColorBuffer]
      depthFormat := .g_SceneDepthBuffer
      vertexShader := .g_pLightingVS
      pixelShader := some .g_pLightingPS }
  | .s_lightingCutoutPSO => some
    { rootSignature := .s_lightingRootSignature
      rasterizerState := .RasterizerTwoSided
      blendState := .BlendDisable
      depthStencilState := .DepthStateTestEqual
      inputLayout := ELEMENT_DESCS
      renderTargetFormats := [.g_SceneColorBuffer]
      depthFormat := .g_SceneDepthBuffer
      vertexShader := .g_pLightingVS
      pixelShader := some .g_pLightingCutoutPS }
  | .s_lightingHSGPSO => some
    { rootSignature := .s_lightingRootSignature
      rasterizerState := .RasterizerDefault
      blendState := .BlendDisable
      depthStencilState := .DepthStateTestEqual
      inputLayout := ELEMENT_DESCS
      renderTargetFormats := [.g_SceneColorBuffer]
      depthFormat := .g_SceneDepthBuffer
      vertexShader := .g_pLightingVS
      pixelShader := some .g_pLightingHSGPS }
  | .s_lightingHSGCutoutPSO => some
    { rootSignature := .s_lightingRootSignature
      rasterizerState := .RasterizerTwoSided
      blendState := .BlendDisable
      depthStencilState := .DepthStateTestEqual
      inputLayout := ELEMENT_DESCS
      renderTargetFormats := [.g_SceneColorBuffer]
      depthFormat := .g_SceneDepthBuffer
      vertexShader := .g_pLightingVS
      pixelShader := some .g_pLightingHSGCutoutPS }
  | .s_vsglGenerationDiffusePSO => none
  | .s_vsglGenerationSpecularPSO => none

/-- The compute pipelines `Renderer::Create` configures (lines 119-124); the
graphics pipelines have none. -/
def Renderer.CreateComputePSO : PSO → Option ComputePSO
  | .s_vsglGenerationDiffusePSO => some
    { rootSignature := .s_vsglRootSignature, computeShader := .g_pVSGLGenerationDiffuseCS }
  | .s_vsglGenerationSpecularPSO => some
    { rootSignature := .s_vsglRootSignature, computeShader := .g_pVSGLGenerationSpecularCS }
  | _ => none

/-- The graphics pipelines `MyRenderer::Initialize` configures (lines 128-232):
those of `Renderer::Create` without the two HSG variants, which this renderer
does not have. -/
def MyRenderer.InitializeGraphicsPSO : PSO → Option GraphicsPSO
  | .s_depthPSO => some
    { rootSignature := .s_depthRootSignature
      rasterizerState := .RasterizerDefault
      blendState := .BlendNoColorWrite
      depthStencilState := .DepthStateReadWrite
      inputLayout := DEPTH_ELEMENT_DESCS
      renderTargetFormats := []
      depthFormat := .g_SceneDepthBuffer
      vertexShader := .g_pDepthVS
      pixelShader := none }
  | .s_depthCutoutPSO => some
    { rootSignature := .s_depthRootSignature
      rasterizerState := .RasterizerTwoSided
      blendState := .BlendNoColorWrite
      depthStencilState := .DepthStateReadWrite
      inputLayout := CUTOUT_ELEMENT_DESCS
      renderTargetFormats := []
      depthFormat := .g_SceneDepthBuffer
      vertexShader := .g_pDepthCutoutVS
      pixelShader := some .g_pDepthCutoutPS }
  | .s_shadowMapPSO => some
    { rootSignature := .s_depthRootSignature
      rasterizerState := .RasterizerShadow
      blendState := .BlendNoColorWrite
      depthStencilState := .DepthStateReadWrite
      inputLayout := DEPTH_ELEMENT_DESCS
      renderTargetFormats := []
      depthFormat := .s_shadowMap
      vertexShader := .g_pDepthVS
      pixelShader := none }
  | .s_shadowMapCutoutPSO => some
    { rootSignature := .s_depthRootSignature
      rasterizerState := .RasterizerShadowTwoSided
      blendState := .BlendNoColorWrite
      depthStencilState := .DepthStateReadWrite
      inputLayout := CUTOUT_ELEMENT_DESCS
      renderTargetFormats := []
      depthFormat := .s_shadowMap
      vertexShader := .g_pDepthCutoutVS
      pixelShader := some .g_pDepthCutoutPS }
  | .s_reflectiveShadowMapPSO => some
    { rootSignature := .s_rsmRootSignature
      rasterizerState := .RasterizerDefault
      blendState := .BlendDisable
      depthStencilState := .DepthStateReadWrite
      inputLayout := ELEMENT_DESCS
      renderTargetFormats := [.s_rsmNormalBuffer, .s_rsmDiffuseBuffer, .s_rsmSpecularBuffer]
      depthFormat := .s_rsmDepthBuffer
      vertexShader := .g_pReflectiveShadowMapVS
      pixelShader := some .g_pReflectiveShadowMapPS }
  | .s_reflectiveShadowMapCutoutPSO => some
    { rootSignature := .s_rsmRootSignature
      rasterizerState := .RasterizerTwoSided
      blendState := .BlendDisable
      depthStencilState := .DepthStateReadWrite
      inputLayout := ELEMENT_DESCS
      renderTargetFormats := [.s_rsmNormalBuffer, .s_rsmDiffuseBuffer, .s_rsmSpecularBuffer]
      depthFormat := .s_rsmDepthBuffer
      vertexShader := .g_pReflectiveShadowMapVS
      pixelShader := some .g_pReflectiveShadowMapCutoutPS }
  | .s_lightingPSO => some
    { rootSignature := .s_lightingRootSignature
      rasterizerState := .RasterizerDefault
      blendState := .BlendDisable
      depthStencilState := .DepthStateTestEqual
      inputLayout := ELEMENT_DESCS
      renderTargetFormats := [.g_SceneColorBuffer]
      depthFormat := .g_SceneDepthBuffer
      vertexShader := .g_pLightingVS
      pixelShader := some .g_pLightingPS }
  | .s_lightingCutoutPSO => some
    { rootSignature := .s_lightingRootSignature
      rasterizerState := .RasterizerTwoSided
      blendState := .BlendDisable
      depthStencilState := .DepthStateTestEqual
      inputLayout := ELEMENT_DESCS
      renderTargetFormats := [.g_SceneColorBuffer]
      depthFormat := .g_SceneDepthBuffer
      vertexShader := .g_pLightingVS
      pixelShader := some .g_pLightingCutoutPS }
  | _ => none

/-- The compute pipelines `MyRenderer::Initialize` configures (lines 121-126). -/
def MyRenderer.InitializeComputePSO : PSO → Option ComputePSO
  | .s_vsglGenerationDiffusePSO => some
    { rootSignature := .s_vsglRootSignature, computeShader := .g_pVSGLGenerationDiffuseCS }
  | .s_vsglGenerationSpecularPSO => some
    { rootSignature := .s_vsglRootSignature, computeShader := .g_pVSGLGenerationSpecularCS }
  | _ => none

/-- The pipelines of the lighting pass: plain, cutout, HSG and HSG cutout. -/
def PSO.isLighting : PSO → Bool
  | .s_lightingPSO => true
  | .s_lightingCutoutPSO => true
  | .s_lightingHSGPSO => true
  | .s_lightingHSGCutoutPSO => true
  | _ => false

/-- The pipelines of the depth, shadow-map and reflective-shadow-map passes,
in their two variants. -/
def PSO.isDepthWriting : PSO → Bool
  | .s_depthPSO => true
  | .s_depthCutoutPSO => true
  | .s_shadowMapPSO => true
  | .s_shadowMapCutoutPSO => true
  | .s_reflectiveShadowMapPSO => true
  | .s_reflectiveShadowMapCutoutPSO => true
  | _ => false

/-- All pipeline statics, in the order of their declaration. -/
def PSO.all : List PSO :=
  [.s_depthPSO, .s_depthCutoutPSO, .s_shadowMapPSO, .s_shadowMapCutoutPSO,
   .s_reflectiveShadowMapPSO, .s_reflectiveShadowMapCutoutPSO, .s_lightingPSO,
   .s_lightingCutoutPSO, .s_lightingHSGPSO, .s_lightingHSGCutoutPSO,
   .s_vsglGenerationDiffusePSO, .s_vsglGenerationSpecularPSO]

/-- The pipeline selected by a `SetPipelineState` call. -/
def Cmd.pso? {α : Type} : Cmd α → Option PSO
  | .SetPipelineState pso => some pso
  | _ => none

/-- The clears of a colour or depth target. -/
def Cmd.isClear {α : Type} : Cmd α → Bool
  | .ClearDepth _ => true
  | .ClearColor _ => true
  | _ => false

/-- The constant block uploaded by a `SetDynamicConstantBufferView` call, with
the root index it is bound to. -/
def Cmd.constants? {α : Type} : Cmd α → Option (Nat × Constants α)
  | .SetDynamicConstantBufferView rootIndex data => some (rootIndex, data)
  | _ => none

/-- The two compute pipelines. -/
def PSO.isCompute : PSO → Bool
  | .s_vsglGenerationDiffusePSO => true
  | .s_vsglGenerationSpecularPSO => true
  | _ => false

/-- The calls that set up and issue a compute dispatch: root constants,
selection of a compute pipeline, dispatch. -/
def Cmd.isDispatchSetup {α : Type} : Cmd α → Bool
  | .SetConstants _ _ => true
  | .SetPipelineState pso => pso.isCompute
  | .Dispatch _ _ _ => true
  | _ => false

/-- The dispatches of `VSGLGenerationPass` with what selects their kernel and
their record: root constant `VSGL_ROOT_INDEX_CONSTANTS` set to 0 and the diffuse
pipeline, then root constant 1 and the specular pipeline, one thread group
each. The root signature is that of the renderer. -/
def vsglDispatches {α : Type} (rootIndex : Nat) : List (Cmd α) :=
  [.SetConstants rootIndex 0, .SetPipelineState .s_vsglGenerationDiffusePSO, .Dispatch 1 1 1,
   .SetConstants rootIndex 1, .SetPipelineState .s_vsglGenerationSpecularPSO, .Dispatch 1 1 1]

/-- The compute dispatches. -/
def Cmd.isDispatch {α : Type} : Cmd α → Bool
  | .Dispatch _ _ _ => true
  | _ => false

/-- The root signature a `SetRootSignature` call binds. -/
def Cmd.rootSignature? {α : Type} : Cmd α → Option RootSig
  | .SetRootSignature s => some s
  | _ => none

/-- What tells which pipeline a batch is drawn with: the selection of a
pipeline, and the binding of the index buffer of a batch, which the draws of
that batch follow. -/
inductive BatchEvent where
  | pipeline (pso : PSO)
  | batch (ref : ModelRef)
  deriving DecidableEq, Repr

/-- The pipeline selection or batch start a call stands for, if it is one. -/
def Cmd.batchEvent? {α : Type} : Cmd α → Option BatchEvent
  | .SetPipelineState pso => some (.pipeline pso)
  | .SetIndexBuffer ref _ => some (.batch ref)
  | _ => none

/-- The bookkeeping members of one of the eight resources. -/
def Buffers.resource (b : Buffers) : Resource → GpuResource
  | .s_shadowMap => b.s_shadowMap.toGpuResource
  | .s_rsmDepthBuffer => b.s_rsmDepthBuffer.toGpuResource
  | .s_rsmNormalBuffer => b.s_rsmNormalBuffer.toGpuResource
  | .s_rsmDiffuseBuffer => b.s_rsmDiffuseBuffer.toGpuResource
  | .s_rsmSpecularBuffer => b.s_rsmSpecularBuffer.toGpuResource
  | .s_sgLightBuffer => b.s_sgLightBuffer.toGpuResource
  | .g_SceneDepthBuffer => b.g_SceneDepthBuffer.toGpuResource
  | .g_SceneColorBuffer => b.g_SceneColorBuffer.toGpuResource

/-- The state a resource is in: the one set by the latest `TransitionResource`
on it. -/
def Buffers.usage (b : Buffers) (r : Resource) : ResourceState :=
  (b.resource r).m_UsageState

/-- The state each resource has to be in when the first pass begins, in the
words of the spec: depth targets in depth-write state, colour targets in
render-target state, the light-probe buffer in unordered-access state. -/
def passReadyState : Resource → ResourceState
  | .s_rsmDepthBuffer => .DEPTH_WRITE
  | .s_shadowMap => .DEPTH_WRITE
  | .g_SceneDepthBuffer => .DEPTH_WRITE
  | .s_rsmNormalBuffer => .RENDER_TARGET
  | .s_rsmDiffuseBuffer => .RENDER_TARGET
  | .s_rsmSpecularBuffer => .RENDER_TARGET
  | .g_SceneColorBuffer => .RENDER_TARGET
  | .s_sgLightBuffer => .UNORDERED_ACCESS

/-- The number of calls of the resource initialisation at the head of `Render`:
eight transitions and six clears. -/
def RESOURCE_INIT_CALLS : Nat := 14

/-- The calls the draw routines record: buffer bindings, material binds and
indexed draws. -/
def Cmd.isDrawRoutineCall {α : Type} : Cmd α → Bool
  | .SetIndexBuffer _ _ => true
  | .SetVertexBuffer _ _ _ => true
  | .SetDynamicDescriptors _ _ _ (.GetSRVs _ _) => true
  | .SetDescriptorTable _ (.GetSRVs _ _) => true
  | .DrawIndexed _ _ _ => true
  | _ => false

/-- The calls that begin a resource transition. -/
def Cmd.isBeginResourceTransition {α : Type} : Cmd α → Bool
  | .BeginResourceTransition _ _ => true
  | _ => false

/-- The shadow-map pipeline standing for a depth pipeline: `s_shadowMapPSO` for
`s_depthPSO`, `s_shadowMapCutoutPSO` for `s_depthCutoutPSO`. -/
def PSO.shadowMapVariant : PSO → PSO
  | .s_depthPSO => .s_shadowMapPSO
  | .s_depthCutoutPSO => .s_shadowMapCutoutPSO
  | pso => pso

/-- A call of `DepthPass` turned into the call `ShadowMapPass` makes in its
place: the label of the timer, the viewport (that of the shadow map), the
view-projection matrix (that of the spotlight), the depth target (the shadow
map) and the pipeline (the shadow-map variant) are replaced, every other call
is kept. -/
def Cmd.asShadowMapPass {α : Type} (b : Buffers) (scene : Scene α) : Cmd α → Cmd α
  | .BeginBlock _ => .BeginBlock .ShadowMapPass
  | .EndBlock _ => .EndBlock .ShadowMapPass
  | .SetViewportAndScissor x y _ _ =>
    .SetViewportAndScissor x y b.s_shadowMap.GetWidth b.s_shadowMap.GetHeight
  | .SetDynamicConstantBufferView rootIndex _ =>
    .SetDynamicConstantBufferView rootIndex (.viewProjection scene.m_spotLight.GetViewProjMatrix)
  | .SetDepthStencilTarget _ => .SetDepthStencilTarget (.DSV .s_shadowMap)
  | .SetPipelineState pso => .SetPipelineState pso.shadowMapVariant
  | c => c

/-- A pipeline description with the rasterizer state and the depth format
replaced. -/
def GraphicsPSO.withShadowStates (d : GraphicsPSO) (rasterizerState : RasterizerState)
    (depthFormat : Resource) : GraphicsPSO :=
  { d with rasterizerState := rasterizerState, depthFormat := depthFormat }

/-! ## The HSG toggle -/

/-- The class `BoolVar` of EngineTuning.h: the member `m_Flag`. -/
structure BoolVar where
  m_Flag : Bool
  deriving DecidableEq, Repr

/-- Modelled from the spec: the constructor `BoolVar(path, val)`, whose body is
in EngineTuning.cpp, not among the sources: the variable starts with the value
handed in (the spec calls `false` the default of the toggle built with it). -/
def BoolVar.new (val : Bool) : BoolVar := { m_Flag := val }

/-- The conversion `operator bool() const`. -/
def BoolVar.toBool (v : BoolVar) : Bool := v.m_Flag

/-- The member `Increment` as far as the flag goes. -/
def BoolVar.Increment (_ : BoolVar) : BoolVar := { m_Flag := true }

/-- The member `Decrement` as far as the flag goes. -/
def BoolVar.Decrement (_ : BoolVar) : BoolVar := { m_Flag := false }

/-- The member `Bang` as far as the flag goes. -/
def BoolVar.Bang (v : BoolVar) : BoolVar := { m_Flag := !v.m_Flag }

/-- The global `Renderer::EnableHSGConvolution` as it is constructed
(Renderer.cpp, line 27). -/
def Renderer.EnableHSGConvolution : BoolVar := BoolVar.new EnableHSGConvolution_default

/-- The lighting pipeline in the words of the spec: the HSG-convolution variant
if the toggle is on and the plain one otherwise, each in its cutout variant
for the cutout batch. -/
def lightingPipeline (toggle cutout : Bool) : PSO :=
  match toggle, cutout with
  | true, false => .s_lightingHSGPSO
  | false, false => .s_lightingPSO
  | true, true => .s_lightingHSGCutoutPSO
  | false, true => .s_lightingCutoutPSO

/-- A batch of one mesh at offset zero in a model whose vertex strides are
zero. -/
def modelZeroStride : Model :=
  { m_pMesh := [⟨3, 0, 0, 0, 0⟩]
    m_VertexStride := 0
    m_VertexStrideDepth := 0 }

/-- A scene whose first batch has vertex stride zero and whose cutout batch is
empty. -/
def sceneZeroStride : Scene ℚ :=
  { m_model := modelZeroStride
    m_modelCutout := modelEmpty
    m_camera := cameraQ
    m_spotLight := cameraQ
    m_spotLightIntensity := 4000000 }

/-- A scene whose first batch fails a check at its second mesh. -/
def sceneSecondFails : Scene ℚ :=
  { m_model := modelSecondFails
    m_modelCutout := modelOne
    m_camera := cameraQ
    m_spotLight := cameraQ
    m_spotLightIntensity := 4000000 }

/-! ## Resource states at the point of use -/

/-- The table `s_lightingDescriptorTable` of `MyRenderer` as `Initialize` fills
it (lines 79-82): one descriptor, copied from `s_shadowMap.GetDepthSRV()`. -/
def MyRenderer.s_lightingDescriptorTable : List Descriptor := [.DepthSRV .s_shadowMap]

/-- The resource a descriptor handle was obtained from. -/
def Descriptor.resource : Descriptor → Resource
  | .RTV r => r
  | .DSV r => r
  | .DSV_DepthReadOnly r => r
  | .SRV r => r
  | .DepthSRV r => r

/-- The read states: a resource in one of them is read and not written. -/
def ResourceState.isRead : ResourceState → Bool
  | .DEPTH_READ => true
  | .NON_PIXEL_SHADER_RESOURCE => true
  | .PIXEL_SHADER_RESOURCE => true
  | .VERTEX_AND_CONSTANT_BUFFER => true
  | _ => false

/-- The state a depth target has to be in for the view it is bound through:
depth-write for a writable view, depth-read for a read-only one. -/
def Descriptor.depthState : Descriptor → ResourceState
  | .DSV_DepthReadOnly _ => .DEPTH_READ
  | _ => .DEPTH_WRITE

/-- The single writer of each resource among the five passes, in the words of
the spec (single-writer-per-frame): the RSM targets are written by
ReflectiveShadowMapPass, the shadow map by ShadowMapPass, the light-probe
buffer by VSGLGenerationPass, the scene depth buffer by DepthPass and the scene
colour buffer by LightingPass. -/
def Resource.writer : Resource → Pass
  | .s_rsmDepthBuffer => .ReflectiveShadowMapPass
  | .s_rsmNormalBuffer => .ReflectiveShadowMapPass
  | .s_rsmDiffuseBuffer => .ReflectiveShadowMapPass
  | .s_rsmSpecularBuffer => .ReflectiveShadowMapPass
  | .s_shadowMap => .ShadowMapPass
  | .s_sgLightBuffer => .VSGLGenerationPass
  | .g_SceneDepthBuffer => .DepthPass
  | .g_SceneColorBuffer => .LightingPass

/-- What is known at a point of the command stream: the buffers with the state
the latest `TransitionResource` put each in, the pass that is open, what is
bound (colour targets, depth target, and by root index: shader resources with
their offset in the table, constant buffers, unordered-access buffers), and
the resources a `TransitionResource` of this frame has put in a read state. -/
structure Tracked where
  buffers : Buffers
  pass : Option Pass
  renderTargets : List Resource
  depthTarget : Option Descriptor
  shaderResources : List ((Nat × Nat) × Resource)
  constantBuffers : List (Nat × Resource)
  unorderedAccess : List (Nat × Resource)
  madeReadable : List Resource

/-- The start of a frame: the buffers as the frames before left them, nothing
bound, no pass open. -/
def Tracked.init (b : Buffers) : Tracked :=
  { buffers := b
    pass := none
    renderTargets := []
    depthTarget := none
    shaderResources := []
    constantBuffers := []
    unorderedAccess := []
    madeReadable := [] }

/-- Bind a value to a slot, replacing what was bound there. -/
def bindSlot {κ : Type} [DecidableEq κ] (slot : κ) (r : Resource) (bound : List (κ × Resource)) :
    List (κ × Resource) :=
  (slot, r) :: bound.filter (fun e => e.1 != slot)

/-- Bind the descriptors of an array to consecutive offsets of a table. -/
def bindTable (rootIndex : Nat) : Nat → List Descriptor → List ((Nat × Nat) × Resource) →
    List ((Nat × Nat) × Resource)
  | _, [], bound => bound
  | offset, h :: hs, bound =>
    bindTable rootIndex (offset + 1) hs (bindSlot (rootIndex, offset) h.resource bound)

/-- Modelled from the spec: what a recorded call changes in what is tracked.
The transitions update the buffers (`Cmd.effect`), the markers open and close
a pass, a root signature starts with nothing bound, the output-merger calls
replace the colour and depth targets (`SetDepthStencilTarget` binds a depth
target and no colour target: the spec calls these passes depth-only), and the
binding calls bind to their slot. The material tables `GetSRVs` hold textures
of the model, none of the eight resources, and the blocks uploaded with
`SetDynamicConstantBufferView` are no resource of the frame either. -/
def Tracked.step {α : Type} (s : Tracked) : Cmd α → Tracked
  | .TransitionResource r newState flush =>
    { s with
      buffers := Cmd.effect s.buffers (.TransitionResource r newState flush : Cmd α)
      madeReadable := if newState.isRead then r :: s.madeReadable else s.madeReadable }
  | .BeginResourceTransition r newState =>
    { s with buffers := Cmd.effect s.buffers (.BeginResourceTransition r newState : Cmd α) }
  | .BeginBlock pass => { s with pass := some pass }
  | .EndBlock _ => { s with pass := none }
  | .SetRootSignature _ =>
    { s with shaderResources := [], constantBuffers := [], unorderedAccess := [] }
  | .SetRenderTargets rtvs dsv =>
    { s with renderTargets := rtvs.map Descriptor.resource, depthTarget := some dsv }
  | .SetRenderTarget rtv dsv =>
    { s with renderTargets := [rtv.resource], depthTarget := some dsv }
  | .SetDepthStencilTarget dsv => { s with renderTargets := [], depthTarget := some dsv }
  | .SetConstantBuffer rootIndex r =>
    { s with constantBuffers := bindSlot rootIndex r s.constantBuffers }
  | .SetBufferUAV rootIndex r =>
    { s with unorderedAccess := bindSlot rootIndex r s.unorderedAccess }
  | .SetDynamicDescriptors rootIndex offset _ (.handles hs) =>
    { s with shaderResources := bindTable rootIndex offset hs s.shaderResources }
  | .SetDynamicDescriptor rootIndex offset h =>
    { s with shaderResources := bindSlot (rootIndex, offset) h.resource s.shaderResources }
  | .SetDescriptorTable rootIndex .s_lightingDescriptorTable =>
    { s with shaderResources :=
        bindTable rootIndex 0 MyRenderer.s_lightingDescriptorTable s.shaderResources }
  | _ => s

/-- What is tracked after a sequence of calls. -/
def Tracked.after {α : Type} (s : Tracked) (cmds : List (Cmd α)) : Tracked :=
  cmds.foldl Tracked.step s

/-- The state of a resource: the one the latest `TransitionResource` on it
set. -/
def Tracked.usage (s : Tracked) (r : Resource) : ResourceState := s.buffers.usage r

/-- The resources a draw writes: the colour targets and a depth target bound
through a writable view. -/
def Tracked.drawTargets (s : Tracked) : List Resource :=
  s.renderTargets ++
    (match s.depthTarget with
     | some (.DSV_DepthReadOnly _) => []
     | some d => [d.resource]
     | none => [])

/-- A write of a resource is in order: no earlier `TransitionResource` of the
frame put the resource in a read state, and if a pass is open it is the writer
of the resource. -/
def Tracked.mayWrite (s : Tracked) (r : Resource) : Bool :=
  !s.madeReadable.contains r &&
    (match s.pass with
     | some pass => pass == r.writer
     | none => true)

/-- A clear is in order: the target is in its write state and may be
written. -/
def Tracked.clearOk (s : Tracked) (r : Resource) (writeState : ResourceState) : Bool :=
  s.usage r == writeState && s.mayWrite r

/-- A draw is in order: every colour target is in render-target state, the
depth target in the state of its view, every bound shader resource in
pixel-shader-resource state, every bound constant buffer in
vertex-and-constant-buffer state and every bound unordered-access buffer in
unordered-access state, and the resources it writes may be written. -/
def Tracked.drawOk (s : Tracked) : Bool :=
  s.renderTargets.all (fun r => s.usage r == .RENDER_TARGET) &&
  (match s.depthTarget with
   | some d => s.usage d.resource == d.depthState
   | none => true) &&
  s.shaderResources.all (fun e => s.usage e.2 == .PIXEL_SHADER_RESOURCE) &&
  s.constantBuffers.all (fun e => s.usage e.2 == .VERTEX_AND_CONSTANT_BUFFER) &&
  s.unorderedAccess.all (fun e => s.usage e.2 == .UNORDERED_ACCESS) &&
  s.drawTargets.all s.mayWrite

/-- A dispatch is in order: every bound shader resource is in
non-pixel-shader-resource state, every bound constant buffer in
vertex-and-constant-buffer state and every bound unordered-access buffer in
unordered-access state, and the unordered-access buffers, which it writes, may
be written. -/
def Tracked.dispatchOk (s : Tracked) : Bool :=
  s.shaderResources.all (fun e => s.usage e.2 == .NON_PIXEL_SHADER_RESOURCE) &&
  s.constantBuffers.all (fun e => s.usage e.2 == .VERTEX_AND_CONSTANT_BUFFER) &&
  s.unorderedAccess.all (fun e => s.usage e.2 == .UNORDERED_ACCESS && s.mayWrite e.2)

/-- The condition a call has to meet where it stands in the stream: a clear,
a draw and a dispatch have to be in order; the other calls use no resource. -/
def Cmd.hazardFree {α : Type} (s : Tracked) : Cmd α → Bool
  | .ClearDepth r => s.clearOk r .DEPTH_WRITE
  | .ClearColor r => s.clearOk r .RENDER_TARGET
  | .DrawIndexed _ _ _ => s.drawOk
  | .Dispatch _ _ _ => s.dispatchOk
  | _ => true

/-- Every call of a sequence meets its condition where it stands. -/
def Tracked.accepts {α : Type} (s : Tracked) : List (Cmd α) → Bool
  | [] => true
  | c :: rest => c.hazardFree s && (s.step c).accepts rest

/-- The calls of a trace meet their conditions from a point on, and if the
trace runs to its end a property holds of what is tracked after it. -/
def Trace.safeFrom {α : Type} (s : Tracked) (t : Trace α) (K : Tracked → Prop) : Prop :=
  s.accepts t.cmds = true ∧ (t.failure = none → K (s.after t.cmds))

/-- The resources a call writes where it stands: a clear its target, a draw
the colour targets and a writable depth target, a dispatch the bound
unordered-access buffers. -/
def Cmd.writes {α : Type} (s : Tracked) : Cmd α → List Resource
  | .ClearDepth r => [r]
  | .ClearColor r => [r]
  | .DrawIndexed _ _ _ => s.drawTargets
  | .Dispatch _ _ _ => s.unorderedAccess.map Prod.snd
  | _ => []

/-- The resources a call reads where it stands: a draw a depth target bound
through a read-only view, and a draw and a dispatch the bound shader resources
and constant buffers. -/
def Cmd.reads {α : Type} (s : Tracked) : Cmd α → List Resource
  | .DrawIndexed _ _ _ =>
    (match s.depthTarget with
     | some (.DSV_DepthReadOnly r) => [r]
     | _ => []) ++ s.shaderResources.map Prod.snd ++ s.constantBuffers.map Prod.snd
  | .Dispatch _ _ _ => s.shaderResources.map Prod.snd ++ s.constantBuffers.map Prod.snd
  | _ => []

/-- The write states: render target, depth write, unordered access. -/
def ResourceState.isWrite : ResourceState → Bool
  | .RENDER_TARGET => true
  | .DEPTH_WRITE => true
  | .UNORDERED_ACCESS => true
  | _ => false

/-! ## The light-probe buffer under the dispatches -/

/-- A probe record: the 32-bit words of one element of `s_sgLightBuffer`. -/
abbrev ProbeRecord := List Nat

/-- The contents of the light-probe buffer: its records, by index. -/
abbrev ProbeBuffer := List ProbeRecord

/-- The light-probe buffer with every word zero: `numElements` records of
`elementSize / sizeof(uint32_t)` words. -/
def StructuredBuffer.zeroed (b : StructuredBuffer) : ProbeBuffer :=
  List.replicate b.numElements (List.replicate (b.elementSize / SIZEOF_UINT32) 0)

/-- The bytes of the light-probe buffer that the record of an index occupies:
from `index * elementSize` up to `(index + 1) * elementSize`. -/
def StructuredBuffer.recordBytes (b : StructuredBuffer) (index : Nat) : Finset Nat :=
  Finset.Ico (index * b.elementSize) ((index + 1) * b.elementSize)

/-- What the compute context holds for a dispatch: the root constant, the
pipeline, and the contents of the light-probe buffer. -/
structure ComputeState where
  rootConstant : Nat
  pipeline : Option PSO
  sgLightBuffer : ProbeBuffer
  deriving DecidableEq, Repr

/-- Modelled from the spec: what a dispatch of a generation kernel does to the
light-probe buffer (the shaders VSGLGenerationDiffuseCS and
VSGLGenerationSpecularCS are not among the sources). The kernel writes one
record, the one whose index is the root constant set for the dispatch (the
spec, 4.2 step 4: each writing into the shared LightProbeBuffer at a
kernel-selected offset, constant index 0 for diffuse, 1 for specular); what it
writes there is the value `kernel` gives for the pipeline. -/
def ComputeState.Dispatch (kernel : PSO → ProbeRecord) (s : ComputeState) : ComputeState :=
  match s.pipeline with
  | some pso =>
    if pso.isCompute then
      { s with sgLightBuffer := s.sgLightBuffer.set s.rootConstant (kernel pso) }
    else s
  | none => s

/-- The effect of a recorded call on what the compute context holds:
`SetConstants` sets the root constant, `SetPipelineState` the pipeline, and a
dispatch runs the selected kernel. -/
def ComputeState.step {α : Type} (kernel : PSO → ProbeRecord) (s : ComputeState) :
    Cmd α → ComputeState
  | .SetConstants _ x => { s with rootConstant := x }
  | .SetPipelineState pso => { s with pipeline := some pso }
  | .Dispatch _ _ _ => s.Dispatch kernel
  | _ => s

/-- The light-probe buffer after a sequence of recorded calls, starting from
given contents. -/
def ProbeBuffer.after {α : Type} (kernel : PSO → ProbeRecord) (buffer : ProbeBuffer)
    (cmds : List (Cmd α)) : ProbeBuffer :=
  (cmds.foldl (ComputeState.step kernel)
    { rootConstant := 0, pipeline := none, sgLightBuffer := buffer }).sgLightBuffer

/-- The calls of a sequence up to and including its first dispatch. -/
def throughFirstDispatch {α : Type} (cmds : List (Cmd α)) : List (Cmd α) :=
  cmds.take (cmds.findIdx Cmd.isDispatch + 1)

/-! ## The static precondition of VSGLGenerationPass -/

/-- The condition of the `static_assert` at the head of `VSGLGenerationPass`
(Renderer.cpp line 400, MyRenderer.cpp line 392), for a resolution of the
reflective shadow map and a thread-group width. -/
def vsglStaticAssert (rsmWidth threadGroupWidth : Nat) : Bool :=
  rsmWidth % threadGroupWidth == 0

/-- The other resolution the comment of VSGLGenerationSetting.h allows:
`RSM_WIDTH = 64 may be OK`. -/
def RSM_WIDTH_ALTERNATIVE : Nat := 64

/-! ## More concrete inputs -/

/-- A mesh of two triangles that starts at index byte offset 6, at vertex byte
offset 64 in the full vertex buffer and 24 in the depth-only one. -/
def meshAligned : Mesh := ⟨6, 6, 64, 24, 7⟩

/-- A batch whose only mesh is aligned in the full vertex buffer and starts at
byte offset 5 of the depth-only vertex buffer, which the depth-only stride 12
does not divide. -/
def modelDepthMisaligned : Model :=
  { m_pMesh := [⟨3, 0, 0, 5, 0⟩]
    m_VertexStride := 32
    m_VertexStrideDepth := 12 }

/-- A scene whose first batch passes the checks of `Draw` and fails those of
`Renderer::DrawDepth`. -/
def sceneDepthMisaligned : Scene ℚ :=
  { m_model := modelDepthMisaligned
    m_modelCutout := modelOne
    m_camera := cameraQ
    m_spotLight := cameraQ
    m_spotLightIntensity := 4000000 }

/-- The binary32 number nearest to `π / 4` (`0x3F490FDB`). -/
def fovBinary32 : Binary32 := .finite false (13176795 / 16777216)

/-- A math library over binary32: at the half angle `fovBinary32 / 2` its `tan`
returns `0x3ED413CD`, the binary32 number nearest to the tangent (the statements
evaluated on it do not look at the other values). -/
def mathBinary32 : MathLib Binary32 :=
  { tan := fun x =>
      if x = .finite false (13176795 / 33554432) then .finite false (13898701 / 33554432) else x
    XMMatrixInverse := fun m => m
    XMVector3Cross := fun a _ => a }

/-- A projector over binary32 with the field of view `fovBinary32`. -/
def cameraBinary32 : Camera Binary32 :=
  { GetViewProjMatrix := []
    GetPosition := []
    GetUpVec := []
    GetRightVec := []
    GetFOV := fovBinary32 }

/-! ## Viewport and depth target of a pass -/

/-- The rectangle a `SetViewportAndScissor` call sets: x, y, width, height. -/
def Cmd.viewportAndScissor? {α : Type} : Cmd α → Option (Nat × Nat × Nat × Nat)
  | .SetViewportAndScissor x y w h => some (x, y, w, h)
  | _ => none

/-- The depth-stencil view an output-merger call binds. -/
def Cmd.depthTarget? {α : Type} : Cmd α → Option Descriptor
  | .SetRenderTargets _ dsv => some dsv
  | .SetRenderTarget _ dsv => some dsv
  | .SetDepthStencilTarget dsv => some dsv
  | _ => none

/-- The width and height of one of the pixel buffers (`GetWidth()`,
`GetHeight()`); the light-probe buffer has none. -/
def Buffers.extent (b : Buffers) : Resource → Option (Nat × Nat)
  | .s_shadowMap => some (b.s_shadowMap.GetWidth, b.s_shadowMap.GetHeight)
  | .s_rsmDepthBuffer => some (b.s_rsmDepthBuffer.GetWidth, b.s_rsmDepthBuffer.GetHeight)
  | .s_rsmNormalBuffer => some (b.s_rsmNormalBuffer.GetWidth, b.s_rsmNormalBuffer.GetHeight)
  | .s_rsmDiffuseBuffer => some (b.s_rsmDiffuseBuffer.GetWidth, b.s_rsmDiffuseBuffer.GetHeight)
  | .s_rsmSpecularBuffer => some (b.s_rsmSpecularBuffer.GetWidth, b.s_rsmSpecularBuffer.GetHeight)
  | .s_sgLightBuffer => none
  | .g_SceneDepthBuffer => some (b.g_SceneDepthBuffer.GetWidth, b.g_SceneDepthBuffer.GetHeight)
  | .g_SceneColorBuffer => some (b.g_SceneColorBuffer.GetWidth, b.g_SceneColorBuffer.GetHeight)

/-- The rectangle that covers the target of a depth-stencil view: origin
(0, 0), the width and the height of the buffer the view is of. -/
def Buffers.fullRectangle (b : Buffers) (dsv : Descriptor) : Option (Nat × Nat × Nat × Nat) :=
  (b.extent dsv.resource).map (fun e => (0, 0, e.1, e.2))

/-! ## The two values of the HSG toggle -/

/-- The pipeline `LightingPass` selects with the toggle on where it selects
a given one with the toggle off: the HSG variant of a plain lighting
pipeline; any other pipeline is kept. -/
def PSO.withHSG : PSO → PSO
  | .s_lightingPSO => .s_lightingHSGPSO
  | .s_lightingCutoutPSO => .s_lightingHSGCutoutPSO
  | pso => pso

/-- A call with the pipeline it selects, if it selects one, replaced by the
HSG variant; every other call is kept. -/
def Cmd.withHSG {α : Type} : Cmd α → Cmd α
  | .SetPipelineState pso => .SetPipelineState pso.withHSG
  | c => c

/-- The selections of a lighting pipeline. -/
def Cmd.isLightingSelection {α : Type} : Cmd α → Bool
  | .SetPipelineState pso => pso.isLighting
  | _ => false

/-! ## What a dispatch sees -/

/-- The shader resources bound at the offsets 0, .., `count - 1` of the table
of a root index. -/
def Tracked.shaderResourceTable (s : Tracked) (rootIndex count : Nat) : List (Option Resource) :=
  (List.range count).map (fun offset => s.shaderResources.lookup (rootIndex, offset))

/-- What is tracked at each dispatch of a sequence of calls, in their order. -/
def Tracked.atDispatches {α : Type} (s : Tracked) : List (Cmd α) → List Tracked
  | [] => []
  | c :: rest => (if c.isDispatch then [s] else []) ++ (s.step c).atDispatches rest

/-- The constant block each dispatch of a sequence of calls runs with, in their
order: the one uploaded last with `SetDynamicConstantBufferView`, with its root
index, under the root signature bound last (`current` is the block bound when
the sequence starts). -/
def constantsAtDispatches {α : Type} (current : Option (Nat × Constants α)) :
    List (Cmd α) → List (Option (Nat × Constants α))
  | [] => []
  | .SetDynamicConstantBufferView rootIndex data :: rest =>
    constantsAtDispatches (some (rootIndex, data)) rest
  | .SetRootSignature _ :: rest => constantsAtDispatches none rest
  | .Dispatch _ _ _ :: rest => current :: constantsAtDispatches current rest
  | _ :: rest => constantsAtDispatches current rest

/-! ## The material table in use at a draw -/

/-- The material table bound most recently at each indexed draw of a sequence
of calls, in the order of the draws; `current` is the table bound when the
sequence starts, if one is. -/
def materialTableAtDraws {α : Type} (current : Option DescriptorArray) :
    List (Cmd α) → List (Option DescriptorArray)
  | [] => []
  | .SetDynamicDescriptors _ _ _ (.GetSRVs ref materialIndex) :: rest =>
    materialTableAtDraws (some (.GetSRVs ref materialIndex)) rest
  | .SetDescriptorTable _ (.GetSRVs ref materialIndex) :: rest =>
    materialTableAtDraws (some (.GetSRVs ref materialIndex)) rest
  | .DrawIndexed _ _ _ :: rest => current :: materialTableAtDraws current rest
  | _ :: rest => materialTableAtDraws current rest

/-- Naive rebinding, in the words of the spec: the material table of every
submesh is bound before the submesh is drawn. -/
def drawRebinding {α : Type} (bind : Nat → Cmd α) (draw : Mesh → Cmd α) (meshes : List Mesh) :
    List (Cmd α) :=
  meshes.flatMap (fun mesh => [bind mesh.materialIndex, draw mesh])

/-! ## The pipeline in use at a draw -/

/-- The indexed draws of a sequence of calls, each with the pipeline that is
selected and the batch whose index buffer is bound when the draw is issued. -/
def pipelineAtDraws {α : Type} (pso : Option PSO) (batch : Option ModelRef) :
    List (Cmd α) → List (Option PSO × Option ModelRef × Cmd α)
  | [] => []
  | .SetPipelineState p :: rest => pipelineAtDraws (some p) batch rest
  | .SetIndexBuffer ref _ :: rest => pipelineAtDraws pso (some ref) rest
  | .DrawIndexed indexCount startIndex baseVertex :: rest =>
    (pso, batch, .DrawIndexed indexCount startIndex baseVertex) ::
      pipelineAtDraws pso batch rest
  | _ :: rest => pipelineAtDraws pso batch rest

/-! ## What the two renderers have in common -/

/-- A check made along a command stream: what is known at a point of the
stream (a value of `σ`), how a recorded call changes it, and the condition a
call has to meet where it stands. -/
structure Monitor (α σ : Type) where
  step : σ → Cmd α → σ
  ok : σ → Cmd α → Bool

/-- What is known after a sequence of calls. -/
def Monitor.after {α σ : Type} (m : Monitor α σ) (s : σ) (cmds : List (Cmd α)) : σ :=
  cmds.foldl m.step s

/-- Every call of a sequence meets the condition where it stands. -/
def Monitor.accepts {α σ : Type} (m : Monitor α σ) : σ → List (Cmd α) → Bool
  | _, [] => true
  | s, c :: rest => m.ok s c && m.accepts (m.step s c) rest

/-- The calls of a trace meet the condition from a point on, and if the trace
runs to its end a property holds of what is known after it. -/
def Monitor.safe {α σ : Type} (m : Monitor α σ) (s : σ) (t : Trace α) (K : σ → Prop) : Prop :=
  m.accepts s t.cmds = true ∧ (t.failure = none → K (m.after s t.cmds))

/-! ## Bindings against the binding layout -/

/-- The root index a binding call binds to. -/
def Cmd.rootIndex? {α : Type} : Cmd α → Option Nat
  | .SetDynamicConstantBufferView rootIndex _ => some rootIndex
  | .SetConstantBuffer rootIndex _ => some rootIndex
  | .SetBufferUAV rootIndex _ => some rootIndex
  | .SetDynamicDescriptors rootIndex _ _ _ => some rootIndex
  | .SetDynamicDescriptor rootIndex _ _ => some rootIndex
  | .SetDescriptorTable rootIndex _ => some rootIndex
  | .SetConstants rootIndex _ => some rootIndex
  | _ => none

/-- The descriptors a call binds into a table: the root index of the table,
the offset of the first one and their number. `SetDynamicDescriptors` is handed
the three; `SetDynamicDescriptor` binds one descriptor; binding the table
`s_lightingDescriptorTable` of `MyRenderer` binds its descriptors from offset
0. (The size of a material table handed to `SetDescriptorTable` is not in the
sources.) -/
def Cmd.descriptorSpan? {α : Type} : Cmd α → Option (Nat × Nat × Nat)
  | .SetDynamicDescriptors rootIndex offset count _ => some (rootIndex, offset, count)
  | .SetDynamicDescriptor rootIndex offset _ => some (rootIndex, offset, 1)
  | .SetDescriptorTable rootIndex .s_lightingDescriptorTable =>
    some (rootIndex, 0, MyRenderer.s_lightingDescriptorTable.length)
  | _ => none

/-- The size of the descriptor range a root parameter declares, if it is
one. -/
def RootParameter.rangeSize? : RootParameter → Option Nat
  | .InitAsDescriptorRange _ count _ => some count
  | _ => none

/-- A call stays inside a binding layout, given by its root parameters: the
root index it binds to is one of the layout, and the descriptors it binds lie
in the descriptor range declared at that index. -/
def Cmd.withinLayout {α : Type} (params : List RootParameter) (c : Cmd α) : Bool :=
  (match c.rootIndex? with
   | some rootIndex => decide (rootIndex < params.length)
   | none => true) &&
  (match c.descriptorSpan? with
   | some (rootIndex, offset, count) =>
     (match (params[rootIndex]?).bind RootParameter.rangeSize? with
      | some size => decide (offset + count ≤ size)
      | none => false)
   | none => true)

/-- The check of the bindings against the binding layouts: what is known is
the root signature bound last; a call has to stay inside its layout, and
without a root signature nothing can be bound. -/
def layoutMonitor {α : Type} (layout : RootSig → List RootParameter) :
    Monitor α (Option RootSig) :=
  { step := fun current c =>
      match c.rootSignature? with
      | some s => some s
      | none => current
    ok := fun current c =>
      match current with
      | some s => c.withinLayout (layout s)
      | none => c.rootIndex?.isNone }

/-! ## Split transitions -/

/-- The resources a call binds: as colour or depth target, as constant buffer,
as unordered-access buffer, or through the descriptors of an array. (The
material tables hold textures of the model, none of the eight resources.) -/
def Cmd.binds {α : Type} : Cmd α → List Resource
  | .SetRenderTargets rtvs dsv => rtvs.map Descriptor.resource ++ [dsv.resource]
  | .SetRenderTarget rtv dsv => [rtv.resource, dsv.resource]
  | .SetDepthStencilTarget dsv => [dsv.resource]
  | .SetConstantBuffer _ r => [r]
  | .SetBufferUAV _ r => [r]
  | .SetDynamicDescriptors _ _ _ (.handles hs) => hs.map Descriptor.resource
  | .SetDynamicDescriptor _ _ h => [h.resource]
  | .SetDescriptorTable _ .s_lightingDescriptorTable =>
    MyRenderer.s_lightingDescriptorTable.map Descriptor.resource
  | _ => []

/-- The resources a call binds, clears, writes or reads where it stands (a
clear is among the writes). -/
def Cmd.uses {α : Type} (s : Tracked) (c : Cmd α) : List Resource :=
  c.binds ++ c.writes s ++ c.reads s

/-- What is known about split transitions at a point of the command stream:
what is tracked there, and the transitions begun in the frame and not yet
completed, each as its resource and target state. -/
structure SplitTracked where
  tracked : Tracked
  pending : List (Resource × ResourceState)

/-- The start of a frame: no transition begun. -/
def SplitTracked.init (b : Buffers) : SplitTracked :=
  { tracked := Tracked.init b, pending := [] }

/-- A `BeginResourceTransition` begins a transition; a `TransitionResource` of
the same resource to the same state completes it. -/
def SplitTracked.step {α : Type} (s : SplitTracked) (c : Cmd α) : SplitTracked :=
  { tracked := s.tracked.step c
    pending :=
      match c with
      | .BeginResourceTransition r newState => (r, newState) :: s.pending
      | .TransitionResource r newState _ => s.pending.filter (fun e => e != (r, newState))
      | _ => s.pending }

/-- The check of the split transitions: a call uses no resource whose
transition has begun and is not completed. -/
def splitMonitor {α : Type} : Monitor α SplitTracked :=
  { step := SplitTracked.step
    ok := fun s c => (c.uses s.tracked).all (fun r => s.pending.all (fun e => e.1 != r)) }

/-- The split transitions `Render` begins: the four RSM targets toward the
state read by the compute shaders, the shadow map toward the state read by the
pixel shaders. -/
def SPLIT_TRANSITIONS : List (Resource × ResourceState) :=
  [(.s_rsmDepthBuffer, .NON_PIXEL_SHADER_RESOURCE), (.s_rsmNormalBuffer, .NON_PIXEL_SHADER_RESOURCE),
   (.s_rsmDiffuseBuffer, .NON_PIXEL_SHADER_RESOURCE),
   (.s_rsmSpecularBuffer, .NON_PIXEL_SHADER_RESOURCE), (.s_shadowMap, .PIXEL_SHADER_RESOURCE)]

/-- A call begins no transition but one of those listed. -/
def Cmd.beginsOnly {α : Type} (allowed : List (Resource × ResourceState)) : Cmd α → Bool
  | .BeginResourceTransition r newState => allowed.contains (r, newState)
  | _ => true

/-- The resource and the target state of a `TransitionResource` call. -/
def Cmd.transitionResource? {α : Type} : Cmd α → Option (Resource × ResourceState)
  | .TransitionResource r newState _ => some (r, newState)
  | _ => none

/-! ## Basic facts about traces -/

section TraceLemmas

variable {α : Type}

@[simp] theorem PixelBuffer_Create_GetWidth (w h : Nat) :
    (PixelBuffer.Create w h).GetWidth = w := rfl

@[simp] theorem PixelBuffer_Create_GetHeight (w h : Nat) :
    (PixelBuffer.Create w h).GetHeight = h := rfl

@[simp] theorem Trace.seq_completed (l : List (Cmd α)) (t : Trace α) :
    Trace.seq ⟨l, none⟩ t = ⟨l ++ t.cmds, t.failure⟩ := rfl

@[simp] theorem Trace.seq_aborted (l : List (Cmd α)) (f : Failure) (t : Trace α) :
    Trace.seq ⟨l, some f⟩ t = ⟨l, some f⟩ := rfl

@[simp] theorem Trace.assert_true (f : Failure) :
    (Trace.assert true f : Trace α) = ⟨[], none⟩ := rfl

@[simp] theorem Trace.assert_false (f : Failure) :
    (Trace.assert false f : Trace α) = ⟨[], some f⟩ := rfl

theorem Renderer_Draw_loop_of_passes (ref : ModelRef) (stride srv : Nat) (meshes : List Mesh)
    (mi : Nat) (h : meshes.all (Mesh.passesDraw stride) = true) :
    (Renderer.Draw.loop ref stride srv meshes mi : Trace α) =
      ⟨drawCmds (Renderer.bindCall ref srv) (Mesh.drawCall stride) meshes mi, none⟩ := by
  induction meshes generalizing mi with
  | nil => rfl
  | cons mesh rest ih =>
    simp only [List.all_cons, Bool.and_eq_true, Mesh.passesDraw] at h
    obtain ⟨⟨⟨⟨h1, h2⟩, h3⟩, h4⟩, hrest⟩ := h
    simp only [Renderer.Draw.loop, Trace.block, h1, h2, h3, h4, Trace.assert_true,
      Trace.seq_completed, List.nil_append, drawCmds]
    by_cases hm : mi = mesh.materialIndex
    · simp [hm, ih _ hrest, Trace.skip, Trace.call, Mesh.drawCall]
    · simp [hm, ih _ hrest, Trace.skip, Trace.call, Mesh.drawCall, Renderer.bindCall]

theorem MyRenderer_Draw_loop_of_passes (ref : ModelRef) (stride : Nat) (meshes : List Mesh)
    (mi : Nat) (h : meshes.all (Mesh.passesDraw stride) = true) :
    (MyRenderer.Draw.loop ref stride meshes mi : Trace α) =
      ⟨drawCmds (MyRenderer.bindCall ref) (Mesh.drawCall stride) meshes mi, none⟩ := by
  induction meshes generalizing mi with
  | nil => rfl
  | cons mesh rest ih =>
    simp only [List.all_cons, Bool.and_eq_true, Mesh.passesDraw] at h
    obtain ⟨⟨⟨⟨h1, h2⟩, h3⟩, h4⟩, hrest⟩ := h
    simp only [MyRenderer.Draw.loop, Trace.block, h1, h2, h3, h4, Trace.assert_true,
      Trace.seq_completed, List.nil_append, drawCmds]
    by_cases hm : mi = mesh.materialIndex
    · simp [hm, ih _ hrest, Trace.skip, Trace.call, Mesh.drawCall]
    · have hm2 : ¬ mesh.materialIndex = mi := fun e => hm e.symm
      simp [hm, hm2, ih _ hrest, Trace.skip, Trace.call, Mesh.drawCall, MyRenderer.bindCall]

theorem Renderer_DrawDepth_loop_of_passes (stride : Nat) (meshes : List Mesh)
    (h : meshes.all (Mesh.passesDrawDepth stride) = true) :
    (Renderer.DrawDepth.loop stride meshes : Trace α) =
      ⟨meshes.map (Mesh.drawCallDepth stride), none⟩ := by
  induction meshes with
  | nil => rfl
  | cons mesh rest ih =>
    simp only [List.all_cons, Bool.and_eq_true, Mesh.passesDrawDepth] at h
    obtain ⟨⟨⟨⟨h1, h2⟩, h3⟩, h4⟩, hrest⟩ := h
    simp [Renderer.DrawDepth.loop, Trace.block, h1, h2, h3, h4, ih hrest, Trace.skip, Trace.call,
      Mesh.drawCallDepth]

theorem MyRenderer_DrawDepth_loop_of_passes (stride : Nat) (meshes : List Mesh)
    (h : meshes.all (Mesh.passesDraw stride) = true) :
    (MyRenderer.DrawDepth.loop stride meshes : Trace α) =
      ⟨meshes.map (Mesh.drawCall stride), none⟩ := by
  induction meshes with
  | nil => rfl
  | cons mesh rest ih =>
    simp only [List.all_cons, Bool.and_eq_true, Mesh.passesDraw] at h
    obtain ⟨⟨⟨⟨h1, h2⟩, h3⟩, h4⟩, hrest⟩ := h
    simp [MyRenderer.DrawDepth.loop, Trace.block, h1, h2, h3, h4, ih hrest, Trace.skip, Trace.call,
      Mesh.drawCall]

/-- What `Renderer::Draw` records when every mesh passes its checks. -/
theorem Renderer_Draw_of_passes (ref : ModelRef) (model : Model) (srv : Nat)
    (h : model.passesDraw = true) :
    (Renderer.Draw ref model srv : Trace α) =
      ⟨.SetIndexBuffer ref false :: .SetVertexBuffer 0 ref false ::
        drawCmds (Renderer.bindCall ref srv) (Mesh.drawCall model.m_VertexStride)
          model.m_pMesh UINT32_MAX, none⟩ := by
  simp [Renderer.Draw, Trace.block, Trace.call, Trace.skip,
    Renderer_Draw_loop_of_passes ref _ srv _ _ h]

/-- What `MyRenderer::Draw` records when every mesh passes its checks. -/
theorem MyRenderer_Draw_of_passes (ref : ModelRef) (model : Model)
    (h : model.passesDraw = true) :
    (MyRenderer.Draw ref model : Trace α) =
      ⟨.SetIndexBuffer ref false :: .SetVertexBuffer 0 ref false ::
        drawCmds (MyRenderer.bindCall ref) (Mesh.drawCall model.m_VertexStride)
          model.m_pMesh UINT32_MAX, none⟩ := by
  simp [MyRenderer.Draw, Trace.block, Trace.call, Trace.skip,
    MyRenderer_Draw_loop_of_passes ref _ _ _ h]

/-- What `Renderer::DrawDepth` records when every mesh passes its checks. -/
theorem Renderer_DrawDepth_of_passes (ref : ModelRef) (model : Model)
    (h : model.passesDrawDepth = true) :
    (Renderer.DrawDepth ref model : Trace α) =
      ⟨.SetIndexBuffer ref true :: .SetVertexBuffer 0 ref true ::
        model.m_pMesh.map (Mesh.drawCallDepth model.m_VertexStrideDepth), none⟩ := by
  simp [Renderer.DrawDepth, Trace.block, Trace.call, Trace.skip,
    Renderer_DrawDepth_loop_of_passes _ _ h]

/-- What `MyRenderer::DrawDepth` records when every mesh passes its checks. -/
theorem MyRenderer_DrawDepth_of_passes (ref : ModelRef) (model : Model)
    (h : model.passesDraw = true) :
    (MyRenderer.DrawDepth ref model : Trace α) =
      ⟨.SetIndexBuffer ref false :: .SetVertexBuffer 0 ref false ::
        model.m_pMesh.map (Mesh.drawCall model.m_VertexStride), none⟩ := by
  simp [MyRenderer.DrawDepth, Trace.block, Trace.call, Trace.skip,
    MyRenderer_DrawDepth_loop_of_passes _ _ h]

/-- Filtering what the loop of `Draw` records by a property that no bind has
and every draw has leaves the draws. -/
theorem filter_drawCmds_draws (p : Cmd α → Bool) (bind : Nat → Cmd α) (draw : Mesh → Cmd α)
    (hb : ∀ i, p (bind i) = false) (hd : ∀ m, p (draw m) = true) (meshes : List Mesh) (mi : Nat) :
    (drawCmds bind draw meshes mi).filter p = meshes.map draw := by
  induction meshes generalizing mi with
  | nil => rfl
  | cons mesh rest ih =>
    by_cases hm : mi = mesh.materialIndex <;> simp [drawCmds, hm, hb, hd, ih]

/-- Filtering what the loop of `Draw` records by a property that neither a
bind nor a draw has leaves nothing. -/
theorem filter_drawCmds_none (p : Cmd α → Bool) (bind : Nat → Cmd α) (draw : Mesh → Cmd α)
    (hb : ∀ i, p (bind i) = false) (hd : ∀ m, p (draw m) = false) (meshes : List Mesh) (mi : Nat) :
    (drawCmds bind draw meshes mi).filter p = [] := by
  induction meshes generalizing mi with
  | nil => rfl
  | cons mesh rest ih =>
    by_cases hm : mi = mesh.materialIndex <;> simp [drawCmds, hm, hb, hd, ih]

/-- Filtering a list of calls made from meshes by a property none of them has. -/
theorem filter_map_calls_none (p : Cmd α → Bool) (f : Mesh → Cmd α)
    (h : ∀ m, p (f m) = false) (meshes : List Mesh) : (meshes.map f).filter p = [] := by
  induction meshes with
  | nil => rfl
  | cons mesh rest ih => simp [h, ih]

/-- Filtering a list of calls made from meshes by a property all of them have. -/
theorem filter_map_calls_all (p : Cmd α → Bool) (f : Mesh → Cmd α)
    (h : ∀ m, p (f m) = true) (meshes : List Mesh) : (meshes.map f).filter p = meshes.map f := by
  induction meshes with
  | nil => rfl
  | cons mesh rest ih => simp [h, ih]

@[simp] theorem isMarker_drawCall (s : Nat) (m : Mesh) :
    Cmd.isMarker (Mesh.drawCall s m : Cmd α) = false := rfl

@[simp] theorem isMarker_drawCallDepth (s : Nat) (m : Mesh) :
    Cmd.isMarker (Mesh.drawCallDepth s m : Cmd α) = false := rfl

@[simp] theorem isMarker_Renderer_bindCall (ref : ModelRef) (srv i : Nat) :
    Cmd.isMarker (Renderer.bindCall ref srv i : Cmd α) = false := rfl

@[simp] theorem isMarker_MyRenderer_bindCall (ref : ModelRef) (i : Nat) :
    Cmd.isMarker (MyRenderer.bindCall ref i : Cmd α) = false := rfl

@[simp] theorem isOutline_drawCall (s : Nat) (m : Mesh) :
    Cmd.isOutline (Mesh.drawCall s m : Cmd α) = true := rfl

@[simp] theorem isOutline_drawCallDepth (s : Nat) (m : Mesh) :
    Cmd.isOutline (Mesh.drawCallDepth s m : Cmd α) = true := rfl

@[simp] theorem isOutline_Renderer_bindCall (ref : ModelRef) (srv i : Nat) :
    Cmd.isOutline (Renderer.bindCall ref srv i : Cmd α) = false := rfl

@[simp] theorem isOutline_MyRenderer_bindCall (ref : ModelRef) (i : Nat) :
    Cmd.isOutline (MyRenderer.bindCall ref i : Cmd α) = false := rfl

@[simp] theorem isMaterialBind_drawCall (s : Nat) (m : Mesh) :
    Cmd.isMaterialBind (Mesh.drawCall s m : Cmd α) = false := rfl

@[simp] theorem isMaterialBind_Renderer_bindCall (ref : ModelRef) (srv i : Nat) :
    Cmd.isMaterialBind (Renderer.bindCall ref srv i : Cmd α) = true := rfl

@[simp] theorem isMaterialBind_MyRenderer_bindCall (ref : ModelRef) (i : Nat) :
    Cmd.isMaterialBind (MyRenderer.bindCall ref i : Cmd α) = true := rfl

end TraceLemmas

/-! ## C1: pass order -/

/-- C1, the claim as stated fails: on a scene whose first batch holds a mesh
with four indices, both renderers abort inside ReflectiveShadowMapPass, at the
first assertion of `Draw`; the only marker recorded is the opening of that
pass, so the other four passes are not in the command stream. -/
theorem C1_counterexample_abort_in_first_pass :
    ((Renderer.Render mathQ (Renderer.Create hdBuffer hdBuffer) sceneFourIndices false).failure =
        some .indexCountNotTriangles ∧
      (Renderer.Render mathQ (Renderer.Create hdBuffer hdBuffer) sceneFourIndices false).cmds.filter
        Cmd.isMarker = [.BeginBlock .ReflectiveShadowMapPass] ∧
      (Renderer.Render mathQ (Renderer.Create hdBuffer hdBuffer) sceneFourIndices false).cmds.filter
        Cmd.isMarker ≠ frameMarkers) ∧
    ((MyRenderer.Render mathQ (MyRenderer.Initialize hdBuffer hdBuffer) sceneFourIndices).failure =
        some .indexCountNotTriangles ∧
      (MyRenderer.Render mathQ (MyRenderer.Initialize hdBuffer hdBuffer) sceneFourIndices).cmds.filter
        Cmd.isMarker = [.BeginBlock .ReflectiveShadowMapPass] ∧
      (MyRenderer.Render mathQ (MyRenderer.Initialize hdBuffer hdBuffer) sceneFourIndices).cmds.filter
        Cmd.isMarker ≠ frameMarkers) := by
  decide

set_option maxRecDepth 8000 in
/-- C1, amended: for every scene on which no check of the draw routines fails
(any first batch, any cutout batch including an empty one, any value of the HSG
toggle), the frame runs to its end, its command stream starts with the eight
transitions and six clears of the resource initialisation, and its pass markers
are those of the five passes, each once, in the order ReflectiveShadowMapPass,
ShadowMapPass, VSGLGenerationPass, DepthPass, LightingPass. Stated for
`Renderer::Render` (first scene) and `MyRenderer::Render` (second scene). -/
theorem C1_pass_order_when_checks_pass {α : Type}
    [Mul α] [Div α] [NatCast α] [OfNat α 2] (math : MathLib α)
    (sd sc : PixelBuffer) (sceneR sceneM : Scene α) (hsg : Bool)
    (hR : Renderer.checksPass sceneR = true) (hM : MyRenderer.checksPass sceneM = true) :
    ((Renderer.Render math (Renderer.Create sd sc) sceneR hsg).failure = none ∧
      [Cmd.TransitionResource .s_rsmDepthBuffer .DEPTH_WRITE false,
       .TransitionResource .s_rsmNormalBuffer .RENDER_TARGET false,
       .TransitionResource .s_rsmDiffuseBuffer .RENDER_TARGET false,
       .TransitionResource .s_rsmSpecularBuffer .RENDER_TARGET false,
       .TransitionResource .s_shadowMap .DEPTH_WRITE false,
       .TransitionResource .s_sgLightBuffer .UNORDERED_ACCESS false,
       .TransitionResource .g_SceneDepthBuffer .DEPTH_WRITE false,
       .TransitionResource .g_SceneColorBuffer .RENDER_TARGET true,
       .ClearDepth .s_rsmDepthBuffer,
       .ClearColor .s_rsmDiffuseBuffer,
       .ClearColor .s_rsmSpecularBuffer,
       .ClearDepth .s_shadowMap,
       .ClearDepth .g_SceneDepthBuffer,
       .ClearColor .g_SceneColorBuffer] <+:
        (Renderer.Render math (Renderer.Create sd sc) sceneR hsg).cmds ∧
      (Renderer.Render math (Renderer.Create sd sc) sceneR hsg).cmds.filter Cmd.isMarker =
        frameMarkers) ∧
    ((MyRenderer.Render math (MyRenderer.Initialize sd sc) sceneM).failure = none ∧
      [Cmd.TransitionResource .s_rsmDepthBuffer .DEPTH_WRITE false,
       .TransitionResource .s_rsmNormalBuffer .RENDER_TARGET false,
       .TransitionResource .s_rsmDiffuseBuffer .RENDER_TARGET false,
       .TransitionResource .s_rsmSpecularBuffer .RENDER_TARGET false,
       .TransitionResource .s_shadowMap .DEPTH_WRITE false,
       .TransitionResource .s_sgLightBuffer .UNORDERED_ACCESS false,
       .TransitionResource .g_SceneDepthBuffer .DEPTH_WRITE false,
       .TransitionResource .g_SceneColorBuffer .RENDER_TARGET false,
       .ClearDepth .s_rsmDepthBuffer,
       .ClearColor .s_rsmDiffuseBuffer,
       .ClearColor .s_rsmSpecularBuffer,
       .ClearDepth .s_shadowMap,
       .ClearDepth .g_SceneDepthBuffer,
       .ClearColor .g_SceneColorBuffer] <+:
        (MyRenderer.Render math (MyRenderer.Initialize sd sc) sceneM).cmds ∧
      (MyRenderer.Render math (MyRenderer.Initialize sd sc) sceneM).cmds.filter Cmd.isMarker =
        frameMarkers) := by
  simp only [Renderer.checksPass, Bool.and_eq_true] at hR
  obtain ⟨⟨h1, h2⟩, h3⟩ := hR
  simp only [MyRenderer.checksPass, Bool.and_eq_true] at hM
  obtain ⟨h4, h5⟩ := hM
  constructor
  · by_cases hc : sceneR.m_modelCutout.meshCount > 0 <;>
    simp [Renderer.Render, Renderer.ResourceInit, Renderer.ReflectiveShadowMapPass,
      Renderer.ShadowMapPass, Renderer.VSGLGenerationPass, Renderer.DepthPass,
      Renderer.LightingPass, Renderer.Create, Trace.block, Trace.ScopedTimer, Trace.call,
      Trace.skip, Renderer_Draw_of_passes, Renderer_DrawDepth_of_passes, h1, h2, h3, hc,
      List.filter_cons, List.filter_append, filter_drawCmds_none,
      filter_map_calls_none, RSM_WIDTH, frameMarkers] <;> simp [Cmd.isMarker]
  · by_cases hc : sceneM.m_modelCutout.meshCount > 0 <;>
    simp [MyRenderer.Render, MyRenderer.ResourceInit, MyRenderer.ReflectiveShadowMapPass,
      MyRenderer.ShadowMapPass, MyRenderer.VSGLGenerationPass, MyRenderer.DepthPass,
      MyRenderer.LightingPass, MyRenderer.Initialize, Trace.block, Trace.ScopedTimer, Trace.call,
      Trace.skip, MyRenderer_Draw_of_passes, MyRenderer_DrawDepth_of_passes, h4, h5, hc,
      List.filter_cons, List.filter_append, filter_drawCmds_none,
      filter_map_calls_none, RSM_WIDTH, frameMarkers] <;> simp [Cmd.isMarker]

/-- C1, witness: the scene `sceneGood` passes the checks of both renderers, and
its frame has the markers of the five passes in order. -/
theorem C1_witness_sceneGood :
    Renderer.checksPass sceneGood = true ∧ MyRenderer.checksPass sceneGood = true ∧
    (Renderer.Render mathQ (Renderer.Create hdBuffer hdBuffer) sceneGood true).cmds.filter
      Cmd.isMarker = frameMarkers ∧
    (MyRenderer.Render mathQ (MyRenderer.Initialize hdBuffer hdBuffer) sceneGood).cmds.filter
      Cmd.isMarker = frameMarkers :=
  ⟨by decide, by decide,
    (C1_pass_order_when_checks_pass mathQ hdBuffer hdBuffer sceneGood sceneGood true
      (by decide) (by decide)).1.2.2,
    (C1_pass_order_when_checks_pass mathQ hdBuffer hdBuffer sceneGood sceneGood true
      (by decide) (by decide)).2.2.2⟩

/-! ## C2: one bind per material run -/

section MaterialRuns

variable {α : Type}

theorem splitBy_loop_acc {β : Type} (r : β → β → Bool) (l : List β) (a : β) (g : List β)
    (gs : List (List β)) :
    List.splitBy.loop r l a g gs = gs.reverse ++ List.splitBy.loop r l a g [] := by
  induction l generalizing a g gs with
  | nil => simp [List.splitBy.loop]
  | cons b l ih =>
    cases hr : r a b
    · simp only [List.splitBy.loop, hr]
      rw [ih b [] ((a :: g).reverse :: gs), ih b [] [(a :: g).reverse]]
      simp
    · simp only [List.splitBy.loop, hr]
      exact ih b (a :: g) gs

theorem drawRun_of_same_material (bind : Nat → Cmd α) (draw : Mesh → Cmd α) (i : Nat)
    (l : List Mesh) (hne : l ≠ []) (h : ∀ x ∈ l, x.materialIndex = i) :
    drawRun bind draw l = bind i :: l.map draw := by
  cases l with
  | nil => exact absurd rfl hne
  | cons m rest => simp [drawRun, h m (List.mem_cons_self m rest)]

theorem flatMap_drawRun_loop (bind : Nat → Cmd α) (draw : Mesh → Cmd α) (l : List Mesh)
    (a : Mesh) (g : List Mesh) (hg : ∀ x ∈ g, x.materialIndex = a.materialIndex) :
    (List.splitBy.loop (fun a b : Mesh => a.materialIndex == b.materialIndex) l a g []).flatMap
        (drawRun bind draw) =
      bind a.materialIndex ::
        (g.reverse.map draw ++ draw a :: drawCmds bind draw l a.materialIndex) := by
  induction l generalizing a g with
  | nil =>
    have hall : ∀ x ∈ (a :: g).reverse, x.materialIndex = a.materialIndex := by
      intro x hx
      rcases List.mem_cons.mp (List.mem_reverse.mp hx) with rfl | hx
      · rfl
      · exact hg x hx
    have e := drawRun_of_same_material bind draw a.materialIndex (g.reverse ++ [a]) (by simp)
      (by simpa using hall)
    simp [List.splitBy.loop, drawCmds, e]
  | cons b l ih =>
    by_cases hab : a.materialIndex = b.materialIndex
    · have hg2 : ∀ x ∈ a :: g, x.materialIndex = b.materialIndex := by
        intro x hx
        rcases List.mem_cons.mp hx with rfl | hx
        · exact hab
        · exact (hg x hx).trans hab
      simp [List.splitBy.loop, hab, ih b (a :: g) hg2, drawCmds]
    · have hall : ∀ x ∈ (a :: g).reverse, x.materialIndex = a.materialIndex := by
        intro x hx
        rcases List.mem_cons.mp (List.mem_reverse.mp hx) with rfl | hx
        · rfl
        · exact hg x hx
      have e := drawRun_of_same_material bind draw a.materialIndex (g.reverse ++ [a]) (by simp)
        (by simpa using hall)
      have hb : (a.materialIndex == b.materialIndex) = false := by simp [hab]
      simp only [List.splitBy.loop, hb]
      rw [splitBy_loop_acc]
      simp [ih b [] (by simp), drawCmds, hab, e]

theorem drawCmds_eq_drawByRuns (bind : Nat → Cmd α) (draw : Mesh → Cmd α) (meshes : List Mesh)
    (mi : Nat) (h : ∀ m, meshes.head? = some m → m.materialIndex ≠ mi) :
    drawCmds bind draw meshes mi = drawByRuns bind draw meshes := by
  cases meshes with
  | nil => rfl
  | cons a l =>
    have hne : ¬ mi = a.materialIndex := fun e => h a rfl e.symm
    simp [drawCmds, drawByRuns, materialRuns, List.splitBy, hne,
      flatMap_drawRun_loop bind draw l a [] (by simp)]

theorem countP_flatMap_drawRun (p : Cmd α → Bool) (bind : Nat → Cmd α) (draw : Mesh → Cmd α)
    (hb : ∀ i, p (bind i) = true) (hd : ∀ m, p (draw m) = false) (runs : List (List Mesh))
    (hne : [] ∉ runs) :
    (runs.flatMap (drawRun bind draw)).countP p = runs.length := by
  induction runs with
  | nil => rfl
  | cons run rest ih =>
    have hrest : [] ∉ rest := fun hm => hne (List.mem_cons_of_mem _ hm)
    cases run with
    | nil => exact absurd (List.mem_cons_self _ _) hne
    | cons m tl =>
      have htl : List.countP p (tl.map draw) = 0 := by
        rw [List.countP_eq_zero]
        intro x hx
        obtain ⟨y, _, rfl⟩ := List.mem_map.mp hx
        simp [hd]
      simp [List.flatMap_cons, drawRun, List.countP_cons, hb, hd, htl, ih hrest]
end MaterialRuns

/-- C2, the claim as stated fails. (1) A batch whose only mesh carries the
material index `0xFFFFFFFF`: both `Draw` routines run to the end and issue no
material bind at all, though the batch has one run. (2) A batch of two runs
whose second mesh fails an assertion: one bind is issued, not two. -/
theorem C2_counterexample_sentinel_first :
    ((Renderer.Draw .m_model modelSentinel MODEL_SRV_COUNT : Trace ℚ).failure = none ∧
      (Renderer.Draw .m_model modelSentinel MODEL_SRV_COUNT : Trace ℚ).cmds.countP
        Cmd.isMaterialBind = 0 ∧
      (MyRenderer.Draw .m_model modelSentinel : Trace ℚ).failure = none ∧
      (MyRenderer.Draw .m_model modelSentinel : Trace ℚ).cmds.countP Cmd.isMaterialBind = 0 ∧
      (materialRuns modelSentinel.m_pMesh).length = 1) ∧
    ((Renderer.Draw .m_model modelSecondFails MODEL_SRV_COUNT : Trace ℚ).cmds.countP
        Cmd.isMaterialBind = 1 ∧
      (MyRenderer.Draw .m_model modelSecondFails : Trace ℚ).cmds.countP Cmd.isMaterialBind = 1 ∧
      (materialRuns modelSecondFails.m_pMesh).length = 2) := by
  decide

/-- C2, amended: for every batch whose meshes all pass the checks of `Draw` and
whose first mesh does not carry the material index `0xFFFFFFFF`, one call of
`Draw` records, after binding the index and vertex buffer, exactly what the
batching rule prescribes: run after run of the maximal contiguous runs of
meshes sharing a material index, one bind of the material table of the run,
then the draws of its meshes in order; and the number of bind calls is the
number of runs. Stated for `Renderer::Draw` and `MyRenderer::Draw`. -/
theorem C2_one_bind_per_material_run {α : Type} (ref : ModelRef) (model : Model)
    (srvCount : Nat) (hchecks : model.passesDraw = true)
    (hfirst : ∀ m, model.m_pMesh.head? = some m → m.materialIndex ≠ UINT32_MAX) :
    ((Renderer.Draw ref model srvCount : Trace α) =
        ⟨.SetIndexBuffer ref false :: .SetVertexBuffer 0 ref false ::
          drawByRuns
            (fun i => .SetDynamicDescriptors Renderer.ROOT_INDEX_PS_SRV 0 srvCount (.GetSRVs ref i))
            (fun mesh => .DrawIndexed mesh.indexCount (mesh.indexDataByteOffset / 2)
              (mesh.vertexDataByteOffset / model.m_VertexStride))
            model.m_pMesh, none⟩ ∧
      (Renderer.Draw ref model srvCount : Trace α).cmds.countP Cmd.isMaterialBind =
        (materialRuns model.m_pMesh).length) ∧
    ((MyRenderer.Draw ref model : Trace α) =
        ⟨.SetIndexBuffer ref false :: .SetVertexBuffer 0 ref false ::
          drawByRuns
            (fun i => .SetDescriptorTable MyRenderer.ROOT_INDEX_PS_SRV0 (.GetSRVs ref i))
            (fun mesh => .DrawIndexed mesh.indexCount (mesh.indexDataByteOffset / 2)
              (mesh.vertexDataByteOffset / model.m_VertexStride))
            model.m_pMesh, none⟩ ∧
      (MyRenderer.Draw ref model : Trace α).cmds.countP Cmd.isMaterialBind =
        (materialRuns model.m_pMesh).length) := by
  have hruns : [] ∉ materialRuns model.m_pMesh := List.nil_not_mem_splitBy _ _
  constructor
  · rw [Renderer_Draw_of_passes ref model srvCount hchecks,
      drawCmds_eq_drawByRuns _ _ _ _ hfirst]
    refine ⟨rfl, ?_⟩
    have hcount := countP_flatMap_drawRun (α := α) Cmd.isMaterialBind
      (Renderer.bindCall ref srvCount) (Mesh.drawCall model.m_VertexStride)
      (fun _ => rfl) (fun _ => rfl) _ hruns
    simpa [drawByRuns, List.countP_cons, Cmd.isMaterialBind] using hcount
  · rw [MyRenderer_Draw_of_passes ref model hchecks, drawCmds_eq_drawByRuns _ _ _ _ hfirst]
    refine ⟨rfl, ?_⟩
    have hcount := countP_flatMap_drawRun (α := α) Cmd.isMaterialBind
      (MyRenderer.bindCall ref) (Mesh.drawCall model.m_VertexStride)
      (fun _ => rfl) (fun _ => rfl) _ hruns
    simpa [drawByRuns, List.countP_cons, Cmd.isMaterialBind] using hcount

/-- C2, witness: the batch `modelThree` (material indices 7, 7, 9) passes the
checks, does not start with `0xFFFFFFFF`, has two runs, and `Draw` binds twice. -/
theorem C2_witness_modelThree :
    modelThree.passesDraw = true ∧ (materialRuns modelThree.m_pMesh).length = 2 ∧
    (Renderer.Draw .m_model modelThree MODEL_SRV_COUNT : Trace ℚ).cmds.countP
      Cmd.isMaterialBind = (materialRuns modelThree.m_pMesh).length ∧
    (MyRenderer.Draw .m_model modelThree : Trace ℚ).cmds.countP Cmd.isMaterialBind =
      (materialRuns modelThree.m_pMesh).length :=
  ⟨by decide, by decide,
    (C2_one_bind_per_material_run .m_model modelThree MODEL_SRV_COUNT (by decide)
      (by decide)).1.2,
    (C2_one_bind_per_material_run .m_model modelThree MODEL_SRV_COUNT (by decide)
      (by decide)).2.2⟩

/-! ## C3: empty cutout batch -/

section EmptyCutout

variable {α : Type}

theorem all_cmds_seq (p : Cmd α → Bool) (a b : Trace α) (ha : a.cmds.all p = true)
    (hb : b.cmds.all p = true) : (Trace.seq a b).cmds.all p = true := by
  unfold Trace.seq
  cases h : a.failure with
  | some f => simpa using ha
  | none => simp only [List.all_append, ha, hb, Bool.and_self]

theorem all_cmds_block (p : Cmd α → Bool) (l : List (Trace α))
    (h : ∀ t ∈ l, t.cmds.all p = true) : (Trace.block l).cmds.all p = true := by
  induction l with
  | nil => rfl
  | cons t rest ih =>
    exact all_cmds_seq p t _ (h t (List.mem_cons_self t rest))
      (ih (fun u hu => h u (List.mem_cons_of_mem t hu)))

theorem all_cmds_assert (p : Cmd α → Bool) (c : Bool) (f : Failure) :
    (Trace.assert c f : Trace α).cmds.all p = true := by
  cases c <;> rfl

theorem all_cmds_timer (p : Cmd α → Bool) (pass : Pass) (body : Trace α)
    (hb : p (.BeginBlock pass) = true) (he : p (.EndBlock pass) = true)
    (h : body.cmds.all p = true) : (Trace.ScopedTimer pass body).cmds.all p = true := by
  apply all_cmds_block
  intro t ht
  simp only [List.mem_cons, List.mem_singleton, List.not_mem_nil, or_false] at ht
  rcases ht with rfl | rfl | rfl
  · simpa [Trace.call] using hb
  · exact h
  · simpa [Trace.call] using he

theorem Renderer_Draw_avoidsCutout (stride srv : Nat) (meshes : List Mesh) (mi : Nat) :
    (Renderer.Draw.loop .m_model stride srv meshes mi : Trace α).cmds.all Cmd.avoidsCutout
      = true := by
  induction meshes generalizing mi with
  | nil => rfl
  | cons mesh rest ih =>
    unfold Renderer.Draw.loop
    apply all_cmds_block
    intro t ht
    simp only [List.mem_cons, List.mem_singleton, List.not_mem_nil, or_false] at ht
    rcases ht with rfl | rfl | rfl | rfl | rfl | rfl | rfl
    · exact all_cmds_assert _ _ _
    · exact all_cmds_assert _ _ _
    · exact all_cmds_assert _ _ _
    · exact all_cmds_assert _ _ _
    · split <;> rfl
    · rfl
    · exact ih _

theorem MyRenderer_Draw_avoidsCutout (stride : Nat) (meshes : List Mesh) (mi : Nat) :
    (MyRenderer.Draw.loop .m_model stride meshes mi : Trace α).cmds.all Cmd.avoidsCutout
      = true := by
  induction meshes generalizing mi with
  | nil => rfl
  | cons mesh rest ih =>
    unfold MyRenderer.Draw.loop
    apply all_cmds_block
    intro t ht
    simp only [List.mem_cons, List.mem_singleton, List.not_mem_nil, or_false] at ht
    rcases ht with rfl | rfl | rfl | rfl | rfl | rfl | rfl
    · exact all_cmds_assert _ _ _
    · exact all_cmds_assert _ _ _
    · exact all_cmds_assert _ _ _
    · exact all_cmds_assert _ _ _
    · split <;> rfl
    · rfl
    · exact ih _

theorem Renderer_DrawDepth_avoidsCutout (stride : Nat) (meshes : List Mesh) :
    (Renderer.DrawDepth.loop stride meshes : Trace α).cmds.all Cmd.avoidsCutout = true := by
  induction meshes with
  | nil => rfl
  | cons mesh rest ih =>
    unfold Renderer.DrawDepth.loop
    apply all_cmds_block
    intro t ht
    simp only [List.mem_cons, List.mem_singleton, List.not_mem_nil, or_false] at ht
    rcases ht with rfl | rfl | rfl | rfl | rfl | rfl
    · exact all_cmds_assert _ _ _
    · exact all_cmds_assert _ _ _
    · exact all_cmds_assert _ _ _
    · exact all_cmds_assert _ _ _
    · rfl
    · exact ih

theorem MyRenderer_DrawDepth_avoidsCutout (stride : Nat) (meshes : List Mesh) :
    (MyRenderer.DrawDepth.loop stride meshes : Trace α).cmds.all Cmd.avoidsCutout = true := by
  induction meshes with
  | nil => rfl
  | cons mesh rest ih =>
    unfold MyRenderer.DrawDepth.loop
    apply all_cmds_block
    intro t ht
    simp only [List.mem_cons, List.mem_singleton, List.not_mem_nil, or_false] at ht
    rcases ht with rfl | rfl | rfl | rfl | rfl | rfl
    · exact all_cmds_assert _ _ _
    · exact all_cmds_assert _ _ _
    · exact all_cmds_assert _ _ _
    · exact all_cmds_assert _ _ _
    · rfl
    · exact ih

theorem all_cmds_block_cons (p : Cmd α → Bool) (t : Trace α) (rest : List (Trace α))
    (ht : t.cmds.all p = true) (hrest : (Trace.block rest).cmds.all p = true) :
    (Trace.block (t :: rest)).cmds.all p = true :=
  all_cmds_seq p t _ ht hrest

theorem all_cmds_block_nil (p : Cmd α → Bool) :
    (Trace.block ([] : List (Trace α))).cmds.all p = true := rfl

theorem all_cmds_call (p : Cmd α → Bool) (c : Cmd α) (h : p c = true) :
    (Trace.call c).cmds.all p = true := by
  simpa [Trace.call] using h

theorem Renderer_Render_avoidsCutout
    [Mul α] [Div α] [NatCast α] [OfNat α 2] (math : MathLib α) (b : Buffers)
    (scene : Scene α) (hsg : Bool) (hcut : scene.m_modelCutout.meshCount = 0) :
    (Renderer.Render math b scene hsg).cmds.all Cmd.avoidsCutout = true := by
  have hc : ¬ (scene.m_modelCutout.meshCount > 0) := by omega
  simp only [Renderer.Render, Renderer.ResourceInit, Renderer.ReflectiveShadowMapPass,
    Renderer.ShadowMapPass, Renderer.VSGLGenerationPass, Renderer.DepthPass,
    Renderer.LightingPass, Renderer.Draw, Renderer.DrawDepth, if_neg hc]
  repeat' first
    | exact all_cmds_block_nil _
    | apply all_cmds_block_cons
    | apply all_cmds_timer _ _ _ rfl rfl
    | exact all_cmds_call _ _ rfl
    | exact all_cmds_call _ _ (by cases hsg <;> rfl)
    | exact all_cmds_assert _ _ _
    | exact Renderer_Draw_avoidsCutout _ _ _ _
    | exact Renderer_DrawDepth_avoidsCutout _ _

theorem MyRenderer_Render_avoidsCutout
    [Mul α] [Div α] [NatCast α] [OfNat α 2] (math : MathLib α) (b : Buffers)
    (scene : Scene α) (hcut : scene.m_modelCutout.meshCount = 0) :
    (MyRenderer.Render math b scene).cmds.all Cmd.avoidsCutout = true := by
  have hc : ¬ (scene.m_modelCutout.meshCount > 0) := by omega
  simp only [MyRenderer.Render, MyRenderer.ResourceInit, MyRenderer.ReflectiveShadowMapPass,
    MyRenderer.ShadowMapPass, MyRenderer.VSGLGenerationPass, MyRenderer.DepthPass,
    MyRenderer.LightingPass, MyRenderer.Draw, MyRenderer.DrawDepth, if_neg hc]
  repeat' first
    | exact all_cmds_block_nil _
    | apply all_cmds_block_cons
    | apply all_cmds_timer _ _ _ rfl rfl
    | exact all_cmds_call _ _ rfl
    | exact all_cmds_assert _ _ _
    | exact MyRenderer_Draw_avoidsCutout _ _ _
    | exact MyRenderer_DrawDepth_avoidsCutout _ _

end EmptyCutout

/-- C3, the claim as stated fails: on a scene with an empty cutout batch whose
first batch holds a mesh at index byte offset 4, both renderers abort inside
ReflectiveShadowMapPass, at the second assertion of `Draw`: the outline of the
frame stops after the index buffer of the first batch is bound, so no submesh
is drawn, no dispatch is issued and four passes do not execute. -/
theorem C3_counterexample_abort_with_empty_cutout :
    ((Renderer.Render mathQ (Renderer.Create hdBuffer hdBuffer) sceneNoCutoutOffsetFour
        false).failure = some .indexOffsetNotTriangles ∧
      (Renderer.Render mathQ (Renderer.Create hdBuffer hdBuffer) sceneNoCutoutOffsetFour
        false).cmds.filter Cmd.isOutline =
        [.BeginBlock .ReflectiveShadowMapPass, .SetPipelineState .s_reflectiveShadowMapPSO,
         .SetIndexBuffer .m_model false]) ∧
    ((MyRenderer.Render mathQ (MyRenderer.Initialize hdBuffer hdBuffer)
        sceneNoCutoutOffsetFour).failure = some .indexOffsetNotTriangles ∧
      (MyRenderer.Render mathQ (MyRenderer.Initialize hdBuffer hdBuffer)
        sceneNoCutoutOffsetFour).cmds.filter Cmd.isOutline =
        [.BeginBlock .ReflectiveShadowMapPass, .SetPipelineState .s_reflectiveShadowMapPSO,
         .SetIndexBuffer .m_model false]) := by
  decide

set_option maxRecDepth 8000 in
/-- C3, amended: for every scene whose cutout batch has zero submeshes, no call
recorded by `Render` selects a cutout pipeline or binds an index buffer, vertex
buffer or material table of the cutout batch, so no draw is issued for it in
any pass; and when no check fails on the first batch, the frame runs to
its end and its outline is: the five passes in order, in each of the four
graphics passes the opaque pipeline, the index buffer of the first batch and one indexed
draw per submesh of the first batch in order, and in VSGLGenerationPass the two
compute pipelines each followed by one dispatch. Stated for `Renderer::Render`
(first scene) and `MyRenderer::Render` (second scene). -/
theorem C3_empty_cutout_batch {α : Type}
    [Mul α] [Div α] [NatCast α] [OfNat α 2] (math : MathLib α) (sd sc : PixelBuffer)
    (sceneR sceneM : Scene α) (hsg : Bool)
    (hcutR : sceneR.m_modelCutout.meshCount = 0) (hcutM : sceneM.m_modelCutout.meshCount = 0) :
    ((Renderer.Render math (Renderer.Create sd sc) sceneR hsg).cmds.all Cmd.avoidsCutout = true ∧
      (Renderer.checksPass sceneR = true →
        (Renderer.Render math (Renderer.Create sd sc) sceneR hsg).failure = none ∧
        (Renderer.Render math (Renderer.Create sd sc) sceneR hsg).cmds.filter Cmd.isOutline =
          [.BeginBlock .ReflectiveShadowMapPass, .SetPipelineState .s_reflectiveShadowMapPSO,
            .SetIndexBuffer .m_model false] ++
          sceneR.m_model.m_pMesh.map (Mesh.drawCall sceneR.m_model.m_VertexStride) ++
          [.EndBlock .ReflectiveShadowMapPass,
            .BeginBlock .ShadowMapPass, .SetPipelineState .s_shadowMapPSO,
            .SetIndexBuffer .m_model true] ++
          sceneR.m_model.m_pMesh.map (Mesh.drawCallDepth sceneR.m_model.m_VertexStrideDepth) ++
          [.EndBlock .ShadowMapPass,
            .BeginBlock .VSGLGenerationPass,
            .SetPipelineState .s_vsglGenerationDiffusePSO, .Dispatch 1 1 1,
            .SetPipelineState .s_vsglGenerationSpecularPSO, .Dispatch 1 1 1,
            .EndBlock .VSGLGenerationPass,
            .BeginBlock .DepthPass, .SetPipelineState .s_depthPSO,
            .SetIndexBuffer .m_model true] ++
          sceneR.m_model.m_pMesh.map (Mesh.drawCallDepth sceneR.m_model.m_VertexStrideDepth) ++
          [.EndBlock .DepthPass,
            .BeginBlock .LightingPass,
            .SetPipelineState (if hsg then .s_lightingHSGPSO else .s_lightingPSO),
            .SetIndexBuffer .m_model false] ++
          sceneR.m_model.m_pMesh.map (Mesh.drawCall sceneR.m_model.m_VertexStride) ++
          [.EndBlock .LightingPass])) ∧
    ((MyRenderer.Render math (MyRenderer.Initialize sd sc) sceneM).cmds.all Cmd.avoidsCutout
        = true ∧
      (MyRenderer.checksPass sceneM = true →
        (MyRenderer.Render math (MyRenderer.Initialize sd sc) sceneM).failure = none ∧
        (MyRenderer.Render math (MyRenderer.Initialize sd sc) sceneM).cmds.filter Cmd.isOutline =
          [.BeginBlock .ReflectiveShadowMapPass, .SetPipelineState .s_reflectiveShadowMapPSO,
            .SetIndexBuffer .m_model false] ++
          sceneM.m_model.m_pMesh.map (Mesh.drawCall sceneM.m_model.m_VertexStride) ++
          [.EndBlock .ReflectiveShadowMapPass,
            .BeginBlock .ShadowMapPass, .SetPipelineState .s_shadowMapPSO,
            .SetIndexBuffer .m_model false] ++
          sceneM.m_model.m_pMesh.map (Mesh.drawCall sceneM.m_model.m_VertexStride) ++
          [.EndBlock .ShadowMapPass,
            .BeginBlock .VSGLGenerationPass,
            .SetPipelineState .s_vsglGenerationDiffusePSO, .Dispatch 1 1 1,
            .SetPipelineState .s_vsglGenerationSpecularPSO, .Dispatch 1 1 1,
            .EndBlock .VSGLGenerationPass,
            .BeginBlock .DepthPass, .SetPipelineState .s_depthPSO,
            .SetIndexBuffer .m_model false] ++
          sceneM.m_model.m_pMesh.map (Mesh.drawCall sceneM.m_model.m_VertexStride) ++
          [.EndBlock .DepthPass,
            .BeginBlock .LightingPass, .SetPipelineState .s_lightingPSO,
            .SetIndexBuffer .m_model false] ++
          sceneM.m_model.m_pMesh.map (Mesh.drawCall sceneM.m_model.m_VertexStride) ++
          [.EndBlock .LightingPass])) := by
  have hcR : ¬ (sceneR.m_modelCutout.meshCount > 0) := by omega
  have hcM : ¬ (sceneM.m_modelCutout.meshCount > 0) := by omega
  refine ⟨⟨Renderer_Render_avoidsCutout math _ sceneR hsg hcutR, ?_⟩,
    ⟨MyRenderer_Render_avoidsCutout math _ sceneM hcutM, ?_⟩⟩
  · intro hR
    simp only [Renderer.checksPass, Bool.and_eq_true] at hR
    obtain ⟨⟨h1, h2⟩, h3⟩ := hR
    simp [Renderer.Render, Renderer.ResourceInit, Renderer.ReflectiveShadowMapPass,
      Renderer.ShadowMapPass, Renderer.VSGLGenerationPass, Renderer.DepthPass,
      Renderer.LightingPass, Renderer.Create, Trace.block, Trace.ScopedTimer, Trace.call,
      Trace.skip, Renderer_Draw_of_passes, Renderer_DrawDepth_of_passes, h1, h2, hcR,
      List.filter_cons, List.filter_append, filter_drawCmds_draws,
      filter_map_calls_all, RSM_WIDTH]
    simp [Cmd.isOutline]
  · intro hM
    simp only [MyRenderer.checksPass, Bool.and_eq_true] at hM
    obtain ⟨h4, h5⟩ := hM
    simp [MyRenderer.Render, MyRenderer.ResourceInit, MyRenderer.ReflectiveShadowMapPass,
      MyRenderer.ShadowMapPass, MyRenderer.VSGLGenerationPass, MyRenderer.DepthPass,
      MyRenderer.LightingPass, MyRenderer.Initialize, Trace.block, Trace.ScopedTimer, Trace.call,
      Trace.skip, MyRenderer_Draw_of_passes, MyRenderer_DrawDepth_of_passes, h4, hcM,
      List.filter_cons, List.filter_append, filter_drawCmds_draws,
      filter_map_calls_all, RSM_WIDTH]
    simp [Cmd.isOutline]

/-- C3, witness: `sceneNoCutout` has an empty cutout batch and passes the
checks; its frame avoids every cutout call and runs to its end. -/
theorem C3_witness_sceneNoCutout :
    sceneNoCutout.m_modelCutout.meshCount = 0 ∧ Renderer.checksPass sceneNoCutout = true ∧
    (Renderer.Render mathQ (Renderer.Create hdBuffer hdBuffer) sceneNoCutout false).cmds.all
      Cmd.avoidsCutout = true ∧
    (Renderer.Render mathQ (Renderer.Create hdBuffer hdBuffer) sceneNoCutout false).failure
      = none ∧
    (MyRenderer.Render mathQ (MyRenderer.Initialize hdBuffer hdBuffer) sceneNoCutout).failure
      = none :=
  ⟨by decide, by decide,
    (C3_empty_cutout_batch mathQ hdBuffer hdBuffer sceneNoCutout sceneNoCutout false
      (by decide) (by decide)).1.1,
    ((C3_empty_cutout_batch mathQ hdBuffer hdBuffer sceneNoCutout sceneNoCutout false
      (by decide) (by decide)).1.2 (by decide)).1,
    ((C3_empty_cutout_batch mathQ hdBuffer hdBuffer sceneNoCutout sceneNoCutout false
      (by decide) (by decide)).2.2 (by decide)).1⟩

/-! ## Photon power -/

section Photon

/-- The tangent of an eighth of a turn of `π`, to five decimals. -/
theorem tan_pi_div_eight_bounds :
    (0.41421 : ℝ) < Real.tan (Real.pi / 8) ∧ Real.tan (Real.pi / 8) < 0.41422 := by
  have hpos : 0 < Real.tan (Real.pi / 8) :=
    Real.tan_pos_of_pos_of_lt_pi_div_two (by positivity) (by linarith [Real.pi_pos])
  have h2 : Real.tan (2 * (Real.pi / 8)) =
      2 * Real.tan (Real.pi / 8) / (1 - Real.tan (Real.pi / 8) ^ 2) := Real.tan_two_mul
  have e : 2 * (Real.pi / 8) = Real.pi / 4 := by ring
  rw [e, Real.tan_pi_div_four] at h2
  have hne : 1 - Real.tan (Real.pi / 8) ^ 2 ≠ 0 := by
    intro h
    rw [h, div_zero] at h2
    exact one_ne_zero h2
  have hq : 2 * Real.tan (Real.pi / 8) = 1 - Real.tan (Real.pi / 8) ^ 2 := by
    field_simp at h2
    linarith
  constructor <;> nlinarith

/-- The 32-bit product of a width below `65536` is its square. -/
theorem rsmTexelCount_of_lt (w : Nat) (h : w < 65536) : rsmTexelCount w = w * w := by
  unfold rsmTexelCount
  apply Nat.mod_eq_of_lt
  have h1 : w * w ≤ 65535 * 65535 := Nat.mul_le_mul (by omega) (by omega)
  omega

/-- The constant block both `VSGLGenerationPass` functions upload carries the
photon power of lines 418-419. -/
theorem VSGLGenerationPass_photonPower {α : Type}
    [Mul α] [Div α] [NatCast α] [OfNat α 2] (math : MathLib α)
    (sd sc : PixelBuffer) (spotLight : Camera α) (lightIntensity : α) :
    (Renderer.VSGLGenerationPass math (Renderer.Create sd sc) spotLight
        lightIntensity).cmds.filterMap Cmd.photonPower? =
      [photonPower RSM_WIDTH lightIntensity (planeWidth math.tan spotLight.GetFOV)] ∧
    (MyRenderer.VSGLGenerationPass math (MyRenderer.Initialize sd sc) spotLight
        lightIntensity).cmds.filterMap Cmd.photonPower? =
      [photonPower RSM_WIDTH lightIntensity (planeWidth math.tan spotLight.GetFOV)] := by
  constructor
  · simp [Renderer.VSGLGenerationPass, Renderer.Create, Trace.block, Trace.ScopedTimer,
      Trace.call, Trace.skip, Cmd.photonPower?]
  · simp [MyRenderer.VSGLGenerationPass, MyRenderer.Initialize, Trace.block, Trace.ScopedTimer,
      Trace.call, Trace.skip, Cmd.photonPower?]

end Photon

/-! ## The arithmetic of binary32 -/

namespace Binary32

/-- The power `pow2 e` is the power `2 ^ e` of the field of rationals. -/
theorem pow2_eq_zpow (e : ℤ) : pow2 e = (2 : ℚ) ^ e := by
  unfold pow2
  split_ifs with h
  · obtain ⟨n, rfl⟩ := Int.eq_ofNat_of_zero_le h
    simp
  · push_neg at h
    obtain ⟨n, hn⟩ := Int.eq_ofNat_of_zero_le (show 0 ≤ -e by omega)
    have he : e = -(n : ℤ) := by omega
    subst he
    simp

/-- A power of two is positive. -/
theorem pow2_pos (e : ℤ) : 0 < pow2 e := by
  rw [pow2_eq_zpow]; positivity

/-- Powers of two multiply by adding the exponents. -/
theorem pow2_add (a b : ℤ) : pow2 (a + b) = pow2 a * pow2 b := by
  simp only [pow2_eq_zpow]
  exact zpow_add₀ (by norm_num) a b

/-- Powers of two grow with the exponent. -/
theorem pow2_le_pow2 {a b : ℤ} (h : a ≤ b) : pow2 a ≤ pow2 b := by
  simp only [pow2_eq_zpow]
  exact zpow_le_zpow_right₀ (by norm_num) h

/-- With enough fuel, `bitLength` is the number of binary digits of a positive
number: `2 ^ (bitLength n - 1) ≤ n < 2 ^ bitLength n`. -/
theorem bitLength_spec (fuel n : ℕ) (hn : 0 < n) (h : n ≤ fuel) :
    0 < bitLength fuel n ∧ 2 ^ (bitLength fuel n - 1) ≤ n ∧ n < 2 ^ bitLength fuel n := by
  induction fuel generalizing n with
  | zero => omega
  | succ f ih =>
    unfold bitLength
    rw [if_neg (by omega)]
    by_cases h2 : n / 2 = 0
    · have h1 : n = 1 := by omega
      subst h1
      cases f <;> simp [bitLength]
    · obtain ⟨ih1, ih2, ih3⟩ := ih (n / 2) (by omega) (by omega)
      refine ⟨by omega, ?_, ?_⟩
      · have e : bitLength f (n / 2) + 1 - 1 = (bitLength f (n / 2) - 1) + 1 := by omega
        rw [e, pow_succ]
        omega
      · rw [pow_succ]
        omega

end Binary32

namespace Binary32

/-- A positive rational lies within a factor two of the power of two that the
digit counts of its numerator and denominator give. -/
theorem binade_bounds (q : ℚ) (hq : 0 < q) :
    pow2 ((bitLength q.num.natAbs q.num.natAbs : ℤ) - (bitLength q.den q.den : ℤ) - 1) ≤ q ∧
    q < pow2 ((bitLength q.num.natAbs q.num.natAbs : ℤ) - (bitLength q.den q.den : ℤ) + 1) := by
  have hn : 0 < q.num.natAbs := Int.natAbs_pos.mpr (Rat.num_pos.mpr hq).ne.symm
  obtain ⟨n0, n1, n2⟩ := bitLength_spec _ _ hn le_rfl
  obtain ⟨d0, d1, d2⟩ := bitLength_spec _ _ q.den_pos le_rfl
  generalize bitLength q.num.natAbs q.num.natAbs = a at n0 n1 n2 ⊢
  generalize bitLength q.den q.den = b at d0 d1 d2 ⊢
  have hq' : q = (q.num.natAbs : ℚ) / (q.den : ℚ) := by
    have h1 : ((q.num.natAbs : ℤ) : ℚ) = (q.num : ℚ) := by
      rw [Int.natAbs_of_nonneg (Rat.num_pos.mpr hq).le]
    rw [← Int.cast_natCast, h1, Rat.num_div_den]
  have hd : (0 : ℚ) < q.den := by exact_mod_cast q.den_pos
  obtain ⟨a, rfl⟩ : ∃ a', a = a' + 1 := ⟨a - 1, by omega⟩
  obtain ⟨b, rfl⟩ : ∃ b', b = b' + 1 := ⟨b - 1, by omega⟩
  simp only [Nat.add_sub_cancel] at n1 d1
  have N1 : (2 : ℚ) ^ a ≤ q.num.natAbs := by exact_mod_cast n1
  have N2 : (q.num.natAbs : ℚ) < 2 ^ (a + 1) := by exact_mod_cast n2
  have D1 : (2 : ℚ) ^ b ≤ q.den := by exact_mod_cast d1
  have D2 : (q.den : ℚ) < 2 ^ (b + 1) := by exact_mod_cast d2
  simp only [pow2_eq_zpow]
  push_cast
  have e1 : ((a : ℤ) + 1 - ((b : ℤ) + 1) - 1) = (a : ℤ) - ((b + 1 : ℕ) : ℤ) := by
    push_cast; ring
  have e2 : ((a : ℤ) + 1 - ((b : ℤ) + 1) + 1) = ((a + 1 : ℕ) : ℤ) - (b : ℤ) := by
    push_cast; ring
  rw [e1, e2, zpow_sub₀ (by norm_num), zpow_sub₀ (by norm_num)]
  simp only [zpow_natCast]
  rw [hq']
  constructor
  · rw [div_le_div_iff₀ (by positivity) hd]
    calc (2 : ℚ) ^ a * q.den ≤ q.num.natAbs * q.den := by gcongr
      _ ≤ q.num.natAbs * 2 ^ (b + 1) := by gcongr
  · rw [div_lt_div_iff₀ hd (by positivity)]
    calc (q.num.natAbs : ℚ) * 2 ^ b ≤ q.num.natAbs * q.den := by gcongr
      _ < 2 ^ (a + 1) * q.den := by gcongr

/-- The exponent of a positive rational is at least `-126`, the rational is
below the next power of two, and it is at least the power of its exponent
unless the exponent is that of the subnormal numbers. -/
theorem exponent_spec (q : ℚ) (hq : 0 < q) :
    -126 ≤ exponent q ∧ q < pow2 (exponent q + 1) ∧
      (exponent q = -126 ∨ pow2 (exponent q) ≤ q) := by
  obtain ⟨h1, h2⟩ := binade_bounds q hq
  unfold exponent
  simp only []
  generalize ((bitLength q.num.natAbs q.num.natAbs : ℤ) - (bitLength q.den q.den : ℤ)) = e
    at h1 h2 ⊢
  refine ⟨le_max_right _ _, ?_, ?_⟩
  · split_ifs with h
    · exact lt_of_lt_of_le h2 (pow2_le_pow2 (by have := le_max_left e (-126); omega))
    · push_neg at h
      exact lt_of_lt_of_le h (pow2_le_pow2 (by have := le_max_left (e - 1) (-126); omega))
  · split_ifs with h
    · rcases le_total e (-126) with h3 | h3
      · left; exact max_eq_right h3
      · right; rw [max_eq_left h3]; exact h
    · rcases le_total (e - 1) (-126) with h3 | h3
      · left; exact max_eq_right h3
      · right; rw [max_eq_left h3]; exact h1

/-- The exponent grows with the magnitude. -/
theorem exponent_mono {x y : ℚ} (hx : 0 < x) (hxy : x ≤ y) : exponent x ≤ exponent y := by
  obtain ⟨x1, x2, x3⟩ := exponent_spec x hx
  obtain ⟨y1, y2, y3⟩ := exponent_spec y (lt_of_lt_of_le hx hxy)
  by_contra hlt
  push_neg at hlt
  rcases x3 with x3 | x3
  · omega
  · have h1 : pow2 (exponent y + 1) ≤ pow2 (exponent x) := pow2_le_pow2 (by omega)
    linarith

/-- The distance between neighbouring binary32 numbers is positive. -/
theorem ulp_pos (q : ℚ) : 0 < ulp q := pow2_pos _

end Binary32

namespace Binary32

/-- Rounding to the nearest integer gives the floor or the integer after it,
at most a half away. -/
theorem roundHalfEven_bounds (x : ℚ) :
    (⌊x⌋ ≤ roundHalfEven x ∧ roundHalfEven x ≤ ⌊x⌋ + 1) ∧
    (x - 1 / 2 ≤ roundHalfEven x ∧ (roundHalfEven x : ℚ) ≤ x + 1 / 2) := by
  have h1 := Int.floor_le x
  have h2 := Int.lt_floor_add_one x
  unfold roundHalfEven
  split_ifs with a b c
  · refine ⟨⟨le_rfl, by omega⟩, by linarith, by linarith⟩
  · refine ⟨⟨by omega, le_rfl⟩, by push_cast; linarith, by push_cast; linarith⟩
  · refine ⟨⟨le_rfl, by omega⟩, by linarith, by linarith⟩
  · refine ⟨⟨by omega, le_rfl⟩, by push_cast; linarith, by push_cast; linarith⟩

/-- An integer rounds to itself. -/
theorem roundHalfEven_intCast (n : ℤ) : roundHalfEven (n : ℚ) = n := by
  unfold roundHalfEven
  simp

/-- Rounding to the nearest integer is monotone. -/
theorem roundHalfEven_mono {x y : ℚ} (h : x ≤ y) : roundHalfEven x ≤ roundHalfEven y := by
  have hf : ⌊x⌋ ≤ ⌊y⌋ := Int.floor_mono h
  rcases hf.lt_or_eq with hlt | heq
  · have := (roundHalfEven_bounds x).1.2
    have := (roundHalfEven_bounds y).1.1
    omega
  · unfold roundHalfEven
    rw [heq]
    have hxy : x - ⌊y⌋ ≤ y - ⌊y⌋ := by linarith
    split_ifs <;> first | omega | (exfalso; linarith)

/-- A number that is at most an integer rounds to at most that integer. -/
theorem roundHalfEven_le_of_le {x : ℚ} {n : ℤ} (h : x ≤ n) : roundHalfEven x ≤ n := by
  have := roundHalfEven_mono h
  rwa [roundHalfEven_intCast] at this

/-- A number that is at least an integer rounds to at least that integer. -/
theorem le_roundHalfEven_of_le {x : ℚ} {n : ℤ} (h : (n : ℚ) ≤ x) :
    n ≤ roundHalfEven x := by
  have := roundHalfEven_mono h
  rwa [roundHalfEven_intCast] at this

/-- Zero rounds to zero. -/
theorem roundMagnitude_zero : roundMagnitude 0 = 0 := by
  unfold roundMagnitude
  rw [zero_div]
  have : roundHalfEven 0 = 0 := by simpa using roundHalfEven_intCast 0
  rw [this]
  simp

/-- A magnitude rounds to a magnitude. -/
theorem roundMagnitude_nonneg {q : ℚ} (hq : 0 ≤ q) : 0 ≤ roundMagnitude q := by
  unfold roundMagnitude
  have h1 : (0 : ℤ) ≤ roundHalfEven (q / ulp q) :=
    le_roundHalfEven_of_le (by simpa using div_nonneg hq (ulp_pos q).le)
  have h2 : (0 : ℚ) ≤ roundHalfEven (q / ulp q) := by exact_mod_cast h1
  exact mul_nonneg h2 (ulp_pos q).le

/-- A magnitude rounds to at most the upper end of its binade. -/
theorem roundMagnitude_le_pow2 {q : ℚ} (hq : 0 < q) :
    roundMagnitude q ≤ pow2 (exponent q + 1) := by
  obtain ⟨_, h2, _⟩ := exponent_spec q hq
  unfold roundMagnitude ulp
  have e : pow2 (exponent q + 1) = ((2 ^ 24 : ℤ) : ℚ) * pow2 (exponent q - 23) := by
    rw [show exponent q + 1 = 24 + (exponent q - 23) by ring, pow2_add]
    congr 1
  rw [e]
  apply mul_le_mul_of_nonneg_right _ (pow2_pos _).le
  have : roundHalfEven (q / pow2 (exponent q - 23)) ≤ (2 ^ 24 : ℤ) := by
    apply roundHalfEven_le_of_le
    rw [div_le_iff₀ (pow2_pos _), ← e]
    exact h2.le
  exact_mod_cast this

/-- A magnitude in its binade rounds to at least the lower end of the binade. -/
theorem pow2_le_roundMagnitude {q : ℚ} (h : pow2 (exponent q) ≤ q) :
    pow2 (exponent q) ≤ roundMagnitude q := by
  unfold roundMagnitude ulp
  have e : pow2 (exponent q) = ((2 ^ 23 : ℤ) : ℚ) * pow2 (exponent q - 23) := by
    conv_lhs => rw [show exponent q = 23 + (exponent q - 23) by ring, pow2_add]
    congr 1
  have : (2 ^ 23 : ℤ) ≤ roundHalfEven (q / pow2 (exponent q - 23)) := by
    apply le_roundHalfEven_of_le
    rw [le_div_iff₀ (pow2_pos _), ← e]
    exact h
  rw [e]
  apply mul_le_mul_of_nonneg_right _ (pow2_pos _).le
  exact_mod_cast this

/-- Rounding is monotone on the magnitudes. -/
theorem roundMagnitude_mono {x y : ℚ} (hx : 0 ≤ x) (hxy : x ≤ y) :
    roundMagnitude x ≤ roundMagnitude y := by
  rcases hx.lt_or_eq with hx | hx
  · have he := exponent_mono hx hxy
    rcases he.lt_or_eq with hlt | heq
    · obtain ⟨y1, y2, y3⟩ := exponent_spec y (lt_of_lt_of_le hx hxy)
      obtain ⟨x1, _, _⟩ := exponent_spec x hx
      have hy : pow2 (exponent y) ≤ y := by
        rcases y3 with y3 | y3
        · omega
        · exact y3
      calc roundMagnitude x ≤ pow2 (exponent x + 1) := roundMagnitude_le_pow2 hx
        _ ≤ pow2 (exponent y) := pow2_le_pow2 (by omega)
        _ ≤ roundMagnitude y := pow2_le_roundMagnitude hy
    · unfold roundMagnitude ulp
      rw [heq]
      apply mul_le_mul_of_nonneg_right _ (pow2_pos _).le
      have : roundHalfEven (x / pow2 (exponent y - 23)) ≤
          roundHalfEven (y / pow2 (exponent y - 23)) :=
        roundHalfEven_mono (div_le_div_of_nonneg_right hxy (pow2_pos _).le)
      exact_mod_cast this
  · rw [← hx, roundMagnitude_zero]
    exact roundMagnitude_nonneg (hx ▸ hxy)

end Binary32

namespace Binary32

/-- The order `≤` on `Binary32` is the comparison `le`. -/
theorem le_iff (x y : Binary32) : x ≤ y ↔ le x y = true := Iff.rfl

/-- The order `<` on `Binary32` in terms of the comparison `le`. -/
theorem lt_iff (x y : Binary32) : x < y ↔ (le x y = true ∧ le y x = false) := Iff.rfl

/-- The literal `0` is `+0`. -/
theorem zero_eq : (0 : Binary32) = finite false 0 := by
  show round false ((0 : ℕ) : ℚ) = finite false 0
  unfold round
  rw [Nat.cast_zero, roundMagnitude_zero, if_neg (by simpa using (pow2_pos 128))]
  simp

/-- An exact result of magnitude zero rounds to the zero of its sign. -/
theorem round_zero (s : Bool) : round s 0 = finite s 0 := by
  unfold round
  rw [roundMagnitude_zero, if_neg (by simpa using (pow2_pos 128))]
  simp

/-- Rounding never gives a NaN. -/
theorem round_ne_nan (s : Bool) (q : ℚ) : round s q ≠ nan := by
  unfold round
  split_ifs <;> simp

/-- Rounding is monotone on signed values. -/
theorem round_le_round (s t : Bool) {x y : ℚ} (hx : 0 ≤ x) (hy : 0 ≤ y)
    (h : (if s then -x else x) ≤ (if t then -y else y)) : round s x ≤ round t y := by
  have rx := roundMagnitude_nonneg hx
  have ry := roundMagnitude_nonneg hy
  have key : (if s then -roundMagnitude x else roundMagnitude x) ≤
      (if t then -roundMagnitude y else roundMagnitude y) := by
    cases s <;> cases t <;> simp only [Bool.false_eq_true, if_false, if_true] at h ⊢
    · exact roundMagnitude_mono hx h
    · have h0 : x = 0 := by linarith
      have h1 : y = 0 := by linarith
      subst h0; subst h1
      simp [roundMagnitude_zero]
    · linarith
    · have := roundMagnitude_mono hy (by linarith : y ≤ x)
      linarith
  have hp := pow2_pos 128
  rw [le_iff]
  unfold round
  by_cases ox : pow2 128 ≤ roundMagnitude x <;> by_cases oy : pow2 128 ≤ roundMagnitude y
  · rw [if_pos ox, if_pos oy]
    cases s <;> cases t <;> simp only [Bool.false_eq_true, if_false, if_true] at key ⊢ <;>
      first | rfl | (exfalso; linarith)
  · rw [if_pos ox, if_neg oy]
    cases s <;> cases t <;> simp only [Bool.false_eq_true, if_false, if_true] at key ⊢ <;>
      first | rfl | (exfalso; linarith)
  · rw [if_neg ox, if_pos oy]
    cases s <;> cases t <;> simp only [Bool.false_eq_true, if_false, if_true] at key ⊢ <;>
      first | rfl | (exfalso; linarith)
  · rw [if_neg ox, if_neg oy]
    simp only [le, signed, Rat.coe_toNNRat _ rx, Rat.coe_toNNRat _ ry, decide_eq_true_eq]
    exact key

end Binary32

namespace Binary32

/-- The operator `*` on `Binary32` is `mul`. -/
theorem mul_eq (x y : Binary32) : x * y = mul x y := rfl

/-- The operator `/` on `Binary32` is `div`. -/
theorem div_eq (x y : Binary32) : x / y = div x y := rfl

/-- The conversion of an `unsigned int` is the rounding of its value. -/
theorem natCast_eq (n : ℕ) : ((n : ℕ) : Binary32) = round false n := rfl

/-- The binary32 product is commutative. -/
theorem binary32_mul_comm (x y : Binary32) : x * y = y * x := by
  rw [mul_eq, mul_eq]
  rcases x with _ | s | ⟨s, p⟩ <;> rcases y with _ | t | ⟨t, q⟩ <;> simp only [mul]
  · rw [Bool.xor_comm]
  · rw [Bool.xor_comm]
  · rw [Bool.xor_comm]
  · rw [Bool.xor_comm, mul_comm]

/-- Both zeros have the value zero. -/
theorem signed_zero (s : Bool) : signed s 0 = 0 := by
  cases s <;> simp [signed]

/-- A NaN is `<=` nothing. -/
theorem not_nan_le (y : Binary32) : ¬ nan ≤ y := by
  rw [le_iff]; simp [le]

/-- Nothing is `<=` a NaN. -/
theorem not_le_nan (x : Binary32) : ¬ x ≤ nan := by
  rw [le_iff]; rcases x with _ | s | ⟨s, p⟩ <;> simp [le]

/-- The comparison of two infinities. -/
theorem inf_le_inf_iff (s t : Bool) : inf s ≤ inf t ↔ (s = true ∨ t = false) := by
  rw [le_iff]; cases s <;> cases t <;> simp [le]

/-- An infinity is `<=` a finite number when it is `-inf`. -/
theorem inf_le_finite_iff (s t : Bool) (y : ℚ≥0) : inf s ≤ finite t y ↔ s = true := by
  rw [le_iff]; cases s <;> simp [le]

/-- A finite number is `<=` an infinity when that is `+inf`. -/
theorem finite_le_inf_iff (s t : Bool) (x : ℚ≥0) : finite s x ≤ inf t ↔ t = false := by
  rw [le_iff]; cases t <;> simp [le]

/-- Finite numbers compare as their rational values. -/
theorem finite_le_finite_iff (s t : Bool) (x y : ℚ≥0) :
    finite s x ≤ finite t y ↔ signed s x ≤ signed t y := by
  rw [le_iff]; simp [le]

/-- The values that zero is `<=` to: `+inf`, the finite numbers with the sign bit
clear, and `-0`. -/
theorem zero_le_iff (p : Binary32) :
    (0 : Binary32) ≤ p ↔
      (p = inf false ∨ ∃ r z, p = finite r z ∧ (r = false ∨ z = 0)) := by
  rw [zero_eq]
  rcases p with _ | r | ⟨r, z⟩
  · simp [not_le_nan]
  · rw [finite_le_inf_iff]; simp
  · rw [finite_le_finite_iff]
    cases r <;> simp [signed]

/-- The value `-inf` is `<=` every value but a NaN. -/
theorem inf_true_le {y : Binary32} (hy : y ≠ nan) : inf true ≤ y := by
  rw [le_iff]; rcases y with _ | t | ⟨t, q⟩
  · exact absurd rfl hy
  · cases t <;> rfl
  · rfl

/-- Every value but a NaN is `<=` the value `+inf`. -/
theorem le_inf_false {x : Binary32} (hx : x ≠ nan) : x ≤ inf false := by
  rw [le_iff]; rcases x with _ | s | ⟨s, p⟩
  · exact absurd rfl hx
  · cases s <;> rfl
  · rfl

/-- The rounded product with a non-negative finite factor is monotone in the
other factor. -/
theorem round_le_round_of_signed (s t r : Bool) (x y z : ℚ≥0) (hz : r = false ∨ z = 0)
    (h : signed s x ≤ signed t y) :
    round (xor s r) ((x * z : ℚ≥0) : ℚ) ≤ round (xor t r) ((y * z : ℚ≥0) : ℚ) := by
  rw [NNRat.coe_mul, NNRat.coe_mul]
  have hx : (0 : ℚ) ≤ x := x.coe_nonneg
  have hy : (0 : ℚ) ≤ y := y.coe_nonneg
  have hz0 : (0 : ℚ) ≤ z := z.coe_nonneg
  apply round_le_round _ _ (mul_nonneg hx hz0) (mul_nonneg hy hz0)
  rcases hz with rfl | rfl
  · have := mul_le_mul_of_nonneg_right h hz0
    cases s <;> cases t <;>
      simp only [signed, Bool.xor_false, Bool.false_eq_true, if_false, if_true] at this ⊢ <;>
      linarith
  · simp

/-- The binary32 product with a factor `p >= 0` is monotone in the other factor,
where it is a number. -/
theorem binary32_mul_mono_left {a b p : Binary32} (hab : a ≤ b) (hp : 0 ≤ p)
    (ha : a * p ≠ nan) (hb : b * p ≠ nan) : a * p ≤ b * p := by
  rw [zero_le_iff] at hp
  rcases hp with rfl | ⟨r, z, rfl, hz⟩
  · rcases a with _ | s | ⟨s, x⟩ <;> rcases b with _ | t | ⟨t, y⟩ <;>
      simp only [mul_eq, mul, ne_eq, not_true_eq_false, Bool.xor_false, not_nan_le, not_le_nan,
        inf_le_inf_iff, inf_le_finite_iff, finite_le_inf_iff, finite_le_finite_iff]
        at ha hb hab ⊢
    · exact hab
    · split_ifs at hb ⊢
      · exact absurd rfl hb
      · rw [inf_le_inf_iff]; exact Or.inl hab
    · split_ifs at ha ⊢
      · exact absurd rfl ha
      · rw [inf_le_inf_iff]; exact Or.inr hab
    · split_ifs at ha hb ⊢ <;> try exact absurd rfl (by assumption)
      rename_i hx hy
      rw [inf_le_inf_iff]
      by_contra hc
      push_neg at hc
      obtain ⟨hs, ht⟩ := hc
      simp only [Bool.not_eq_true, Bool.not_eq_false] at hs ht
      subst hs; subst ht
      simp only [signed, Bool.false_eq_true, if_false, if_true] at hab
      have h1 : (0 : ℚ) ≤ x := x.2
      have h2 : (0 : ℚ) ≤ y := y.2
      have h3 : (x : ℚ) = 0 := by linarith
      exact hx (by exact_mod_cast h3)
  · rcases a with _ | s | ⟨s, x⟩ <;> rcases b with _ | t | ⟨t, y⟩ <;>
      simp only [mul_eq, mul, ne_eq, not_true_eq_false, not_nan_le, not_le_nan,
        inf_le_inf_iff, inf_le_finite_iff, finite_le_inf_iff, finite_le_finite_iff]
        at ha hb hab ⊢
    · split_ifs at ha hb ⊢ with h0
      · exact absurd rfl ha
      · have hr : r = false := hz.resolve_right h0
        subst hr
        simpa [inf_le_inf_iff] using hab
    · split_ifs at ha ⊢ with h0
      · exact absurd rfl ha
      · have hr : r = false := hz.resolve_right h0
        subst hr; subst hab
        exact inf_true_le (round_ne_nan _ _)
    · split_ifs at hb ⊢ with h0
      · exact absurd rfl hb
      · have hr : r = false := hz.resolve_right h0
        subst hr; subst hab
        exact le_inf_false (round_ne_nan _ _)
    · exact round_le_round_of_signed s t r x y z hz hab

/-- The binary32 product with a factor `a >= 0` on the left is monotone in the
other factor, where it is a number. -/
theorem binary32_mul_mono_right {a p q : Binary32} (hpq : p ≤ q) (ha : 0 ≤ a)
    (hp : a * p ≠ nan) (hq : a * q ≠ nan) : a * p ≤ a * q := by
  rw [binary32_mul_comm a p] at hp ⊢
  rw [binary32_mul_comm a q] at hq ⊢
  exact binary32_mul_mono_left hpq ha hp hq

end Binary32

namespace Binary32

/-- The rounded quotient by a magnitude is monotone in the dividend. -/
theorem round_div_le_round_div (s t : Bool) (x y z : ℚ≥0) (h : signed s x ≤ signed t y) :
    round s ((x / z : ℚ≥0) : ℚ) ≤ round t ((y / z : ℚ≥0) : ℚ) := by
  rw [NNRat.coe_div, NNRat.coe_div]
  have hx : (0 : ℚ) ≤ x := x.coe_nonneg
  have hy : (0 : ℚ) ≤ y := y.coe_nonneg
  have hz0 : (0 : ℚ) ≤ z := z.coe_nonneg
  apply round_le_round _ _ (div_nonneg hx hz0) (div_nonneg hy hz0)
  have := div_le_div_of_nonneg_right h hz0
  cases s <;> cases t <;>
    simp only [signed, Bool.false_eq_true, if_false, if_true, neg_div] at this ⊢ <;>
    linarith

/-- The binary32 quotient by `+inf` or by a finite number with the sign bit clear
is monotone in the dividend, where it is a number. -/
theorem binary32_div_mono_left {a b d : Binary32} (hab : a ≤ b)
    (hd : d = inf false ∨ ∃ z, d = finite false z)
    (ha : a / d ≠ nan) (hb : b / d ≠ nan) : a / d ≤ b / d := by
  rcases hd with rfl | ⟨z, rfl⟩
  · rcases a with _ | s | ⟨s, x⟩ <;> rcases b with _ | t | ⟨t, y⟩ <;>
      simp only [div_eq, div, ne_eq, not_true_eq_false, Bool.xor_false, not_nan_le, not_le_nan]
        at ha hb hab ⊢
    rw [finite_le_finite_iff, signed_zero, signed_zero]
  · rcases a with _ | s | ⟨s, x⟩ <;> rcases b with _ | t | ⟨t, y⟩ <;>
      simp only [div_eq, div, ne_eq, not_true_eq_false, Bool.xor_false, not_nan_le, not_le_nan,
        inf_le_inf_iff, inf_le_finite_iff, finite_le_inf_iff, finite_le_finite_iff]
        at ha hb hab ⊢
    · exact hab
    · subst hab
      exact inf_true_le hb
    · subst hab
      exact le_inf_false ha
    · by_cases hz : z = 0
      · simp only [hz, if_true] at ha hb ⊢
        split_ifs at ha hb ⊢ <;> try exact absurd rfl (by assumption)
        rename_i hx hy
        rw [inf_le_inf_iff]
        by_contra hc
        push_neg at hc
        obtain ⟨hs, ht⟩ := hc
        simp only [Bool.not_eq_true, Bool.not_eq_false] at hs ht
        subst hs; subst ht
        simp only [signed, Bool.false_eq_true, if_false, if_true] at hab
        have h1 : (0 : ℚ) ≤ x := x.coe_nonneg
        have h2 : (0 : ℚ) ≤ y := y.coe_nonneg
        have h3 : (x : ℚ) = 0 := by linarith
        exact hx (by exact_mod_cast h3)
      · simp only [hz, if_false]
        exact round_div_le_round_div s t x y z hab

/-- The binary32 quotient of a value `>= 0` by a positive finite number does not
grow when the divisor grows. -/
theorem binary32_div_anti_right {x : Binary32} {z1 z2 : ℚ≥0} (hx : 0 ≤ x) (h1 : 0 < z1)
    (h12 : z1 ≤ z2) : x / finite false z2 ≤ x / finite false z1 := by
  have hz1 : z1 ≠ 0 := h1.ne.symm
  have hz2 : z2 ≠ 0 := (lt_of_lt_of_le h1 h12).ne.symm
  rw [zero_le_iff] at hx
  rcases hx with rfl | ⟨r, w, rfl, hw⟩
  · simp only [div_eq, div, Bool.xor_false]
    rw [inf_le_inf_iff]; right; rfl
  · simp only [div_eq, div, Bool.xor_false, if_neg hz1, if_neg hz2]
    rw [NNRat.coe_div, NNRat.coe_div]
    have hw0 : (0 : ℚ) ≤ w := w.coe_nonneg
    have p1 : (0 : ℚ) < z1 := by exact_mod_cast h1
    have p12 : (z1 : ℚ) ≤ z2 := by exact_mod_cast h12
    apply round_le_round _ _ (div_nonneg hw0 z2.coe_nonneg) (div_nonneg hw0 z1.coe_nonneg)
    rcases hw with rfl | rfl
    · simp only [Bool.false_eq_true, if_false]
      exact div_le_div_of_nonneg_left hw0 p1 p12
    · simp

/-- The conversion of an `unsigned int` to `float` is monotone. -/
theorem natCast_mono {m n : ℕ} (h : m ≤ n) :
    ((m : ℕ) : Binary32) ≤ ((n : ℕ) : Binary32) := by
  rw [natCast_eq, natCast_eq]
  apply round_le_round false false (Nat.cast_nonneg m) (Nat.cast_nonneg n)
  simpa using h

/-- The number 1 is a binary32 number. -/
theorem roundMagnitude_one : roundMagnitude 1 = 1 := by decide!

/-- The number `2 ^ 32` is a binary32 number. -/
theorem roundMagnitude_two_pow_32 : roundMagnitude 4294967296 = 4294967296 := by decide!

/-- The conversion of a positive `unsigned int` is a finite number that is at
least 1. -/
theorem natCast_of_lt {n : ℕ} (h1 : 1 ≤ n) (h2 : n < 2 ^ 32) :
    ∃ z : ℚ≥0, ((n : ℕ) : Binary32) = finite false z ∧ 1 ≤ z := by
  have a1 : (1 : ℚ) ≤ roundMagnitude n := by
    rw [← roundMagnitude_one]
    exact roundMagnitude_mono (by norm_num) (by exact_mod_cast h1)
  have a2 : roundMagnitude n ≤ 4294967296 := by
    rw [← roundMagnitude_two_pow_32]
    apply roundMagnitude_mono (Nat.cast_nonneg n)
    have : n ≤ 4294967296 := by omega
    exact_mod_cast this
  refine ⟨(roundMagnitude n).toNNRat, ?_, ?_⟩
  · rw [natCast_eq]
    unfold round
    rw [if_neg]
    rw [pow2_eq_zpow]
    push_neg
    calc roundMagnitude n ≤ 4294967296 := a2
      _ < 2 ^ (128 : ℤ) := by norm_num
  · rw [← NNRat.coe_le_coe, Rat.coe_toNNRat _ (by linarith)]
    exact_mod_cast a1

end Binary32

namespace Binary32

/-- A rounded result with the sign bit clear is `+inf` or a finite number with
the sign bit clear. -/
theorem round_false_cases (q : ℚ) :
    round false q = inf false ∨ ∃ z, round false q = finite false z := by
  unfold round
  split_ifs
  · exact Or.inl rfl
  · exact Or.inr ⟨_, rfl⟩

/-- A converted `unsigned int` is `+inf` or a finite number with the sign bit
clear. -/
theorem natCast_cases (n : ℕ) :
    ((n : ℕ) : Binary32) = inf false ∨ ∃ z, ((n : ℕ) : Binary32) = finite false z :=
  round_false_cases n

/-- The binary32 square of a value is a NaN, `+inf`, or a finite number with the
sign bit clear. -/
theorem mul_self_cases (x : Binary32) :
    x * x = nan ∨ x * x = inf false ∨ ∃ z, x * x = finite false z := by
  rcases x with _ | s | ⟨s, p⟩
  · exact Or.inl rfl
  · right; left
    show inf (xor s s) = inf false
    rw [Bool.xor_self]
  · right
    show round (xor s s) ((p * p : ℚ≥0) : ℚ) = inf false ∨
      ∃ z, round (xor s s) ((p * p : ℚ≥0) : ℚ) = finite false z
    rw [Bool.xor_self]
    exact round_false_cases _

/-- The binary32 square of a value is `>= 0` unless it is a NaN. -/
theorem zero_le_mul_self {x : Binary32} (h : x * x ≠ nan) : 0 ≤ x * x := by
  rw [zero_le_iff]
  rcases mul_self_cases x with h1 | h1 | ⟨z, h1⟩
  · exact absurd h1 h
  · exact Or.inl h1
  · exact Or.inr ⟨false, z, h1, Or.inl rfl⟩

/-- A product with a NaN is a NaN. -/
theorem mul_nan (x : Binary32) : x * nan = nan := by
  rcases x with _ | s | ⟨s, p⟩ <;> rfl

/-- A quotient of a NaN is a NaN. -/
theorem nan_div (d : Binary32) : nan / d = nan := by
  rcases d with _ | s | ⟨s, p⟩ <;> rfl

/-- The binary32 product of two values `>= 0` is `>= 0` unless it is a NaN. -/
theorem binary32_mul_nonneg {a p : Binary32} (ha : 0 ≤ a) (hp : 0 ≤ p) (h : a * p ≠ nan) :
    0 ≤ a * p := by
  rw [zero_le_iff] at ha hp
  rcases ha with rfl | ⟨r, w, rfl, hw⟩ <;> rcases hp with rfl | ⟨s, z, rfl, hz⟩ <;>
    simp only [mul_eq, mul, Bool.xor_false, ne_eq] at h ⊢
  · rw [zero_le_iff]; exact Or.inl rfl
  · split_ifs at h ⊢ with h0
    · exact absurd rfl h
    · have hs : s = false := hz.resolve_right h0
      subst hs
      rw [zero_le_iff]; exact Or.inl rfl
  · split_ifs at h ⊢ with h0
    · exact absurd rfl h
    · have hr : r = false := hw.resolve_right h0
      subst hr
      rw [zero_le_iff]; exact Or.inl rfl
  · have key :
        round (xor r s) ((w * z : ℚ≥0) : ℚ) = round false ((w * z : ℚ≥0) : ℚ) ∨
        round (xor r s) ((w * z : ℚ≥0) : ℚ) = finite (xor r s) 0 := by
      by_cases hwz : w * z = 0
      · right; rw [hwz]; exact round_zero _
      · left
        have hw0 : w ≠ 0 := fun e => hwz (by rw [e, zero_mul])
        have hz0 : z ≠ 0 := fun e => hwz (by rw [e, mul_zero])
        rw [hw.resolve_right hw0, hz.resolve_right hz0]
        rfl
    rcases key with e | e
    · rw [e, zero_le_iff]
      rcases round_false_cases ((w * z : ℚ≥0) : ℚ) with h1 | ⟨u, h1⟩
      · exact Or.inl h1
      · exact Or.inr ⟨false, u, h1, Or.inl rfl⟩
    · rw [e, zero_le_iff]
      exact Or.inr ⟨_, 0, rfl, Or.inr rfl⟩

/-- The binary32 product of two finite numbers is not a NaN. -/
theorem finite_mul_finite_ne_nan {a p : Binary32} (ha : a.isFinite = true)
    (hp : p.isFinite = true) : a * p ≠ nan := by
  rcases a with _ | s | ⟨s, x⟩ <;> rcases p with _ | t | ⟨t, y⟩ <;>
    simp only [isFinite, Bool.false_eq_true] at ha hp
  exact round_ne_nan _ _

/-- The binary32 quotient of a number by a finite non-zero number with the sign
bit clear is not a NaN. -/
theorem div_finite_ne_nan {x : Binary32} {z : ℚ≥0} (hx : x ≠ nan) (hz : z ≠ 0) :
    x / finite false z ≠ nan := by
  rcases x with _ | s | ⟨s, w⟩ <;> simp only [div_eq, div, if_neg hz, ne_eq]
  · exact absurd rfl hx
  · simp
  · exact round_ne_nan _ _

/-- A value between zero and a finite number is finite. -/
theorem isFinite_of_le_finite {p q : Binary32} (h : p ≤ q) (hp : 0 ≤ p)
    (hq : q.isFinite = true) : p.isFinite = true := by
  rw [zero_le_iff] at hp
  rcases hp with rfl | ⟨r, z, rfl, _⟩
  · rcases q with _ | t | ⟨t, y⟩ <;> simp only [isFinite, Bool.false_eq_true] at hq
    rw [inf_le_finite_iff] at h
    exact absurd h (by simp)
  · rfl

end Binary32

/-- The photon power of line 419, operation by operation. -/
theorem photonPower_eq {α : Type} [Mul α] [Div α] [NatCast α] (rsmWidth : ℕ) (I pw : α) :
    photonPower rsmWidth I pw = I * (pw * pw) / ((rsmTexelCount rsmWidth : ℕ) : α) := rfl

/-- The binary32 photon power is monotone in lightIntensity where it is a number. -/
theorem photonPower_mono_lightIntensity (rsmWidth : ℕ) (pw a b : Binary32) (hab : a ≤ b)
    (ha : photonPower rsmWidth a pw ≠ Binary32.nan)
    (hb : photonPower rsmWidth b pw ≠ Binary32.nan) :
    photonPower rsmWidth a pw ≤ photonPower rsmWidth b pw := by
  rw [photonPower_eq] at ha hb ⊢
  have ha1 : a * (pw * pw) ≠ Binary32.nan := fun e => ha (by rw [e, Binary32.nan_div])
  have hb1 : b * (pw * pw) ≠ Binary32.nan := fun e => hb (by rw [e, Binary32.nan_div])
  have hp : pw * pw ≠ Binary32.nan := fun e => ha1 (by rw [e, Binary32.mul_nan])
  exact Binary32.binary32_div_mono_left
    (Binary32.binary32_mul_mono_left hab (Binary32.zero_le_mul_self hp) ha1 hb1)
    (Binary32.natCast_cases _) ha hb

/-- The binary32 photon power is a number when lightIntensity and the square of
the plane width are finite and the 32-bit product of the width is not zero. -/
theorem photonPower_ne_nan (rsmWidth : ℕ) (I pw : Binary32) (hI : I.isFinite = true)
    (hp : (pw * pw).isFinite = true) (hw : rsmTexelCount rsmWidth ≠ 0) :
    photonPower rsmWidth I pw ≠ Binary32.nan := by
  rw [photonPower_eq]
  have hlt : rsmTexelCount rsmWidth < 2 ^ 32 := Nat.mod_lt _ (by norm_num)
  obtain ⟨z, hz, hz1⟩ := Binary32.natCast_of_lt (Nat.one_le_iff_ne_zero.mpr hw) hlt
  rw [hz]
  apply Binary32.div_finite_ne_nan (Binary32.finite_mul_finite_ne_nan hI hp)
  intro e
  rw [e] at hz1
  exact absurd hz1 (by norm_num)

/-- The binary32 photon power of a lightIntensity `>= 0` is monotone in the
binary32 square of the plane width where it is a number. -/
theorem photonPower_mono_planeWidth (rsmWidth : ℕ) (I p q : Binary32)
    (hI : 0 ≤ I) (hpq : p * p ≤ q * q)
    (hp : photonPower rsmWidth I p ≠ Binary32.nan)
    (hq : photonPower rsmWidth I q ≠ Binary32.nan) :
    photonPower rsmWidth I p ≤ photonPower rsmWidth I q := by
  rw [photonPower_eq] at hp hq ⊢
  have hp1 : I * (p * p) ≠ Binary32.nan := fun e => hp (by rw [e, Binary32.nan_div])
  have hq1 : I * (q * q) ≠ Binary32.nan := fun e => hq (by rw [e, Binary32.nan_div])
  exact Binary32.binary32_div_mono_left
    (Binary32.binary32_mul_mono_right hpq hI hp1 hq1) (Binary32.natCast_cases _) hp hq

/-- The binary32 photon power of a lightIntensity `>= 0` does not grow with the
RSM width, for widths below 65536, where it is a number; the converted
denominators are finite, at least 1, and grow with the width. -/
theorem photonPower_anti_rsmWidth (I pw : Binary32) (w1 w2 : ℕ) (hI : 0 ≤ I)
    (h1 : 0 < w1) (h12 : w1 ≤ w2) (h2 : w2 < 65536)
    (hn : photonPower w1 I pw ≠ Binary32.nan) :
    photonPower w2 I pw ≤ photonPower w1 I pw ∧
    ∃ z1 z2 : ℚ≥0, ((rsmTexelCount w1 : ℕ) : Binary32) = Binary32.finite false z1 ∧
      ((rsmTexelCount w2 : ℕ) : Binary32) = Binary32.finite false z2 ∧ 1 ≤ z1 ∧
      z1 ≤ z2 := by
  have e1 : rsmTexelCount w1 = w1 * w1 := rsmTexelCount_of_lt w1 (by omega)
  have e2 : rsmTexelCount w2 = w2 * w2 := rsmTexelCount_of_lt w2 h2
  have l1 : rsmTexelCount w1 < 2 ^ 32 := Nat.mod_lt _ (by norm_num)
  have l2 : rsmTexelCount w2 < 2 ^ 32 := Nat.mod_lt _ (by norm_num)
  have p1 : 1 ≤ rsmTexelCount w1 := by rw [e1]; exact Nat.mul_pos h1 h1
  have p12 : rsmTexelCount w1 ≤ rsmTexelCount w2 := by
    rw [e1, e2]; exact Nat.mul_le_mul h12 h12
  obtain ⟨z1, hz1, hz1'⟩ := Binary32.natCast_of_lt p1 l1
  obtain ⟨z2, hz2, _⟩ := Binary32.natCast_of_lt (le_trans p1 p12) l2
  have hz12 : z1 ≤ z2 := by
    have := Binary32.natCast_mono p12
    rw [hz1, hz2, Binary32.finite_le_finite_iff] at this
    simpa [Binary32.signed] using this
  refine ⟨?_, z1, z2, hz1, hz2, hz1', hz12⟩
  rw [photonPower_eq] at hn ⊢
  rw [photonPower_eq, hz1, hz2]
  have hx : I * (pw * pw) ≠ Binary32.nan := fun e => hn (by rw [e, Binary32.nan_div])
  have hp : pw * pw ≠ Binary32.nan := fun e => hx (by rw [e, Binary32.mul_nan])
  exact Binary32.binary32_div_anti_right
    (Binary32.binary32_mul_nonneg hI (Binary32.zero_le_mul_self hp) hx)
    (lt_of_lt_of_le one_pos hz1') hz12

namespace Binary32

/-- The exponent of a positive rational is determined by its binade. -/
theorem exponent_eq {q : ℚ} {e : ℤ} (hq : 0 < q) (h1 : -126 ≤ e) (h2 : q < pow2 (e + 1))
    (h3 : e = -126 ∨ pow2 e ≤ q) : exponent q = e := by
  obtain ⟨s1, s2, s3⟩ := exponent_spec q hq
  rcases lt_trichotomy (exponent q) e with h | h | h
  · rcases h3 with h3 | h3
    · omega
    · have := pow2_le_pow2 (show exponent q + 1 ≤ e by omega)
      linarith
  · exact h
  · rcases s3 with s3 | s3
    · omega
    · have := pow2_le_pow2 (show e + 1 ≤ exponent q by omega)
      linarith

/-- Rounding to a normal number changes the magnitude by at most `2 ^ (-24)` of
the rounded magnitude. -/
theorem roundMagnitude_error {q : ℚ} (hq : 0 ≤ q) (hn : pow2 (-126) ≤ roundMagnitude q) :
    |roundMagnitude q - q| ≤ pow2 (-24) * roundMagnitude q := by
  have hq0 : 0 < q := by
    rcases hq.lt_or_eq with h | h
    · exact h
    · rw [← h, roundMagnitude_zero] at hn
      exact absurd hn (not_le.mpr (pow2_pos _))
  obtain ⟨s1, s2, s3⟩ := exponent_spec q hq0
  have hu := ulp_pos q
  have hb := (roundHalfEven_bounds (q / ulp q)).2
  have h1 : |roundMagnitude q - q| ≤ ulp q / 2 := by
    have e : roundMagnitude q - q = ((roundHalfEven (q / ulp q) : ℚ) - q / ulp q) * ulp q := by
      unfold roundMagnitude
      field_simp
    rw [e, abs_mul, abs_of_pos hu]
    have : |(roundHalfEven (q / ulp q) : ℚ) - q / ulp q| ≤ 1 / 2 := by
      rw [abs_le]; constructor <;> linarith [hb.1, hb.2]
    calc |(roundHalfEven (q / ulp q) : ℚ) - q / ulp q| * ulp q ≤ 1 / 2 * ulp q := by gcongr
      _ = ulp q / 2 := by ring
  have h2 : pow2 (exponent q) ≤ roundMagnitude q := by
    rcases s3 with s3 | s3
    · rw [s3]; exact hn
    · exact pow2_le_roundMagnitude s3
  have h3 : ulp q / 2 = pow2 (-24) * pow2 (exponent q) := by
    unfold ulp
    rw [show exponent q - 23 = 1 + (-24 + exponent q) by ring, pow2_add, pow2_add]
    have : pow2 1 = 2 := by decide!
    rw [this]; ring
  calc |roundMagnitude q - q| ≤ ulp q / 2 := h1
    _ = pow2 (-24) * pow2 (exponent q) := h3
    _ ≤ pow2 (-24) * roundMagnitude q := by
      apply mul_le_mul_of_nonneg_left h2 (pow2_pos _).le

/-- A multiple of its `ulp` rounds to itself. -/
theorem roundMagnitude_of_integer {q : ℚ} (m : ℤ) (h : q = m * ulp q) :
    roundMagnitude q = q := by
  unfold roundMagnitude
  have hu := ulp_pos q
  have : q / ulp q = (m : ℚ) := by
    rw [div_eq_iff hu.ne.symm]; exact h
  rw [this, roundHalfEven_intCast]
  exact h.symm

/-- A magnitude that rounds to itself is a multiple of its `ulp`. -/
theorem roundMagnitude_fixed (q : ℚ) (h : roundMagnitude q = q) :
    q = (roundHalfEven (q / ulp q) : ℚ) * ulp q := by
  conv_lhs => rw [← h]
  rfl

/-- The double of a binary32 magnitude rounds to itself. -/
theorem roundMagnitude_double {t : ℚ} (ht : 0 ≤ t) (h : roundMagnitude t = t) :
    roundMagnitude (2 * t) = 2 * t := by
  rcases ht.lt_or_eq with ht | ht
  · obtain ⟨s1, s2, s3⟩ := exponent_spec t ht
    have hm := roundMagnitude_fixed t h
    have two : pow2 1 = 2 := by decide!
    by_cases hn : pow2 (exponent t) ≤ t
    · have he : exponent (2 * t) = exponent t + 1 := by
        apply exponent_eq (by linarith) (by omega)
        · rw [pow2_add (exponent t + 1) 1, two]; linarith
        · right; rw [pow2_add, two]; linarith
      have hu : ulp (2 * t) = 2 * ulp t := by
        unfold ulp
        rw [he, show exponent t + 1 - 23 = 1 + (exponent t - 23) by ring, pow2_add, two]
      apply roundMagnitude_of_integer (roundHalfEven (t / ulp t))
      rw [hu]
      linarith
    · have h126 : exponent t = -126 := by
        rcases s3 with s3 | s3
        · exact s3
        · exact absurd s3 hn
      push_neg at hn
      have he : exponent (2 * t) = -126 := by
        apply exponent_eq (by linarith) (by omega)
        · rw [h126] at hn
          have : pow2 (-126 + 1) = 2 * pow2 (-126) := by
            rw [pow2_add, two]; ring
          rw [this]; linarith
        · left; rfl
      have hu : ulp (2 * t) = ulp t := by
        unfold ulp
        rw [he, h126]
      apply roundMagnitude_of_integer (2 * roundHalfEven (t / ulp t))
      rw [hu]
      push_cast
      linarith
  · rw [← ht]; simp [roundMagnitude_zero]

/-- The half of a binary32 magnitude of at least `2 ^ (-125)` rounds to itself. -/
theorem roundMagnitude_half {f : ℚ} (hf : pow2 (-125) ≤ f) (h : roundMagnitude f = f) :
    roundMagnitude (f / 2) = f / 2 := by
  have hf0 : 0 < f := lt_of_lt_of_le (pow2_pos _) hf
  obtain ⟨s1, s2, s3⟩ := exponent_spec f hf0
  have hm := roundMagnitude_fixed f h
  have two : pow2 1 = 2 := by decide!
  have hlt : -125 ≤ exponent f := by
    by_contra hc
    push_neg at hc
    have := pow2_le_pow2 (show exponent f + 1 ≤ -125 by omega)
    linarith
  have hn : pow2 (exponent f) ≤ f := by
    rcases s3 with s3 | s3
    · omega
    · exact s3
  have e1 : pow2 (exponent f) = 2 * pow2 (exponent f - 1) := by
    conv_lhs => rw [show exponent f = 1 + (exponent f - 1) by ring, pow2_add, two]
  have e2 : pow2 (exponent f + 1) = 2 * pow2 (exponent f - 1 + 1) := by
    conv_lhs => rw [show exponent f + 1 = 1 + (exponent f - 1 + 1) by ring, pow2_add, two]
  have he : exponent (f / 2) = exponent f - 1 := by
    apply exponent_eq (by linarith) (by omega)
    · linarith
    · right; linarith
  have hu : ulp f = 2 * ulp (f / 2) := by
    unfold ulp
    rw [he, show exponent f - 23 = 1 + (exponent f - 1 - 23) by ring, pow2_add, two]
  apply roundMagnitude_of_integer (roundHalfEven (f / ulp f))
  generalize roundHalfEven (f / ulp f) = m at hm
  rw [hu] at hm
  linarith

end Binary32

namespace Binary32

/-- Three roundings, each within `2 ^ (-24)` of its result, stay within
`2 ^ (-22)` of the final result. -/
theorem three_roundings (i a P X V : ℚ) (hi : 0 ≤ i) (hX : 0 ≤ X) (hV : 0 ≤ V)
    (h1 : |P - a| ≤ 1 / 16777216 * P) (h2 : |X - i * P| ≤ 1 / 16777216 * X)
    (h3 : |V - X / 16384| ≤ 1 / 16777216 * V) :
    |V - i * a / 16384| ≤ 1 / 4194304 * V := by
  rw [abs_le] at h1 h2 h3 ⊢
  obtain ⟨a1, a2⟩ := h1
  obtain ⟨b1, b2⟩ := h2
  obtain ⟨c1, c2⟩ := h3
  have u1 : i * a ≤ i * ((1 + 1 / 16777216) * P) := mul_le_mul_of_nonneg_left (by linarith) hi
  have u2 : i * P ≤ (1 + 1 / 16777216) * X := by linarith
  have u3 : X ≤ (1 + 1 / 16777216) * V * 16384 := by linarith
  have l1 : i * ((1 - 1 / 16777216) * P) ≤ i * a := mul_le_mul_of_nonneg_left (by linarith) hi
  have l2 : (1 - 1 / 16777216) * X ≤ i * P := by linarith
  have l3 : (1 - 1 / 16777216) * V * 16384 ≤ X := by linarith
  have U : i * a ≤
      (1 + 1 / 16777216) * ((1 + 1 / 16777216) * ((1 + 1 / 16777216) * V * 16384)) := by
    calc i * a ≤ i * ((1 + 1 / 16777216) * P) := u1
      _ = (1 + 1 / 16777216) * (i * P) := by ring
      _ ≤ (1 + 1 / 16777216) * ((1 + 1 / 16777216) * X) :=
          mul_le_mul_of_nonneg_left u2 (by norm_num)
      _ ≤ (1 + 1 / 16777216) * ((1 + 1 / 16777216) * ((1 + 1 / 16777216) * V * 16384)) :=
          mul_le_mul_of_nonneg_left (mul_le_mul_of_nonneg_left u3 (by norm_num)) (by norm_num)
  have L :
      (1 - 1 / 16777216) * ((1 - 1 / 16777216) * ((1 - 1 / 16777216) * V * 16384)) ≤
        i * a := by
    calc (1 - 1 / 16777216) * ((1 - 1 / 16777216) * ((1 - 1 / 16777216) * V * 16384))
        ≤ (1 - 1 / 16777216) * ((1 - 1 / 16777216) * X) :=
          mul_le_mul_of_nonneg_left (mul_le_mul_of_nonneg_left l3 (by norm_num)) (by norm_num)
      _ ≤ (1 - 1 / 16777216) * (i * P) := mul_le_mul_of_nonneg_left l2 (by norm_num)
      _ = i * ((1 - 1 / 16777216) * P) := by ring
      _ ≤ i * a := l1
  constructor <;> linarith

/-- A rounded result that is a normal number is finite and within `2 ^ (-24)` of
its magnitude of the exact result. -/
theorem round_of_isNormal (s : Bool) {q : ℚ} (hq : 0 ≤ q) (h : (round s q).isNormal = true) :
    ∃ R : ℚ≥0, round s q = finite s R ∧ |(R : ℚ) - q| ≤ 1 / 16777216 * R := by
  unfold round at h ⊢
  split_ifs at h ⊢ with ho
  · simp [isNormal] at h
  · refine ⟨_, rfl, ?_⟩
    simp only [isNormal, decide_eq_true_eq] at h
    rw [Rat.coe_toNNRat _ (roundMagnitude_nonneg hq)] at h ⊢
    have := roundMagnitude_error hq h
    have e : pow2 (-24) = 1 / 16777216 := by decide!
    rwa [e] at this

end Binary32

/-- When the three results of line 419 are normal numbers, the binary32 photon
power is within `2 ^ (-22)` of its magnitude of the exact quotient. -/
theorem photonPower_error (I pw : Binary32)
    (hp : (pw * pw).isNormal = true) (hx : (I * (pw * pw)).isNormal = true)
    (hv : (photonPower RSM_WIDTH I pw).isNormal = true) :
    |(photonPower RSM_WIDTH I pw).toRat - I.toRat * pw.toRat ^ 2 / (RSM_WIDTH : ℚ) ^ 2| ≤
      1 / 4194304 * |(photonPower RSM_WIDTH I pw).toRat| := by
  have hD : ((rsmTexelCount RSM_WIDTH : ℕ) : Binary32) = Binary32.finite false 16384 := by decide!
  rw [photonPower_eq, hD] at hv ⊢
  rcases pw with _ | sw | ⟨sw, w⟩
  · simp [Binary32.mul_eq, Binary32.mul, Binary32.isNormal] at hp
  · simp [Binary32.mul_eq, Binary32.mul, Binary32.isNormal] at hp
  rcases I with _ | sI | ⟨sI, i⟩
  · simp [Binary32.mul_eq, Binary32.mul, Binary32.isNormal] at hx
  · exfalso
    revert hx
    simp only [Binary32.mul_eq, Binary32.mul]
    generalize Binary32.round (xor sw sw) ((w * w : ℚ≥0) : ℚ) = p
    rcases p with _ | t | ⟨t, y⟩ <;> simp only [Binary32.mul] <;> try split_ifs
    all_goals simp [Binary32.isNormal]
  simp only [Binary32.mul_eq, Binary32.mul, Bool.xor_self] at hp hx hv ⊢
  obtain ⟨P, eP, bP⟩ := Binary32.round_of_isNormal false (w * w).coe_nonneg hp
  rw [eP] at hx hv ⊢
  simp only [Binary32.mul, Bool.xor_false] at hx hv ⊢
  obtain ⟨X, eX, bX⟩ := Binary32.round_of_isNormal sI (i * P).coe_nonneg hx
  rw [eX] at hv ⊢
  have h16 : (16384 : ℚ≥0) ≠ 0 := by norm_num
  simp only [Binary32.div_eq, Binary32.div, Bool.xor_false, if_neg h16] at hv ⊢
  obtain ⟨V, eV, bV⟩ := Binary32.round_of_isNormal sI (X / 16384).coe_nonneg hv
  rw [eV]
  simp only [Binary32.toRat]
  push_cast at bP bX bV
  have key := Binary32.three_roundings i (w * w) P X V i.coe_nonneg X.coe_nonneg V.coe_nonneg
    bP bX bV
  have hR : ((RSM_WIDTH : ℕ) : ℚ) ^ 2 = 16384 := by norm_num [RSM_WIDTH]
  rw [hR]
  have key2 : |(V : ℚ) - i * (w : ℚ) ^ 2 / 16384| ≤ 1 / 4194304 * |(V : ℚ)| := by
    rw [abs_of_nonneg V.coe_nonneg, pow_two]; exact key
  have key3 : |-(V : ℚ) - -(i : ℚ) * (w : ℚ) ^ 2 / 16384| ≤ 1 / 4194304 * |-(V : ℚ)| := by
    rw [show -(V : ℚ) - -(i : ℚ) * (w : ℚ) ^ 2 / 16384 =
        -((V : ℚ) - i * (w : ℚ) ^ 2 / 16384)
      by ring, abs_neg, abs_neg]
    exact key2
  cases sI <;> cases sw <;>
    simp only [Binary32.signed, Bool.false_eq_true, if_false, if_true, neg_sq]
  · exact key2
  · exact key2
  · exact key3
  · exact key3

/-- The binary32 product `2.0f * x` of a binary32 number is its exact double,
below the overflow threshold. -/
theorem Binary32.two_mul_finite (s : Bool) (t : ℚ≥0) (ht : Binary32.roundMagnitude t = t)
    (hlt : 2 * (t : ℚ) < Binary32.pow2 128) :
    (2 : Binary32) * Binary32.finite s t = Binary32.finite s (2 * t) := by
  have h2 : (2 : Binary32) = Binary32.finite false 2 := by decide!
  rw [h2]
  show Binary32.round (xor false s) ((2 * t : ℚ≥0) : ℚ) = _
  have e := Binary32.roundMagnitude_double t.coe_nonneg ht
  unfold Binary32.round
  push_cast
  rw [e, if_neg (not_le.mpr hlt), Bool.false_xor]
  congr 1
  rw [← NNRat.coe_inj, Rat.coe_toNNRat _ (by positivity)]
  push_cast
  rfl

/-- The binary32 quotient `x / 2.0f` of a binary32 number of magnitude at least
`2 ^ (-125)` is its exact half. -/
theorem Binary32.finite_div_two (s : Bool) (f : ℚ≥0) (hf : Binary32.roundMagnitude f = f)
    (hn : Binary32.pow2 (-125) ≤ f) (hlt : (f : ℚ) < Binary32.pow2 128) :
    Binary32.finite s f / (2 : Binary32) = Binary32.finite s (f / 2) := by
  have h2 : (2 : Binary32) = Binary32.finite false 2 := by decide!
  rw [h2]
  show Binary32.div (Binary32.finite s f) (Binary32.finite false 2) = _
  have h20 : (2 : ℚ≥0) ≠ 0 := by norm_num
  simp only [Binary32.div, if_neg h20, Bool.xor_false]
  have e := Binary32.roundMagnitude_half hn hf
  have f0 : (0 : ℚ) ≤ f := f.coe_nonneg
  unfold Binary32.round
  push_cast
  rw [e, if_neg (by rw [not_le]; linarith)]
  congr 1
  rw [← NNRat.coe_inj, Rat.coe_toNNRat _ (by positivity)]
  push_cast
  rfl

namespace Binary32

/-- Rounding a rounded magnitude changes nothing. -/
theorem roundMagnitude_idem {q : ℚ} (hq : 0 ≤ q) :
    roundMagnitude (roundMagnitude q) = roundMagnitude q := by
  rcases hq.lt_or_eq with h0 | h0
  swap
  · rw [← h0, roundMagnitude_zero, roundMagnitude_zero]
  obtain ⟨s1, s2, s3⟩ := exponent_spec q h0
  have hle := roundMagnitude_le_pow2 h0
  have hnn := roundMagnitude_nonneg hq
  rcases hnn.lt_or_eq with hpos | hz
  swap
  · rw [← hz, roundMagnitude_zero]
  rcases hle.lt_or_eq with hlt | heq
  · have he : exponent (roundMagnitude q) = exponent q := by
      apply exponent_eq hpos s1 hlt
      rcases s3 with s3 | s3
      · exact Or.inl s3
      · exact Or.inr (pow2_le_roundMagnitude s3)
    apply roundMagnitude_of_integer (roundHalfEven (q / ulp q))
    have hu : ulp (roundMagnitude q) = ulp q := by
      unfold ulp
      rw [he]
    rw [hu]
    rfl
  · have he : exponent (roundMagnitude q) = exponent q + 1 := by
      apply exponent_eq hpos (by omega)
      · have h1 : pow2 1 = 2 := by decide!
        have h2 : pow2 (exponent q + 1 + 1) = 2 * pow2 (exponent q + 1) := by
          rw [show exponent q + 1 + 1 = 1 + (exponent q + 1) by ring, pow2_add, h1]
        rw [heq, h2]
        linarith [pow2_pos (exponent q + 1)]
      · exact Or.inr heq.ge
    apply roundMagnitude_of_integer (2 ^ 23 : ℤ)
    unfold ulp
    rw [he, heq, show exponent q + 1 = 23 + (exponent q + 1 - 23) by ring, pow2_add,
      show 23 + (exponent q + 1 - 23) - 23 = exponent q + 1 - 23 by ring]
    congr 1

/-- A rounded result is a value of the format. -/
theorem round_isRepresentable (s : Bool) {q : ℚ} (hq : 0 ≤ q) :
    (round s q).isRepresentable = true := by
  unfold round
  split
  · rfl
  · rename_i h
    have hnn := roundMagnitude_nonneg hq
    simp only [isRepresentable, Rat.coe_toNNRat _ hnn, decide_eq_true_eq]
    exact ⟨roundMagnitude_idem hq, not_le.mp h⟩

/-- Every product is a value of the format. -/
theorem mul_isRepresentable (x y : Binary32) : (x * y).isRepresentable = true := by
  rw [mul_eq]
  rcases x with _ | s | ⟨s, p⟩ <;> rcases y with _ | t | ⟨t, r⟩ <;> simp only [mul]
  any_goals rfl
  · split <;> rfl
  · split <;> rfl
  · exact round_isRepresentable _ (p * r).coe_nonneg

/-- Every quotient is a value of the format. -/
theorem div_isRepresentable (x y : Binary32) : (x / y).isRepresentable = true := by
  rw [div_eq]
  rcases x with _ | s | ⟨s, p⟩ <;> rcases y with _ | t | ⟨t, r⟩ <;> simp only [div]
  any_goals rfl
  · simp only [isRepresentable, NNRat.coe_zero, roundMagnitude_zero, true_and,
      decide_eq_true_eq]
    exact pow2_pos _
  · split
    · split <;> rfl
    · exact round_isRepresentable _ (p / r).coe_nonneg

/-- A converted `unsigned int` is a value of the format. -/
theorem natCast_isRepresentable (n : ℕ) : ((n : ℕ) : Binary32).isRepresentable = true := by
  rw [natCast_eq]
  exact round_isRepresentable _ (Nat.cast_nonneg n)

end Binary32

/-- The photon power of line 419 is a value of the format. -/
theorem photonPower_isRepresentable (rsmWidth : ℕ) (lightIntensity planeWidth : Binary32) :
    (photonPower rsmWidth lightIntensity planeWidth).isRepresentable = true := by
  rw [photonPower_eq]
  exact Binary32.div_isRepresentable _ _

/-! ## C4: the configured photon power -/

/-- C4: with lightIntensity 4,000,000, a spotlight field of view of `π / 4` and
the buffers of `Create` / `Initialize` (RSM_WIDTH = 128), the photon power that
`VSGLGenerationPass` uploads is, over the reals,
`4000000 * (2 * tan (π / 4 / 2)) ^ 2 / (128 * 128)`; it is within 0.1 of 167.6,
the plane width within 0.001 of 0.828 and its square within 0.001 of 0.686. -/
theorem C4_photonPower_example (math : MathLib ℝ) (spotLight : Camera ℝ) (sd sc : PixelBuffer) :
    (Renderer.VSGLGenerationPass { math with tan := Real.tan } (Renderer.Create sd sc)
        { spotLight with GetFOV := Real.pi / 4 } 4000000).cmds.filterMap Cmd.photonPower? =
      [4000000 * (2 * Real.tan (Real.pi / 4 / 2)) ^ 2 / (128 * 128)] ∧
    (MyRenderer.VSGLGenerationPass { math with tan := Real.tan } (MyRenderer.Initialize sd sc)
        { spotLight with GetFOV := Real.pi / 4 } 4000000).cmds.filterMap Cmd.photonPower? =
      [4000000 * (2 * Real.tan (Real.pi / 4 / 2)) ^ 2 / (128 * 128)] ∧
    |4000000 * (2 * Real.tan (Real.pi / 4 / 2)) ^ 2 / (128 * 128) - 167.6| < 0.1 ∧
    |2 * Real.tan (Real.pi / 4 / 2) - 0.828| < 0.001 ∧
    |(2 * Real.tan (Real.pi / 4 / 2)) ^ 2 - 0.686| < 0.001 := by
  have e : Real.pi / 4 / 2 = Real.pi / 8 := by ring
  obtain ⟨hlo, hhi⟩ := tan_pi_div_eight_bounds
  have hpp : photonPower RSM_WIDTH (4000000 : ℝ) (planeWidth Real.tan (Real.pi / 4)) =
      4000000 * (2 * Real.tan (Real.pi / 4 / 2)) ^ 2 / (128 * 128) := by
    simp [photonPower, planeWidth, rsmTexelCount, RSM_WIDTH]
    ring
  refine ⟨?_, ?_, ?_, ?_, ?_⟩
  · rw [← hpp]
    exact (VSGLGenerationPass_photonPower _ sd sc _ _).1
  · rw [← hpp]
    exact (VSGLGenerationPass_photonPower _ sd sc _ _).2
  · rw [e, abs_lt]; constructor <;> nlinarith
  · rw [e, abs_lt]; constructor <;> linarith
  · rw [e, abs_lt]; constructor <;> nlinarith

/-! ## C5: the photon power formula -/

/-- C5, the claim as stated fails: with lightIntensity 4,000,000 and the field of
view `π / 4` (the binary32 numbers `0x4A742400` and `0x3F490FDB`), the plane
width is `13898701 / 2 ^ 24` and both `VSGLGenerationPass` functions store
`1372583 / 8192 = 167.5516357421875`, which is not
`lightIntensity * planeWidth ^ 2 / RSM_WIDTH ^ 2`: the two products were rounded
to 24 binary digits. -/
theorem C5_counterexample_rounded_products :
    Binary32.isRepresentable cameraBinary32.GetFOV = true ∧
    Binary32.isRepresentable (.finite false 4000000) = true ∧
    Binary32.isRepresentable (mathBinary32.tan (cameraBinary32.GetFOV / 2)) = true ∧
    planeWidth mathBinary32.tan cameraBinary32.GetFOV = .finite false (13898701 / 16777216) ∧
    (Renderer.VSGLGenerationPass mathBinary32 (Renderer.Create hdBuffer hdBuffer) cameraBinary32
        (.finite false 4000000)).cmds.filterMap Cmd.photonPower? =
      [.finite false (1372583 / 8192)] ∧
    (MyRenderer.VSGLGenerationPass mathBinary32 (MyRenderer.Initialize hdBuffer hdBuffer)
        cameraBinary32 (.finite false 4000000)).cmds.filterMap Cmd.photonPower? =
      [.finite false (1372583 / 8192)] ∧
    (1372583 / 8192 : ℚ) ≠ 4000000 * (13898701 / 16777216) ^ 2 / (RSM_WIDTH : ℚ) ^ 2 := by
  refine ⟨by decide!, by decide!, by decide!, by decide!, by decide!, by decide!, ?_⟩
  norm_num [RSM_WIDTH]

/-- C5, amended: for every lightIntensity and field of view, the photon power
that `VSGLGenerationPass` stores in its constant block is the binary32 number
`lightIntensity * (planeWidth * planeWidth) / (RSM_WIDTH * RSM_WIDTH)` with
`planeWidth = 2.0f * tan(fov / 2.0f)`, every operation rounded to the nearest
binary32 number (so it is a value of the format). The doubling is exact (when
`tan` returns a binary32 number and the double is below `2 ^ 128`) and so is
the halving (for a binary32 field of view of at least `2 ^ (-125)`). When the
square of the plane width, its product with lightIntensity and the quotient
are normal binary32 numbers, the stored value differs from
`lightIntensity * planeWidth ^ 2 / RSM_WIDTH ^ 2` by at most `2 ^ (-22)` of its
magnitude, and summed over the `RSM_WIDTH * RSM_WIDTH` texels it differs from
`lightIntensity * planeWidth ^ 2` by at most `2 ^ (-22)` of the magnitude of
the sum. -/
theorem C5_photonPower_formula (math : MathLib Binary32) (sd sc : PixelBuffer)
    (spotLight : Camera Binary32) (lightIntensity : Binary32) :
    (Renderer.VSGLGenerationPass math (Renderer.Create sd sc) spotLight
        lightIntensity).cmds.filterMap Cmd.photonPower? =
      [photonPower RSM_WIDTH lightIntensity (planeWidth math.tan spotLight.GetFOV)] ∧
    (MyRenderer.VSGLGenerationPass math (MyRenderer.Initialize sd sc) spotLight
        lightIntensity).cmds.filterMap Cmd.photonPower? =
      [photonPower RSM_WIDTH lightIntensity (planeWidth math.tan spotLight.GetFOV)] ∧
    (photonPower RSM_WIDTH lightIntensity
      (planeWidth math.tan spotLight.GetFOV)).isRepresentable = true ∧
    photonPower RSM_WIDTH lightIntensity (planeWidth math.tan spotLight.GetFOV) =
      lightIntensity *
          (planeWidth math.tan spotLight.GetFOV * planeWidth math.tan spotLight.GetFOV) /
        ((16384 : ℕ) : Binary32) ∧
    planeWidth math.tan spotLight.GetFOV = 2 * math.tan (spotLight.GetFOV / 2) ∧
    (∀ (s : Bool) (t : ℚ≥0), math.tan (spotLight.GetFOV / 2) = .finite s t →
      Binary32.roundMagnitude t = t → 2 * (t : ℚ) < 2 ^ 128 →
      planeWidth math.tan spotLight.GetFOV = .finite s (2 * t)) ∧
    (∀ (s : Bool) (f : ℚ≥0), spotLight.GetFOV = .finite s f →
      Binary32.roundMagnitude f = f → 1 / 2 ^ 125 ≤ (f : ℚ) → (f : ℚ) < 2 ^ 128 →
      spotLight.GetFOV / 2 = .finite s (f / 2)) ∧
    ((planeWidth math.tan spotLight.GetFOV *
          planeWidth math.tan spotLight.GetFOV).isNormal = true →
      (lightIntensity * (planeWidth math.tan spotLight.GetFOV *
          planeWidth math.tan spotLight.GetFOV)).isNormal = true →
      (photonPower RSM_WIDTH lightIntensity
          (planeWidth math.tan spotLight.GetFOV)).isNormal = true →
      |(photonPower RSM_WIDTH lightIntensity (planeWidth math.tan spotLight.GetFOV)).toRat -
          lightIntensity.toRat * (planeWidth math.tan spotLight.GetFOV).toRat ^ 2 /
            (RSM_WIDTH : ℚ) ^ 2| ≤
        1 / 2 ^ 22 *
          |(photonPower RSM_WIDTH lightIntensity (planeWidth math.tan spotLight.GetFOV)).toRat| ∧
      |((RSM_WIDTH * RSM_WIDTH : ℕ) : ℚ) *
            (photonPower RSM_WIDTH lightIntensity (planeWidth math.tan spotLight.GetFOV)).toRat -
          lightIntensity.toRat * (planeWidth math.tan spotLight.GetFOV).toRat ^ 2| ≤
        1 / 2 ^ 22 *
          |((RSM_WIDTH * RSM_WIDTH : ℕ) : ℚ) *
            (photonPower RSM_WIDTH lightIntensity
              (planeWidth math.tan spotLight.GetFOV)).toRat|) := by
  have p128 : Binary32.pow2 128 = 2 ^ 128 := by decide!
  have p125 : Binary32.pow2 (-125) = 1 / 2 ^ 125 := by decide!
  refine ⟨(VSGLGenerationPass_photonPower math sd sc spotLight lightIntensity).1,
    (VSGLGenerationPass_photonPower math sd sc spotLight lightIntensity).2,
    photonPower_isRepresentable _ _ _, rfl, rfl, ?_, ?_, ?_⟩
  · intro s t ht hr hlt
    show 2 * math.tan (spotLight.GetFOV / 2) = _
    rw [ht]
    exact Binary32.two_mul_finite s t hr (by rw [p128]; exact hlt)
  · intro s f hf hr hn hlt
    rw [hf]
    exact Binary32.finite_div_two s f hr (by rw [p125]; exact hn) (by rw [p128]; exact hlt)
  · intro hp hx hv
    have key := photonPower_error lightIntensity (planeWidth math.tan spotLight.GetFOV) hp hx hv
    generalize (photonPower RSM_WIDTH lightIntensity
      (planeWidth math.tan spotLight.GetFOV)).toRat = v at key ⊢
    generalize lightIntensity.toRat * (planeWidth math.tan spotLight.GetFOV).toRat ^ 2 = e
      at key ⊢
    have hW : ((RSM_WIDTH * RSM_WIDTH : ℕ) : ℚ) = 16384 := by norm_num [RSM_WIDTH]
    have hW2 : ((RSM_WIDTH : ℕ) : ℚ) ^ 2 = 16384 := by norm_num [RSM_WIDTH]
    rw [hW]
    rw [hW2] at key ⊢
    have k2 : (1 : ℚ) / 2 ^ 22 = 1 / 4194304 := by norm_num
    rw [k2]
    refine ⟨key, ?_⟩
    have : (16384 : ℚ) * v - e = 16384 * (v - e / 16384) := by ring
    rw [this, abs_mul, abs_mul, abs_of_pos (show (0 : ℚ) < 16384 by norm_num)]
    linarith

/-- C5, witness: lightIntensity 4,000,000 and the field of view `π / 4`; the
three results are normal numbers and the stored `1372583 / 8192` is within
`2 ^ (-22)` of the exact quotient. -/
theorem C5_witness_configured_light :
    |(1372583 / 8192 : ℚ) - 4000000 * (13898701 / 16777216) ^ 2 / (RSM_WIDTH : ℚ) ^ 2| ≤
      1 / 2 ^ 22 * |(1372583 / 8192 : ℚ)| := by
  have h := (C5_photonPower_formula mathBinary32 hdBuffer hdBuffer cameraBinary32
    (.finite false 4000000)).2.2.2.2.2.2.2 (by decide!) (by decide!) (by decide!)
  have e1 : planeWidth mathBinary32.tan cameraBinary32.GetFOV =
      .finite false (13898701 / 16777216) := by decide!
  have e2 : photonPower RSM_WIDTH (.finite false 4000000)
      (.finite false (13898701 / 16777216) : Binary32) = .finite false (1372583 / 8192) := by
    decide!
  rw [e1, e2] at h
  simpa [Binary32.toRat, Binary32.signed] using h.1

/-! ## C6 - C8: monotonicity of the photon power -/

/-- C6, the claim as stated fails, in three ways. At the configured
RSM_WIDTH = 128 and the plane width `13898701 / 2 ^ 24` (not zero), the
lightIntensities `4000000.5 < 4000000.75` give the same photon power
`5490333 / 32768`, so the inequality is not strict. For RSM_WIDTH = 65536 > 0
the 32-bit product `RSM_WIDTH * RSM_WIDTH` is zero and the photon power of
lightIntensity `0` is `0 / 0`, a NaN, which is not `<=` the photon power of
lightIntensity `1`. And at RSM_WIDTH = 128 with the plane width `0`, the photon
power of the lightIntensity `+inf` is a NaN. -/
theorem C6_counterexample_rounding_and_nan :
    (Binary32.isRepresentable (.finite false (8000001 / 2)) = true ∧
      Binary32.isRepresentable (.finite false (16000003 / 4)) = true ∧
      Binary32.isRepresentable (.finite false (13898701 / 16777216)) = true) ∧
    ((Binary32.finite false (8000001 / 2) < Binary32.finite false (16000003 / 4)) ∧
      (0 : Binary32) < Binary32.finite false (13898701 / 16777216) ∧
      photonPower 128 (Binary32.finite false (8000001 / 2))
        (Binary32.finite false (13898701 / 16777216)) = .finite false (5490333 / 32768) ∧
      photonPower 128 (Binary32.finite false (16000003 / 4))
        (Binary32.finite false (13898701 / 16777216)) = .finite false (5490333 / 32768) ∧
      ¬ (photonPower 128 (Binary32.finite false (8000001 / 2))
            (Binary32.finite false (13898701 / 16777216)) <
          photonPower 128 (Binary32.finite false (16000003 / 4))
            (Binary32.finite false (13898701 / 16777216)))) ∧
    (0 < 65536 ∧ rsmTexelCount 65536 = 0 ∧
      (Binary32.finite false 0 ≤ Binary32.finite false 1) ∧
      photonPower 65536 (Binary32.finite false 0) (Binary32.finite false 1) = .nan ∧
      ¬ (photonPower 65536 (Binary32.finite false 0) (Binary32.finite false 1) ≤
          photonPower 65536 (Binary32.finite false 1) (Binary32.finite false 1))) ∧
    ((Binary32.finite false 1 ≤ Binary32.inf false) ∧
      photonPower 128 (Binary32.inf false) (Binary32.finite false 0) = .nan ∧
      ¬ (photonPower 128 (Binary32.finite false 1) (Binary32.finite false 0) ≤
          photonPower 128 (Binary32.inf false) (Binary32.finite false 0))) := by
  refine ⟨⟨by decide!, by decide!, by decide!⟩,
    ⟨by decide!, by decide!, by decide!, by decide!, by decide!⟩,
    ⟨by norm_num, by decide, by decide!, by decide!, by decide!⟩,
    ⟨by decide!, by decide!, by decide!⟩⟩

/-- C6, amended: for every plane width and every RSM_WIDTH > 0 (the statement
holds for every RSM_WIDTH, positive or not), the binary32 photon power is
monotonically non-decreasing in lightIntensity wherever it is a number: for
all `a <= b` such that neither photon power is a NaN,
`photonPower(a) <= photonPower(b)`; no strict inequality is promised, the
results being rounded. The photon power is a number, and the inequality
holds, whenever the two lightIntensities and the binary32 square of the plane
width are finite and the 32-bit product `RSM_WIDTH * RSM_WIDTH` is not zero. -/
theorem C6_monotone_in_lightIntensity (rsmWidth : ℕ) (planeWidth a b : Binary32)
    (hab : a ≤ b) :
    (photonPower rsmWidth a planeWidth ≠ .nan → photonPower rsmWidth b planeWidth ≠ .nan →
      photonPower rsmWidth a planeWidth ≤ photonPower rsmWidth b planeWidth) ∧
    (a.isFinite = true → b.isFinite = true → (planeWidth * planeWidth).isFinite = true →
      rsmTexelCount rsmWidth ≠ 0 →
      photonPower rsmWidth a planeWidth ≠ .nan ∧ photonPower rsmWidth b planeWidth ≠ .nan ∧
      photonPower rsmWidth a planeWidth ≤ photonPower rsmWidth b planeWidth) := by
  refine ⟨photonPower_mono_lightIntensity rsmWidth planeWidth a b hab, ?_⟩
  intro ha hb hp hw
  have na := photonPower_ne_nan rsmWidth a planeWidth ha hp hw
  have nb := photonPower_ne_nan rsmWidth b planeWidth hb hp hw
  exact ⟨na, nb, photonPower_mono_lightIntensity rsmWidth planeWidth a b hab na nb⟩

/-- C6, witness: the configured RSM_WIDTH = 128, the plane width
`13898701 / 2 ^ 24` and the lightIntensities 4,000,000 and 4,000,001. -/
theorem C6_witness_configured_width :
    Binary32.finite false 4000000 ≤ Binary32.finite false 4000001 ∧
    photonPower RSM_WIDTH (Binary32.finite false 4000000)
        (Binary32.finite false (13898701 / 16777216)) ≤
      photonPower RSM_WIDTH (Binary32.finite false 4000001)
        (Binary32.finite false (13898701 / 16777216)) :=
  ⟨by decide!,
    ((C6_monotone_in_lightIntensity RSM_WIDTH (Binary32.finite false (13898701 / 16777216))
      (Binary32.finite false 4000000) (Binary32.finite false 4000001) (by decide!)).2
      rfl rfl (by decide!) (by decide)).2.2⟩

/-- C7, the claim as stated fails, in two ways. With the lightIntensity `-1`,
which `VSGLGenerationPass` accepts, the photon power falls from `-0` to
`-1 / 16384` when the squared plane width grows from 0 to 1. And for
RSM_WIDTH = 65536 > 0, whose 32-bit product is zero, the photon power of the
plane width `0` is `0 / 0`, a NaN, which is not `<=` the photon power `+inf` of
the plane width `1`. -/
theorem C7_counterexample_negative_intensity :
    (Binary32.isRepresentable (.finite true 1) = true ∧
      Binary32.isRepresentable (.finite false 0) = true ∧
      Binary32.isRepresentable (.finite false 1) = true) ∧
    ((Binary32.finite false 0 * Binary32.finite false 0 ≤
        Binary32.finite false 1 * Binary32.finite false 1) ∧
      photonPower RSM_WIDTH (Binary32.finite true 1) (Binary32.finite false 0) =
        .finite true 0 ∧
      photonPower RSM_WIDTH (Binary32.finite true 1) (Binary32.finite false 1) =
        .finite true (1 / 16384) ∧
      ¬ (photonPower RSM_WIDTH (Binary32.finite true 1) (Binary32.finite false 0) ≤
          photonPower RSM_WIDTH (Binary32.finite true 1) (Binary32.finite false 1))) ∧
    (0 < 65536 ∧ rsmTexelCount 65536 = 0 ∧
      photonPower 65536 (Binary32.finite false 1) (Binary32.finite false 0) = .nan ∧
      photonPower 65536 (Binary32.finite false 1) (Binary32.finite false 1) = .inf false ∧
      ¬ (photonPower 65536 (Binary32.finite false 1) (Binary32.finite false 0) ≤
          photonPower 65536 (Binary32.finite false 1) (Binary32.finite false 1))) := by
  refine ⟨⟨by decide!, by decide!, by decide!⟩,
    ⟨by decide!, by decide!, by decide!, by decide!⟩,
    ⟨by norm_num, by decide, by decide!, by decide!, by decide!⟩⟩

/-- C7, amended: for every lightIntensity `>= 0` and every RSM_WIDTH > 0 (the
statement holds for every RSM_WIDTH, positive or not), the binary32 photon
power is monotonically non-decreasing in the squared plane width wherever it
is a number: for all plane widths `p`, `q` with
`p * p <= q * q` such that neither photon power is a NaN,
`photonPower(p) <= photonPower(q)`. The photon power is a number, and the
inequality holds, whenever lightIntensity and the larger square are finite and
the 32-bit product `RSM_WIDTH * RSM_WIDTH` is not zero. -/
theorem C7_monotone_in_planeWidth_sq (rsmWidth : ℕ) (lightIntensity p q : Binary32)
    (hI : 0 ≤ lightIntensity) (hpq : p * p ≤ q * q) :
    (photonPower rsmWidth lightIntensity p ≠ .nan →
      photonPower rsmWidth lightIntensity q ≠ .nan →
      photonPower rsmWidth lightIntensity p ≤ photonPower rsmWidth lightIntensity q) ∧
    (lightIntensity.isFinite = true → (q * q).isFinite = true → rsmTexelCount rsmWidth ≠ 0 →
      photonPower rsmWidth lightIntensity p ≠ .nan ∧
      photonPower rsmWidth lightIntensity q ≠ .nan ∧
      photonPower rsmWidth lightIntensity p ≤ photonPower rsmWidth lightIntensity q) := by
  refine ⟨photonPower_mono_planeWidth rsmWidth lightIntensity p q hI hpq, ?_⟩
  intro hf hq hw
  have hpn : p * p ≠ .nan := fun e => Binary32.not_nan_le _ (e ▸ hpq)
  have hpf : (p * p).isFinite = true :=
    Binary32.isFinite_of_le_finite hpq (Binary32.zero_le_mul_self hpn) hq
  have np := photonPower_ne_nan rsmWidth lightIntensity p hf hpf hw
  have nq := photonPower_ne_nan rsmWidth lightIntensity q hf hq hw
  exact ⟨np, nq, photonPower_mono_planeWidth rsmWidth lightIntensity p q hI hpq np nq⟩

/-- C7, witness: lightIntensity 4,000,000, plane widths 1 and 2 at the configured
RSM_WIDTH = 128. -/
theorem C7_witness_positive_intensity :
    (0 : Binary32) ≤ Binary32.finite false 4000000 ∧
    photonPower RSM_WIDTH (Binary32.finite false 4000000) (Binary32.finite false 1) ≤
      photonPower RSM_WIDTH (Binary32.finite false 4000000) (Binary32.finite false 2) :=
  ⟨by decide!,
    ((C7_monotone_in_planeWidth_sq RSM_WIDTH (Binary32.finite false 4000000)
      (Binary32.finite false 1) (Binary32.finite false 2) (by decide!) (by decide!)).2
      rfl (by decide!) (by decide)).2.2⟩

/-- C8, the claim as stated fails, in two ways. The widths 32 and 65536 are
positive unsigned 32-bit integers (both multiples of the thread-group width);
the 32-bit product of 65536 with itself is zero, so the denominator is `0` and
the photon power `1 * (1 * 1) / 0 = +inf` at the width 65536 is not `<=` the
photon power `1 / 1024` at the width 32. And with the lightIntensity
`+inf >= 0` and the plane width `0` the photon power is a NaN at every width,
which is not `<=` itself. -/
theorem C8_counterexample_product_wraps :
    (0 < 32 ∧ 32 ≤ 65536 ∧ 65536 < 2 ^ 32 ∧ 32 % THREAD_GROUP_WIDTH = 0 ∧
      65536 % THREAD_GROUP_WIDTH = 0 ∧ rsmTexelCount 65536 = 0 ∧
      ((rsmTexelCount 65536 : ℕ) : Binary32) = .finite false 0 ∧
      (0 : Binary32) ≤ Binary32.finite false 1 ∧
      photonPower 65536 (Binary32.finite false 1) (Binary32.finite false 1) = .inf false ∧
      photonPower 32 (Binary32.finite false 1) (Binary32.finite false 1) =
        .finite false (1 / 1024) ∧
      ¬ (photonPower 65536 (Binary32.finite false 1) (Binary32.finite false 1) ≤
          photonPower 32 (Binary32.finite false 1) (Binary32.finite false 1))) ∧
    ((0 : Binary32) ≤ Binary32.inf false ∧
      photonPower 128 (Binary32.inf false) (Binary32.finite false 0) = .nan ∧
      ¬ (photonPower 128 (Binary32.inf false) (Binary32.finite false 0) ≤
          photonPower 64 (Binary32.inf false) (Binary32.finite false 0))) := by
  refine ⟨⟨by norm_num, by norm_num, by norm_num, by decide, by decide, by decide,
    by decide!, by decide!, by decide!, by decide!, by decide!⟩,
    ⟨by decide!, by decide!, by decide!⟩⟩

/-- C8, amended: for every lightIntensity `>= 0`, every plane width and all RSM
widths `0 < w1 <= w2 <= 65535`, with the denominator the code computes (the
32-bit product `RSM_WIDTH * RSM_WIDTH`, which does not wrap around for these
widths, converted to `float`, which rounds), the binary32 photon power at `w2`
is `<=` the photon power at `w1` unless the photon power at `w1` is a NaN,
which it is not whenever lightIntensity and the binary32 square of the plane
width are finite; and the denominator is never zero: it is a finite number
that is at least 1 (and it does not decrease from `w1` to `w2`). -/
theorem C8_antitone_in_rsmWidth (lightIntensity planeWidth : Binary32) (w1 w2 : ℕ)
    (hI : 0 ≤ lightIntensity) (h1 : 0 < w1) (h12 : w1 ≤ w2) (h2 : w2 < 65536) :
    (photonPower w1 lightIntensity planeWidth ≠ .nan →
      photonPower w2 lightIntensity planeWidth ≤ photonPower w1 lightIntensity planeWidth) ∧
    (lightIntensity.isFinite = true → (planeWidth * planeWidth).isFinite = true →
      photonPower w1 lightIntensity planeWidth ≠ .nan ∧
      photonPower w2 lightIntensity planeWidth ≤ photonPower w1 lightIntensity planeWidth) ∧
    rsmTexelCount w1 = w1 * w1 ∧ rsmTexelCount w2 = w2 * w2 ∧
    (∃ z1 z2 : ℚ≥0, ((rsmTexelCount w1 : ℕ) : Binary32) = .finite false z1 ∧
      ((rsmTexelCount w2 : ℕ) : Binary32) = .finite false z2 ∧ 1 ≤ z1 ∧ z1 ≤ z2) := by
  have e1 : rsmTexelCount w1 = w1 * w1 := rsmTexelCount_of_lt w1 (by omega)
  have e2 : rsmTexelCount w2 = w2 * w2 := rsmTexelCount_of_lt w2 h2
  have p1 : rsmTexelCount w1 ≠ 0 := by
    rw [e1]; exact (Nat.mul_pos h1 h1).ne.symm
  have l1 : rsmTexelCount w1 < 2 ^ 32 := Nat.mod_lt _ (by norm_num)
  have l2 : rsmTexelCount w2 < 2 ^ 32 := Nat.mod_lt _ (by norm_num)
  have p12 : rsmTexelCount w1 ≤ rsmTexelCount w2 := by
    rw [e1, e2]; exact Nat.mul_le_mul h12 h12
  obtain ⟨z1, hz1, hz1'⟩ := Binary32.natCast_of_lt (Nat.one_le_iff_ne_zero.mpr p1) l1
  obtain ⟨z2, hz2, _⟩ :=
    Binary32.natCast_of_lt (le_trans (Nat.one_le_iff_ne_zero.mpr p1) p12) l2
  have hz12 : z1 ≤ z2 := by
    have := Binary32.natCast_mono p12
    rw [hz1, hz2, Binary32.finite_le_finite_iff] at this
    simpa [Binary32.signed] using this
  refine ⟨fun hn => (photonPower_anti_rsmWidth lightIntensity planeWidth w1 w2 hI h1 h12 h2
    hn).1, ?_, e1, e2, z1, z2, hz1, hz2, hz1', hz12⟩
  intro hf hp
  have hn := photonPower_ne_nan w1 lightIntensity planeWidth hf hp p1
  exact ⟨hn, (photonPower_anti_rsmWidth lightIntensity planeWidth w1 w2 hI h1 h12 h2 hn).1⟩

/-- C8, witness: the widths 64 and 128 the settings file names, lightIntensity
4,000,000 and the plane width `13898701 / 2 ^ 24`. -/
theorem C8_witness_64_128 :
    (0 : Binary32) ≤ Binary32.finite false 4000000 ∧ 0 < 64 ∧ 64 ≤ 128 ∧ 128 < 65536 ∧
    photonPower 128 (Binary32.finite false 4000000)
        (Binary32.finite false (13898701 / 16777216)) ≤
      photonPower 64 (Binary32.finite false 4000000)
        (Binary32.finite false (13898701 / 16777216)) :=
  ⟨by decide!, by norm_num, by norm_num, by norm_num,
    ((C8_antitone_in_rsmWidth (Binary32.finite false 4000000)
      (Binary32.finite false (13898701 / 16777216)) 64 128 (by decide!) (by norm_num)
      (by norm_num) (by norm_num)).2.1 rfl (by decide!)).2⟩

/-! ## C9: buffer dimensions -/

section Dimensions

variable {α : Type}

theorem dimensions_modify (b : Buffers) (r : Resource) (f : GpuResource → GpuResource) :
    (b.modify r f).dimensions = b.dimensions := by
  cases r <;> rfl

theorem dimensions_effect (b : Buffers) (c : Cmd α) : (Cmd.effect b c).dimensions = b.dimensions := by
  cases c <;> first | rfl | exact dimensions_modify _ _ _

theorem dimensions_after (b : Buffers) (cmds : List (Cmd α)) :
    (b.after cmds).dimensions = b.dimensions := by
  induction cmds generalizing b with
  | nil => rfl
  | cons c rest ih =>
    show (Buffers.after (Cmd.effect b c) rest).dimensions = b.dimensions
    rw [ih, dimensions_effect]

theorem Renderer_frames_dimensions
    [Mul α] [Div α] [NatCast α] [OfNat α 2] (math : MathLib α) (b : Buffers)
    (frames : List (Scene α × Bool)) :
    (Renderer.frames math b frames).dimensions = b.dimensions := by
  induction frames generalizing b with
  | nil => rfl
  | cons frame rest ih =>
    show (Renderer.frames math _ rest).dimensions = b.dimensions
    rw [ih, dimensions_after]

theorem MyRenderer_frames_dimensions
    [Mul α] [Div α] [NatCast α] [OfNat α 2] (math : MathLib α) (b : Buffers)
    (frames : List (Scene α)) :
    (MyRenderer.frames math b frames).dimensions = b.dimensions := by
  induction frames generalizing b with
  | nil => rfl
  | cons frame rest ih =>
    show (MyRenderer.frames math _ rest).dimensions = b.dimensions
    rw [ih, dimensions_after]

end Dimensions

/-- C9: after `Create` / `Initialize` the four RSM targets are RSM_WIDTH x
RSM_WIDTH = 128 x 128, the shadow map is 2048 x 2048 and the light-probe
buffer holds 2 records of 12 * 4 = 48 bytes; and after any run of frames of
`Render`, whatever the scenes and whether or not a frame was aborted, and
after any sequence of recorded calls (those of a single pass among them), all
buffers have the dimensions they had before. -/
theorem C9_buffer_dimensions_fixed {α : Type}
    [Mul α] [Div α] [NatCast α] [OfNat α 2] (math : MathLib α) (sd sc : PixelBuffer)
    (framesR : List (Scene α × Bool)) (framesM : List (Scene α)) (cmds : List (Cmd α)) :
    ((Renderer.Create sd sc).dimensions =
        [(2048, 2048), (128, 128), (128, 128), (128, 128), (128, 128), (2, 48),
          (sd.GetWidth, sd.GetHeight), (sc.GetWidth, sc.GetHeight)] ∧
      (MyRenderer.Initialize sd sc).dimensions = (Renderer.Create sd sc).dimensions ∧
      RSM_WIDTH = 128 ∧ (Renderer.Create sd sc).s_sgLightBuffer.elementSize = 12 * 4 ∧
      (Renderer.Create sd sc).rsmAllEqual = true ∧ (Renderer.Create sd sc).rsmMatches = true) ∧
    (Renderer.frames math (Renderer.Create sd sc) framesR).dimensions =
      (Renderer.Create sd sc).dimensions ∧
    (MyRenderer.frames math (MyRenderer.Initialize sd sc) framesM).dimensions =
      (MyRenderer.Initialize sd sc).dimensions ∧
    ((Renderer.Create sd sc).after cmds).dimensions = (Renderer.Create sd sc).dimensions ∧
    ((MyRenderer.Initialize sd sc).after cmds).dimensions =
      (MyRenderer.Initialize sd sc).dimensions :=
  ⟨⟨rfl, rfl, rfl, rfl, rfl, rfl⟩, Renderer_frames_dimensions math _ framesR,
    MyRenderer_frames_dimensions math _ framesM, dimensions_after _ cmds, dimensions_after _ cmds⟩

/-! ## The dimension assertions of `VSGLGenerationPass` -/

section DimensionCheck

variable {α : Type}

/-- A block that starts with eight assertions of which one fails records
nothing and fails with the failure of one of them. -/
theorem block_eight_asserts (c1 c2 c3 c4 c5 c6 c7 c8 : Bool) (f1 f2 f3 f4 f5 f6 f7 f8 : Failure)
    (body : Trace α) (h : (c1 && c2 && c3 && c4 && c5 && c6 && c7 && c8) = false) :
    ∃ f, f ∈ [f1, f2, f3, f4, f5, f6, f7, f8] ∧
      Trace.block [Trace.assert c1 f1, Trace.assert c2 f2, Trace.assert c3 f3,
        Trace.assert c4 f4, Trace.assert c5 f5, Trace.assert c6 f6, Trace.assert c7 f7,
        Trace.assert c8 f8, body] = ⟨[], some f⟩ := by
  cases c1
  · exact ⟨f1, by simp, rfl⟩
  cases c2
  · exact ⟨f2, by simp, rfl⟩
  cases c3
  · exact ⟨f3, by simp, rfl⟩
  cases c4
  · exact ⟨f4, by simp, rfl⟩
  cases c5
  · exact ⟨f5, by simp, rfl⟩
  cases c6
  · exact ⟨f6, by simp, rfl⟩
  cases c7
  · exact ⟨f7, by simp, rfl⟩
  cases c8
  · exact ⟨f8, by simp, rfl⟩
  · simp at h

theorem Renderer_VSGLGenerationPass_of_mismatch
    [Mul α] [Div α] [NatCast α] [OfNat α 2] (math : MathLib α) (b : Buffers)
    (spotLight : Camera α) (lightIntensity : α) (h : b.rsmMatches = false) :
    ∃ f, f.isRsmMismatch = true ∧
      Renderer.VSGLGenerationPass math b spotLight lightIntensity = ⟨[], some f⟩ := by
  obtain ⟨f, hf, e⟩ := block_eight_asserts _ _ _ _ _ _ _ _
    (.rsmWidthMismatch .s_rsmDepthBuffer) (.rsmHeightMismatch .s_rsmDepthBuffer)
    (.rsmWidthMismatch .s_rsmNormalBuffer) (.rsmHeightMismatch .s_rsmNormalBuffer)
    (.rsmWidthMismatch .s_rsmDiffuseBuffer) (.rsmHeightMismatch .s_rsmDiffuseBuffer)
    (.rsmWidthMismatch .s_rsmSpecularBuffer) (.rsmHeightMismatch .s_rsmSpecularBuffer)
    _ h
  refine ⟨f, ?_, e⟩
  simp only [List.mem_cons, List.mem_singleton, List.not_mem_nil, or_false] at hf
  rcases hf with rfl | rfl | rfl | rfl | rfl | rfl | rfl | rfl <;> rfl

theorem MyRenderer_VSGLGenerationPass_of_mismatch
    [Mul α] [Div α] [NatCast α] [OfNat α 2] (math : MathLib α) (b : Buffers)
    (spotLight : Camera α) (lightIntensity : α) (h : b.rsmMatches = false) :
    ∃ f, f.isRsmMismatch = true ∧
      MyRenderer.VSGLGenerationPass math b spotLight lightIntensity = ⟨[], some f⟩ := by
  obtain ⟨f, hf, e⟩ := block_eight_asserts _ _ _ _ _ _ _ _
    (.rsmWidthMismatch .s_rsmDepthBuffer) (.rsmHeightMismatch .s_rsmDepthBuffer)
    (.rsmWidthMismatch .s_rsmNormalBuffer) (.rsmHeightMismatch .s_rsmNormalBuffer)
    (.rsmWidthMismatch .s_rsmDiffuseBuffer) (.rsmHeightMismatch .s_rsmDiffuseBuffer)
    (.rsmWidthMismatch .s_rsmSpecularBuffer) (.rsmHeightMismatch .s_rsmSpecularBuffer)
    _ h
  refine ⟨f, ?_, e⟩
  simp only [List.mem_cons, List.mem_singleton, List.not_mem_nil, or_false] at hf
  rcases hf with rfl | rfl | rfl | rfl | rfl | rfl | rfl | rfl <;> rfl

/-- RSM targets whose widths or heights are not all equal do not all have the
dimensions `VSGLGenerationPass` asserts. -/
theorem rsmMatches_false_of_not_all_equal (b : Buffers) (h : b.rsmAllEqual = false) :
    b.rsmMatches = false := by
  by_contra hm
  simp only [Bool.not_eq_false, Buffers.rsmMatches, Bool.and_eq_true, beq_iff_eq] at hm
  obtain ⟨⟨⟨⟨⟨⟨⟨a1, a2⟩, a3⟩, a4⟩, a5⟩, a6⟩, a7⟩, a8⟩ := hm
  simp [Buffers.rsmAllEqual, a1, a2, a3, a4, a5, a6, a7, a8] at h

end DimensionCheck

/-! ## Traces that may be aborted -/

section AbortedTraces

variable {α : Type}

theorem Trace.cmds_seq (a b : Trace α) :
    (Trace.seq a b).cmds = if a.failure = none then a.cmds ++ b.cmds else a.cmds := by
  unfold Trace.seq
  cases h : a.failure <;> simp

theorem Trace.failure_seq (a b : Trace α) :
    (Trace.seq a b).failure = if a.failure = none then b.failure else a.failure := by
  unfold Trace.seq
  cases h : a.failure <;> simp

theorem Trace.cmds_call (c : Cmd α) : (Trace.call c).cmds = [c] := rfl

theorem Trace.failure_call (c : Cmd α) : (Trace.call c).failure = none := rfl

theorem Trace.cmds_skip : (Trace.skip : Trace α).cmds = [] := rfl

theorem Trace.failure_skip : (Trace.skip : Trace α).failure = none := rfl

theorem Trace.cmds_assert (c : Bool) (f : Failure) : (Trace.assert c f : Trace α).cmds = [] := by
  cases c <;> rfl

theorem Trace.failure_assert (c : Bool) (f : Failure) :
    (Trace.assert c f : Trace α).failure = if c = true then none else some f := by
  cases c <;> rfl

theorem Trace.block_nil : Trace.block ([] : List (Trace α)) = Trace.skip := rfl

theorem Trace.block_cons (t : Trace α) (rest : List (Trace α)) :
    Trace.block (t :: rest) = Trace.seq t (Trace.block rest) := rfl

/-- A property of calls that holds for the binds and the draws holds for all
that the loop of `Renderer::Draw` records, aborted or not. -/
theorem Renderer_Draw_loop_all (p : Cmd α → Bool) (ref : ModelRef) (stride srv : Nat)
    (hb : ∀ i, p (Renderer.bindCall ref srv i) = true)
    (hd : ∀ a b c, p (.DrawIndexed a b c) = true) (meshes : List Mesh) (mi : Nat) :
    (Renderer.Draw.loop ref stride srv meshes mi : Trace α).cmds.all p = true := by
  induction meshes generalizing mi with
  | nil => rfl
  | cons mesh rest ih =>
    unfold Renderer.Draw.loop
    apply all_cmds_block
    intro t ht
    simp only [List.mem_cons, List.mem_singleton, List.not_mem_nil, or_false] at ht
    rcases ht with rfl | rfl | rfl | rfl | rfl | rfl | rfl
    · exact all_cmds_assert _ _ _
    · exact all_cmds_assert _ _ _
    · exact all_cmds_assert _ _ _
    · exact all_cmds_assert _ _ _
    · split
      · exact all_cmds_call _ _ (hb _)
      · rfl
    · exact all_cmds_call _ _ (hd _ _ _)
    · exact ih _

/-- The same for the loop of `MyRenderer::Draw`. -/
theorem MyRenderer_Draw_loop_all (p : Cmd α → Bool) (ref : ModelRef) (stride : Nat)
    (hb : ∀ i, p (MyRenderer.bindCall ref i) = true)
    (hd : ∀ a b c, p (.DrawIndexed a b c) = true) (meshes : List Mesh) (mi : Nat) :
    (MyRenderer.Draw.loop ref stride meshes mi : Trace α).cmds.all p = true := by
  induction meshes generalizing mi with
  | nil => rfl
  | cons mesh rest ih =>
    unfold MyRenderer.Draw.loop
    apply all_cmds_block
    intro t ht
    simp only [List.mem_cons, List.mem_singleton, List.not_mem_nil, or_false] at ht
    rcases ht with rfl | rfl | rfl | rfl | rfl | rfl | rfl
    · exact all_cmds_assert _ _ _
    · exact all_cmds_assert _ _ _
    · exact all_cmds_assert _ _ _
    · exact all_cmds_assert _ _ _
    · split
      · exact all_cmds_call _ _ (hb _)
      · rfl
    · exact all_cmds_call _ _ (hd _ _ _)
    · exact ih _

/-- The same for the loop of `Renderer::DrawDepth`. -/
theorem Renderer_DrawDepth_loop_all (p : Cmd α → Bool) (stride : Nat)
    (hd : ∀ a b c, p (.DrawIndexed a b c) = true) (meshes : List Mesh) :
    (Renderer.DrawDepth.loop stride meshes : Trace α).cmds.all p = true := by
  induction meshes with
  | nil => rfl
  | cons mesh rest ih =>
    unfold Renderer.DrawDepth.loop
    apply all_cmds_block
    intro t ht
    simp only [List.mem_cons, List.mem_singleton, List.not_mem_nil, or_false] at ht
    rcases ht with rfl | rfl | rfl | rfl | rfl | rfl
    · exact all_cmds_assert _ _ _
    · exact all_cmds_assert _ _ _
    · exact all_cmds_assert _ _ _
    · exact all_cmds_assert _ _ _
    · exact all_cmds_call _ _ (hd _ _ _)
    · exact ih

/-- The same for the loop of `MyRenderer::DrawDepth`. -/
theorem MyRenderer_DrawDepth_loop_all (p : Cmd α → Bool) (stride : Nat)
    (hd : ∀ a b c, p (.DrawIndexed a b c) = true) (meshes : List Mesh) :
    (MyRenderer.DrawDepth.loop stride meshes : Trace α).cmds.all p = true := by
  induction meshes with
  | nil => rfl
  | cons mesh rest ih =>
    unfold MyRenderer.DrawDepth.loop
    apply all_cmds_block
    intro t ht
    simp only [List.mem_cons, List.mem_singleton, List.not_mem_nil, or_false] at ht
    rcases ht with rfl | rfl | rfl | rfl | rfl | rfl
    · exact all_cmds_assert _ _ _
    · exact all_cmds_assert _ _ _
    · exact all_cmds_assert _ _ _
    · exact all_cmds_assert _ _ _
    · exact all_cmds_call _ _ (hd _ _ _)
    · exact ih

/-- Filtering by a property that none of the calls has leaves nothing. -/
theorem filter_eq_nil_of_all_not (p : Cmd α → Bool) (l : List (Cmd α))
    (h : l.all (fun c => !p c) = true) : l.filter p = [] := by
  induction l with
  | nil => rfl
  | cons c rest ih =>
    simp only [List.all_cons, Bool.and_eq_true, Bool.not_eq_true'] at h
    simp [List.filter_cons, h.1, ih h.2]

/-- Mapping calls to optional values none of them has leaves nothing. -/
theorem filterMap_eq_nil_of_all_none {β : Type} (f : Cmd α → Option β) (l : List (Cmd α))
    (h : l.all (fun c => (f c).isNone) = true) : l.filterMap f = [] := by
  induction l with
  | nil => rfl
  | cons c rest ih =>
    simp only [List.all_cons, Bool.and_eq_true, Option.isNone_iff_eq_none] at h
    simp [List.filterMap_cons, h.1, ih h.2]

/-- A property of calls that holds for the buffer bindings, the material binds
and the indexed draws holds for all that `Renderer::Draw` records. -/
theorem Renderer_Draw_all (p : Cmd α → Bool) (ref : ModelRef) (model : Model) (srv : Nat)
    (hi : ∀ d, p (.SetIndexBuffer ref d) = true) (hv : ∀ d, p (.SetVertexBuffer 0 ref d) = true)
    (hb : ∀ i, p (Renderer.bindCall ref srv i) = true)
    (hd : ∀ a b c, p (.DrawIndexed a b c) = true) :
    (Renderer.Draw ref model srv : Trace α).cmds.all p = true := by
  unfold Renderer.Draw
  repeat' first
    | exact all_cmds_block_nil _
    | apply all_cmds_block_cons
    | exact all_cmds_call _ _ (by simp [hi, hv])
    | exact Renderer_Draw_loop_all _ _ _ _ hb hd _ _

/-- The same for `MyRenderer::Draw`. -/
theorem MyRenderer_Draw_all (p : Cmd α → Bool) (ref : ModelRef) (model : Model)
    (hi : ∀ d, p (.SetIndexBuffer ref d) = true) (hv : ∀ d, p (.SetVertexBuffer 0 ref d) = true)
    (hb : ∀ i, p (MyRenderer.bindCall ref i) = true)
    (hd : ∀ a b c, p (.DrawIndexed a b c) = true) :
    (MyRenderer.Draw ref model : Trace α).cmds.all p = true := by
  unfold MyRenderer.Draw
  repeat' first
    | exact all_cmds_block_nil _
    | apply all_cmds_block_cons
    | exact all_cmds_call _ _ (by simp [hi, hv])
    | exact MyRenderer_Draw_loop_all _ _ _ hb hd _ _

/-- The same for `Renderer::DrawDepth`. -/
theorem Renderer_DrawDepth_all (p : Cmd α → Bool) (ref : ModelRef) (model : Model)
    (hi : ∀ d, p (.SetIndexBuffer ref d) = true) (hv : ∀ d, p (.SetVertexBuffer 0 ref d) = true)
    (hd : ∀ a b c, p (.DrawIndexed a b c) = true) :
    (Renderer.DrawDepth ref model : Trace α).cmds.all p = true := by
  unfold Renderer.DrawDepth
  repeat' first
    | exact all_cmds_block_nil _
    | apply all_cmds_block_cons
    | exact all_cmds_call _ _ (by simp [hi, hv])
    | exact Renderer_DrawDepth_loop_all _ _ hd _

/-- The same for `MyRenderer::DrawDepth`. -/
theorem MyRenderer_DrawDepth_all (p : Cmd α → Bool) (ref : ModelRef) (model : Model)
    (hi : ∀ d, p (.SetIndexBuffer ref d) = true) (hv : ∀ d, p (.SetVertexBuffer 0 ref d) = true)
    (hd : ∀ a b c, p (.DrawIndexed a b c) = true) :
    (MyRenderer.DrawDepth ref model : Trace α).cmds.all p = true := by
  unfold MyRenderer.DrawDepth
  repeat' first
    | exact all_cmds_block_nil _
    | apply all_cmds_block_cons
    | exact all_cmds_call _ _ (by simp [hi, hv])
    | exact MyRenderer_DrawDepth_loop_all _ _ hd _

/-- What the draw routines record is free of any kind of call that is neither
a buffer binding, a material bind nor an indexed draw. -/
theorem Renderer_Draw_filter (p : Cmd α → Bool) (ref : ModelRef) (model : Model) (srv : Nat)
    (hi : ∀ d, p (.SetIndexBuffer ref d) = false) (hv : ∀ d, p (.SetVertexBuffer 0 ref d) = false)
    (hb : ∀ i, p (Renderer.bindCall ref srv i) = false)
    (hd : ∀ a b c, p (.DrawIndexed a b c) = false) :
    (Renderer.Draw ref model srv : Trace α).cmds.filter p = [] :=
  filter_eq_nil_of_all_not p _ (Renderer_Draw_all _ ref model srv (by simp [hi]) (by simp [hv])
    (by simp [hb]) (by simp [hd]))

theorem MyRenderer_Draw_filter (p : Cmd α → Bool) (ref : ModelRef) (model : Model)
    (hi : ∀ d, p (.SetIndexBuffer ref d) = false) (hv : ∀ d, p (.SetVertexBuffer 0 ref d) = false)
    (hb : ∀ i, p (MyRenderer.bindCall ref i) = false)
    (hd : ∀ a b c, p (.DrawIndexed a b c) = false) :
    (MyRenderer.Draw ref model : Trace α).cmds.filter p = [] :=
  filter_eq_nil_of_all_not p _ (MyRenderer_Draw_all _ ref model (by simp [hi]) (by simp [hv])
    (by simp [hb]) (by simp [hd]))

theorem Renderer_DrawDepth_filter (p : Cmd α → Bool) (ref : ModelRef) (model : Model)
    (hi : ∀ d, p (.SetIndexBuffer ref d) = false) (hv : ∀ d, p (.SetVertexBuffer 0 ref d) = false)
    (hd : ∀ a b c, p (.DrawIndexed a b c) = false) :
    (Renderer.DrawDepth ref model : Trace α).cmds.filter p = [] :=
  filter_eq_nil_of_all_not p _ (Renderer_DrawDepth_all _ ref model (by simp [hi]) (by simp [hv])
    (by simp [hd]))

theorem MyRenderer_DrawDepth_filter (p : Cmd α → Bool) (ref : ModelRef) (model : Model)
    (hi : ∀ d, p (.SetIndexBuffer ref d) = false) (hv : ∀ d, p (.SetVertexBuffer 0 ref d) = false)
    (hd : ∀ a b c, p (.DrawIndexed a b c) = false) :
    (MyRenderer.DrawDepth ref model : Trace α).cmds.filter p = [] :=
  filter_eq_nil_of_all_not p _ (MyRenderer_DrawDepth_all _ ref model (by simp [hi])
    (by simp [hv]) (by simp [hd]))

theorem Renderer_Draw_filterMap {β : Type} (f : Cmd α → Option β) (ref : ModelRef)
    (model : Model) (srv : Nat)
    (hi : ∀ d, f (.SetIndexBuffer ref d) = none) (hv : ∀ d, f (.SetVertexBuffer 0 ref d) = none)
    (hb : ∀ i, f (Renderer.bindCall ref srv i) = none)
    (hd : ∀ a b c, f (.DrawIndexed a b c) = none) :
    (Renderer.Draw ref model srv : Trace α).cmds.filterMap f = [] :=
  filterMap_eq_nil_of_all_none f _ (Renderer_Draw_all _ ref model srv (by simp [hi])
    (by simp [hv]) (by simp [hb]) (by simp [hd]))

theorem MyRenderer_Draw_filterMap {β : Type} (f : Cmd α → Option β) (ref : ModelRef)
    (model : Model)
    (hi : ∀ d, f (.SetIndexBuffer ref d) = none) (hv : ∀ d, f (.SetVertexBuffer 0 ref d) = none)
    (hb : ∀ i, f (MyRenderer.bindCall ref i) = none)
    (hd : ∀ a b c, f (.DrawIndexed a b c) = none) :
    (MyRenderer.Draw ref model : Trace α).cmds.filterMap f = [] :=
  filterMap_eq_nil_of_all_none f _ (MyRenderer_Draw_all _ ref model (by simp [hi])
    (by simp [hv]) (by simp [hb]) (by simp [hd]))

theorem Renderer_DrawDepth_filterMap {β : Type} (f : Cmd α → Option β) (ref : ModelRef)
    (model : Model)
    (hi : ∀ d, f (.SetIndexBuffer ref d) = none) (hv : ∀ d, f (.SetVertexBuffer 0 ref d) = none)
    (hd : ∀ a b c, f (.DrawIndexed a b c) = none) :
    (Renderer.DrawDepth ref model : Trace α).cmds.filterMap f = [] :=
  filterMap_eq_nil_of_all_none f _ (Renderer_DrawDepth_all _ ref model (by simp [hi])
    (by simp [hv]) (by simp [hd]))

theorem MyRenderer_DrawDepth_filterMap {β : Type} (f : Cmd α → Option β) (ref : ModelRef)
    (model : Model)
    (hi : ∀ d, f (.SetIndexBuffer ref d) = none) (hv : ∀ d, f (.SetVertexBuffer 0 ref d) = none)
    (hd : ∀ a b c, f (.DrawIndexed a b c) = none) :
    (MyRenderer.DrawDepth ref model : Trace α).cmds.filterMap f = [] :=
  filterMap_eq_nil_of_all_none f _ (MyRenderer_DrawDepth_all _ ref model (by simp [hi])
    (by simp [hv]) (by simp [hd]))

end AbortedTraces

/-! ## The resource initialisation at the head of a frame -/

/-- Whatever follows, the first calls of a frame of `Renderer::Render` are those
of the resource initialisation. -/
theorem Renderer_Render_take_init {α : Type}
    [Mul α] [Div α] [NatCast α] [OfNat α 2] (math : MathLib α) (b : Buffers)
    (scene : Scene α) (hsg : Bool) :
    (Renderer.Render math b scene hsg).cmds.take RESOURCE_INIT_CALLS =
      (Renderer.ResourceInit : Trace α).cmds :=
  List.take_left' rfl

/-- Whatever follows, the first calls of a frame of `MyRenderer::Render` are
those of the resource initialisation. -/
theorem MyRenderer_Render_take_init {α : Type}
    [Mul α] [Div α] [NatCast α] [OfNat α 2] (math : MathLib α) (b : Buffers)
    (scene : Scene α) :
    (MyRenderer.Render math b scene).cmds.take RESOURCE_INIT_CALLS =
      (MyRenderer.ResourceInit : Trace α).cmds :=
  List.take_left' rfl

/-! ## Calls kept by a map or a filter -/

/-- A map that fixes every call of a kind fixes a list of calls of that kind. -/
theorem map_eq_self_of_all {α : Type} (p : Cmd α → Bool) (f : Cmd α → Cmd α)
    (h : ∀ c, p c = true → f c = c) (l : List (Cmd α)) (hl : l.all p = true) : l.map f = l := by
  induction l with
  | nil => rfl
  | cons c rest ih =>
    simp only [List.all_cons, Bool.and_eq_true] at hl
    simp [h c hl.1, ih hl.2]

/-- A filter that keeps every call of a kind keeps a list of calls of that
kind. -/
theorem filter_eq_self_of_all {α : Type} (p q : Cmd α → Bool)
    (h : ∀ c, p c = true → q c = true) (l : List (Cmd α)) (hl : l.all p = true) :
    l.filter q = l := by
  induction l with
  | nil => rfl
  | cons c rest ih =>
    simp only [List.all_cons, Bool.and_eq_true] at hl
    simp [h c hl.1, ih hl.2]

/-- All that `Renderer::Draw` records are calls of the draw routines. -/
theorem Renderer_Draw_isDrawRoutineCall {α : Type} (ref : ModelRef) (model : Model) (srv : Nat) :
    (Renderer.Draw ref model srv : Trace α).cmds.all Cmd.isDrawRoutineCall = true :=
  Renderer_Draw_all _ ref model srv (fun _ => rfl) (fun _ => rfl) (fun _ => rfl)
    (fun _ _ _ => rfl)

/-- All that `MyRenderer::Draw` records are calls of the draw routines. -/
theorem MyRenderer_Draw_isDrawRoutineCall {α : Type} (ref : ModelRef) (model : Model) :
    (MyRenderer.Draw ref model : Trace α).cmds.all Cmd.isDrawRoutineCall = true :=
  MyRenderer_Draw_all _ ref model (fun _ => rfl) (fun _ => rfl) (fun _ => rfl)
    (fun _ _ _ => rfl)

/-- All that `Renderer::DrawDepth` records are calls of the draw routines. -/
theorem Renderer_DrawDepth_isDrawRoutineCall {α : Type} (ref : ModelRef) (model : Model) :
    (Renderer.DrawDepth ref model : Trace α).cmds.all Cmd.isDrawRoutineCall = true :=
  Renderer_DrawDepth_all _ ref model (fun _ => rfl) (fun _ => rfl) (fun _ _ _ => rfl)

/-- All that `MyRenderer::DrawDepth` records are calls of the draw routines. -/
theorem MyRenderer_DrawDepth_isDrawRoutineCall {α : Type} (ref : ModelRef) (model : Model) :
    (MyRenderer.DrawDepth ref model : Trace α).cmds.all Cmd.isDrawRoutineCall = true :=
  MyRenderer_DrawDepth_all _ ref model (fun _ => rfl) (fun _ => rfl) (fun _ _ _ => rfl)

/-! ## Batches and the pipelines they are drawn with -/

section Batches

variable {α : Type}

/-- The calls of `Renderer::Draw`: the two buffer bindings, then the loop. -/
theorem Renderer_Draw_cmds (ref : ModelRef) (model : Model) (srv : Nat) :
    (Renderer.Draw ref model srv : Trace α).cmds =
      .SetIndexBuffer ref false :: .SetVertexBuffer 0 ref false ::
        (Renderer.Draw.loop ref model.m_VertexStride srv model.m_pMesh UINT32_MAX).cmds := by
  simp [Renderer.Draw, Trace.block_cons, Trace.block_nil, Trace.cmds_seq, Trace.failure_seq,
    Trace.cmds_call, Trace.failure_call, Trace.cmds_skip, Trace.failure_skip]

/-- The calls of `MyRenderer::Draw`: the two buffer bindings, then the loop. -/
theorem MyRenderer_Draw_cmds (ref : ModelRef) (model : Model) :
    (MyRenderer.Draw ref model : Trace α).cmds =
      .SetIndexBuffer ref false :: .SetVertexBuffer 0 ref false ::
        (MyRenderer.Draw.loop ref model.m_VertexStride model.m_pMesh UINT32_MAX).cmds := by
  simp [MyRenderer.Draw, Trace.block_cons, Trace.block_nil, Trace.cmds_seq, Trace.failure_seq,
    Trace.cmds_call, Trace.failure_call, Trace.cmds_skip, Trace.failure_skip]

/-- The calls of `Renderer::DrawDepth`: the two buffer bindings, then the
loop. -/
theorem Renderer_DrawDepth_cmds (ref : ModelRef) (model : Model) :
    (Renderer.DrawDepth ref model : Trace α).cmds =
      .SetIndexBuffer ref true :: .SetVertexBuffer 0 ref true ::
        (Renderer.DrawDepth.loop model.m_VertexStrideDepth model.m_pMesh).cmds := by
  simp [Renderer.DrawDepth, Trace.block_cons, Trace.block_nil, Trace.cmds_seq,
    Trace.failure_seq, Trace.cmds_call, Trace.failure_call, Trace.cmds_skip, Trace.failure_skip]

/-- The calls of `MyRenderer::DrawDepth`: the two buffer bindings, then the
loop. -/
theorem MyRenderer_DrawDepth_cmds (ref : ModelRef) (model : Model) :
    (MyRenderer.DrawDepth ref model : Trace α).cmds =
      .SetIndexBuffer ref false :: .SetVertexBuffer 0 ref false ::
        (MyRenderer.DrawDepth.loop model.m_VertexStride model.m_pMesh).cmds := by
  simp [MyRenderer.DrawDepth, Trace.block_cons, Trace.block_nil, Trace.cmds_seq,
    Trace.failure_seq, Trace.cmds_call, Trace.failure_call, Trace.cmds_skip, Trace.failure_skip]

/-- A draw routine starts one batch, that of its model, and selects no
pipeline. -/
theorem Renderer_Draw_batchEvents (ref : ModelRef) (model : Model) (srv : Nat) :
    (Renderer.Draw ref model srv : Trace α).cmds.filterMap Cmd.batchEvent? = [.batch ref] := by
  rw [Renderer_Draw_cmds]
  simp [Cmd.batchEvent?, filterMap_eq_nil_of_all_none _ _
    (Renderer_Draw_loop_all (α := α) (fun c => (Cmd.batchEvent? c).isNone) ref
      model.m_VertexStride srv (fun _ => rfl) (fun _ _ _ => rfl) model.m_pMesh UINT32_MAX)]

theorem MyRenderer_Draw_batchEvents (ref : ModelRef) (model : Model) :
    (MyRenderer.Draw ref model : Trace α).cmds.filterMap Cmd.batchEvent? = [.batch ref] := by
  rw [MyRenderer_Draw_cmds]
  simp [Cmd.batchEvent?, filterMap_eq_nil_of_all_none _ _
    (MyRenderer_Draw_loop_all (α := α) (fun c => (Cmd.batchEvent? c).isNone) ref
      model.m_VertexStride (fun _ => rfl) (fun _ _ _ => rfl) model.m_pMesh UINT32_MAX)]

theorem Renderer_DrawDepth_batchEvents (ref : ModelRef) (model : Model) :
    (Renderer.DrawDepth ref model : Trace α).cmds.filterMap Cmd.batchEvent? = [.batch ref] := by
  rw [Renderer_DrawDepth_cmds]
  simp [Cmd.batchEvent?, filterMap_eq_nil_of_all_none _ _
    (Renderer_DrawDepth_loop_all (α := α) (fun c => (Cmd.batchEvent? c).isNone)
      model.m_VertexStrideDepth (fun _ _ _ => rfl) model.m_pMesh)]

theorem MyRenderer_DrawDepth_batchEvents (ref : ModelRef) (model : Model) :
    (MyRenderer.DrawDepth ref model : Trace α).cmds.filterMap Cmd.batchEvent? = [.batch ref] := by
  rw [MyRenderer_DrawDepth_cmds]
  simp [Cmd.batchEvent?, filterMap_eq_nil_of_all_none _ _
    (MyRenderer_DrawDepth_loop_all (α := α) (fun c => (Cmd.batchEvent? c).isNone)
      model.m_VertexStride (fun _ _ _ => rfl) model.m_pMesh)]

end Batches

/-! ## When a trace fails -/

section Failures

variable {α : Type}

/-- A block runs to its end exactly when each of its statements does. -/
theorem Trace.failure_block_iff (ts : List (Trace α)) :
    (Trace.block ts).failure = none ↔ ∀ t ∈ ts, t.failure = none := by
  induction ts with
  | nil => simp [Trace.block_nil, Trace.failure_skip]
  | cons t rest ih =>
    rw [Trace.block_cons, Trace.failure_seq, List.forall_mem_cons, ← ih]
    by_cases h : t.failure = none <;> simp [h]

/-- What a block records: all that its statements record, up to and including
the first statement that fails. Nothing after it is recorded. -/
theorem Trace.cmds_block_takeWhile (ts : List (Trace α)) :
    (Trace.block ts).cmds =
      (ts.takeWhile Trace.completed ++ (ts.dropWhile Trace.completed).take 1).flatMap
        Trace.cmds := by
  induction ts with
  | nil => rfl
  | cons t rest ih =>
    rw [Trace.block_cons, Trace.cmds_seq]
    by_cases h : t.failure = none
    · have hc : t.completed = true := by simp [Trace.completed, h]
      simp [h, hc, List.takeWhile_cons, List.dropWhile_cons, ih]
    · have hc : t.completed = false := by
        cases hf : t.failure with
        | none => exact absurd hf h
        | some f => simp [Trace.completed, hf]
      simp [h, hc, List.takeWhile_cons, List.dropWhile_cons]

/-- The failure of a block is that of its first failing statement. -/
theorem Trace.failure_block_dropWhile (ts : List (Trace α)) :
    (Trace.block ts).failure = ((ts.dropWhile Trace.completed).head?).bind Trace.failure := by
  induction ts with
  | nil => rfl
  | cons t rest ih =>
    rw [Trace.block_cons, Trace.failure_seq]
    by_cases h : t.failure = none
    · have hc : t.completed = true := by simp [Trace.completed, h]
      simp [h, hc, List.dropWhile_cons, ih]
    · have hc : t.completed = false := by
        cases hf : t.failure with
        | none => exact absurd hf h
        | some f => simp [Trace.completed, hf]
      simp [h, hc, List.dropWhile_cons]

end Failures

/-! ## The draw loops, aborted or not -/

section Loops

variable {α : Type}

/-- The loop of `Renderer::Draw` runs to its end exactly when every mesh passes
its checks. -/
theorem Renderer_Draw_loop_failure (ref : ModelRef) (stride srv : Nat) (meshes : List Mesh)
    (mi : Nat) :
    (Renderer.Draw.loop ref stride srv meshes mi : Trace α).failure = none ↔
      meshes.all (Mesh.passesDraw stride) = true := by
  induction meshes generalizing mi with
  | nil => simp [Renderer.Draw.loop, Trace.failure_skip]
  | cons mesh rest ih =>
    simp only [Renderer.Draw.loop, Trace.failure_block_iff, List.forall_mem_cons,
      List.not_mem_nil, Trace.failure_assert, Trace.failure_call, ih, List.all_cons,
      Mesh.passesDraw, Bool.and_eq_true]
    by_cases hm : (mi != mesh.materialIndex) = true <;>
    simp [hm, Trace.failure_call, Trace.failure_skip, and_assoc]

/-- What the loop of `Renderer::Draw` records: the binds and draws of the
meshes before the first one that fails a check, and nothing more. -/
theorem Renderer_Draw_loop_cmds (ref : ModelRef) (stride srv : Nat) (meshes : List Mesh)
    (mi : Nat) :
    (Renderer.Draw.loop ref stride srv meshes mi : Trace α).cmds =
      drawCmds (Renderer.bindCall ref srv) (Mesh.drawCall stride)
        (meshes.takeWhile (Mesh.passesDraw stride)) mi := by
  induction meshes generalizing mi with
  | nil => rfl
  | cons mesh rest ih =>
    by_cases hp : Mesh.passesDraw stride mesh = true
    · rw [List.takeWhile_cons_of_pos hp]
      simp only [Mesh.passesDraw, Bool.and_eq_true] at hp
      obtain ⟨⟨⟨h1, h2⟩, h3⟩, h4⟩ := hp
      simp only [Renderer.Draw.loop, Trace.block_cons, Trace.block_nil, h1, h2, h3, h4,
        Trace.assert_true, Trace.seq_completed, List.nil_append, drawCmds, Trace.cmds_seq,
        Trace.failure_seq, Trace.cmds_skip, Trace.failure_skip, ih]
      by_cases hm : mi = mesh.materialIndex <;>
      simp [hm, Trace.cmds_call, Trace.failure_call, Trace.cmds_skip, Trace.failure_skip,
        Mesh.drawCall, Renderer.bindCall]
    · rw [List.takeWhile_cons_of_neg hp]
      simp only [Mesh.passesDraw, Bool.and_eq_true, not_and_or, Bool.not_eq_true] at hp
      simp only [Renderer.Draw.loop, Trace.block_cons, Trace.cmds_seq, Trace.failure_seq,
        Trace.cmds_assert, Trace.failure_assert, drawCmds]
      rcases hp with ((h1 | h2) | h3) | h4
      · simp [h1]
      · by_cases h1 : (mesh.indexCount % 3 == 0) = true <;> simp [h1, h2]
      · by_cases h1 : (mesh.indexCount % 3 == 0) = true <;>
        by_cases h2 : (mesh.indexDataByteOffset % (SIZEOF_UINT16 * 3) == 0) = true <;>
        simp [h1, h2, h3]
      · by_cases h1 : (mesh.indexCount % 3 == 0) = true <;>
        by_cases h2 : (mesh.indexDataByteOffset % (SIZEOF_UINT16 * 3) == 0) = true <;>
        by_cases h3 : (stride != 0) = true <;>
        simp [h1, h2, h3, h4]

/-- The loop of `MyRenderer::Draw` runs to its end exactly when every mesh
passes its checks. -/
theorem MyRenderer_Draw_loop_failure (ref : ModelRef) (stride : Nat) (meshes : List Mesh)
    (mi : Nat) :
    (MyRenderer.Draw.loop ref stride meshes mi : Trace α).failure = none ↔
      meshes.all (Mesh.passesDraw stride) = true := by
  induction meshes generalizing mi with
  | nil => simp [MyRenderer.Draw.loop, Trace.failure_skip]
  | cons mesh rest ih =>
    simp only [MyRenderer.Draw.loop, Trace.failure_block_iff, List.forall_mem_cons,
      List.not_mem_nil, Trace.failure_assert, Trace.failure_call, ih, List.all_cons,
      Mesh.passesDraw, Bool.and_eq_true]
    by_cases hm : (mesh.materialIndex != mi) = true <;>
    simp [hm, Trace.failure_call, Trace.failure_skip, and_assoc]

/-- What the loop of `MyRenderer::Draw` records: the binds and draws of the
meshes before the first one that fails a check, and nothing more. -/
theorem MyRenderer_Draw_loop_cmds (ref : ModelRef) (stride : Nat) (meshes : List Mesh)
    (mi : Nat) :
    (MyRenderer.Draw.loop ref stride meshes mi : Trace α).cmds =
      drawCmds (MyRenderer.bindCall ref) (Mesh.drawCall stride)
        (meshes.takeWhile (Mesh.passesDraw stride)) mi := by
  induction meshes generalizing mi with
  | nil => rfl
  | cons mesh rest ih =>
    by_cases hp : Mesh.passesDraw stride mesh = true
    · rw [List.takeWhile_cons_of_pos hp]
      simp only [Mesh.passesDraw, Bool.and_eq_true] at hp
      obtain ⟨⟨⟨h1, h2⟩, h3⟩, h4⟩ := hp
      simp only [MyRenderer.Draw.loop, Trace.block_cons, Trace.block_nil, h1, h2, h3, h4,
        Trace.assert_true, Trace.seq_completed, List.nil_append, drawCmds, Trace.cmds_seq,
        Trace.failure_seq, Trace.cmds_skip, Trace.failure_skip, ih]
      by_cases hm : mi = mesh.materialIndex
      · simp [hm, Trace.cmds_call, Trace.failure_call, Trace.cmds_skip, Trace.failure_skip,
          Mesh.drawCall, MyRenderer.bindCall]
      · have hm2 : ¬ mesh.materialIndex = mi := fun e => hm e.symm
        simp [hm, hm2, Trace.cmds_call, Trace.failure_call, Trace.cmds_skip,
          Trace.failure_skip, Mesh.drawCall, MyRenderer.bindCall]
    · rw [List.takeWhile_cons_of_neg hp]
      simp only [Mesh.passesDraw, Bool.and_eq_true, not_and_or, Bool.not_eq_true] at hp
      simp only [MyRenderer.Draw.loop, Trace.block_cons, Trace.cmds_seq, Trace.failure_seq,
        Trace.cmds_assert, Trace.failure_assert, drawCmds]
      rcases hp with ((h1 | h2) | h3) | h4
      · simp [h1]
      · by_cases h1 : (mesh.indexCount % 3 == 0) = true <;> simp [h1, h2]
      · by_cases h1 : (mesh.indexCount % 3 == 0) = true <;>
        by_cases h2 : (mesh.indexDataByteOffset % (SIZEOF_UINT16 * 3) == 0) = true <;>
        simp [h1, h2, h3]
      · by_cases h1 : (mesh.indexCount % 3 == 0) = true <;>
        by_cases h2 : (mesh.indexDataByteOffset % (SIZEOF_UINT16 * 3) == 0) = true <;>
        by_cases h3 : (stride != 0) = true <;>
        simp [h1, h2, h3, h4]

/-- The loop of `Renderer::DrawDepth` runs to its end exactly when every mesh
passes its checks. -/
theorem Renderer_DrawDepth_loop_failure (stride : Nat) (meshes : List Mesh) :
    (Renderer.DrawDepth.loop stride meshes : Trace α).failure = none ↔
      meshes.all (Mesh.passesDrawDepth stride) = true := by
  induction meshes with
  | nil => simp [Renderer.DrawDepth.loop, Trace.failure_skip]
  | cons mesh rest ih =>
    simp [Renderer.DrawDepth.loop, Trace.failure_block_iff, Trace.failure_assert,
      Trace.failure_call, ih, Mesh.passesDrawDepth, and_assoc]

/-- What the loop of `Renderer::DrawDepth` records: the draws of the meshes
before the first one that fails a check, and nothing more. -/
theorem Renderer_DrawDepth_loop_cmds (stride : Nat) (meshes : List Mesh) :
    (Renderer.DrawDepth.loop stride meshes : Trace α).cmds =
      (meshes.takeWhile (Mesh.passesDrawDepth stride)).map (Mesh.drawCallDepth stride) := by
  induction meshes with
  | nil => rfl
  | cons mesh rest ih =>
    by_cases hp : Mesh.passesDrawDepth stride mesh = true
    · rw [List.takeWhile_cons_of_pos hp]
      simp only [Mesh.passesDrawDepth, Bool.and_eq_true] at hp
      obtain ⟨⟨⟨h1, h2⟩, h3⟩, h4⟩ := hp
      simp [Renderer.DrawDepth.loop, Trace.block_cons, Trace.block_nil, h1, h2, h3, h4,
        Trace.cmds_seq, Trace.failure_seq, Trace.cmds_skip, Trace.failure_skip, ih,
        Trace.cmds_call, Trace.failure_call, Mesh.drawCallDepth]
    · rw [List.takeWhile_cons_of_neg hp]
      simp only [Mesh.passesDrawDepth, Bool.and_eq_true, not_and_or, Bool.not_eq_true] at hp
      simp only [Renderer.DrawDepth.loop, Trace.block_cons, Trace.cmds_seq, Trace.failure_seq,
        Trace.cmds_assert, Trace.failure_assert]
      rcases hp with ((h1 | h2) | h3) | h4
      · simp [h1]
      · by_cases h1 : (mesh.indexCount % 3 == 0) = true <;> simp [h1, h2]
      · by_cases h1 : (mesh.indexCount % 3 == 0) = true <;>
        by_cases h2 : (mesh.indexDataByteOffset % (SIZEOF_UINT16 * 3) == 0) = true <;>
        simp [h1, h2, h3]
      · by_cases h1 : (mesh.indexCount % 3 == 0) = true <;>
        by_cases h2 : (mesh.indexDataByteOffset % (SIZEOF_UINT16 * 3) == 0) = true <;>
        by_cases h3 : (stride != 0) = true <;>
        simp [h1, h2, h3, h4]

/-- The loop of `MyRenderer::DrawDepth` runs to its end exactly when every mesh
passes its checks, those of `Draw`. -/
theorem MyRenderer_DrawDepth_loop_failure (stride : Nat) (meshes : List Mesh) :
    (MyRenderer.DrawDepth.loop stride meshes : Trace α).failure = none ↔
      meshes.all (Mesh.passesDraw stride) = true := by
  induction meshes with
  | nil => simp [MyRenderer.DrawDepth.loop, Trace.failure_skip]
  | cons mesh rest ih =>
    simp [MyRenderer.DrawDepth.loop, Trace.failure_block_iff, Trace.failure_assert,
      Trace.failure_call, ih, Mesh.passesDraw, and_assoc]

/-- What the loop of `MyRenderer::DrawDepth` records: the draws of the meshes
before the first one that fails a check, and nothing more. -/
theorem MyRenderer_DrawDepth_loop_cmds (stride : Nat) (meshes : List Mesh) :
    (MyRenderer.DrawDepth.loop stride meshes : Trace α).cmds =
      (meshes.takeWhile (Mesh.passesDraw stride)).map (Mesh.drawCall stride) := by
  induction meshes with
  | nil => rfl
  | cons mesh rest ih =>
    by_cases hp : Mesh.passesDraw stride mesh = true
    · rw [List.takeWhile_cons_of_pos hp]
      simp only [Mesh.passesDraw, Bool.and_eq_true] at hp
      obtain ⟨⟨⟨h1, h2⟩, h3⟩, h4⟩ := hp
      simp [MyRenderer.DrawDepth.loop, Trace.block_cons, Trace.block_nil, h1, h2, h3, h4,
        Trace.cmds_seq, Trace.failure_seq, Trace.cmds_skip, Trace.failure_skip, ih,
        Trace.cmds_call, Trace.failure_call, Mesh.drawCall]
    · rw [List.takeWhile_cons_of_neg hp]
      simp only [Mesh.passesDraw, Bool.and_eq_true, not_and_or, Bool.not_eq_true] at hp
      simp only [MyRenderer.DrawDepth.loop, Trace.block_cons, Trace.cmds_seq,
        Trace.failure_seq, Trace.cmds_assert, Trace.failure_assert]
      rcases hp with ((h1 | h2) | h3) | h4
      · simp [h1]
      · by_cases h1 : (mesh.indexCount % 3 == 0) = true <;> simp [h1, h2]
      · by_cases h1 : (mesh.indexCount % 3 == 0) = true <;>
        by_cases h2 : (mesh.indexDataByteOffset % (SIZEOF_UINT16 * 3) == 0) = true <;>
        simp [h1, h2, h3]
      · by_cases h1 : (mesh.indexCount % 3 == 0) = true <;>
        by_cases h2 : (mesh.indexDataByteOffset % (SIZEOF_UINT16 * 3) == 0) = true <;>
        by_cases h3 : (stride != 0) = true <;>
        simp [h1, h2, h3, h4]

/-- The draw routines run to their end exactly when every mesh of the model
passes the checks of the routine. -/
theorem Renderer_Draw_failure (ref : ModelRef) (model : Model) (srv : Nat) :
    (Renderer.Draw ref model srv : Trace α).failure = none ↔ model.passesDraw = true := by
  simp [Renderer.Draw, Trace.failure_block_iff, Trace.failure_call, Renderer_Draw_loop_failure,
    Model.passesDraw]

theorem MyRenderer_Draw_failure (ref : ModelRef) (model : Model) :
    (MyRenderer.Draw ref model : Trace α).failure = none ↔ model.passesDraw = true := by
  simp [MyRenderer.Draw, Trace.failure_block_iff, Trace.failure_call,
    MyRenderer_Draw_loop_failure, Model.passesDraw]

theorem Renderer_DrawDepth_failure (ref : ModelRef) (model : Model) :
    (Renderer.DrawDepth ref model : Trace α).failure = none ↔ model.passesDrawDepth = true := by
  simp [Renderer.DrawDepth, Trace.failure_block_iff, Trace.failure_call,
    Renderer_DrawDepth_loop_failure, Model.passesDrawDepth]

theorem MyRenderer_DrawDepth_failure (ref : ModelRef) (model : Model) :
    (MyRenderer.DrawDepth ref model : Trace α).failure = none ↔ model.passesDraw = true := by
  simp [MyRenderer.DrawDepth, Trace.failure_block_iff, Trace.failure_call,
    MyRenderer_DrawDepth_loop_failure, Model.passesDraw]

end Loops

/-! ## The passes, aborted or not -/

section Passes

variable {α : Type}

/-- A model without meshes passes the checks of the draw routines. -/
theorem Model.passes_of_meshCount_eq_zero (m : Model) (h : ¬ 0 < m.meshCount) :
    m.passesDraw = true ∧ m.passesDrawDepth = true := by
  have h0 : m.m_pMesh = [] := List.eq_nil_of_length_eq_zero (Nat.eq_zero_of_not_pos h)
  simp [Model.passesDraw, Model.passesDrawDepth, h0]

/-- The four draw passes of `Renderer` run to their end exactly when the
batches pass the checks of the draw routines used for them. -/
theorem Renderer_pass_failure (b : Buffers) (scene : Scene α) (hsg : Bool) :
    ((Renderer.ReflectiveShadowMapPass b scene).failure = none ↔
      (scene.m_model.passesDraw = true ∧ scene.m_modelCutout.passesDraw = true)) ∧
    ((Renderer.ShadowMapPass b scene).failure = none ↔
      (scene.m_model.passesDrawDepth = true ∧ scene.m_modelCutout.passesDraw = true)) ∧
    ((Renderer.DepthPass b scene).failure = none ↔
      (scene.m_model.passesDrawDepth = true ∧ scene.m_modelCutout.passesDraw = true)) ∧
    ((Renderer.LightingPass b scene hsg).failure = none ↔
      (scene.m_model.passesDraw = true ∧ scene.m_modelCutout.passesDraw = true)) := by
  by_cases hc : 0 < scene.m_modelCutout.meshCount
  · simp [Renderer.ReflectiveShadowMapPass, Renderer.ShadowMapPass, Renderer.DepthPass,
      Renderer.LightingPass, Trace.ScopedTimer, Trace.failure_block_iff, Trace.failure_call,
      Renderer_Draw_failure, Renderer_DrawDepth_failure, hc]
  · simp [Renderer.ReflectiveShadowMapPass, Renderer.ShadowMapPass, Renderer.DepthPass,
      Renderer.LightingPass, Trace.ScopedTimer, Trace.failure_block_iff, Trace.failure_call,
      Renderer_Draw_failure, Renderer_DrawDepth_failure, hc, Trace.failure_skip,
      (Model.passes_of_meshCount_eq_zero _ hc).1]

/-- The four draw passes of `MyRenderer` run to their end exactly when the
batches pass the checks of the draw routines. -/
theorem MyRenderer_pass_failure (b : Buffers) (scene : Scene α) :
    ((MyRenderer.ReflectiveShadowMapPass b scene).failure = none ↔
      (scene.m_model.passesDraw = true ∧ scene.m_modelCutout.passesDraw = true)) ∧
    ((MyRenderer.ShadowMapPass b scene).failure = none ↔
      (scene.m_model.passesDraw = true ∧ scene.m_modelCutout.passesDraw = true)) ∧
    ((MyRenderer.DepthPass b scene).failure = none ↔
      (scene.m_model.passesDraw = true ∧ scene.m_modelCutout.passesDraw = true)) ∧
    ((MyRenderer.LightingPass b scene).failure = none ↔
      (scene.m_model.passesDraw = true ∧ scene.m_modelCutout.passesDraw = true)) := by
  by_cases hc : 0 < scene.m_modelCutout.meshCount
  · simp [MyRenderer.ReflectiveShadowMapPass, MyRenderer.ShadowMapPass, MyRenderer.DepthPass,
      MyRenderer.LightingPass, Trace.ScopedTimer, Trace.failure_block_iff, Trace.failure_call,
      MyRenderer_Draw_failure, MyRenderer_DrawDepth_failure, hc]
  · simp [MyRenderer.ReflectiveShadowMapPass, MyRenderer.ShadowMapPass, MyRenderer.DepthPass,
      MyRenderer.LightingPass, Trace.ScopedTimer, Trace.failure_block_iff, Trace.failure_call,
      MyRenderer_Draw_failure, MyRenderer_DrawDepth_failure, hc, Trace.failure_skip,
      (Model.passes_of_meshCount_eq_zero _ hc).1]

/-- `VSGLGenerationPass` runs to its end exactly when the RSM targets have the
asserted dimensions. -/
theorem Renderer_VSGLGenerationPass_failure
    [Mul α] [Div α] [NatCast α] [OfNat α 2] (math : MathLib α) (b : Buffers)
    (spotLight : Camera α) (lightIntensity : α) :
    (Renderer.VSGLGenerationPass math b spotLight lightIntensity).failure = none ↔
      b.rsmMatches = true := by
  simp [Renderer.VSGLGenerationPass, Trace.ScopedTimer, Trace.failure_block_iff,
    Trace.failure_call, Trace.failure_assert, Buffers.rsmMatches, and_assoc]

theorem MyRenderer_VSGLGenerationPass_failure
    [Mul α] [Div α] [NatCast α] [OfNat α 2] (math : MathLib α) (b : Buffers)
    (spotLight : Camera α) (lightIntensity : α) :
    (MyRenderer.VSGLGenerationPass math b spotLight lightIntensity).failure = none ↔
      b.rsmMatches = true := by
  simp [MyRenderer.VSGLGenerationPass, Trace.ScopedTimer, Trace.failure_block_iff,
    Trace.failure_call, Trace.failure_assert, Buffers.rsmMatches, and_assoc]

/-- A block of six statements runs to its end exactly when each does. -/
theorem Trace.failure_block_six (t0 t1 t2 t3 t4 t5 : Trace α) :
    (Trace.block [t0, t1, t2, t3, t4, t5]).failure = none ↔
      (t0.failure = none ∧ t1.failure = none ∧ t2.failure = none ∧ t3.failure = none ∧
        t4.failure = none ∧ t5.failure = none) := by
  simp [Trace.failure_block_iff]

/-- A frame of `Renderer::Render` runs to its end exactly when the RSM targets
have the asserted dimensions and the batches pass the checks of the draw
routines used for them. -/
theorem Renderer_Render_failure
    [Mul α] [Div α] [NatCast α] [OfNat α 2] (math : MathLib α) (b : Buffers) (scene : Scene α)
    (hsg : Bool) :
    (Renderer.Render math b scene hsg).failure = none ↔
      (b.rsmMatches = true ∧ Renderer.checksPass scene = true) := by
  obtain ⟨h1, h2, h3, h4⟩ := Renderer_pass_failure b scene hsg
  have h0 : (Renderer.ResourceInit : Trace α).failure = none := rfl
  have hv := Renderer_VSGLGenerationPass_failure math b scene.m_spotLight
    scene.m_spotLightIntensity
  refine (Trace.failure_block_six _ _ _ _ _ _).trans ?_
  rw [h1, h2, h3, h4, hv]
  simp only [Renderer.checksPass, Bool.and_eq_true]
  exact ⟨fun h => ⟨h.2.2.2.1, ⟨h.2.1.1, h.2.2.1.1⟩, h.2.1.2⟩,
    fun h => ⟨h0, ⟨h.2.1.1, h.2.2⟩, ⟨h.2.1.2, h.2.2⟩, h.1, ⟨h.2.1.2, h.2.2⟩, ⟨h.2.1.1, h.2.2⟩⟩⟩

theorem MyRenderer_Render_failure
    [Mul α] [Div α] [NatCast α] [OfNat α 2] (math : MathLib α) (b : Buffers) (scene : Scene α) :
    (MyRenderer.Render math b scene).failure = none ↔
      (b.rsmMatches = true ∧ MyRenderer.checksPass scene = true) := by
  obtain ⟨h1, h2, h3, h4⟩ := MyRenderer_pass_failure b scene
  have h0 : (MyRenderer.ResourceInit : Trace α).failure = none := rfl
  have hv := MyRenderer_VSGLGenerationPass_failure math b scene.m_spotLight
    scene.m_spotLightIntensity
  refine (Trace.failure_block_six _ _ _ _ _ _).trans ?_
  rw [h1, h2, h3, h4, hv]
  simp only [MyRenderer.checksPass, Bool.and_eq_true]
  exact ⟨fun h => ⟨h.2.2.2.1, h.2.1⟩, fun h => ⟨h0, h.2, h.2, h.1, h.2, h.2⟩⟩

end Passes

/-! ## The pass markers of a frame, aborted or not -/

section Markers

variable {α : Type}

/-- What a block of six statements records. -/
theorem Trace.cmds_block_six (t0 t1 t2 t3 t4 t5 : Trace α) :
    (Trace.block [t0, t1, t2, t3, t4, t5]).cmds =
      t0.cmds ++ if t0.failure = none then
        t1.cmds ++ if t1.failure = none then
          t2.cmds ++ if t2.failure = none then
            t3.cmds ++ if t3.failure = none then
              t4.cmds ++ if t4.failure = none then t5.cmds else []
            else []
          else []
        else []
      else [] := by
  simp only [Trace.block_cons, Trace.block_nil, Trace.cmds_seq, Trace.failure_seq,
    Trace.cmds_skip, Trace.failure_skip]
  by_cases h0 : t0.failure = none <;> by_cases h1 : t1.failure = none <;>
  by_cases h2 : t2.failure = none <;> by_cases h3 : t3.failure = none <;>
  by_cases h4 : t4.failure = none <;> by_cases h5 : t5.failure = none <;>
  simp [h0, h1, h2, h3, h4, h5]

/-- The markers of the four draw passes of `Renderer`: the pass is opened, and
closed if it runs to its end. -/
theorem Renderer_pass_markers (b : Buffers) (scene : Scene α) (hsg : Bool) :
    ((Renderer.ReflectiveShadowMapPass b scene).cmds.filter Cmd.isMarker =
      .BeginBlock .ReflectiveShadowMapPass ::
        if (Renderer.ReflectiveShadowMapPass b scene).failure = none then
          [.EndBlock .ReflectiveShadowMapPass] else []) ∧
    ((Renderer.ShadowMapPass b scene).cmds.filter Cmd.isMarker =
      .BeginBlock .ShadowMapPass ::
        if (Renderer.ShadowMapPass b scene).failure = none then
          [.EndBlock .ShadowMapPass] else []) ∧
    ((Renderer.DepthPass b scene).cmds.filter Cmd.isMarker =
      .BeginBlock .DepthPass ::
        if (Renderer.DepthPass b scene).failure = none then [.EndBlock .DepthPass] else []) ∧
    ((Renderer.LightingPass b scene hsg).cmds.filter Cmd.isMarker =
      .BeginBlock .LightingPass ::
        if (Renderer.LightingPass b scene hsg).failure = none then
          [.EndBlock .LightingPass] else []) := by
  have e1 := fun (ref : ModelRef) (model : Model) (srv : Nat) =>
    Renderer_Draw_filter (α := α) Cmd.isMarker ref model srv (fun _ => rfl) (fun _ => rfl)
      (fun _ => rfl) (fun _ _ _ => rfl)
  have e2 := fun (ref : ModelRef) (model : Model) =>
    Renderer_DrawDepth_filter (α := α) Cmd.isMarker ref model (fun _ => rfl) (fun _ => rfl)
      (fun _ _ _ => rfl)
  by_cases hc : 0 < scene.m_modelCutout.meshCount <;>
  by_cases h1 : (Renderer.Draw .m_model scene.m_model MODEL_SRV_COUNT : Trace α).failure = none <;>
  by_cases h2 : (Renderer.DrawDepth .m_model scene.m_model : Trace α).failure = none <;>
  by_cases h3 : (Renderer.Draw .m_modelCutout scene.m_modelCutout MODEL_SRV_COUNT :
    Trace α).failure = none <;>
  by_cases h4 : (Renderer.Draw .m_modelCutout scene.m_modelCutout CUTOUT_SRV_COUNT :
    Trace α).failure = none <;>
  (simp only [Renderer.ReflectiveShadowMapPass, Renderer.ShadowMapPass, Renderer.DepthPass,
      Renderer.LightingPass, Trace.ScopedTimer, Trace.block_cons, Trace.block_nil,
      Trace.cmds_seq, Trace.failure_seq, Trace.cmds_call, Trace.failure_call, Trace.cmds_skip,
      Trace.failure_skip, hc, h1, h2, h3, h4, List.filter_append, List.filter_cons,
      List.filter_nil, e1, e2, if_true, if_false, gt_iff_lt, List.append_nil, List.nil_append,
      List.cons_append];
   simp [Cmd.isMarker])

/-- The markers of the four draw passes of `MyRenderer`: the pass is opened,
and closed if it runs to its end. -/
theorem MyRenderer_pass_markers (b : Buffers) (scene : Scene α) :
    ((MyRenderer.ReflectiveShadowMapPass b scene).cmds.filter Cmd.isMarker =
      .BeginBlock .ReflectiveShadowMapPass ::
        if (MyRenderer.ReflectiveShadowMapPass b scene).failure = none then
          [.EndBlock .ReflectiveShadowMapPass] else []) ∧
    ((MyRenderer.ShadowMapPass b scene).cmds.filter Cmd.isMarker =
      .BeginBlock .ShadowMapPass ::
        if (MyRenderer.ShadowMapPass b scene).failure = none then
          [.EndBlock .ShadowMapPass] else []) ∧
    ((MyRenderer.DepthPass b scene).cmds.filter Cmd.isMarker =
      .BeginBlock .DepthPass ::
        if (MyRenderer.DepthPass b scene).failure = none then [.EndBlock .DepthPass] else []) ∧
    ((MyRenderer.LightingPass b scene).cmds.filter Cmd.isMarker =
      .BeginBlock .LightingPass ::
        if (MyRenderer.LightingPass b scene).failure = none then
          [.EndBlock .LightingPass] else []) := by
  have e1 := fun (ref : ModelRef) (model : Model) =>
    MyRenderer_Draw_filter (α := α) Cmd.isMarker ref model (fun _ => rfl) (fun _ => rfl)
      (fun _ => rfl) (fun _ _ _ => rfl)
  have e2 := fun (ref : ModelRef) (model : Model) =>
    MyRenderer_DrawDepth_filter (α := α) Cmd.isMarker ref model (fun _ => rfl) (fun _ => rfl)
      (fun _ _ _ => rfl)
  by_cases hc : 0 < scene.m_modelCutout.meshCount <;>
  by_cases h1 : (MyRenderer.Draw .m_model scene.m_model : Trace α).failure = none <;>
  by_cases h2 : (MyRenderer.DrawDepth .m_model scene.m_model : Trace α).failure = none <;>
  by_cases h3 : (MyRenderer.Draw .m_modelCutout scene.m_modelCutout : Trace α).failure = none <;>
  (simp only [MyRenderer.ReflectiveShadowMapPass, MyRenderer.ShadowMapPass,
      MyRenderer.DepthPass, MyRenderer.LightingPass, Trace.ScopedTimer, Trace.block_cons,
      Trace.block_nil, Trace.cmds_seq, Trace.failure_seq, Trace.cmds_call, Trace.failure_call,
      Trace.cmds_skip, Trace.failure_skip, hc, h1, h2, h3, List.filter_append,
      List.filter_cons, List.filter_nil, e1, e2, if_true, if_false, gt_iff_lt, List.append_nil,
      List.nil_append, List.cons_append];
   simp [Cmd.isMarker])

/-- The markers of `Renderer::VSGLGenerationPass`: the pass is opened and
closed if its assertions hold and is not opened otherwise. -/
theorem Renderer_VSGLGenerationPass_markers
    [Mul α] [Div α] [NatCast α] [OfNat α 2] (math : MathLib α) (b : Buffers)
    (spotLight : Camera α) (lightIntensity : α) :
    (Renderer.VSGLGenerationPass math b spotLight lightIntensity).cmds.filter Cmd.isMarker =
      if (Renderer.VSGLGenerationPass math b spotLight lightIntensity).failure = none then
        [.BeginBlock .VSGLGenerationPass, .EndBlock .VSGLGenerationPass] else [] := by
  cases h : b.rsmMatches
  · obtain ⟨f, _, e⟩ := Renderer_VSGLGenerationPass_of_mismatch math b spotLight lightIntensity h
    simp [e]
  · have hf := (Renderer_VSGLGenerationPass_failure math b spotLight lightIntensity).2 h
    rw [if_pos hf]
    simp only [Buffers.rsmMatches, Bool.and_eq_true] at h
    obtain ⟨⟨⟨⟨⟨⟨⟨a1, a2⟩, a3⟩, a4⟩, a5⟩, a6⟩, a7⟩, a8⟩ := h
    simp [Renderer.VSGLGenerationPass, Trace.ScopedTimer, Trace.block_cons, Trace.block_nil,
      Trace.cmds_seq, Trace.failure_seq, Trace.cmds_call, Trace.failure_call, Trace.cmds_skip,
      Trace.failure_skip, Trace.cmds_assert, Trace.failure_assert, a1, a2, a3, a4, a5, a6, a7,
      a8, Cmd.isMarker]

theorem MyRenderer_VSGLGenerationPass_markers
    [Mul α] [Div α] [NatCast α] [OfNat α 2] (math : MathLib α) (b : Buffers)
    (spotLight : Camera α) (lightIntensity : α) :
    (MyRenderer.VSGLGenerationPass math b spotLight lightIntensity).cmds.filter Cmd.isMarker =
      if (MyRenderer.VSGLGenerationPass math b spotLight lightIntensity).failure = none then
        [.BeginBlock .VSGLGenerationPass, .EndBlock .VSGLGenerationPass] else [] := by
  cases h : b.rsmMatches
  · obtain ⟨f, _, e⟩ :=
      MyRenderer_VSGLGenerationPass_of_mismatch math b spotLight lightIntensity h
    simp [e]
  · have hf := (MyRenderer_VSGLGenerationPass_failure math b spotLight lightIntensity).2 h
    rw [if_pos hf]
    simp only [Buffers.rsmMatches, Bool.and_eq_true] at h
    obtain ⟨⟨⟨⟨⟨⟨⟨a1, a2⟩, a3⟩, a4⟩, a5⟩, a6⟩, a7⟩, a8⟩ := h
    simp [MyRenderer.VSGLGenerationPass, Trace.ScopedTimer, Trace.block_cons, Trace.block_nil,
      Trace.cmds_seq, Trace.failure_seq, Trace.cmds_call, Trace.failure_call, Trace.cmds_skip,
      Trace.failure_skip, Trace.cmds_assert, Trace.failure_assert, a1, a2, a3, a4, a5, a6, a7,
      a8, Cmd.isMarker]

/-- The markers of a frame of `Renderer::Render` are an initial part of those
of a full frame, and all of them exactly when the frame runs to its end. -/
theorem Renderer_Render_markers
    [Mul α] [Div α] [NatCast α] [OfNat α 2] (math : MathLib α) (b : Buffers) (scene : Scene α)
    (hsg : Bool) :
    (Renderer.Render math b scene hsg).cmds.filter Cmd.isMarker <+: frameMarkers ∧
    ((Renderer.Render math b scene hsg).cmds.filter Cmd.isMarker = frameMarkers ↔
      (Renderer.Render math b scene hsg).failure = none) := by
  obtain ⟨m1, m2, m4, m5⟩ := Renderer_pass_markers b scene hsg
  have m3 := Renderer_VSGLGenerationPass_markers math b scene.m_spotLight
    scene.m_spotLightIntensity
  have m0 : (Renderer.ResourceInit : Trace α).cmds.filter Cmd.isMarker = [] := rfl
  have h0 : (Renderer.ResourceInit : Trace α).failure = none := rfl
  rw [Renderer.Render, Trace.failure_block_six, Trace.cmds_block_six]
  generalize Renderer.ReflectiveShadowMapPass b scene = t1 at m1 ⊢
  generalize Renderer.ShadowMapPass b scene = t2 at m2 ⊢
  generalize Renderer.VSGLGenerationPass math b scene.m_spotLight scene.m_spotLightIntensity =
    t3 at m3 ⊢
  generalize Renderer.DepthPass b scene = t4 at m4 ⊢
  generalize Renderer.LightingPass b scene hsg = t5 at m5 ⊢
  generalize (Renderer.ResourceInit : Trace α) = t0 at m0 h0 ⊢
  by_cases h1 : t1.failure = none <;> by_cases h2 : t2.failure = none <;>
  by_cases h3 : t3.failure = none <;> by_cases h4 : t4.failure = none <;>
  by_cases h5 : t5.failure = none <;>
  simp [h0, h1, h2, h3, h4, h5, List.filter_append, m0, m1, m2, m3, m4, m5, frameMarkers]

theorem MyRenderer_Render_markers
    [Mul α] [Div α] [NatCast α] [OfNat α 2] (math : MathLib α) (b : Buffers) (scene : Scene α) :
    (MyRenderer.Render math b scene).cmds.filter Cmd.isMarker <+: frameMarkers ∧
    ((MyRenderer.Render math b scene).cmds.filter Cmd.isMarker = frameMarkers ↔
      (MyRenderer.Render math b scene).failure = none) := by
  obtain ⟨m1, m2, m4, m5⟩ := MyRenderer_pass_markers b scene
  have m3 := MyRenderer_VSGLGenerationPass_markers math b scene.m_spotLight
    scene.m_spotLightIntensity
  have m0 : (MyRenderer.ResourceInit : Trace α).cmds.filter Cmd.isMarker = [] := rfl
  have h0 : (MyRenderer.ResourceInit : Trace α).failure = none := rfl
  rw [MyRenderer.Render, Trace.failure_block_six, Trace.cmds_block_six]
  generalize MyRenderer.ReflectiveShadowMapPass b scene = t1 at m1 ⊢
  generalize MyRenderer.ShadowMapPass b scene = t2 at m2 ⊢
  generalize MyRenderer.VSGLGenerationPass math b scene.m_spotLight scene.m_spotLightIntensity =
    t3 at m3 ⊢
  generalize MyRenderer.DepthPass b scene = t4 at m4 ⊢
  generalize MyRenderer.LightingPass b scene = t5 at m5 ⊢
  generalize (MyRenderer.ResourceInit : Trace α) = t0 at m0 h0 ⊢
  by_cases h1 : t1.failure = none <;> by_cases h2 : t2.failure = none <;>
  by_cases h3 : t3.failure = none <;> by_cases h4 : t4.failure = none <;>
  by_cases h5 : t5.failure = none <;>
  simp [h0, h1, h2, h3, h4, h5, List.filter_append, m0, m1, m2, m3, m4, m5, frameMarkers]

end Markers

/-! ## The checks of the draw routines, spelled out -/

/-- The checks of `Draw` on a mesh: a whole number of triangles, an index
offset at a triangle of 16-bit indices, a vertex stride that is not zero and
divides the vertex offset. -/
theorem Mesh.passesDraw_iff (stride : Nat) (mesh : Mesh) :
    Mesh.passesDraw stride mesh = true ↔
      (3 ∣ mesh.indexCount ∧ 6 ∣ mesh.indexDataByteOffset ∧ stride ≠ 0 ∧
        stride ∣ mesh.vertexDataByteOffset) := by
  simp [Mesh.passesDraw, SIZEOF_UINT16, Nat.dvd_iff_mod_eq_zero, and_assoc]

/-- The checks of `Renderer::DrawDepth` on a mesh, on the depth-only vertex
offset. -/
theorem Mesh.passesDrawDepth_iff (stride : Nat) (mesh : Mesh) :
    Mesh.passesDrawDepth stride mesh = true ↔
      (3 ∣ mesh.indexCount ∧ 6 ∣ mesh.indexDataByteOffset ∧ stride ≠ 0 ∧
        stride ∣ mesh.vertexDataByteOffsetDepth) := by
  simp [Mesh.passesDrawDepth, SIZEOF_UINT16, Nat.dvd_iff_mod_eq_zero, and_assoc]

/-- The dimension assertions of `VSGLGenerationPass`, one by one. -/
theorem Buffers.rsmMatches_iff (b : Buffers) :
    b.rsmMatches = true ↔
      ((b.s_rsmDepthBuffer.GetWidth = RSM_WIDTH ∧ b.s_rsmDepthBuffer.GetHeight = RSM_WIDTH) ∧
        (b.s_rsmNormalBuffer.GetWidth = RSM_WIDTH ∧ b.s_rsmNormalBuffer.GetHeight = RSM_WIDTH) ∧
        (b.s_rsmDiffuseBuffer.GetWidth = RSM_WIDTH ∧
          b.s_rsmDiffuseBuffer.GetHeight = RSM_WIDTH) ∧
        (b.s_rsmSpecularBuffer.GetWidth = RSM_WIDTH ∧
          b.s_rsmSpecularBuffer.GetHeight = RSM_WIDTH)) := by
  simp [Buffers.rsmMatches, and_assoc]

/-- The checks of a frame of `Renderer::Render` on a scene, mesh by mesh. -/
theorem Renderer_checksPass_iff {α : Type} (scene : Scene α) :
    Renderer.checksPass scene = true ↔
      ((∀ mesh ∈ scene.m_model.m_pMesh,
          Mesh.passesDraw scene.m_model.m_VertexStride mesh = true ∧
          Mesh.passesDrawDepth scene.m_model.m_VertexStrideDepth mesh = true) ∧
        ∀ mesh ∈ scene.m_modelCutout.m_pMesh,
          Mesh.passesDraw scene.m_modelCutout.m_VertexStride mesh = true) := by
  simp only [Renderer.checksPass, Model.passesDraw, Model.passesDrawDepth, Bool.and_eq_true,
    List.all_eq_true]
  exact ⟨fun h => ⟨fun m hm => ⟨h.1.1 m hm, h.1.2 m hm⟩, h.2⟩,
    fun h => ⟨⟨fun m hm => (h.1 m hm).1, fun m hm => (h.1 m hm).2⟩, h.2⟩⟩

/-- The checks of a frame of `MyRenderer::Render` on a scene, mesh by mesh. -/
theorem MyRenderer_checksPass_iff {α : Type} (scene : Scene α) :
    MyRenderer.checksPass scene = true ↔
      ((∀ mesh ∈ scene.m_model.m_pMesh,
          Mesh.passesDraw scene.m_model.m_VertexStride mesh = true) ∧
        ∀ mesh ∈ scene.m_modelCutout.m_pMesh,
          Mesh.passesDraw scene.m_modelCutout.m_VertexStride mesh = true) := by
  simp only [MyRenderer.checksPass, Model.passesDraw, Bool.and_eq_true, List.all_eq_true]

/-! ## Checking the resource states along a trace -/

section Safe

variable {α : Type}

theorem Tracked.after_append (s : Tracked) (l1 l2 : List (Cmd α)) :
    s.after (l1 ++ l2) = (s.after l1).after l2 := by
  simp [Tracked.after, List.foldl_append]

theorem Tracked.accepts_append (s : Tracked) (l1 l2 : List (Cmd α)) :
    s.accepts (l1 ++ l2) = (s.accepts l1 && (s.after l1).accepts l2) := by
  induction l1 generalizing s with
  | nil => simp [Tracked.accepts, Tracked.after]
  | cons c rest ih =>
    simp [Tracked.accepts, Tracked.after, ih, Bool.and_assoc]

/-- A sequence is accepted exactly when each of its calls meets its condition
with what is tracked after the calls before it. -/
theorem Tracked.accepts_iff (s : Tracked) (l : List (Cmd α)) :
    s.accepts l = true ↔
      ∀ pre c post, l = pre ++ c :: post → c.hazardFree (s.after pre) = true := by
  induction l generalizing s with
  | nil =>
    simp only [Tracked.accepts, true_iff]
    intro pre c post h
    cases pre <;> cases h
  | cons d rest ih =>
    simp only [Tracked.accepts, Bool.and_eq_true, ih]
    constructor
    · rintro ⟨h1, h2⟩ pre c post e
      cases pre with
      | nil =>
        simp only [List.nil_append, List.cons.injEq] at e
        obtain ⟨rfl, _⟩ := e
        exact h1
      | cons p pre =>
        simp only [List.cons_append, List.cons.injEq] at e
        obtain ⟨rfl, e⟩ := e
        exact h2 pre c post e
    · intro h
      exact ⟨h [] d rest rfl, fun pre c post e => h (d :: pre) c post (by rw [e]; rfl)⟩

theorem Trace.safeFrom_skip (s : Tracked) (K : Tracked → Prop) (k : K s) :
    (Trace.skip : Trace α).safeFrom s K :=
  ⟨rfl, fun _ => k⟩

theorem Trace.safeFrom_call (s : Tracked) (c : Cmd α) (K : Tracked → Prop)
    (h : c.hazardFree s = true) (k : K (s.step c)) : (Trace.call c).safeFrom s K :=
  ⟨by simp [Trace.cmds_call, Tracked.accepts, h], fun _ => k⟩

theorem Trace.safeFrom_assert (s : Tracked) (c : Bool) (f : Failure) (K : Tracked → Prop)
    (k : c = true → K s) : (Trace.assert c f : Trace α).safeFrom s K := by
  cases c
  · exact ⟨rfl, fun h => by cases h⟩
  · exact ⟨rfl, fun _ => k rfl⟩

theorem Trace.safeFrom_seq (s : Tracked) (a b : Trace α) (K : Tracked → Prop)
    (h : a.safeFrom s (fun s1 => b.safeFrom s1 K)) : (Trace.seq a b).safeFrom s K := by
  obtain ⟨ha, hk⟩ := h
  by_cases hf : a.failure = none
  · obtain ⟨hb, hk2⟩ := hk hf
    refine ⟨?_, ?_⟩
    · rw [Trace.cmds_seq, if_pos hf, Tracked.accepts_append, ha, hb]
      rfl
    · intro h2
      rw [Trace.failure_seq, if_pos hf] at h2
      rw [Trace.cmds_seq, if_pos hf, Tracked.after_append]
      exact hk2 h2
  · refine ⟨?_, ?_⟩
    · rw [Trace.cmds_seq, if_neg hf]
      exact ha
    · intro h2
      rw [Trace.failure_seq, if_neg hf] at h2
      exact absurd h2 hf

theorem Trace.safeFrom_block_nil (s : Tracked) (K : Tracked → Prop) (k : K s) :
    (Trace.block ([] : List (Trace α))).safeFrom s K :=
  Trace.safeFrom_skip s K k

theorem Trace.safeFrom_block_cons (s : Tracked) (t : Trace α) (rest : List (Trace α))
    (K : Tracked → Prop) (h : t.safeFrom s (fun s1 => (Trace.block rest).safeFrom s1 K)) :
    (Trace.block (t :: rest)).safeFrom s K :=
  Trace.safeFrom_seq s t (Trace.block rest) K h

theorem Trace.safeFrom_ite (s : Tracked) (c : Prop) [Decidable c] (a b : Trace α)
    (K : Tracked → Prop) (ha : a.safeFrom s K) (hb : b.safeFrom s K) :
    (if c then a else b).safeFrom s K := by
  split
  · exact ha
  · exact hb

/-- The calls of the draw routines change nothing of what is tracked. -/
theorem Tracked.step_of_isDrawRoutineCall (s : Tracked) (c : Cmd α)
    (h : c.isDrawRoutineCall = true) : s.step c = s := by
  cases c <;> first | rfl | cases h | skip
  all_goals rename_i x; cases x <;> first | rfl | cases h

/-- The calls of the draw routines meet their conditions where a draw is in
order. -/
theorem Cmd.hazardFree_of_isDrawRoutineCall (s : Tracked) (c : Cmd α)
    (h : c.isDrawRoutineCall = true) (hd : s.drawOk = true) : c.hazardFree s = true := by
  cases c <;> first | rfl | exact hd | cases h

/-- A sequence of calls of the draw routines is accepted where a draw is in
order, and changes nothing of what is tracked. -/
theorem Tracked.accepts_of_isDrawRoutineCall (s : Tracked) (l : List (Cmd α))
    (h : l.all Cmd.isDrawRoutineCall = true) (hd : s.drawOk = true) :
    s.accepts l = true ∧ s.after l = s := by
  induction l with
  | nil => exact ⟨rfl, rfl⟩
  | cons c rest ih =>
    simp only [List.all_cons, Bool.and_eq_true] at h
    obtain ⟨a1, a2⟩ := ih h.2
    have e := Tracked.step_of_isDrawRoutineCall s c h.1
    refine ⟨?_, ?_⟩
    · simp [Tracked.accepts, e, a1, Cmd.hazardFree_of_isDrawRoutineCall s c h.1 hd]
    · simp only [Tracked.after, List.foldl_cons, e]
      exact a2

/-- A trace of calls of the draw routines is safe where a draw is in order. -/
theorem Trace.safeFrom_of_isDrawRoutineCall (s : Tracked) (t : Trace α) (K : Tracked → Prop)
    (h : t.cmds.all Cmd.isDrawRoutineCall = true) (hd : s.drawOk = true) (k : K s) :
    t.safeFrom s K := by
  obtain ⟨a1, a2⟩ := Tracked.accepts_of_isDrawRoutineCall s t.cmds h hd
  exact ⟨a1, fun _ => by rw [a2]; exact k⟩

end Safe

section SafeDraw

variable {α : Type}

/-- The draw routines are safe where a draw is in order, and change nothing of
what is tracked. -/
theorem Renderer_Draw_safeFrom (s : Tracked) (ref : ModelRef) (model : Model) (srv : Nat)
    (K : Tracked → Prop) (hd : s.drawOk = true) (k : K s) :
    (Renderer.Draw ref model srv : Trace α).safeFrom s K :=
  Trace.safeFrom_of_isDrawRoutineCall s _ K (Renderer_Draw_isDrawRoutineCall ref model srv) hd k

theorem Renderer_DrawDepth_safeFrom (s : Tracked) (ref : ModelRef) (model : Model)
    (K : Tracked → Prop) (hd : s.drawOk = true) (k : K s) :
    (Renderer.DrawDepth ref model : Trace α).safeFrom s K :=
  Trace.safeFrom_of_isDrawRoutineCall s _ K (Renderer_DrawDepth_isDrawRoutineCall ref model) hd k

theorem MyRenderer_Draw_safeFrom (s : Tracked) (ref : ModelRef) (model : Model)
    (K : Tracked → Prop) (hd : s.drawOk = true) (k : K s) :
    (MyRenderer.Draw ref model : Trace α).safeFrom s K :=
  Trace.safeFrom_of_isDrawRoutineCall s _ K (MyRenderer_Draw_isDrawRoutineCall ref model) hd k

theorem MyRenderer_DrawDepth_safeFrom (s : Tracked) (ref : ModelRef) (model : Model)
    (K : Tracked → Prop) (hd : s.drawOk = true) (k : K s) :
    (MyRenderer.DrawDepth ref model : Trace α).safeFrom s K :=
  Trace.safeFrom_of_isDrawRoutineCall s _ K (MyRenderer_DrawDepth_isDrawRoutineCall ref model)
    hd k

end SafeDraw

/-! ## What the conditions at the point of use entail -/

section Consequences

variable {α : Type}

/-- Only a `TransitionResource` to a read state adds to the resources made
readable. -/
theorem Tracked.madeReadable_step (s : Tracked) (c : Cmd α) (r : Resource) :
    r ∈ (s.step c).madeReadable ↔
      (r ∈ s.madeReadable ∨
        ∃ st fl, st.isRead = true ∧ c = .TransitionResource r st fl) := by
  cases c with
  | TransitionResource r2 st fl =>
    cases h : st.isRead
    · simp [Tracked.step, h]
    · simp only [Tracked.step, h, if_true, List.mem_cons, Cmd.TransitionResource.injEq,
        true_and, exists_and_left, exists_eq', and_true, exists_eq_left']
      constructor
      · rintro (rfl | h2)
        · exact Or.inr ⟨_, h, rfl, rfl⟩
        · exact Or.inl h2
      · rintro (h2 | ⟨_, _, rfl, _⟩)
        · exact Or.inr h2
        · exact Or.inl rfl
  | SetDynamicDescriptors a b c d => cases d <;> simp [Tracked.step]
  | SetDescriptorTable a d => cases d <;> simp [Tracked.step]
  | _ => simp [Tracked.step]

/-- The resources made readable after a sequence of calls: those made readable
before, and those a `TransitionResource` of the sequence put in a read
state. -/
theorem Tracked.madeReadable_after (s : Tracked) (pre : List (Cmd α)) (r : Resource) :
    r ∈ (s.after pre).madeReadable ↔
      (r ∈ s.madeReadable ∨
        ∃ st fl, st.isRead = true ∧ Cmd.TransitionResource r st fl ∈ pre) := by
  induction pre generalizing s with
  | nil => simp [Tracked.after]
  | cons c rest ih =>
    have e : s.after (c :: rest) = (s.step c).after rest := rfl
    rw [e, ih, Tracked.madeReadable_step]
    constructor
    · rintro ((h | ⟨st, fl, h1, rfl⟩) | ⟨st, fl, h1, h2⟩)
      · exact Or.inl h
      · exact Or.inr ⟨st, fl, h1, List.mem_cons_self _ _⟩
      · exact Or.inr ⟨st, fl, h1, List.mem_cons_of_mem _ h2⟩
    · rintro (h | ⟨st, fl, h1, h2⟩)
      · exact Or.inl (Or.inl h)
      · rcases List.mem_cons.1 h2 with h3 | h3
        · exact Or.inl (Or.inr ⟨st, fl, h1, h3.symm⟩)
        · exact Or.inr ⟨st, fl, h1, h3⟩

/-- A call that meets its condition writes only resources that are in a write
state and may be written. -/
theorem Cmd.writes_of_hazardFree (s : Tracked) (c : Cmd α) (h : c.hazardFree s = true)
    (r : Resource) (hr : r ∈ c.writes s) :
    (s.usage r).isWrite = true ∧ s.mayWrite r = true := by
  cases c with
  | ClearDepth r2 =>
    simp only [Cmd.writes, List.mem_singleton] at hr
    subst hr
    simp only [Cmd.hazardFree, Tracked.clearOk, Bool.and_eq_true, beq_iff_eq] at h
    exact ⟨by rw [h.1]; rfl, h.2⟩
  | ClearColor r2 =>
    simp only [Cmd.writes, List.mem_singleton] at hr
    subst hr
    simp only [Cmd.hazardFree, Tracked.clearOk, Bool.and_eq_true, beq_iff_eq] at h
    exact ⟨by rw [h.1]; rfl, h.2⟩
  | DrawIndexed a b c =>
    simp only [Cmd.hazardFree, Tracked.drawOk, Bool.and_eq_true, List.all_eq_true,
      beq_iff_eq] at h
    obtain ⟨⟨⟨⟨⟨h1, h2⟩, _⟩, _⟩, _⟩, h6⟩ := h
    refine ⟨?_, h6 r hr⟩
    simp only [Cmd.writes, Tracked.drawTargets, List.mem_append] at hr
    rcases hr with hr | hr
    · rw [h1 r hr]; rfl
    · cases hd : s.depthTarget with
      | none => simp [hd] at hr
      | some d =>
        rw [hd] at h2 hr
        cases d <;> simp at hr <;> subst hr <;>
          (simp only [Descriptor.resource, Descriptor.depthState, beq_iff_eq] at h2
           rw [h2]; rfl)
  | Dispatch a b c =>
    simp only [Cmd.hazardFree, Tracked.dispatchOk, Bool.and_eq_true, List.all_eq_true,
      beq_iff_eq] at h
    simp only [Cmd.writes, List.mem_map] at hr
    obtain ⟨e, he, rfl⟩ := hr
    obtain ⟨h1, h2⟩ := h.2 e he
    exact ⟨by rw [h1]; rfl, h2⟩
  | _ => simp [Cmd.writes] at hr

/-- A call that meets its condition reads only resources that are in a read
state. -/
theorem Cmd.reads_of_hazardFree (s : Tracked) (c : Cmd α) (h : c.hazardFree s = true)
    (r : Resource) (hr : r ∈ c.reads s) : (s.usage r).isRead = true := by
  cases c with
  | DrawIndexed a b c =>
    simp only [Cmd.hazardFree, Tracked.drawOk, Bool.and_eq_true, List.all_eq_true,
      beq_iff_eq] at h
    obtain ⟨⟨⟨⟨⟨_, h2⟩, h3⟩, h4⟩, _⟩, _⟩ := h
    simp only [Cmd.reads, List.mem_append, List.mem_map] at hr
    rcases hr with (hr | ⟨e, he, rfl⟩) | ⟨e, he, rfl⟩
    · cases hd : s.depthTarget with
      | none => simp [hd] at hr
      | some d =>
        rw [hd] at h2 hr
        cases d <;> simp at hr
        subst hr
        simp only [Descriptor.resource, Descriptor.depthState, beq_iff_eq] at h2
        rw [h2]; rfl
    · rw [h3 e he]; rfl
    · rw [h4 e he]; rfl
  | Dispatch a b c =>
    simp only [Cmd.hazardFree, Tracked.dispatchOk, Bool.and_eq_true, List.all_eq_true,
      beq_iff_eq] at h
    simp only [Cmd.reads, List.mem_append, List.mem_map] at hr
    rcases hr with ⟨e, he, rfl⟩ | ⟨e, he, rfl⟩
    · rw [h.1.1 e he]; rfl
    · rw [h.1.2 e he]; rfl
  | _ => simp [Cmd.reads] at hr

/-- What `mayWrite` says: the resource was not made readable, and an open pass
is the writer of the resource. -/
theorem Tracked.mayWrite_iff (s : Tracked) (r : Resource) :
    s.mayWrite r = true ↔ (r ∉ s.madeReadable ∧ ∀ pass, s.pass = some pass → pass = r.writer) := by
  cases hp : s.pass <;> simp [Tracked.mayWrite, hp]

end Consequences

/-! ## Every frame is safe -/

set_option maxRecDepth 8000 in
/-- Every call of a frame of `Renderer::Render` meets its condition, whatever
the scene, the buffers and their states at the start of the frame. -/
theorem Renderer_Render_safeFrom {α : Type}
    [Mul α] [Div α] [NatCast α] [OfNat α 2] (math : MathLib α) (b : Buffers)
    (scene : Scene α) (hsg : Bool) :
    (Renderer.Render math b scene hsg).safeFrom (Tracked.init b) (fun _ => True) := by
  unfold Renderer.Render Renderer.ResourceInit Renderer.ReflectiveShadowMapPass
    Renderer.ShadowMapPass Renderer.VSGLGenerationPass Renderer.DepthPass Renderer.LightingPass
    Trace.ScopedTimer
  repeat' first
    | with_reducible exact trivial
    | with_reducible apply Renderer_Draw_safeFrom
    | with_reducible apply Renderer_DrawDepth_safeFrom
    | with_reducible apply Trace.safeFrom_block_cons
    | with_reducible apply Trace.safeFrom_block_nil
    | with_reducible apply Trace.safeFrom_ite
    | with_reducible apply Trace.safeFrom_skip
    | (with_reducible apply Trace.safeFrom_assert; intro _)
    | with_reducible apply Trace.safeFrom_call
    | rfl

set_option maxRecDepth 8000 in
/-- Every call of a frame of `MyRenderer::Render` meets its condition, whatever
the scene, the buffers and their states at the start of the frame. -/
theorem MyRenderer_Render_safeFrom {α : Type}
    [Mul α] [Div α] [NatCast α] [OfNat α 2] (math : MathLib α) (b : Buffers)
    (scene : Scene α) :
    (MyRenderer.Render math b scene).safeFrom (Tracked.init b) (fun _ => True) := by
  unfold MyRenderer.Render MyRenderer.ResourceInit MyRenderer.ReflectiveShadowMapPass
    MyRenderer.ShadowMapPass MyRenderer.VSGLGenerationPass MyRenderer.DepthPass
    MyRenderer.LightingPass Trace.ScopedTimer
  repeat' first
    | with_reducible exact trivial
    | with_reducible apply MyRenderer_Draw_safeFrom
    | with_reducible apply MyRenderer_DrawDepth_safeFrom
    | with_reducible apply Trace.safeFrom_block_cons
    | with_reducible apply Trace.safeFrom_block_nil
    | with_reducible apply Trace.safeFrom_ite
    | with_reducible apply Trace.safeFrom_skip
    | (with_reducible apply Trace.safeFrom_assert; intro _)
    | with_reducible apply Trace.safeFrom_call
    | rfl

/-- From the acceptance of a stream: at each of its calls the condition of the
call holds, the resources it writes are in a write state, were not put in a
read state by an earlier `TransitionResource` of the stream and have the open
pass as their writer, and the resources it reads are in a read state. -/
theorem Tracked.uses_of_accepts {α : Type} (b : Buffers) (cmds : List (Cmd α))
    (h : (Tracked.init b).accepts cmds = true) (pre : List (Cmd α)) (c : Cmd α)
    (post : List (Cmd α)) (e : cmds = pre ++ c :: post) :
    c.hazardFree ((Tracked.init b).after pre) = true ∧
    (∀ r ∈ c.writes ((Tracked.init b).after pre),
      (((Tracked.init b).after pre).usage r).isWrite = true ∧
      (¬ ∃ st fl, st.isRead = true ∧ Cmd.TransitionResource r st fl ∈ pre) ∧
      ∀ pass, ((Tracked.init b).after pre).pass = some pass → pass = r.writer) ∧
    (∀ r ∈ c.reads ((Tracked.init b).after pre),
      (((Tracked.init b).after pre).usage r).isRead = true) := by
  have hc := (Tracked.accepts_iff _ _).1 h pre c post e
  refine ⟨hc, ?_, fun r hr => Cmd.reads_of_hazardFree _ c hc r hr⟩
  intro r hr
  obtain ⟨h1, h2⟩ := Cmd.writes_of_hazardFree _ c hc r hr
  obtain ⟨h3, h4⟩ := (Tracked.mayWrite_iff _ _).1 h2
  refine ⟨h1, ?_, h4⟩
  intro hx
  exact h3 ((Tracked.madeReadable_after _ pre r).2 (Or.inr hx))

/-! ## The records of the light-probe buffer -/

/-- The bytes of two different records of a structured buffer do not
overlap. -/
theorem StructuredBuffer.recordBytes_disjoint (b : StructuredBuffer) (i j : Nat) (h : i ≠ j) :
    Disjoint (b.recordBytes i) (b.recordBytes j) := by
  rw [Finset.disjoint_left]
  intro x hi hj
  simp only [StructuredBuffer.recordBytes, Finset.mem_Ico] at hi hj
  rcases Nat.lt_or_gt_of_ne h with hlt | hgt
  · have h1 : (i + 1) * b.elementSize ≤ j * b.elementSize :=
      Nat.mul_le_mul_right b.elementSize hlt
    omega
  · have h1 : (j + 1) * b.elementSize ≤ i * b.elementSize :=
      Nat.mul_le_mul_right b.elementSize hgt
    omega

/-- A dispatch leaves every record but the one of its root constant as it
was. -/
theorem ComputeState.Dispatch_other_record (kernel : PSO → ProbeRecord) (s : ComputeState)
    (j : Nat) (h : j ≠ s.rootConstant) :
    (s.Dispatch kernel).sgLightBuffer[j]? = s.sgLightBuffer[j]? := by
  unfold ComputeState.Dispatch
  cases hp : s.pipeline with
  | none => rfl
  | some pso =>
    by_cases hc : pso.isCompute = true
    · simp only [hc, if_true]
      exact List.getElem?_set_ne (fun e => h e.symm)
    · simp [hc]

/-- The zeroed light-probe buffer of `Renderer::Create`: two records of twelve
words. -/
theorem Renderer_Create_zeroed (sceneDepth sceneColor : PixelBuffer) :
    (Renderer.Create sceneDepth sceneColor).s_sgLightBuffer.zeroed =
      [List.replicate 12 0, List.replicate 12 0] := by
  simp [StructuredBuffer.zeroed, Renderer.Create, StructuredBuffer.Create, SIZEOF_UINT32,
    List.replicate]

/-- The zeroed light-probe buffer of `MyRenderer::Initialize`: two records of
twelve words. -/
theorem MyRenderer_Initialize_zeroed (sceneDepth sceneColor : PixelBuffer) :
    (MyRenderer.Initialize sceneDepth sceneColor).s_sgLightBuffer.zeroed =
      [List.replicate 12 0, List.replicate 12 0] := by
  simp [StructuredBuffer.zeroed, MyRenderer.Initialize, StructuredBuffer.Create, SIZEOF_UINT32,
    List.replicate]

/-! ## C10: where the dimension check is made -/

/-- A frame whose fourth stage records nothing and fails records what the
first three stages record, and fails where they fail or else in the fourth
stage. -/
theorem Trace.block_six_of_fourth_fails {α : Type} (t0 t1 t2 t4 t5 : Trace α) (f : Failure) :
    Trace.block [t0, t1, t2, ⟨[], some f⟩, t4, t5] =
      ⟨(Trace.block [t0, t1, t2]).cmds,
        if (Trace.block [t0, t1, t2]).failure = none then some f
        else (Trace.block [t0, t1, t2]).failure⟩ := by
  rcases t0 with ⟨c0, _ | f0⟩ <;> rcases t1 with ⟨c1, _ | f1⟩ <;>
    rcases t2 with ⟨c2, _ | f2⟩ <;>
    simp [Trace.block, Trace.seq, Trace.skip]

/-- C10, the claim as stated fails: `Create` and `Initialize` take no dimension
of an RSM target and make no check. Whatever scene buffers they are handed,
the four RSM targets come out `RSM_WIDTH` x `RSM_WIDTH`, so there is no
construction with widths or heights that are not all equal, and none that
fails; the dimensions are asserted in `VSGLGenerationPass` instead, in every
frame: on the resource set of `Create` / `Initialize` the frame of the scene
`sceneGood` has recorded the 8 indexed draws of the two passes before it when
it comes to the assertions, and passes them. -/
theorem C10_counterexample_no_check_at_initialization :
    (¬ ∃ sd sc : PixelBuffer, (Renderer.Create sd sc).rsmAllEqual = false) ∧
    (¬ ∃ sd sc : PixelBuffer, (MyRenderer.Initialize sd sc).rsmAllEqual = false) ∧
    ((Renderer.Create hdBuffer hdBuffer).rsmMatches = true ∧
      (Trace.block [Renderer.ResourceInit,
        Renderer.ReflectiveShadowMapPass (Renderer.Create hdBuffer hdBuffer) sceneGood,
        Renderer.ShadowMapPass (Renderer.Create hdBuffer hdBuffer) sceneGood]).cmds.countP
          Cmd.isDrawIndexed = 8 ∧
      (Renderer.VSGLGenerationPass mathQ (Renderer.Create hdBuffer hdBuffer)
        sceneGood.m_spotLight sceneGood.m_spotLightIntensity).failure = none ∧
      (Renderer.Render mathQ (Renderer.Create hdBuffer hdBuffer) sceneGood false).failure =
        none) ∧
    ((MyRenderer.Initialize hdBuffer hdBuffer).rsmMatches = true ∧
      (Trace.block [MyRenderer.ResourceInit,
        MyRenderer.ReflectiveShadowMapPass (MyRenderer.Initialize hdBuffer hdBuffer) sceneGood,
        MyRenderer.ShadowMapPass (MyRenderer.Initialize hdBuffer hdBuffer) sceneGood]).cmds.countP
          Cmd.isDrawIndexed = 8 ∧
      (MyRenderer.VSGLGenerationPass mathQ (MyRenderer.Initialize hdBuffer hdBuffer)
        sceneGood.m_spotLight sceneGood.m_spotLightIntensity).failure = none ∧
      (MyRenderer.Render mathQ (MyRenderer.Initialize hdBuffer hdBuffer) sceneGood).failure =
        none) := by
  refine ⟨?_, ?_, by decide, by decide⟩
  · rintro ⟨sd, sc, h⟩
    simp [Renderer.Create, Buffers.rsmAllEqual, PixelBuffer.Create] at h
  · rintro ⟨sd, sc, h⟩
    simp [MyRenderer.Initialize, Buffers.rsmAllEqual, PixelBuffer.Create] at h

/-- C10, amended. `Create` / `Initialize` make no dimension check and construct
every RSM target `RSM_WIDTH` x `RSM_WIDTH`, whatever they are handed, so the
resource set they construct passes the dimension assertions of
`VSGLGenerationPass`. A resource set of which a width or height of an RSM
target differs from `RSM_WIDTH` (as it does when the widths or heights are not
all equal) fails one of the eight dimension assertions at the head of
`VSGLGenerationPass`, which then records nothing. A frame on such a resource
set records exactly the calls that the resource initialisation,
ReflectiveShadowMapPass and ShadowMapPass record and no call of a later pass,
and it fails: in one of the two passes when an assertion of a draw routine
fails there, and else, both passes run to their end, with the dimension
assertion of `VSGLGenerationPass`; that is the case for every scene that
passes the checks of the draw routines. -/
theorem C10_dimension_check_in_VSGLGenerationPass {α : Type}
    [Mul α] [Div α] [NatCast α] [OfNat α 2] (math : MathLib α)
    (sd sc : PixelBuffer) (b : Buffers) (scene : Scene α) (hsg : Bool) :
    ((Renderer.Create sd sc).rsmAllEqual = true ∧ (Renderer.Create sd sc).rsmMatches = true ∧
      (Renderer.VSGLGenerationPass math (Renderer.Create sd sc) scene.m_spotLight
        scene.m_spotLightIntensity).failure = none) ∧
    ((MyRenderer.Initialize sd sc).rsmAllEqual = true ∧
      (MyRenderer.Initialize sd sc).rsmMatches = true ∧
      (MyRenderer.VSGLGenerationPass math (MyRenderer.Initialize sd sc) scene.m_spotLight
        scene.m_spotLightIntensity).failure = none) ∧
    (b.rsmAllEqual = false → b.rsmMatches = false) ∧
    (b.rsmMatches = false →
      (∃ f, f.isRsmMismatch = true ∧
        Renderer.VSGLGenerationPass math b scene.m_spotLight scene.m_spotLightIntensity =
          ⟨[], some f⟩ ∧
        (Renderer.Render math b scene hsg).cmds =
          (Trace.block [Renderer.ResourceInit, Renderer.ReflectiveShadowMapPass b scene,
            Renderer.ShadowMapPass b scene]).cmds ∧
        (Renderer.Render math b scene hsg).failure =
          (if (Trace.block [Renderer.ResourceInit, Renderer.ReflectiveShadowMapPass b scene,
              Renderer.ShadowMapPass b scene]).failure = none then some f
            else (Trace.block [Renderer.ResourceInit, Renderer.ReflectiveShadowMapPass b scene,
              Renderer.ShadowMapPass b scene]).failure) ∧
        (Renderer.checksPass scene = true →
          (Renderer.Render math b scene hsg).failure = some f ∧
          (Renderer.Render math b scene hsg).cmds.filter Cmd.isMarker =
            [.BeginBlock .ReflectiveShadowMapPass, .EndBlock .ReflectiveShadowMapPass,
             .BeginBlock .ShadowMapPass, .EndBlock .ShadowMapPass])) ∧
      (∃ f, f.isRsmMismatch = true ∧
        MyRenderer.VSGLGenerationPass math b scene.m_spotLight scene.m_spotLightIntensity =
          ⟨[], some f⟩ ∧
        (MyRenderer.Render math b scene).cmds =
          (Trace.block [MyRenderer.ResourceInit, MyRenderer.ReflectiveShadowMapPass b scene,
            MyRenderer.ShadowMapPass b scene]).cmds ∧
        (MyRenderer.Render math b scene).failure =
          (if (Trace.block [MyRenderer.ResourceInit, MyRenderer.ReflectiveShadowMapPass b scene,
              MyRenderer.ShadowMapPass b scene]).failure = none then some f
            else (Trace.block [MyRenderer.ResourceInit,
              MyRenderer.ReflectiveShadowMapPass b scene,
              MyRenderer.ShadowMapPass b scene]).failure) ∧
        (MyRenderer.checksPass scene = true →
          (MyRenderer.Render math b scene).failure = some f ∧
          (MyRenderer.Render math b scene).cmds.filter Cmd.isMarker =
            [.BeginBlock .ReflectiveShadowMapPass, .EndBlock .ReflectiveShadowMapPass,
             .BeginBlock .ShadowMapPass, .EndBlock .ShadowMapPass]))) := by
  have cR : (Renderer.Create sd sc).rsmMatches = true := by
    simp [Renderer.Create, Buffers.rsmMatches, PixelBuffer.Create]
  have cM : (MyRenderer.Initialize sd sc).rsmMatches = true := by
    simp [MyRenderer.Initialize, Buffers.rsmMatches, PixelBuffer.Create]
  refine ⟨⟨?_, cR, (Renderer_VSGLGenerationPass_failure math _ _ _).2 cR⟩,
    ⟨?_, cM, (MyRenderer_VSGLGenerationPass_failure math _ _ _).2 cM⟩,
    rsmMatches_false_of_not_all_equal b, ?_⟩
  · simp [Renderer.Create, Buffers.rsmAllEqual, PixelBuffer.Create]
  · simp [MyRenderer.Initialize, Buffers.rsmAllEqual, PixelBuffer.Create]
  intro hmis
  constructor
  · obtain ⟨f, hf, e⟩ := Renderer_VSGLGenerationPass_of_mismatch math b scene.m_spotLight
      scene.m_spotLightIntensity hmis
    have hr := Trace.block_six_of_fourth_fails (Renderer.ResourceInit : Trace α)
      (Renderer.ReflectiveShadowMapPass b scene) (Renderer.ShadowMapPass b scene)
      (Renderer.DepthPass b scene) (Renderer.LightingPass b scene hsg) f
    rw [← e] at hr
    change Renderer.Render math b scene hsg = _ at hr
    refine ⟨f, hf, e, by rw [hr], by rw [hr], ?_⟩
    intro hc
    obtain ⟨p1, p2, -, -⟩ := Renderer_pass_failure b scene hsg
    simp only [Renderer.checksPass, Bool.and_eq_true] at hc
    obtain ⟨⟨h1, h2⟩, h3⟩ := hc
    have f1 := p1.2 ⟨h1, h3⟩
    have f2 := p2.2 ⟨h2, h3⟩
    have f0 : (Renderer.ResourceInit : Trace α).failure = none := rfl
    have hb : (Trace.block [Renderer.ResourceInit, Renderer.ReflectiveShadowMapPass b scene,
        Renderer.ShadowMapPass b scene]).failure = none := by
      simp [Trace.failure_block_iff, f0, f1, f2]
    refine ⟨by rw [hr]; simp [hb], ?_⟩
    rw [hr]
    by_cases hcut : scene.m_modelCutout.meshCount > 0 <;>
    simp [Renderer.ResourceInit, Renderer.ReflectiveShadowMapPass,
      Renderer.ShadowMapPass, Trace.block, Trace.seq, Trace.ScopedTimer, Trace.call,
      Trace.skip, Renderer_Draw_of_passes, Renderer_DrawDepth_of_passes, h1, h2, h3, hcut,
      List.filter_cons, List.filter_append, filter_drawCmds_none,
      filter_map_calls_none] <;> simp [Cmd.isMarker]
  · obtain ⟨f, hf, e⟩ := MyRenderer_VSGLGenerationPass_of_mismatch math b scene.m_spotLight
      scene.m_spotLightIntensity hmis
    have hr := Trace.block_six_of_fourth_fails (MyRenderer.ResourceInit : Trace α)
      (MyRenderer.ReflectiveShadowMapPass b scene) (MyRenderer.ShadowMapPass b scene)
      (MyRenderer.DepthPass b scene) (MyRenderer.LightingPass b scene) f
    rw [← e] at hr
    change MyRenderer.Render math b scene = _ at hr
    refine ⟨f, hf, e, by rw [hr], by rw [hr], ?_⟩
    intro hc
    obtain ⟨p1, p2, -, -⟩ := MyRenderer_pass_failure b scene
    simp only [MyRenderer.checksPass, Bool.and_eq_true] at hc
    obtain ⟨h1, h3⟩ := hc
    have f1 := p1.2 ⟨h1, h3⟩
    have f2 := p2.2 ⟨h1, h3⟩
    have f0 : (MyRenderer.ResourceInit : Trace α).failure = none := rfl
    have hb : (Trace.block [MyRenderer.ResourceInit, MyRenderer.ReflectiveShadowMapPass b scene,
        MyRenderer.ShadowMapPass b scene]).failure = none := by
      simp [Trace.failure_block_iff, f0, f1, f2]
    refine ⟨by rw [hr]; simp [hb], ?_⟩
    rw [hr]
    by_cases hcut : scene.m_modelCutout.meshCount > 0 <;>
    simp [MyRenderer.ResourceInit, MyRenderer.ReflectiveShadowMapPass,
      MyRenderer.ShadowMapPass, Trace.block, Trace.seq, Trace.ScopedTimer, Trace.call,
      Trace.skip, MyRenderer_Draw_of_passes, MyRenderer_DrawDepth_of_passes, h1, h3, hcut,
      List.filter_cons, List.filter_append, filter_drawCmds_none,
      filter_map_calls_none] <;> simp [Cmd.isMarker]

/-- C10, witness: the resource set of `Create` passes the dimension assertions;
the resource set with a 64 x 64 normal target, which is what the claim supposes
and is not one `Create` constructs, fails them in the frame of the scene
`sceneGood` once the two passes before `VSGLGenerationPass` have run to their end. -/
theorem C10_witness_buffersMismatched :
    (Renderer.VSGLGenerationPass mathQ (Renderer.Create hdBuffer hdBuffer)
      sceneGood.m_spotLight sceneGood.m_spotLightIntensity).failure = none ∧
    buffersMismatched.rsmAllEqual = false ∧ Renderer.checksPass sceneGood = true ∧
    ∃ f, f.isRsmMismatch = true ∧
      (Renderer.Render mathQ buffersMismatched sceneGood true).failure = some f ∧
      (Renderer.Render mathQ buffersMismatched sceneGood true).cmds.filter Cmd.isMarker =
        [.BeginBlock .ReflectiveShadowMapPass, .EndBlock .ReflectiveShadowMapPass,
         .BeginBlock .ShadowMapPass, .EndBlock .ShadowMapPass] := by
  have h := C10_dimension_check_in_VSGLGenerationPass mathQ hdBuffer hdBuffer buffersMismatched
    sceneGood true
  obtain ⟨f, hf, -, -, -, hc⟩ := (h.2.2.2 (by decide)).1
  exact ⟨h.1.2.2, by decide, by decide, f, hf, (hc (by decide)).1, (hc (by decide)).2⟩

/-! ## C11: the two dispatches write different records -/

/-- C11: with the write of a generation kernel as the spec describes it (one
record, at the index of the root constant), and whatever the kernels write:
starting from the light-probe buffer of `Create` with every word zero, after
the calls of `VSGLGenerationPass` up to and including the first dispatch, the
diffuse one with root constant 0, record 0 holds what the diffuse kernel wrote
and record 1 is still zero; after all calls of the pass record 0 holds what the
diffuse kernel wrote and record 1 what the specular kernel wrote. In general a
dispatch leaves every record but the one of its root constant as it was, and
the bytes of two different records, so those of records 0 and 1, do not
overlap. Stated for both renderers. -/
theorem C11_dispatches_write_disjoint_records {α : Type}
    [Mul α] [Div α] [NatCast α] [OfNat α 2] (math : MathLib α)
    (sceneDepth sceneColor : PixelBuffer) (spotLight : Camera α) (lightIntensity : α)
    (kernel : PSO → ProbeRecord) :
    ((ProbeBuffer.after kernel (Renderer.Create sceneDepth sceneColor).s_sgLightBuffer.zeroed
          (throughFirstDispatch (Renderer.VSGLGenerationPass math
            (Renderer.Create sceneDepth sceneColor) spotLight lightIntensity).cmds))[1]? =
        some (List.replicate 12 0) ∧
      (ProbeBuffer.after kernel (Renderer.Create sceneDepth sceneColor).s_sgLightBuffer.zeroed
          (throughFirstDispatch (Renderer.VSGLGenerationPass math
            (Renderer.Create sceneDepth sceneColor) spotLight lightIntensity).cmds))[0]? =
        some (kernel .s_vsglGenerationDiffusePSO) ∧
      ProbeBuffer.after kernel (Renderer.Create sceneDepth sceneColor).s_sgLightBuffer.zeroed
          (Renderer.VSGLGenerationPass math (Renderer.Create sceneDepth sceneColor) spotLight
            lightIntensity).cmds =
        [kernel .s_vsglGenerationDiffusePSO, kernel .s_vsglGenerationSpecularPSO]) ∧
    ((ProbeBuffer.after kernel (MyRenderer.Initialize sceneDepth sceneColor).s_sgLightBuffer.zeroed
          (throughFirstDispatch (MyRenderer.VSGLGenerationPass math
            (MyRenderer.Initialize sceneDepth sceneColor) spotLight lightIntensity).cmds))[1]? =
        some (List.replicate 12 0) ∧
      (ProbeBuffer.after kernel (MyRenderer.Initialize sceneDepth sceneColor).s_sgLightBuffer.zeroed
          (throughFirstDispatch (MyRenderer.VSGLGenerationPass math
            (MyRenderer.Initialize sceneDepth sceneColor) spotLight lightIntensity).cmds))[0]? =
        some (kernel .s_vsglGenerationDiffusePSO) ∧
      ProbeBuffer.after kernel (MyRenderer.Initialize sceneDepth sceneColor).s_sgLightBuffer.zeroed
          (MyRenderer.VSGLGenerationPass math (MyRenderer.Initialize sceneDepth sceneColor)
            spotLight lightIntensity).cmds =
        [kernel .s_vsglGenerationDiffusePSO, kernel .s_vsglGenerationSpecularPSO]) ∧
    (∀ (s : ComputeState) (j : Nat), j ≠ s.rootConstant →
      (s.Dispatch kernel).sgLightBuffer[j]? = s.sgLightBuffer[j]?) ∧
    (∀ (b : StructuredBuffer) (i j : Nat), i ≠ j →
      Disjoint (b.recordBytes i) (b.recordBytes j)) ∧
    Disjoint ((Renderer.Create sceneDepth sceneColor).s_sgLightBuffer.recordBytes 0)
      ((Renderer.Create sceneDepth sceneColor).s_sgLightBuffer.recordBytes 1) := by
  have h1 : ProbeBuffer.after kernel (Renderer.Create sceneDepth sceneColor).s_sgLightBuffer.zeroed
      (throughFirstDispatch (Renderer.VSGLGenerationPass math
        (Renderer.Create sceneDepth sceneColor) spotLight lightIntensity).cmds) =
      [kernel .s_vsglGenerationDiffusePSO, List.replicate 12 0] := by
    rw [Renderer_Create_zeroed]
    rfl
  have h2 : ProbeBuffer.after kernel
      (MyRenderer.Initialize sceneDepth sceneColor).s_sgLightBuffer.zeroed
      (throughFirstDispatch (MyRenderer.VSGLGenerationPass math
        (MyRenderer.Initialize sceneDepth sceneColor) spotLight lightIntensity).cmds) =
      [kernel .s_vsglGenerationDiffusePSO, List.replicate 12 0] := by
    rw [MyRenderer_Initialize_zeroed]
    rfl
  refine ⟨⟨?_, ?_, rfl⟩, ⟨?_, ?_, rfl⟩, ComputeState.Dispatch_other_record kernel,
    StructuredBuffer.recordBytes_disjoint,
    StructuredBuffer.recordBytes_disjoint _ 0 1 (by decide)⟩
  · rw [h1]; rfl
  · rw [h1]; rfl
  · rw [h2]; rfl
  · rw [h2]; rfl

/-! ## C12: the two dispatches of VSGLGenerationPass -/

set_option maxRecDepth 8000 in
/-- C12: on the buffers made by `Create` / `Initialize`, for every scene,
`VSGLGenerationPass` runs to its end and issues exactly two `Dispatch` calls,
each of thread-group counts (1,1,1): the first after selecting the diffuse
generation pipeline and setting the root constant to 0, the second after
selecting the specular generation pipeline and setting the root constant to 1.
No other pass of `Render` dispatches or selects a compute pipeline or sets a
root constant, so a frame holds these calls once, or not at all if it was
aborted before this pass, and a frame that runs to its end holds them once.
The two indices are distinct and smaller than the record count of the
light-probe buffer, which is 2. Stated for both renderers. -/
theorem C12_two_dispatches_per_frame {α : Type}
    [Mul α] [Div α] [NatCast α] [OfNat α 2] (math : MathLib α)
    (sceneDepth sceneColor : PixelBuffer) (scene : Scene α) (hsg : Bool) :
    ((Renderer.VSGLGenerationPass math (Renderer.Create sceneDepth sceneColor)
          scene.m_spotLight scene.m_spotLightIntensity).failure = none ∧
      (Renderer.VSGLGenerationPass math (Renderer.Create sceneDepth sceneColor)
          scene.m_spotLight scene.m_spotLightIntensity).cmds.filter Cmd.isDispatchSetup =
        vsglDispatches Renderer.VSGL_ROOT_INDEX_CONSTANTS ∧
      (Renderer.VSGLGenerationPass math (Renderer.Create sceneDepth sceneColor)
          scene.m_spotLight scene.m_spotLightIntensity).cmds.filter Cmd.isDispatch =
        [.Dispatch 1 1 1, .Dispatch 1 1 1] ∧
      ((Renderer.Render math (Renderer.Create sceneDepth sceneColor) scene hsg).cmds.filter
          Cmd.isDispatchSetup = vsglDispatches Renderer.VSGL_ROOT_INDEX_CONSTANTS ∨
        (Renderer.Render math (Renderer.Create sceneDepth sceneColor) scene hsg).cmds.filter
          Cmd.isDispatchSetup = []) ∧
      ((Renderer.Render math (Renderer.Create sceneDepth sceneColor) scene hsg).failure = none →
        (Renderer.Render math (Renderer.Create sceneDepth sceneColor) scene hsg).cmds.filter
          Cmd.isDispatchSetup = vsglDispatches Renderer.VSGL_ROOT_INDEX_CONSTANTS) ∧
      0 < (Renderer.Create sceneDepth sceneColor).s_sgLightBuffer.numElements ∧
      1 < (Renderer.Create sceneDepth sceneColor).s_sgLightBuffer.numElements ∧
      (Renderer.Create sceneDepth sceneColor).s_sgLightBuffer.numElements = 2) ∧
    ((MyRenderer.VSGLGenerationPass math (MyRenderer.Initialize sceneDepth sceneColor)
          scene.m_spotLight scene.m_spotLightIntensity).failure = none ∧
      (MyRenderer.VSGLGenerationPass math (MyRenderer.Initialize sceneDepth sceneColor)
          scene.m_spotLight scene.m_spotLightIntensity).cmds.filter Cmd.isDispatchSetup =
        vsglDispatches MyRenderer.VSGL_ROOT_INDEX_CONSTANTS ∧
      (MyRenderer.VSGLGenerationPass math (MyRenderer.Initialize sceneDepth sceneColor)
          scene.m_spotLight scene.m_spotLightIntensity).cmds.filter Cmd.isDispatch =
        [.Dispatch 1 1 1, .Dispatch 1 1 1] ∧
      ((MyRenderer.Render math (MyRenderer.Initialize sceneDepth sceneColor) scene).cmds.filter
          Cmd.isDispatchSetup = vsglDispatches MyRenderer.VSGL_ROOT_INDEX_CONSTANTS ∨
        (MyRenderer.Render math (MyRenderer.Initialize sceneDepth sceneColor) scene).cmds.filter
          Cmd.isDispatchSetup = []) ∧
      ((MyRenderer.Render math (MyRenderer.Initialize sceneDepth sceneColor) scene).failure = none →
        (MyRenderer.Render math (MyRenderer.Initialize sceneDepth sceneColor) scene).cmds.filter
          Cmd.isDispatchSetup = vsglDispatches MyRenderer.VSGL_ROOT_INDEX_CONSTANTS) ∧
      0 < (MyRenderer.Initialize sceneDepth sceneColor).s_sgLightBuffer.numElements ∧
      1 < (MyRenderer.Initialize sceneDepth sceneColor).s_sgLightBuffer.numElements ∧
      (MyRenderer.Initialize sceneDepth sceneColor).s_sgLightBuffer.numElements = 2) ∧
    (0 : Nat) ≠ 1 := by
  have e1 := fun (ref : ModelRef) (model : Model) (srv : Nat) =>
    Renderer_Draw_filter (α := α) Cmd.isDispatchSetup ref model srv (fun _ => rfl) (fun _ => rfl)
      (fun _ => rfl) (fun _ _ _ => rfl)
  have e2 := fun (ref : ModelRef) (model : Model) =>
    Renderer_DrawDepth_filter (α := α) Cmd.isDispatchSetup ref model (fun _ => rfl)
      (fun _ => rfl) (fun _ _ _ => rfl)
  have e3 := fun (ref : ModelRef) (model : Model) =>
    MyRenderer_Draw_filter (α := α) Cmd.isDispatchSetup ref model (fun _ => rfl) (fun _ => rfl)
      (fun _ => rfl) (fun _ _ _ => rfl)
  have e4 := fun (ref : ModelRef) (model : Model) =>
    MyRenderer_DrawDepth_filter (α := α) Cmd.isDispatchSetup ref model (fun _ => rfl)
      (fun _ => rfl) (fun _ _ _ => rfl)
  have hI : ((Renderer.ResourceInit : Trace α).cmds.filter Cmd.isDispatchSetup = [] ∧
      (Renderer.ResourceInit : Trace α).failure = none) ∧
      ((MyRenderer.ResourceInit : Trace α).cmds.filter Cmd.isDispatchSetup = [] ∧
      (MyRenderer.ResourceInit : Trace α).failure = none) := ⟨⟨rfl, rfl⟩, rfl, rfl⟩
  have hR : ∀ b : Buffers, (Renderer.ReflectiveShadowMapPass b scene).cmds.filter
        Cmd.isDispatchSetup = [] ∧
      (Renderer.ShadowMapPass b scene).cmds.filter Cmd.isDispatchSetup = [] ∧
      (Renderer.DepthPass b scene).cmds.filter Cmd.isDispatchSetup = [] ∧
      (Renderer.LightingPass b scene hsg).cmds.filter Cmd.isDispatchSetup = [] := by
    intro b
    cases hsg <;>
    simp [Renderer.ReflectiveShadowMapPass, Renderer.ShadowMapPass, Renderer.DepthPass,
      Renderer.LightingPass, Trace.ScopedTimer, Trace.block_cons, Trace.block_nil,
      Trace.cmds_seq, Trace.failure_seq, Trace.cmds_call, Trace.failure_call, Trace.cmds_skip,
      Trace.failure_skip, apply_ite (List.filter Cmd.isDispatchSetup), List.filter_append,
      List.filter_cons, e1, e2, Cmd.isDispatchSetup, PSO.isCompute, apply_ite Trace.cmds]
  have hM : ∀ b : Buffers, (MyRenderer.ReflectiveShadowMapPass b scene).cmds.filter
        Cmd.isDispatchSetup = [] ∧
      (MyRenderer.ShadowMapPass b scene).cmds.filter Cmd.isDispatchSetup = [] ∧
      (MyRenderer.DepthPass b scene).cmds.filter Cmd.isDispatchSetup = [] ∧
      (MyRenderer.LightingPass b scene).cmds.filter Cmd.isDispatchSetup = [] := by
    intro b
    simp [MyRenderer.ReflectiveShadowMapPass, MyRenderer.ShadowMapPass, MyRenderer.DepthPass,
      MyRenderer.LightingPass, Trace.ScopedTimer, Trace.block_cons, Trace.block_nil,
      Trace.cmds_seq, Trace.failure_seq, Trace.cmds_call, Trace.failure_call, Trace.cmds_skip,
      Trace.failure_skip, apply_ite (List.filter Cmd.isDispatchSetup), List.filter_append,
      List.filter_cons, e3, e4, Cmd.isDispatchSetup, PSO.isCompute, apply_ite Trace.cmds]
  have hV : (Renderer.VSGLGenerationPass math (Renderer.Create sceneDepth sceneColor)
        scene.m_spotLight scene.m_spotLightIntensity).failure = none ∧
      (Renderer.VSGLGenerationPass math (Renderer.Create sceneDepth sceneColor)
        scene.m_spotLight scene.m_spotLightIntensity).cmds.filter Cmd.isDispatchSetup =
        vsglDispatches Renderer.VSGL_ROOT_INDEX_CONSTANTS := ⟨rfl, rfl⟩
  have hW : (MyRenderer.VSGLGenerationPass math (MyRenderer.Initialize sceneDepth sceneColor)
        scene.m_spotLight scene.m_spotLightIntensity).failure = none ∧
      (MyRenderer.VSGLGenerationPass math (MyRenderer.Initialize sceneDepth sceneColor)
        scene.m_spotLight scene.m_spotLightIntensity).cmds.filter Cmd.isDispatchSetup =
        vsglDispatches MyRenderer.VSGL_ROOT_INDEX_CONSTANTS := ⟨rfl, rfl⟩
  obtain ⟨h1, h2, h3, h4⟩ := hR (Renderer.Create sceneDepth sceneColor)
  obtain ⟨k1, k2, k3, k4⟩ := hM (MyRenderer.Initialize sceneDepth sceneColor)
  refine ⟨⟨rfl, rfl, rfl, ?_, ?_, Nat.zero_lt_two, Nat.one_lt_two, rfl⟩,
    ⟨rfl, rfl, rfl, ?_, ?_, Nat.zero_lt_two, Nat.one_lt_two, rfl⟩, by decide⟩
  · simp only [Renderer.Render, Trace.block_cons, Trace.block_nil, Trace.cmds_seq,
      Trace.failure_seq, Trace.cmds_skip, Trace.failure_skip, hI.1.2, hV.1, if_true,
      List.append_nil]
    by_cases o1 : (Renderer.ReflectiveShadowMapPass (Renderer.Create sceneDepth sceneColor)
        scene).failure = none <;>
    by_cases o2 : (Renderer.ShadowMapPass (Renderer.Create sceneDepth sceneColor)
        scene).failure = none <;>
    simp [o1, o2, List.filter_append, h1, h2, h3, h4, hI.1.1, hV.2, apply_ite (List.filter _)]
  · simp only [Renderer.Render, Trace.block_cons, Trace.block_nil, Trace.cmds_seq,
      Trace.failure_seq, Trace.cmds_skip, Trace.failure_skip, hI.1.2, hV.1, if_true,
      List.append_nil]
    by_cases o1 : (Renderer.ReflectiveShadowMapPass (Renderer.Create sceneDepth sceneColor)
        scene).failure = none <;>
    by_cases o2 : (Renderer.ShadowMapPass (Renderer.Create sceneDepth sceneColor)
        scene).failure = none <;>
    simp [o1, o2, List.filter_append, h1, h2, h3, h4, hI.1.1, hV.2, apply_ite (List.filter _)]
  · simp only [MyRenderer.Render, Trace.block_cons, Trace.block_nil, Trace.cmds_seq,
      Trace.failure_seq, Trace.cmds_skip, Trace.failure_skip, hI.2.2, hW.1, if_true,
      List.append_nil]
    by_cases o1 : (MyRenderer.ReflectiveShadowMapPass (MyRenderer.Initialize sceneDepth sceneColor)
        scene).failure = none <;>
    by_cases o2 : (MyRenderer.ShadowMapPass (MyRenderer.Initialize sceneDepth sceneColor)
        scene).failure = none <;>
    simp [o1, o2, List.filter_append, k1, k2, k3, k4, hI.2.1, hW.2, apply_ite (List.filter _)]
  · simp only [MyRenderer.Render, Trace.block_cons, Trace.block_nil, Trace.cmds_seq,
      Trace.failure_seq, Trace.cmds_skip, Trace.failure_skip, hI.2.2, hW.1, if_true,
      List.append_nil]
    by_cases o1 : (MyRenderer.ReflectiveShadowMapPass (MyRenderer.Initialize sceneDepth sceneColor)
        scene).failure = none <;>
    by_cases o2 : (MyRenderer.ShadowMapPass (MyRenderer.Initialize sceneDepth sceneColor)
        scene).failure = none <;>
    simp [o1, o2, List.filter_append, k1, k2, k3, k4, hI.2.1, hW.2, apply_ite (List.filter _)]

/-- C12 at `sceneGood`: its frame runs to its end in both renderers and holds
the two dispatches with their pipeline and root-constant selections. -/
theorem C12_witness_sceneGood :
    ((Renderer.Render mathQ (Renderer.Create hdBuffer hdBuffer) sceneGood false).failure = none ∧
      (Renderer.Render mathQ (Renderer.Create hdBuffer hdBuffer) sceneGood false).cmds.filter
        Cmd.isDispatchSetup = vsglDispatches Renderer.VSGL_ROOT_INDEX_CONSTANTS) ∧
    ((MyRenderer.Render mathQ (MyRenderer.Initialize hdBuffer hdBuffer) sceneGood).failure = none ∧
      (MyRenderer.Render mathQ (MyRenderer.Initialize hdBuffer hdBuffer) sceneGood).cmds.filter
        Cmd.isDispatchSetup = vsglDispatches MyRenderer.VSGL_ROOT_INDEX_CONSTANTS) :=
  ⟨⟨by decide,
      (C12_two_dispatches_per_frame mathQ hdBuffer hdBuffer sceneGood false).1.2.2.2.2.1
        (by decide)⟩,
    ⟨by decide,
      (C12_two_dispatches_per_frame mathQ hdBuffer hdBuffer sceneGood false).2.1.2.2.2.2.1
        (by decide)⟩⟩

/-! ## C13: clears of the resource initialisation -/

/-- C13, the claim as stated fails: in the frame of `sceneGood`, which runs to
its end in both renderers, no call clears the RSM normal target; the clears of
the frame are those of the six other targets. -/
theorem C13_counterexample_normal_target_not_cleared :
    ((Renderer.Render mathQ (Renderer.Create hdBuffer hdBuffer) sceneGood false).failure = none ∧
      Cmd.ClearColor .s_rsmNormalBuffer ∉
        (Renderer.Render mathQ (Renderer.Create hdBuffer hdBuffer) sceneGood false).cmds ∧
      (Renderer.Render mathQ (Renderer.Create hdBuffer hdBuffer) sceneGood false).cmds.filter
        Cmd.isClear =
        [.ClearDepth .s_rsmDepthBuffer, .ClearColor .s_rsmDiffuseBuffer,
         .ClearColor .s_rsmSpecularBuffer, .ClearDepth .s_shadowMap,
         .ClearDepth .g_SceneDepthBuffer, .ClearColor .g_SceneColorBuffer]) ∧
    ((MyRenderer.Render mathQ (MyRenderer.Initialize hdBuffer hdBuffer) sceneGood).failure = none ∧
      Cmd.ClearColor .s_rsmNormalBuffer ∉
        (MyRenderer.Render mathQ (MyRenderer.Initialize hdBuffer hdBuffer) sceneGood).cmds ∧
      (MyRenderer.Render mathQ (MyRenderer.Initialize hdBuffer hdBuffer) sceneGood).cmds.filter
        Cmd.isClear =
        [.ClearDepth .s_rsmDepthBuffer, .ClearColor .s_rsmDiffuseBuffer,
         .ClearColor .s_rsmSpecularBuffer, .ClearDepth .s_shadowMap,
         .ClearDepth .g_SceneDepthBuffer, .ClearColor .g_SceneColorBuffer]) := by
  decide

set_option maxRecDepth 8000 in
/-- C13, amended: in every frame, whatever the buffers and the scene and
whether or not the frame is aborted later, the clears recorded by `Render` are
those of the RSM depth, RSM diffuse and RSM specular targets, the shadow map,
the scene depth buffer and the scene colour buffer, each exactly once; they are
among the first fourteen calls, those of the resource initialisation, which
the opening of ReflectiveShadowMapPass follows. The RSM normal target is
transitioned there and not cleared. Stated for both renderers. -/
theorem C13_clears_of_resource_init {α : Type}
    [Mul α] [Div α] [NatCast α] [OfNat α 2] (math : MathLib α) (b : Buffers)
    (scene : Scene α) (hsg : Bool) :
    ((Renderer.Render math b scene hsg).cmds.filter Cmd.isClear =
        [.ClearDepth .s_rsmDepthBuffer, .ClearColor .s_rsmDiffuseBuffer,
         .ClearColor .s_rsmSpecularBuffer, .ClearDepth .s_shadowMap,
         .ClearDepth .g_SceneDepthBuffer, .ClearColor .g_SceneColorBuffer] ∧
      (Renderer.Render math b scene hsg).cmds.take RESOURCE_INIT_CALLS =
        (Renderer.ResourceInit : Trace α).cmds ∧
      ((Renderer.Render math b scene hsg).cmds.drop RESOURCE_INIT_CALLS).filter Cmd.isClear = [] ∧
      ((Renderer.Render math b scene hsg).cmds.drop RESOURCE_INIT_CALLS).head? =
        some (.BeginBlock .ReflectiveShadowMapPass)) ∧
    ((MyRenderer.Render math b scene).cmds.filter Cmd.isClear =
        [.ClearDepth .s_rsmDepthBuffer, .ClearColor .s_rsmDiffuseBuffer,
         .ClearColor .s_rsmSpecularBuffer, .ClearDepth .s_shadowMap,
         .ClearDepth .g_SceneDepthBuffer, .ClearColor .g_SceneColorBuffer] ∧
      (MyRenderer.Render math b scene).cmds.take RESOURCE_INIT_CALLS =
        (MyRenderer.ResourceInit : Trace α).cmds ∧
      ((MyRenderer.Render math b scene).cmds.drop RESOURCE_INIT_CALLS).filter Cmd.isClear = [] ∧
      ((MyRenderer.Render math b scene).cmds.drop RESOURCE_INIT_CALLS).head? =
        some (.BeginBlock .ReflectiveShadowMapPass)) := by
  have e1 := fun (ref : ModelRef) (model : Model) (srv : Nat) =>
    Renderer_Draw_filter (α := α) Cmd.isClear ref model srv (fun _ => rfl) (fun _ => rfl)
      (fun _ => rfl) (fun _ _ _ => rfl)
  have e2 := fun (ref : ModelRef) (model : Model) =>
    Renderer_DrawDepth_filter (α := α) Cmd.isClear ref model (fun _ => rfl) (fun _ => rfl)
      (fun _ _ _ => rfl)
  have e3 := fun (ref : ModelRef) (model : Model) =>
    MyRenderer_Draw_filter (α := α) Cmd.isClear ref model (fun _ => rfl) (fun _ => rfl)
      (fun _ => rfl) (fun _ _ _ => rfl)
  have e4 := fun (ref : ModelRef) (model : Model) =>
    MyRenderer_DrawDepth_filter (α := α) Cmd.isClear ref model (fun _ => rfl) (fun _ => rfl)
      (fun _ _ _ => rfl)
  constructor
  · simp only [Renderer.Render, Renderer.ResourceInit, Renderer.ReflectiveShadowMapPass,
      Renderer.ShadowMapPass, Renderer.VSGLGenerationPass, Renderer.DepthPass,
      Renderer.LightingPass, Trace.ScopedTimer, Trace.block_cons, Trace.block_nil,
      Trace.cmds_seq, Trace.failure_seq, Trace.cmds_call, Trace.failure_call, Trace.cmds_skip,
      Trace.failure_skip, Trace.cmds_assert, Trace.failure_assert, RESOURCE_INIT_CALLS]
    simp [apply_ite (List.filter Cmd.isClear), List.filter_append, List.filter_cons, e1, e2,
      Cmd.isClear, apply_ite Trace.cmds, Trace.cmds_seq, Trace.cmds_call, Trace.cmds_skip,
      apply_ite List.head?]
  · simp only [MyRenderer.Render, MyRenderer.ResourceInit, MyRenderer.ReflectiveShadowMapPass,
      MyRenderer.ShadowMapPass, MyRenderer.VSGLGenerationPass, MyRenderer.DepthPass,
      MyRenderer.LightingPass, Trace.ScopedTimer, Trace.block_cons, Trace.block_nil,
      Trace.cmds_seq, Trace.failure_seq, Trace.cmds_call, Trace.failure_call, Trace.cmds_skip,
      Trace.failure_skip, Trace.cmds_assert, Trace.failure_assert, RESOURCE_INIT_CALLS]
    simp [apply_ite (List.filter Cmd.isClear), List.filter_append, List.filter_cons, e3, e4,
      Cmd.isClear, apply_ite Trace.cmds, Trace.cmds_seq, Trace.cmds_call, Trace.cmds_skip,
      apply_ite List.head?]

/-- C13 amended, at `sceneGood`: the six clears are among the first fourteen
calls of the frame and no call after them clears a target. -/
theorem C13_witness_sceneGood :
    ((Renderer.Render mathQ (Renderer.Create hdBuffer hdBuffer) sceneGood false).cmds.take
        RESOURCE_INIT_CALLS).filter Cmd.isClear =
      [.ClearDepth .s_rsmDepthBuffer, .ClearColor .s_rsmDiffuseBuffer,
       .ClearColor .s_rsmSpecularBuffer, .ClearDepth .s_shadowMap,
       .ClearDepth .g_SceneDepthBuffer, .ClearColor .g_SceneColorBuffer] ∧
    ((Renderer.Render mathQ (Renderer.Create hdBuffer hdBuffer) sceneGood false).cmds.drop
        RESOURCE_INIT_CALLS).filter Cmd.isClear = [] :=
  ⟨by
    rw [(C13_clears_of_resource_init mathQ (Renderer.Create hdBuffer hdBuffer) sceneGood
      false).1.2.1]
    decide,
    (C13_clears_of_resource_init mathQ (Renderer.Create hdBuffer hdBuffer) sceneGood
      false).1.2.2.1⟩

/-! ## C14: resource states after the resource initialisation -/

/-- C14: whatever states the eight resources are in when `Render` is called,
in particular after any run of earlier frames, once the calls of the resource
initialisation (the first fourteen of the frame) have been made the RSM depth
buffer, the shadow map and the scene depth buffer are in depth-write state, the
RSM normal, diffuse and specular targets and the scene colour buffer in
render-target state, and the light-probe buffer in unordered-access state
(`passReadyState`). Stated for both renderers. -/
theorem C14_states_after_resource_init {α : Type}
    [Mul α] [Div α] [NatCast α] [OfNat α 2] (math : MathLib α) (b : Buffers)
    (earlier : List (Scene α × Bool)) (earlierM : List (Scene α)) (scene : Scene α) (hsg : Bool)
    (r : Resource) :
    (((Renderer.frames math b earlier).after
        ((Renderer.Render math (Renderer.frames math b earlier) scene hsg).cmds.take
          RESOURCE_INIT_CALLS)).usage r = passReadyState r ∧
      (Renderer.Render math (Renderer.frames math b earlier) scene hsg).cmds.take
          RESOURCE_INIT_CALLS = (Renderer.ResourceInit : Trace α).cmds) ∧
    (((MyRenderer.frames math b earlierM).after
        ((MyRenderer.Render math (MyRenderer.frames math b earlierM) scene).cmds.take
          RESOURCE_INIT_CALLS)).usage r = passReadyState r ∧
      (MyRenderer.Render math (MyRenderer.frames math b earlierM) scene).cmds.take
          RESOURCE_INIT_CALLS = (MyRenderer.ResourceInit : Trace α).cmds) := by
  refine ⟨⟨?_, Renderer_Render_take_init _ _ _ _⟩, ⟨?_, MyRenderer_Render_take_init _ _ _⟩⟩
  · rw [Renderer_Render_take_init]
    cases r <;> rfl
  · rw [MyRenderer_Render_take_init]
    cases r <;> rfl

/-! ## C15: resource states at every clear, draw and dispatch -/

/-- C15: for every scene, all buffers and whatever states the resources are in
when the frame starts, at every call `c` of the command stream of `Render`,
with `pre` the calls before it: if `c` is a clear, its target is in its write
state; if it is a draw, the bound colour targets are in render-target state,
the depth target in depth-write or (bound read-only) depth-read state, the
bound shader resources in pixel-shader-resource state and the bound constant
buffer in vertex-and-constant-buffer state; if it is a dispatch, the bound
shader resources are in non-pixel-shader-resource state and the bound
unordered-access buffer in unordered-access state (`Cmd.hazardFree`), the
state of a resource being the one the latest `TransitionResource` of `pre` set.
Hence every resource `c` writes is in a write state, no `TransitionResource`
of `pre` put it in a read state, and a pass that is open at `c` is the one
writer of the resource (`Resource.writer`), so no two passes write the same
resource; and every resource `c` reads is in a read state. The resources are
the eight of the frame; the textures and geometry buffers of the models and the
uploaded constant blocks are not among them and no call of `Render` transitions
them. The passes are the five timed blocks; the clears of the resource
initialisation come before the first. Stated for both renderers, aborted
frames included. -/
theorem C15_resource_states_at_every_use {α : Type}
    [Mul α] [Div α] [NatCast α] [OfNat α 2] (math : MathLib α) (b : Buffers)
    (scene : Scene α) (hsg : Bool) :
    (∀ pre c post, (Renderer.Render math b scene hsg).cmds = pre ++ c :: post →
      c.hazardFree ((Tracked.init b).after pre) = true ∧
      (∀ r ∈ c.writes ((Tracked.init b).after pre),
        (((Tracked.init b).after pre).usage r).isWrite = true ∧
        (¬ ∃ st fl, st.isRead = true ∧ Cmd.TransitionResource r st fl ∈ pre) ∧
        ∀ pass, ((Tracked.init b).after pre).pass = some pass → pass = r.writer) ∧
      (∀ r ∈ c.reads ((Tracked.init b).after pre),
        (((Tracked.init b).after pre).usage r).isRead = true)) ∧
    (∀ pre c post, (MyRenderer.Render math b scene).cmds = pre ++ c :: post →
      c.hazardFree ((Tracked.init b).after pre) = true ∧
      (∀ r ∈ c.writes ((Tracked.init b).after pre),
        (((Tracked.init b).after pre).usage r).isWrite = true ∧
        (¬ ∃ st fl, st.isRead = true ∧ Cmd.TransitionResource r st fl ∈ pre) ∧
        ∀ pass, ((Tracked.init b).after pre).pass = some pass → pass = r.writer) ∧
      (∀ r ∈ c.reads ((Tracked.init b).after pre),
        (((Tracked.init b).after pre).usage r).isRead = true)) :=
  ⟨Tracked.uses_of_accepts b _ (Renderer_Render_safeFrom math b scene hsg).1,
    Tracked.uses_of_accepts b _ (MyRenderer_Render_safeFrom math b scene).1⟩

/-- C15 at the first draw of the frame of `sceneGood`, the call after the first
24 calls: it writes the three RSM colour targets and the RSM depth buffer in
ReflectiveShadowMapPass, and meets its condition. -/
theorem C15_witness_first_draw_of_sceneGood :
    (Renderer.Render mathQ (Renderer.Create hdBuffer hdBuffer) sceneGood false).cmds =
      (Renderer.Render mathQ (Renderer.Create hdBuffer hdBuffer) sceneGood false).cmds.take 24 ++
        .DrawIndexed 3 0 0 ::
        (Renderer.Render mathQ (Renderer.Create hdBuffer hdBuffer) sceneGood false).cmds.drop 25 ∧
    (Cmd.DrawIndexed 3 0 0 : Cmd ℚ).writes ((Tracked.init (Renderer.Create hdBuffer hdBuffer)).after
      ((Renderer.Render mathQ (Renderer.Create hdBuffer hdBuffer) sceneGood false).cmds.take 24)) =
      [.s_rsmNormalBuffer, .s_rsmDiffuseBuffer, .s_rsmSpecularBuffer, .s_rsmDepthBuffer] ∧
    (Cmd.DrawIndexed 3 0 0 : Cmd ℚ).hazardFree
      ((Tracked.init (Renderer.Create hdBuffer hdBuffer)).after
        ((Renderer.Render mathQ (Renderer.Create hdBuffer hdBuffer) sceneGood false).cmds.take 24))
      = true :=
  ⟨rfl, by decide,
    ((C15_resource_states_at_every_use mathQ (Renderer.Create hdBuffer hdBuffer) sceneGood
      false).1
      ((Renderer.Render mathQ (Renderer.Create hdBuffer hdBuffer) sceneGood false).cmds.take 24)
      (.DrawIndexed 3 0 0)
      ((Renderer.Render mathQ (Renderer.Create hdBuffer hdBuffer) sceneGood false).cmds.drop 25)
      rfl).1⟩

/-! ## C16: when a frame completes -/

/-- C16, the claim as stated fails: the RSM targets of `Create` have width and
height `RSM_WIDTH`, and the only mesh of `sceneZeroStride` has an index count
that is a multiple of 3, an index byte offset that is a multiple of 6 and
vertex byte offsets (zero) that are multiples of the vertex strides (zero), yet
the frame does not complete: the remainder by the vertex stride is a division
by zero. So it is in both renderers. -/
theorem C16_counterexample_zero_stride :
    (Renderer.Create hdBuffer hdBuffer).rsmMatches = true ∧
    (MyRenderer.Initialize hdBuffer hdBuffer).rsmMatches = true ∧
    (∀ mesh ∈ sceneZeroStride.m_model.m_pMesh,
      3 ∣ mesh.indexCount ∧ 6 ∣ mesh.indexDataByteOffset ∧
      sceneZeroStride.m_model.m_VertexStride ∣ mesh.vertexDataByteOffset ∧
      sceneZeroStride.m_model.m_VertexStrideDepth ∣ mesh.vertexDataByteOffsetDepth) ∧
    sceneZeroStride.m_modelCutout.m_pMesh = [] ∧
    (Renderer.Render mathQ (Renderer.Create hdBuffer hdBuffer) sceneZeroStride false).failure =
      some .divisionByZero ∧
    (MyRenderer.Render mathQ (MyRenderer.Initialize hdBuffer hdBuffer) sceneZeroStride).failure =
      some .divisionByZero := by
  decide

/-- C16, amended: with assertions and division by zero modelled as failure, a
frame of `Render` runs to its end if and only if every RSM target has width and
height `RSM_WIDTH` and every mesh of a batch passes the checks of each draw
routine used for the batch: its index count is a multiple of 3, its index byte
offset a multiple of 6, the vertex stride is not zero and divides its vertex
byte offset (`Draw` for both batches; in `Renderer` also `DrawDepth`, on the
depth-only stride and offset, for the first batch). When a check fails the
frame ends there and nothing is retried: a block records what its statements
record up to and including the first that fails, a draw loop records the binds
and draws of the meshes before the first that fails a check, and the pass
markers of the frame, each at most once and in the order of a full frame, stop
short of the full list exactly when the frame fails. Stated for both
renderers. -/
theorem C16_frame_completes_iff_checks_pass {α : Type}
    [Mul α] [Div α] [NatCast α] [OfNat α 2] (math : MathLib α)
    (b : Buffers) (scene : Scene α) (hsg : Bool) :
    (((Renderer.Render math b scene hsg).failure = none ↔
        (b.rsmMatches = true ∧ Renderer.checksPass scene = true)) ∧
      ((MyRenderer.Render math b scene).failure = none ↔
        (b.rsmMatches = true ∧ MyRenderer.checksPass scene = true))) ∧
    ((b.rsmMatches = true ↔
        ((b.s_rsmDepthBuffer.GetWidth = RSM_WIDTH ∧ b.s_rsmDepthBuffer.GetHeight = RSM_WIDTH) ∧
          (b.s_rsmNormalBuffer.GetWidth = RSM_WIDTH ∧
            b.s_rsmNormalBuffer.GetHeight = RSM_WIDTH) ∧
          (b.s_rsmDiffuseBuffer.GetWidth = RSM_WIDTH ∧
            b.s_rsmDiffuseBuffer.GetHeight = RSM_WIDTH) ∧
          (b.s_rsmSpecularBuffer.GetWidth = RSM_WIDTH ∧
            b.s_rsmSpecularBuffer.GetHeight = RSM_WIDTH))) ∧
      (Renderer.checksPass scene = true ↔
        ((∀ mesh ∈ scene.m_model.m_pMesh,
            Mesh.passesDraw scene.m_model.m_VertexStride mesh = true ∧
            Mesh.passesDrawDepth scene.m_model.m_VertexStrideDepth mesh = true) ∧
          ∀ mesh ∈ scene.m_modelCutout.m_pMesh,
            Mesh.passesDraw scene.m_modelCutout.m_VertexStride mesh = true)) ∧
      (MyRenderer.checksPass scene = true ↔
        ((∀ mesh ∈ scene.m_model.m_pMesh,
            Mesh.passesDraw scene.m_model.m_VertexStride mesh = true) ∧
          ∀ mesh ∈ scene.m_modelCutout.m_pMesh,
            Mesh.passesDraw scene.m_modelCutout.m_VertexStride mesh = true)) ∧
      (∀ stride mesh, Mesh.passesDraw stride mesh = true ↔
        (3 ∣ mesh.indexCount ∧ 6 ∣ mesh.indexDataByteOffset ∧ stride ≠ 0 ∧
          stride ∣ mesh.vertexDataByteOffset)) ∧
      (∀ stride mesh, Mesh.passesDrawDepth stride mesh = true ↔
        (3 ∣ mesh.indexCount ∧ 6 ∣ mesh.indexDataByteOffset ∧ stride ≠ 0 ∧
          stride ∣ mesh.vertexDataByteOffsetDepth))) ∧
    ((∀ ts : List (Trace α), (Trace.block ts).cmds =
        (ts.takeWhile Trace.completed ++ (ts.dropWhile Trace.completed).take 1).flatMap
          Trace.cmds) ∧
      (∀ ref stride srv meshes mi,
        (Renderer.Draw.loop ref stride srv meshes mi : Trace α).cmds =
          drawCmds (Renderer.bindCall ref srv) (Mesh.drawCall stride)
            (meshes.takeWhile (Mesh.passesDraw stride)) mi) ∧
      (∀ stride meshes,
        (Renderer.DrawDepth.loop stride meshes : Trace α).cmds =
          (meshes.takeWhile (Mesh.passesDrawDepth stride)).map (Mesh.drawCallDepth stride)) ∧
      (∀ ref stride meshes mi,
        (MyRenderer.Draw.loop ref stride meshes mi : Trace α).cmds =
          drawCmds (MyRenderer.bindCall ref) (Mesh.drawCall stride)
            (meshes.takeWhile (Mesh.passesDraw stride)) mi) ∧
      (∀ stride meshes,
        (MyRenderer.DrawDepth.loop stride meshes : Trace α).cmds =
          (meshes.takeWhile (Mesh.passesDraw stride)).map (Mesh.drawCall stride))) ∧
    (((Renderer.Render math b scene hsg).cmds.filter Cmd.isMarker <+: frameMarkers ∧
        ((Renderer.Render math b scene hsg).cmds.filter Cmd.isMarker = frameMarkers ↔
          (Renderer.Render math b scene hsg).failure = none)) ∧
      ((MyRenderer.Render math b scene).cmds.filter Cmd.isMarker <+: frameMarkers ∧
        ((MyRenderer.Render math b scene).cmds.filter Cmd.isMarker = frameMarkers ↔
          (MyRenderer.Render math b scene).failure = none))) :=
  ⟨⟨Renderer_Render_failure math b scene hsg, MyRenderer_Render_failure math b scene⟩,
    ⟨Buffers.rsmMatches_iff b, Renderer_checksPass_iff scene, MyRenderer_checksPass_iff scene,
      Mesh.passesDraw_iff, Mesh.passesDrawDepth_iff⟩,
    ⟨Trace.cmds_block_takeWhile, Renderer_Draw_loop_cmds, Renderer_DrawDepth_loop_cmds,
      MyRenderer_Draw_loop_cmds, MyRenderer_DrawDepth_loop_cmds⟩,
    ⟨Renderer_Render_markers math b scene hsg, MyRenderer_Render_markers math b scene⟩⟩

/-- C16 amended, at `sceneSecondFails` (the second mesh of the first batch has
four indices): the frame fails at that check in both renderers, inside the
first pass, which is opened and not closed; the first mesh is drawn, the second
is not, and no later pass is begun. -/
theorem C16_witness_sceneSecondFails :
    Renderer.checksPass sceneSecondFails = false ∧
    (Renderer.Render mathQ (Renderer.Create hdBuffer hdBuffer) sceneSecondFails false).failure
      ≠ none ∧
    (Renderer.Render mathQ (Renderer.Create hdBuffer hdBuffer) sceneSecondFails false).cmds.filter
      Cmd.isMarker = [.BeginBlock .ReflectiveShadowMapPass] ∧
    (Renderer.Render mathQ (Renderer.Create hdBuffer hdBuffer) sceneSecondFails false).cmds.filter
      Cmd.isDrawIndexed = [.DrawIndexed 3 0 0] ∧
    (MyRenderer.Render mathQ (MyRenderer.Initialize hdBuffer hdBuffer) sceneSecondFails).cmds.filter
      Cmd.isMarker ≠ frameMarkers :=
  ⟨by decide,
    fun h => absurd ((C16_frame_completes_iff_checks_pass mathQ (Renderer.Create hdBuffer hdBuffer)
      sceneSecondFails false).1.1.1 h).2 (by decide),
    by decide, by decide,
    fun h => absurd (((C16_frame_completes_iff_checks_pass mathQ
        (MyRenderer.Initialize hdBuffer hdBuffer) sceneSecondFails false).1.2.1
      (((C16_frame_completes_iff_checks_pass mathQ (MyRenderer.Initialize hdBuffer hdBuffer)
        sceneSecondFails false).2.2.2.2.2.1) h)).2) (by decide)⟩

/-! ## C17: the lighting pipeline of each batch -/

section PipelineAtDraws

variable {α : Type}

/-- The draws of the loop of `Draw` run with the pipeline and the batch in
force when the loop is entered. -/
theorem pipelineAtDraws_drawCmds (pso : Option PSO) (batch : Option ModelRef)
    (bind : Nat → Cmd α) (draw : Mesh → Cmd α)
    (hb : ∀ i l, pipelineAtDraws pso batch (bind i :: l) = pipelineAtDraws pso batch l)
    (hd : ∀ m l, pipelineAtDraws pso batch (draw m :: l) =
      (pso, batch, draw m) :: pipelineAtDraws pso batch l)
    (meshes : List Mesh) (mi : Nat) (rest : List (Cmd α)) :
    pipelineAtDraws pso batch (drawCmds bind draw meshes mi ++ rest) =
      meshes.map (fun m => (pso, batch, draw m)) ++ pipelineAtDraws pso batch rest := by
  induction meshes generalizing mi with
  | nil => rfl
  | cons mesh tail ih =>
    by_cases hm : mi = mesh.materialIndex
    · simp only [drawCmds, if_pos hm, List.nil_append, List.cons_append, hd, ih, List.map_cons]
    · simp only [drawCmds, if_neg hm, List.singleton_append, List.cons_append, List.nil_append,
        hb, hd, ih, List.map_cons]

/-- The draws of `Renderer::Draw`: one for each submesh before the first that
fails a check, with the pipeline selected before the routine and the batch of
the routine. -/
theorem Renderer_Draw_pipelineAtDraws (pso : Option PSO) (batch : Option ModelRef)
    (ref : ModelRef) (model : Model) (srv : Nat) (rest : List (Cmd α)) :
    pipelineAtDraws pso batch ((Renderer.Draw ref model srv : Trace α).cmds ++ rest) =
      (model.m_pMesh.takeWhile (Mesh.passesDraw model.m_VertexStride)).map
        (fun m => (pso, some ref, Mesh.drawCall model.m_VertexStride m)) ++
      pipelineAtDraws pso (some ref) rest := by
  rw [Renderer_Draw_cmds, Renderer_Draw_loop_cmds]
  simp only [List.cons_append, pipelineAtDraws]
  exact pipelineAtDraws_drawCmds pso (some ref) (Renderer.bindCall ref srv)
    (Mesh.drawCall model.m_VertexStride) (fun _ _ => rfl) (fun _ _ => rfl) _ _ _

/-- The draws of `MyRenderer::Draw`: one for each submesh before the first that
fails a check, with the pipeline selected before the routine and the batch of
the routine. -/
theorem MyRenderer_Draw_pipelineAtDraws (pso : Option PSO) (batch : Option ModelRef)
    (ref : ModelRef) (model : Model) (rest : List (Cmd α)) :
    pipelineAtDraws pso batch ((MyRenderer.Draw ref model : Trace α).cmds ++ rest) =
      (model.m_pMesh.takeWhile (Mesh.passesDraw model.m_VertexStride)).map
        (fun m => (pso, some ref, Mesh.drawCall model.m_VertexStride m)) ++
      pipelineAtDraws pso (some ref) rest := by
  rw [MyRenderer_Draw_cmds, MyRenderer_Draw_loop_cmds]
  simp only [List.cons_append, pipelineAtDraws]
  exact pipelineAtDraws_drawCmds pso (some ref) (MyRenderer.bindCall ref)
    (Mesh.drawCall model.m_VertexStride) (fun _ _ => rfl) (fun _ _ => rfl) _ _ _

/-- A batch of which every submesh passes the checks is drawn whole. -/
theorem takeWhile_passesDraw_of_passes (model : Model) (h : model.passesDraw = true) :
    model.m_pMesh.takeWhile (Mesh.passesDraw model.m_VertexStride) = model.m_pMesh := by
  rw [List.takeWhile_eq_self_iff]
  simpa [Model.passesDraw, List.all_eq_true] using h

/-- The draws of `Renderer::LightingPass`: those of the first batch with the
pipeline selected for it, then, if the first batch ran to its end, those of the
cutout batch with its pipeline. -/
theorem Renderer_LightingPass_pipelineAtDraws (b : Buffers) (scene : Scene α) (hsg : Bool) :
    pipelineAtDraws none none (Renderer.LightingPass b scene hsg).cmds =
      (scene.m_model.m_pMesh.takeWhile (Mesh.passesDraw scene.m_model.m_VertexStride)).map
        (fun m => (some (if hsg then PSO.s_lightingHSGPSO else PSO.s_lightingPSO),
          some ModelRef.m_model, Mesh.drawCall scene.m_model.m_VertexStride m)) ++
      (if scene.m_model.passesDraw = true then
        (scene.m_modelCutout.m_pMesh.takeWhile
          (Mesh.passesDraw scene.m_modelCutout.m_VertexStride)).map
          (fun m => (some (if hsg then PSO.s_lightingHSGCutoutPSO else PSO.s_lightingCutoutPSO),
            some ModelRef.m_modelCutout, Mesh.drawCall scene.m_modelCutout.m_VertexStride m))
       else []) := by
  have d1 := fun (p : Option PSO) (bt : Option ModelRef) (rest : List (Cmd α)) =>
    Renderer_Draw_pipelineAtDraws p bt .m_model scene.m_model MODEL_SRV_COUNT rest
  have d2 := fun (p : Option PSO) (bt : Option ModelRef) (rest : List (Cmd α)) =>
    Renderer_Draw_pipelineAtDraws p bt .m_modelCutout scene.m_modelCutout MODEL_SRV_COUNT rest
  have f1 := Renderer_Draw_failure (α := α) .m_model scene.m_model MODEL_SRV_COUNT
  have f2 := Renderer_Draw_failure (α := α) .m_modelCutout scene.m_modelCutout MODEL_SRV_COUNT
  have e0 : scene.m_modelCutout.meshCount = 0 → scene.m_modelCutout.m_pMesh = [] :=
    fun h => List.eq_nil_of_length_eq_zero h
  unfold Renderer.LightingPass
  generalize (Renderer.Draw .m_model scene.m_model MODEL_SRV_COUNT : Trace α) = t1 at d1 f1
  generalize (Renderer.Draw .m_modelCutout scene.m_modelCutout MODEL_SRV_COUNT : Trace α) = t2
    at d2 f2
  have d1' := fun p bt => by simpa using d1 p bt []
  have d2' := fun p bt => by simpa using d2 p bt []
  by_cases hc : 0 < scene.m_modelCutout.meshCount <;>
  by_cases h1 : scene.m_model.passesDraw = true <;>
  by_cases h2 : scene.m_modelCutout.passesDraw = true <;>
  simp [Trace.ScopedTimer, Trace.block_cons, Trace.block_nil,
      Trace.cmds_seq, Trace.failure_seq, Trace.cmds_call, Trace.failure_call, Trace.cmds_skip,
      Trace.failure_skip, hc, h1, h2, f1, f2, pipelineAtDraws, d1, d2, d1', d2']
  all_goals simp [e0 (Nat.eq_zero_of_not_pos hc)]

/-- The draws of `MyRenderer::LightingPass`, with the plain pipelines. -/
theorem MyRenderer_LightingPass_pipelineAtDraws (b : Buffers) (scene : Scene α) :
    pipelineAtDraws none none (MyRenderer.LightingPass b scene).cmds =
      (scene.m_model.m_pMesh.takeWhile (Mesh.passesDraw scene.m_model.m_VertexStride)).map
        (fun m => (some PSO.s_lightingPSO, some ModelRef.m_model,
          Mesh.drawCall scene.m_model.m_VertexStride m)) ++
      (if scene.m_model.passesDraw = true then
        (scene.m_modelCutout.m_pMesh.takeWhile
          (Mesh.passesDraw scene.m_modelCutout.m_VertexStride)).map
          (fun m => (some PSO.s_lightingCutoutPSO, some ModelRef.m_modelCutout,
            Mesh.drawCall scene.m_modelCutout.m_VertexStride m))
       else []) := by
  have d1 := fun (p : Option PSO) (bt : Option ModelRef) (rest : List (Cmd α)) =>
    MyRenderer_Draw_pipelineAtDraws p bt .m_model scene.m_model rest
  have d2 := fun (p : Option PSO) (bt : Option ModelRef) (rest : List (Cmd α)) =>
    MyRenderer_Draw_pipelineAtDraws p bt .m_modelCutout scene.m_modelCutout rest
  have f1 := MyRenderer_Draw_failure (α := α) .m_model scene.m_model
  have f2 := MyRenderer_Draw_failure (α := α) .m_modelCutout scene.m_modelCutout
  have e0 : scene.m_modelCutout.meshCount = 0 → scene.m_modelCutout.m_pMesh = [] :=
    fun h => List.eq_nil_of_length_eq_zero h
  unfold MyRenderer.LightingPass
  generalize (MyRenderer.Draw .m_model scene.m_model : Trace α) = t1 at d1 f1
  generalize (MyRenderer.Draw .m_modelCutout scene.m_modelCutout : Trace α) = t2 at d2 f2
  have d1' := fun p bt => by simpa using d1 p bt []
  have d2' := fun p bt => by simpa using d2 p bt []
  by_cases hc : 0 < scene.m_modelCutout.meshCount <;>
  by_cases h1 : scene.m_model.passesDraw = true <;>
  by_cases h2 : scene.m_modelCutout.passesDraw = true <;>
  simp [Trace.ScopedTimer, Trace.block_cons, Trace.block_nil,
      Trace.cmds_seq, Trace.failure_seq, Trace.cmds_call, Trace.failure_call, Trace.cmds_skip,
      Trace.failure_skip, hc, h1, h2, f1, f2, pipelineAtDraws, d1, d2, d1', d2']
  all_goals simp [e0 (Nat.eq_zero_of_not_pos hc)]

end PipelineAtDraws

/-- C17: for every scene, all buffers and every state of the toggle,
`Renderer::LightingPass` selects the pipeline `lightingPipeline toggle false`
(HSG if the toggle is on, plain otherwise) and then draws the first batch, and,
if the cutout batch is not empty and the pass was not aborted before, selects
`lightingPipeline toggle true` (HSG cutout if the toggle is on, plain cutout
otherwise) and then draws the cutout batch; it selects no other pipeline and
draws no other batch. Every indexed draw of the pass is issued with the
pipeline of its batch selected and the index buffer of its batch bound: the
draws of the submeshes of the first batch (up to the first that fails a check of
`Draw`) with `lightingPipeline toggle false`, then, if the first batch ran to
its end, those of the cutout batch with `lightingPipeline toggle true`; on a
scene that passes the checks these are the draws of all submeshes. The four
pipelines are distinct, so the selected one determines the pair (toggle, cutout
flag) and is determined by it, and the toggle is constructed as false.
`MyRenderer::LightingPass` has no toggle and selects the plain pipelines. -/
theorem C17_lighting_pipeline_selection {α : Type} (b : Buffers) (scene : Scene α)
    (toggle : BoolVar) :
    (Renderer.LightingPass b scene toggle.toBool).cmds.filterMap Cmd.batchEvent? =
      [.pipeline (lightingPipeline toggle.toBool false), .batch .m_model] ++
        (if 0 < scene.m_modelCutout.meshCount ∧
            (Renderer.Draw .m_model scene.m_model MODEL_SRV_COUNT : Trace α).failure = none then
          [.pipeline (lightingPipeline toggle.toBool true), .batch .m_modelCutout] else []) ∧
    (MyRenderer.LightingPass b scene).cmds.filterMap Cmd.batchEvent? =
      [.pipeline (lightingPipeline false false), .batch .m_model] ++
        (if 0 < scene.m_modelCutout.meshCount ∧
            (MyRenderer.Draw .m_model scene.m_model : Trace α).failure = none then
          [.pipeline (lightingPipeline false true), .batch .m_modelCutout] else []) ∧
    (∀ t c t2 c2, lightingPipeline t c = lightingPipeline t2 c2 ↔ (t = t2 ∧ c = c2)) ∧
    (∀ t c, (lightingPipeline t c).isCutout = c ∧ (lightingPipeline t c).isLighting = true) ∧
    Renderer.EnableHSGConvolution.toBool = false ∧
    Renderer.EnableHSGConvolution_default = false ∧
    pipelineAtDraws none none (Renderer.LightingPass b scene toggle.toBool).cmds =
      (scene.m_model.m_pMesh.takeWhile (Mesh.passesDraw scene.m_model.m_VertexStride)).map
        (fun m => (some (lightingPipeline toggle.toBool false), some ModelRef.m_model,
          Mesh.drawCall scene.m_model.m_VertexStride m)) ++
      (if scene.m_model.passesDraw = true then
        (scene.m_modelCutout.m_pMesh.takeWhile
          (Mesh.passesDraw scene.m_modelCutout.m_VertexStride)).map
          (fun m => (some (lightingPipeline toggle.toBool true), some ModelRef.m_modelCutout,
            Mesh.drawCall scene.m_modelCutout.m_VertexStride m))
       else []) ∧
    pipelineAtDraws none none (MyRenderer.LightingPass b scene).cmds =
      (scene.m_model.m_pMesh.takeWhile (Mesh.passesDraw scene.m_model.m_VertexStride)).map
        (fun m => (some (lightingPipeline false false), some ModelRef.m_model,
          Mesh.drawCall scene.m_model.m_VertexStride m)) ++
      (if scene.m_model.passesDraw = true then
        (scene.m_modelCutout.m_pMesh.takeWhile
          (Mesh.passesDraw scene.m_modelCutout.m_VertexStride)).map
          (fun m => (some (lightingPipeline false true), some ModelRef.m_modelCutout,
            Mesh.drawCall scene.m_modelCutout.m_VertexStride m))
       else []) ∧
    (scene.m_model.passesDraw = true → scene.m_modelCutout.passesDraw = true →
      pipelineAtDraws none none (Renderer.LightingPass b scene toggle.toBool).cmds =
        scene.m_model.m_pMesh.map
          (fun m => (some (lightingPipeline toggle.toBool false), some ModelRef.m_model,
            Mesh.drawCall scene.m_model.m_VertexStride m)) ++
        scene.m_modelCutout.m_pMesh.map
          (fun m => (some (lightingPipeline toggle.toBool true), some ModelRef.m_modelCutout,
            Mesh.drawCall scene.m_modelCutout.m_VertexStride m)) ∧
      pipelineAtDraws none none (MyRenderer.LightingPass b scene).cmds =
        scene.m_model.m_pMesh.map
          (fun m => (some (lightingPipeline false false), some ModelRef.m_model,
            Mesh.drawCall scene.m_model.m_VertexStride m)) ++
        scene.m_modelCutout.m_pMesh.map
          (fun m => (some (lightingPipeline false true), some ModelRef.m_modelCutout,
            Mesh.drawCall scene.m_modelCutout.m_VertexStride m))) := by
  have b1 := fun (ref : ModelRef) (model : Model) (srv : Nat) =>
    Renderer_Draw_batchEvents (α := α) ref model srv
  have b3 := fun (ref : ModelRef) (model : Model) =>
    MyRenderer_Draw_batchEvents (α := α) ref model
  have pR := Renderer_LightingPass_pipelineAtDraws b scene toggle.toBool
  have pM := MyRenderer_LightingPass_pipelineAtDraws b scene
  have eL : ∀ t c : Bool, lightingPipeline t c =
      if c then (if t then PSO.s_lightingHSGCutoutPSO else PSO.s_lightingCutoutPSO)
      else (if t then PSO.s_lightingHSGPSO else PSO.s_lightingPSO) := by decide
  refine ⟨?_, ?_, by decide, by decide, rfl, rfl, ?_, ?_, ?_⟩
  · obtain ⟨hsg⟩ := toggle
    by_cases hc : 0 < scene.m_modelCutout.meshCount <;>
    by_cases h1 : (Renderer.Draw .m_model scene.m_model MODEL_SRV_COUNT :
      Trace α).failure = none <;>
    by_cases h2 : (Renderer.Draw .m_modelCutout scene.m_modelCutout MODEL_SRV_COUNT :
      Trace α).failure = none <;>
    cases hsg <;>
    simp [Renderer.LightingPass, Trace.ScopedTimer, Trace.block_cons, Trace.block_nil,
      Trace.cmds_seq, Trace.failure_seq, Trace.cmds_call, Trace.failure_call, Trace.cmds_skip,
      Trace.failure_skip, hc, h1, h2, List.filterMap_append, List.filterMap_cons, b1,
      Cmd.batchEvent?, lightingPipeline, BoolVar.toBool]
  · by_cases hc : 0 < scene.m_modelCutout.meshCount <;>
    by_cases h1 : (MyRenderer.Draw .m_model scene.m_model : Trace α).failure = none <;>
    by_cases h2 : (MyRenderer.Draw .m_modelCutout scene.m_modelCutout : Trace α).failure = none <;>
    simp [MyRenderer.LightingPass, Trace.ScopedTimer, Trace.block_cons, Trace.block_nil,
      Trace.cmds_seq, Trace.failure_seq, Trace.cmds_call, Trace.failure_call, Trace.cmds_skip,
      Trace.failure_skip, hc, h1, h2, List.filterMap_append, List.filterMap_cons, b3,
      Cmd.batchEvent?, lightingPipeline]
  · rw [pR]
    simp only [eL, Bool.false_eq_true, if_false, if_true]
  · rw [pM]
    simp only [eL, Bool.false_eq_true, if_false, if_true]
  · intro h1 h2
    rw [pR, pM, takeWhile_passesDraw_of_passes _ h1, takeWhile_passesDraw_of_passes _ h2]
    simp only [eL, h1, Bool.false_eq_true, if_false, if_true, and_self]

/-- C17, witness: on the scene `sceneGood`, whose batches of three and of one
submesh pass the checks, the lighting pass issues four indexed draws, three with
the pipeline of the first batch and one with that of the cutout batch. -/
theorem C17_witness_sceneGood :
    sceneGood.m_model.passesDraw = true ∧ sceneGood.m_modelCutout.passesDraw = true ∧
    (pipelineAtDraws none none
      (Renderer.LightingPass (Renderer.Create hdBuffer hdBuffer) sceneGood true).cmds).map
        (fun d => (d.1, d.2.1)) =
      [(some .s_lightingHSGPSO, some .m_model), (some .s_lightingHSGPSO, some .m_model),
       (some .s_lightingHSGPSO, some .m_model),
       (some .s_lightingHSGCutoutPSO, some .m_modelCutout)] := by
  have h := ((C17_lighting_pipeline_selection (Renderer.Create hdBuffer hdBuffer) sceneGood
    ⟨true⟩).2.2.2.2.2.2.2.2 (by decide) (by decide)).1
  refine ⟨by decide, by decide, ?_⟩
  have e : (⟨true⟩ : BoolVar).toBool = true := rfl
  rw [e] at h
  rw [h]
  decide

/-! ## C18: depth and rasterizer states of the pipelines -/

/-- C18: of the graphics pipelines configured by `Renderer::Create` and by
`MyRenderer::Initialize`, every lighting variant (plain, cutout, HSG, HSG
cutout; the second renderer has the first two) has the equal-depth test
state, every Depth, ShadowMap and ReflectiveShadowMap variant has the depth
read-write state, every cutout variant has a two-sided rasterizer state and
every other variant a one-sided one. -/
theorem C18_pipeline_depth_and_rasterizer_states (pso : PSO) :
    (∀ d, Renderer.CreateGraphicsPSO pso = some d →
      (pso.isLighting = true → d.depthStencilState = .DepthStateTestEqual) ∧
      (pso.isDepthWriting = true → d.depthStencilState = .DepthStateReadWrite) ∧
      d.rasterizerState.isTwoSided = pso.isCutout) ∧
    (∀ d, MyRenderer.InitializeGraphicsPSO pso = some d →
      (pso.isLighting = true → d.depthStencilState = .DepthStateTestEqual) ∧
      (pso.isDepthWriting = true → d.depthStencilState = .DepthStateReadWrite) ∧
      d.rasterizerState.isTwoSided = pso.isCutout) ∧
    ((pso.isLighting = true ∨ pso.isDepthWriting = true) →
      (Renderer.CreateGraphicsPSO pso).isSome = true) ∧
    (((pso.isLighting = true ∨ pso.isDepthWriting = true) ∧ pso ≠ .s_lightingHSGPSO ∧
        pso ≠ .s_lightingHSGCutoutPSO) →
      (MyRenderer.InitializeGraphicsPSO pso).isSome = true) := by
  cases pso <;> simp [Renderer.CreateGraphicsPSO, MyRenderer.InitializeGraphicsPSO,
    PSO.isLighting, PSO.isDepthWriting, PSO.isCutout, RasterizerState.isTwoSided]

/-- C18 at the HSG cutout lighting pipeline of `Renderer::Create`: it is
configured, with the equal-depth test and a two-sided rasterizer state. -/
theorem C18_witness_lightingHSGCutoutPSO :
    ∃ d, Renderer.CreateGraphicsPSO .s_lightingHSGCutoutPSO = some d ∧
      d.depthStencilState = .DepthStateTestEqual ∧ d.rasterizerState.isTwoSided = true :=
  ⟨_, rfl,
    ((C18_pipeline_depth_and_rasterizer_states .s_lightingHSGCutoutPSO).1 _ rfl).1 rfl,
    ((C18_pipeline_depth_and_rasterizer_states .s_lightingHSGCutoutPSO).1 _ rfl).2.2⟩

/-! ## C19: ShadowMapPass and DepthPass -/

/-- C19, the claim as stated fails: in the frame of `sceneGood` the pipelines
`ShadowMapPass` selects are `s_shadowMapPSO` and `s_shadowMapCutoutPSO`, not
the two `DepthPass` selects (`s_depthPSO`, `s_depthCutoutPSO`), which it never
binds; and the pipelines differ in configuration, by their rasterizer state.
So it is in both renderers. -/
theorem C19_counterexample_shadow_pipelines :
    ((Renderer.ShadowMapPass (Renderer.Create hdBuffer hdBuffer) sceneGood).cmds.filterMap
        Cmd.pso? = [.s_shadowMapPSO, .s_shadowMapCutoutPSO] ∧
      (Renderer.DepthPass (Renderer.Create hdBuffer hdBuffer) sceneGood).cmds.filterMap
        Cmd.pso? = [.s_depthPSO, .s_depthCutoutPSO] ∧
      Cmd.SetPipelineState .s_depthPSO ∉
        (Renderer.ShadowMapPass (Renderer.Create hdBuffer hdBuffer) sceneGood).cmds ∧
      (Renderer.CreateGraphicsPSO .s_shadowMapPSO).map GraphicsPSO.rasterizerState ≠
        (Renderer.CreateGraphicsPSO .s_depthPSO).map GraphicsPSO.rasterizerState ∧
      (Renderer.CreateGraphicsPSO .s_shadowMapCutoutPSO).map GraphicsPSO.rasterizerState ≠
        (Renderer.CreateGraphicsPSO .s_depthCutoutPSO).map GraphicsPSO.rasterizerState) ∧
    ((MyRenderer.ShadowMapPass (MyRenderer.Initialize hdBuffer hdBuffer) sceneGood).cmds.filterMap
        Cmd.pso? = [.s_shadowMapPSO, .s_shadowMapCutoutPSO] ∧
      (MyRenderer.DepthPass (MyRenderer.Initialize hdBuffer hdBuffer) sceneGood).cmds.filterMap
        Cmd.pso? = [.s_depthPSO, .s_depthCutoutPSO] ∧
      Cmd.SetPipelineState .s_depthPSO ∉
        (MyRenderer.ShadowMapPass (MyRenderer.Initialize hdBuffer hdBuffer) sceneGood).cmds ∧
      (MyRenderer.InitializeGraphicsPSO .s_shadowMapPSO).map GraphicsPSO.rasterizerState ≠
        (MyRenderer.InitializeGraphicsPSO .s_depthPSO).map GraphicsPSO.rasterizerState ∧
      (MyRenderer.InitializeGraphicsPSO .s_shadowMapCutoutPSO).map GraphicsPSO.rasterizerState ≠
        (MyRenderer.InitializeGraphicsPSO .s_depthCutoutPSO).map
          GraphicsPSO.rasterizerState) := by
  decide

set_option maxRecDepth 8000 in
/-- C19, amended: for every scene and all buffers, `ShadowMapPass` fails exactly
when `DepthPass` does, and its calls other than the begun transition of the
shadow map are, one for one and in order, the calls of `DepthPass` with the
label of the timer, the viewport, the view-projection matrix (spotlight for
view camera), the depth target (shadow map for scene depth) and the pipelines
replaced: `s_shadowMapPSO` for `s_depthPSO` and `s_shadowMapCutoutPSO` for
`s_depthCutoutPSO`. The first batch is drawn after `s_shadowMapPSO` is
selected and the cutout batch, if it is not empty and the pass was not aborted
before, after `s_shadowMapCutoutPSO` is. The shadow-map pipelines are configured as the depth
pipelines but for the rasterizer state (`RasterizerShadow`,
`RasterizerShadowTwoSided`) and the depth format (that of the shadow map).
A pass that runs to its end begins the transition of the shadow map to the
pixel-shader-resource state once. Stated for both renderers. -/
theorem C19_shadow_pass_mirrors_depth_pass {α : Type} (b : Buffers) (scene : Scene α) :
    (((Renderer.ShadowMapPass b scene).failure = (Renderer.DepthPass b scene).failure ∧
      (Renderer.ShadowMapPass b scene).cmds.filter (fun c => !c.isBeginResourceTransition) =
        (Renderer.DepthPass b scene).cmds.map (Cmd.asShadowMapPass b scene) ∧
      (Renderer.ShadowMapPass b scene).cmds.filter Cmd.isBeginResourceTransition =
        (if (Renderer.ShadowMapPass b scene).failure = none then
          [.BeginResourceTransition .s_shadowMap .PIXEL_SHADER_RESOURCE] else []) ∧
      (Renderer.ShadowMapPass b scene).cmds.filterMap Cmd.batchEvent? =
        [.pipeline .s_shadowMapPSO, .batch .m_model] ++
          (if 0 < scene.m_modelCutout.meshCount ∧
              (Renderer.DrawDepth .m_model scene.m_model : Trace α).failure = none then
            [.pipeline .s_shadowMapCutoutPSO, .batch .m_modelCutout] else [])) ∧
      Renderer.CreateGraphicsPSO .s_shadowMapPSO =
        (Renderer.CreateGraphicsPSO .s_depthPSO).map
          (fun d => d.withShadowStates .RasterizerShadow .s_shadowMap) ∧
      Renderer.CreateGraphicsPSO .s_shadowMapCutoutPSO =
        (Renderer.CreateGraphicsPSO .s_depthCutoutPSO).map
          (fun d => d.withShadowStates .RasterizerShadowTwoSided .s_shadowMap)) ∧
    (((MyRenderer.ShadowMapPass b scene).failure = (MyRenderer.DepthPass b scene).failure ∧
      (MyRenderer.ShadowMapPass b scene).cmds.filter (fun c => !c.isBeginResourceTransition) =
        (MyRenderer.DepthPass b scene).cmds.map (Cmd.asShadowMapPass b scene) ∧
      (MyRenderer.ShadowMapPass b scene).cmds.filter Cmd.isBeginResourceTransition =
        (if (MyRenderer.ShadowMapPass b scene).failure = none then
          [.BeginResourceTransition .s_shadowMap .PIXEL_SHADER_RESOURCE] else []) ∧
      (MyRenderer.ShadowMapPass b scene).cmds.filterMap Cmd.batchEvent? =
        [.pipeline .s_shadowMapPSO, .batch .m_model] ++
          (if 0 < scene.m_modelCutout.meshCount ∧
              (MyRenderer.DrawDepth .m_model scene.m_model : Trace α).failure = none then
            [.pipeline .s_shadowMapCutoutPSO, .batch .m_modelCutout] else [])) ∧
      MyRenderer.InitializeGraphicsPSO .s_shadowMapPSO =
        (MyRenderer.InitializeGraphicsPSO .s_depthPSO).map
          (fun d => d.withShadowStates .RasterizerShadow .s_shadowMap) ∧
      MyRenderer.InitializeGraphicsPSO .s_shadowMapCutoutPSO =
        (MyRenderer.InitializeGraphicsPSO .s_depthCutoutPSO).map
          (fun d => d.withShadowStates .RasterizerShadowTwoSided .s_shadowMap)) := by
  have hf : ∀ c : Cmd α, c.isDrawRoutineCall = true → Cmd.asShadowMapPass b scene c = c := by
    intro c hc
    cases c <;> first | rfl | cases hc
  have hq : ∀ c : Cmd α, c.isDrawRoutineCall = true →
      (fun c : Cmd α => !c.isBeginResourceTransition) c = true := by
    intro c hc
    cases c <;> first | rfl | cases hc
  have m1 := fun (ref : ModelRef) (model : Model) (srv : Nat) =>
    map_eq_self_of_all _ _ hf _ (Renderer_Draw_isDrawRoutineCall (α := α) ref model srv)
  have m2 := fun (ref : ModelRef) (model : Model) =>
    map_eq_self_of_all _ _ hf _ (Renderer_DrawDepth_isDrawRoutineCall (α := α) ref model)
  have m3 := fun (ref : ModelRef) (model : Model) =>
    map_eq_self_of_all _ _ hf _ (MyRenderer_Draw_isDrawRoutineCall (α := α) ref model)
  have m4 := fun (ref : ModelRef) (model : Model) =>
    map_eq_self_of_all _ _ hf _ (MyRenderer_DrawDepth_isDrawRoutineCall (α := α) ref model)
  have q1 := fun (ref : ModelRef) (model : Model) (srv : Nat) =>
    filter_eq_self_of_all _ _ hq _ (Renderer_Draw_isDrawRoutineCall (α := α) ref model srv)
  have q2 := fun (ref : ModelRef) (model : Model) =>
    filter_eq_self_of_all _ _ hq _ (Renderer_DrawDepth_isDrawRoutineCall (α := α) ref model)
  have q3 := fun (ref : ModelRef) (model : Model) =>
    filter_eq_self_of_all _ _ hq _ (MyRenderer_Draw_isDrawRoutineCall (α := α) ref model)
  have q4 := fun (ref : ModelRef) (model : Model) =>
    filter_eq_self_of_all _ _ hq _ (MyRenderer_DrawDepth_isDrawRoutineCall (α := α) ref model)
  have e1 := fun (ref : ModelRef) (model : Model) (srv : Nat) =>
    Renderer_Draw_filter (α := α) Cmd.isBeginResourceTransition ref model srv (fun _ => rfl)
      (fun _ => rfl) (fun _ => rfl) (fun _ _ _ => rfl)
  have e2 := fun (ref : ModelRef) (model : Model) =>
    Renderer_DrawDepth_filter (α := α) Cmd.isBeginResourceTransition ref model (fun _ => rfl)
      (fun _ => rfl) (fun _ _ _ => rfl)
  have e3 := fun (ref : ModelRef) (model : Model) =>
    MyRenderer_Draw_filter (α := α) Cmd.isBeginResourceTransition ref model (fun _ => rfl)
      (fun _ => rfl) (fun _ => rfl) (fun _ _ _ => rfl)
  have e4 := fun (ref : ModelRef) (model : Model) =>
    MyRenderer_DrawDepth_filter (α := α) Cmd.isBeginResourceTransition ref model (fun _ => rfl)
      (fun _ => rfl) (fun _ _ _ => rfl)
  have b1 := fun (ref : ModelRef) (model : Model) (srv : Nat) =>
    Renderer_Draw_batchEvents (α := α) ref model srv
  have b2 := fun (ref : ModelRef) (model : Model) =>
    Renderer_DrawDepth_batchEvents (α := α) ref model
  have b3 := fun (ref : ModelRef) (model : Model) =>
    MyRenderer_Draw_batchEvents (α := α) ref model
  have b4 := fun (ref : ModelRef) (model : Model) =>
    MyRenderer_DrawDepth_batchEvents (α := α) ref model
  refine ⟨⟨?_, rfl, rfl⟩, ⟨?_, rfl, rfl⟩⟩
  · by_cases hc : 0 < scene.m_modelCutout.meshCount <;>
    by_cases h1 : (Renderer.DrawDepth .m_model scene.m_model : Trace α).failure = none <;>
    by_cases h2 : (Renderer.Draw .m_modelCutout scene.m_modelCutout CUTOUT_SRV_COUNT :
      Trace α).failure = none <;>
    (simp only [Renderer.ShadowMapPass, Renderer.DepthPass, Trace.ScopedTimer, Trace.block_cons,
      Trace.block_nil, Trace.cmds_seq, Trace.failure_seq, Trace.cmds_call, Trace.failure_call,
      Trace.cmds_skip, Trace.failure_skip, hc, h1, h2, List.filter_append, List.filter_cons,
      List.map_append, List.map_cons, q1, q2, m1, m2, e1, e2, if_true, if_false, gt_iff_lt,
      List.append_nil, List.nil_append, List.cons_append, List.filter_nil, List.map_nil,
      List.filterMap_append, List.filterMap_cons, List.filterMap_nil, b1, b2, b3, b4];
     simp [Cmd.isBeginResourceTransition, Cmd.asShadowMapPass, PSO.shadowMapVariant,
       Cmd.batchEvent?])
  · by_cases hc : 0 < scene.m_modelCutout.meshCount <;>
    by_cases h1 : (MyRenderer.DrawDepth .m_model scene.m_model : Trace α).failure = none <;>
    by_cases h2 : (MyRenderer.Draw .m_modelCutout scene.m_modelCutout : Trace α).failure = none <;>
    (simp only [MyRenderer.ShadowMapPass, MyRenderer.DepthPass, Trace.ScopedTimer, Trace.block_cons,
      Trace.block_nil, Trace.cmds_seq, Trace.failure_seq, Trace.cmds_call, Trace.failure_call,
      Trace.cmds_skip, Trace.failure_skip, hc, h1, h2, List.filter_append, List.filter_cons,
      List.map_append, List.map_cons, q3, q4, m3, m4, e3, e4, if_true, if_false, gt_iff_lt,
      List.append_nil, List.nil_append, List.cons_append, List.filter_nil, List.map_nil,
      List.filterMap_append, List.filterMap_cons, List.filterMap_nil, b1, b2, b3, b4];
     simp [Cmd.isBeginResourceTransition, Cmd.asShadowMapPass, PSO.shadowMapVariant,
       Cmd.batchEvent?])

/-- C19 amended, at `sceneGood`: the calls of `ShadowMapPass` other than the
begun transition are those of `DepthPass` with the replacements made, and its
two batches are drawn with the two shadow-map pipelines. -/
theorem C19_witness_sceneGood :
    (Renderer.ShadowMapPass (Renderer.Create hdBuffer hdBuffer) sceneGood).cmds.filter
        (fun c => !c.isBeginResourceTransition) =
      (Renderer.DepthPass (Renderer.Create hdBuffer hdBuffer) sceneGood).cmds.map
        (Cmd.asShadowMapPass (Renderer.Create hdBuffer hdBuffer) sceneGood) ∧
    (MyRenderer.ShadowMapPass (MyRenderer.Initialize hdBuffer hdBuffer) sceneGood).cmds.filterMap
        Cmd.batchEvent? =
      [.pipeline .s_shadowMapPSO, .batch .m_model, .pipeline .s_shadowMapCutoutPSO,
       .batch .m_modelCutout] :=
  ⟨(C19_shadow_pass_mirrors_depth_pass (Renderer.Create hdBuffer hdBuffer) sceneGood).1.1.2.1,
    (C19_shadow_pass_mirrors_depth_pass (MyRenderer.Initialize hdBuffer hdBuffer)
      sceneGood).2.1.2.2.2.trans (by decide)⟩

/-! ## C20: the constant blocks uploaded by the draw passes -/

/-- C20: for every scene and all buffers, aborted or not, the constant blocks
uploaded by `ReflectiveShadowMapPass` and by `ShadowMapPass` are one block at
the vertex-stage root index, the view-projection matrix of the spotlight; the
one uploaded by `DepthPass` is the view-projection matrix of the view camera
at that index; those uploaded by `LightingPass` are the view-projection matrix
of the view camera at that index and, at the root index of the first
pixel-stage constant buffer, the block holding the view-projection matrix of
the spotlight, the position of the camera, the position of the spotlight and
the intensity of the spotlight of the same scene. Each pass binds one root
signature, and in it the first of these root indices is a constant buffer
visible to the vertex stage and the second one visible to the pixel stage.
Stated for both renderers. -/
theorem C20_view_projection_uploads {α : Type} (b : Buffers) (scene : Scene α) (hsg : Bool) :
    ((Renderer.ReflectiveShadowMapPass b scene).cmds.filterMap Cmd.constants? =
        [(Renderer.ROOT_INDEX_VS_CBV, .viewProjection scene.m_spotLight.GetViewProjMatrix)] ∧
      (Renderer.ShadowMapPass b scene).cmds.filterMap Cmd.constants? =
        [(Renderer.ROOT_INDEX_VS_CBV, .viewProjection scene.m_spotLight.GetViewProjMatrix)] ∧
      (Renderer.DepthPass b scene).cmds.filterMap Cmd.constants? =
        [(Renderer.ROOT_INDEX_VS_CBV, .viewProjection scene.m_camera.GetViewProjMatrix)] ∧
      (Renderer.LightingPass b scene hsg).cmds.filterMap Cmd.constants? =
        [(Renderer.ROOT_INDEX_VS_CBV, .viewProjection scene.m_camera.GetViewProjMatrix),
         (Renderer.ROOT_INDEX_PS_CBV0,
           .lighting scene.m_spotLight.GetViewProjMatrix scene.m_camera.GetPosition
             scene.m_spotLight.GetPosition scene.m_spotLightIntensity)] ∧
      (Renderer.ReflectiveShadowMapPass b scene).cmds.filterMap Cmd.rootSignature? =
        [.s_rsmRootSignature] ∧
      (Renderer.ShadowMapPass b scene).cmds.filterMap Cmd.rootSignature? =
        [.s_depthRootSignature] ∧
      (Renderer.DepthPass b scene).cmds.filterMap Cmd.rootSignature? = [.s_depthRootSignature] ∧
      (Renderer.LightingPass b scene hsg).cmds.filterMap Cmd.rootSignature? =
        [.s_lightingRootSignature] ∧
      (∀ s ∈ [RootSig.s_rsmRootSignature, .s_depthRootSignature, .s_lightingRootSignature],
        (Renderer.CreateRootSignature s)[Renderer.ROOT_INDEX_VS_CBV]? =
          some (.InitAsConstantBuffer 0 (some .D3D12_SHADER_VISIBILITY_VERTEX))) ∧
      (Renderer.CreateRootSignature .s_lightingRootSignature)[Renderer.ROOT_INDEX_PS_CBV0]? =
        some (.InitAsConstantBuffer 0 (some .D3D12_SHADER_VISIBILITY_PIXEL))) ∧
    ((MyRenderer.ReflectiveShadowMapPass b scene).cmds.filterMap Cmd.constants? =
        [(MyRenderer.ROOT_INDEX_VS_CBV, .viewProjection scene.m_spotLight.GetViewProjMatrix)] ∧
      (MyRenderer.ShadowMapPass b scene).cmds.filterMap Cmd.constants? =
        [(MyRenderer.ROOT_INDEX_VS_CBV, .viewProjection scene.m_spotLight.GetViewProjMatrix)] ∧
      (MyRenderer.DepthPass b scene).cmds.filterMap Cmd.constants? =
        [(MyRenderer.ROOT_INDEX_VS_CBV, .viewProjection scene.m_camera.GetViewProjMatrix)] ∧
      (MyRenderer.LightingPass b scene).cmds.filterMap Cmd.constants? =
        [(MyRenderer.ROOT_INDEX_VS_CBV, .viewProjection scene.m_camera.GetViewProjMatrix),
         (MyRenderer.ROOT_INDEX_PS_CBV0,
           .lighting scene.m_spotLight.GetViewProjMatrix scene.m_camera.GetPosition
             scene.m_spotLight.GetPosition scene.m_spotLightIntensity)] ∧
      (MyRenderer.ReflectiveShadowMapPass b scene).cmds.filterMap Cmd.rootSignature? =
        [.s_rsmRootSignature] ∧
      (MyRenderer.ShadowMapPass b scene).cmds.filterMap Cmd.rootSignature? =
        [.s_depthRootSignature] ∧
      (MyRenderer.DepthPass b scene).cmds.filterMap Cmd.rootSignature? = [.s_depthRootSignature] ∧
      (MyRenderer.LightingPass b scene).cmds.filterMap Cmd.rootSignature? =
        [.s_lightingRootSignature] ∧
      (∀ s ∈ [RootSig.s_rsmRootSignature, .s_depthRootSignature, .s_lightingRootSignature],
        (MyRenderer.InitializeRootSignature s)[MyRenderer.ROOT_INDEX_VS_CBV]? =
          some (.InitAsConstantBuffer 0 (some .D3D12_SHADER_VISIBILITY_VERTEX))) ∧
      (MyRenderer.InitializeRootSignature .s_lightingRootSignature)[MyRenderer.ROOT_INDEX_PS_CBV0]? =
        some (.InitAsConstantBuffer 0 (some .D3D12_SHADER_VISIBILITY_PIXEL))) := by
  have e1 := fun (ref : ModelRef) (model : Model) (srv : Nat) =>
    Renderer_Draw_filterMap (α := α) Cmd.constants? ref model srv (fun _ => rfl) (fun _ => rfl)
      (fun _ => rfl) (fun _ _ _ => rfl)
  have e2 := fun (ref : ModelRef) (model : Model) =>
    Renderer_DrawDepth_filterMap (α := α) Cmd.constants? ref model (fun _ => rfl)
      (fun _ => rfl) (fun _ _ _ => rfl)
  have e3 := fun (ref : ModelRef) (model : Model) =>
    MyRenderer_Draw_filterMap (α := α) Cmd.constants? ref model (fun _ => rfl) (fun _ => rfl)
      (fun _ => rfl) (fun _ _ _ => rfl)
  have e4 := fun (ref : ModelRef) (model : Model) =>
    MyRenderer_DrawDepth_filterMap (α := α) Cmd.constants? ref model (fun _ => rfl)
      (fun _ => rfl) (fun _ _ _ => rfl)
  have f1 := fun (ref : ModelRef) (model : Model) (srv : Nat) =>
    Renderer_Draw_filterMap (α := α) Cmd.rootSignature? ref model srv (fun _ => rfl)
      (fun _ => rfl) (fun _ => rfl) (fun _ _ _ => rfl)
  have f2 := fun (ref : ModelRef) (model : Model) =>
    Renderer_DrawDepth_filterMap (α := α) Cmd.rootSignature? ref model (fun _ => rfl)
      (fun _ => rfl) (fun _ _ _ => rfl)
  have f3 := fun (ref : ModelRef) (model : Model) =>
    MyRenderer_Draw_filterMap (α := α) Cmd.rootSignature? ref model (fun _ => rfl)
      (fun _ => rfl) (fun _ => rfl) (fun _ _ _ => rfl)
  have f4 := fun (ref : ModelRef) (model : Model) =>
    MyRenderer_DrawDepth_filterMap (α := α) Cmd.rootSignature? ref model (fun _ => rfl)
      (fun _ => rfl) (fun _ _ _ => rfl)
  constructor
  · simp [Renderer.ReflectiveShadowMapPass, Renderer.ShadowMapPass, Renderer.DepthPass,
      Renderer.LightingPass, Trace.ScopedTimer, Trace.block_cons, Trace.block_nil,
      Trace.cmds_seq, Trace.failure_seq, Trace.cmds_call, Trace.failure_call, Trace.cmds_skip,
      Trace.failure_skip, apply_ite (List.filterMap Cmd.constants?), List.filterMap_append,
      List.filterMap_cons, e1, e2, Cmd.constants?, apply_ite Trace.cmds,
      apply_ite (List.filterMap Cmd.rootSignature?), f1, f2, Cmd.rootSignature?,
      Renderer.CreateRootSignature, Renderer.ROOT_INDEX_VS_CBV, Renderer.ROOT_INDEX_PS_CBV0]
  · simp [MyRenderer.ReflectiveShadowMapPass, MyRenderer.ShadowMapPass, MyRenderer.DepthPass,
      MyRenderer.LightingPass, Trace.ScopedTimer, Trace.block_cons, Trace.block_nil,
      Trace.cmds_seq, Trace.failure_seq, Trace.cmds_call, Trace.failure_call, Trace.cmds_skip,
      Trace.failure_skip, apply_ite (List.filterMap Cmd.constants?), List.filterMap_append,
      List.filterMap_cons, e3, e4, Cmd.constants?, apply_ite Trace.cmds,
      apply_ite (List.filterMap Cmd.rootSignature?), f3, f4, Cmd.rootSignature?,
      MyRenderer.InitializeRootSignature, MyRenderer.ROOT_INDEX_VS_CBV,
      MyRenderer.ROOT_INDEX_PS_CBV0]

/-! ## Traces that differ by a renaming of calls -/

section Renaming

variable {α : Type}

theorem all_cmds_ite (p : Cmd α → Bool) (c : Prop) [Decidable c] (a b : Trace α)
    (ha : a.cmds.all p = true) (hb : b.cmds.all p = true) :
    (if c then a else b).cmds.all p = true := by
  split
  · exact ha
  · exact hb

theorem all_cmds_skip (p : Cmd α → Bool) : (Trace.skip : Trace α).cmds.all p = true := rfl

/-- Composition keeps a renaming: if the parts of one sequence are the parts of
another with the calls renamed, and fail alike, so is the whole. -/
theorem Trace.seq_map (f : Cmd α → Cmd α) (a a2 b b2 : Trace α)
    (ha : a2.cmds = a.cmds.map f ∧ a2.failure = a.failure)
    (hb : b2.cmds = b.cmds.map f ∧ b2.failure = b.failure) :
    (Trace.seq a2 b2).cmds = (Trace.seq a b).cmds.map f ∧
      (Trace.seq a2 b2).failure = (Trace.seq a b).failure := by
  rw [Trace.cmds_seq, Trace.cmds_seq, Trace.failure_seq, Trace.failure_seq, ha.1, ha.2, hb.1,
    hb.2]
  refine ⟨?_, rfl⟩
  split <;> simp

theorem Trace.ite_map (f : Cmd α → Cmd α) (c : Prop) [Decidable c] (a a2 b b2 : Trace α)
    (ha : a2.cmds = a.cmds.map f ∧ a2.failure = a.failure)
    (hb : b2.cmds = b.cmds.map f ∧ b2.failure = b.failure) :
    (if c then a2 else b2).cmds = (if c then a else b).cmds.map f ∧
      (if c then a2 else b2).failure = (if c then a else b).failure := by
  split
  · exact ha
  · exact hb

/-- A filter that does not tell a call from its renamed form, and keeps only
calls the renaming leaves alone, keeps the same calls of a sequence and of the
renamed sequence. -/
theorem filter_map_of_fixed (p : Cmd α → Bool) (f : Cmd α → Cmd α)
    (h1 : ∀ c, p (f c) = p c) (h2 : ∀ c, p c = true → f c = c) (l : List (Cmd α)) :
    (l.map f).filter p = l.filter p := by
  induction l with
  | nil => rfl
  | cons c rest ih =>
    simp only [List.map_cons, List.filter_cons, h1, ih]
    cases hp : p c
    · simp
    · simp [h2 c hp]

/-- A block ends with its last statement. -/
theorem Trace.block_five_seq (t0 t1 t2 t3 t4 t5 : Trace α) :
    Trace.block [t0, t1, t2, t3, t4, t5] =
      Trace.seq (Trace.block [t0, t1, t2, t3, t4]) t5 := by
  obtain ⟨c0, f0⟩ := t0
  obtain ⟨c1, f1⟩ := t1
  obtain ⟨c2, f2⟩ := t2
  obtain ⟨c3, f3⟩ := t3
  obtain ⟨c4, f4⟩ := t4
  obtain ⟨c5, f5⟩ := t5
  cases f0 <;> cases f1 <;> cases f2 <;> cases f3 <;> cases f4 <;> cases f5 <;>
    simp [Trace.block, Trace.seq, Trace.skip]

end Renaming

section Toggle

variable {α : Type}

/-- The renaming to the HSG variants leaves alone every call that selects no
lighting pipeline. -/
theorem Cmd.withHSG_of_not_isLightingSelection (c : Cmd α)
    (h : (!c.isLightingSelection) = true) : c.withHSG = c := by
  cases c <;> first | rfl | skip
  rename_i pso
  cases pso <;> first | rfl | cases h

theorem Renderer_Draw_map_withHSG (ref : ModelRef) (model : Model) (srv : Nat) :
    (Renderer.Draw ref model srv : Trace α).cmds =
      (Renderer.Draw ref model srv : Trace α).cmds.map Cmd.withHSG :=
  (map_eq_self_of_all _ _ Cmd.withHSG_of_not_isLightingSelection _
    (Renderer_Draw_all _ ref model srv (fun _ => rfl) (fun _ => rfl) (fun _ => rfl)
      (fun _ _ _ => rfl))).symm

/-- What `Renderer::LightingPass` records with the toggle on is what it records
with the toggle off, with the selected pipelines replaced by their HSG
variants. -/
theorem Renderer_LightingPass_toggle (b : Buffers) (scene : Scene α) :
    (Renderer.LightingPass b scene true).cmds =
        (Renderer.LightingPass b scene false).cmds.map Cmd.withHSG ∧
      (Renderer.LightingPass b scene true).failure =
        (Renderer.LightingPass b scene false).failure := by
  simp only [Renderer.LightingPass, Trace.ScopedTimer, Trace.block_cons]
  repeat' first
    | with_reducible exact ⟨Renderer_Draw_map_withHSG _ _ _, rfl⟩
    | with_reducible apply Trace.seq_map
    | with_reducible apply Trace.ite_map
    | exact ⟨rfl, rfl⟩

/-- No call outside `LightingPass` selects a lighting pipeline. -/
theorem Renderer_before_LightingPass_all
    [Mul α] [Div α] [NatCast α] [OfNat α 2] (math : MathLib α) (b : Buffers)
    (scene : Scene α) :
    (Trace.block [(Renderer.ResourceInit : Trace α), Renderer.ReflectiveShadowMapPass b scene,
      Renderer.ShadowMapPass b scene,
      Renderer.VSGLGenerationPass math b scene.m_spotLight scene.m_spotLightIntensity,
      Renderer.DepthPass b scene]).cmds.all (fun c => !c.isLightingSelection) = true := by
  have d1 := fun (ref : ModelRef) (model : Model) (srv : Nat) =>
    Renderer_Draw_all (α := α) (fun c => !c.isLightingSelection) ref model srv (fun _ => rfl)
      (fun _ => rfl) (fun _ => rfl) (fun _ _ _ => rfl)
  have d2 := fun (ref : ModelRef) (model : Model) =>
    Renderer_DrawDepth_all (α := α) (fun c => !c.isLightingSelection) ref model (fun _ => rfl)
      (fun _ => rfl) (fun _ _ _ => rfl)
  simp only [Renderer.ResourceInit, Renderer.ReflectiveShadowMapPass, Renderer.ShadowMapPass,
    Renderer.VSGLGenerationPass, Renderer.DepthPass]
  repeat' first
    | with_reducible exact d1 _ _ _
    | with_reducible exact d2 _ _
    | with_reducible exact all_cmds_block_nil _
    | with_reducible exact all_cmds_skip _
    | with_reducible apply all_cmds_block_cons
    | with_reducible apply all_cmds_ite
    | with_reducible apply all_cmds_timer _ _ _ rfl rfl
    | with_reducible exact all_cmds_assert _ _ _
    | exact all_cmds_call _ _ rfl

end Toggle

/-! ## The calls of VSGLGenerationPass -/

section GenerationCalls

variable {α : Type} [Mul α] [Div α] [NatCast α] [OfNat α 2]

/-- What `Renderer::VSGLGenerationPass` records when its assertions hold. -/
theorem Renderer_VSGLGenerationPass_of_matches (math : MathLib α) (b : Buffers)
    (spotLight : Camera α) (lightIntensity : α) (h : b.rsmMatches = true) :
    Renderer.VSGLGenerationPass math b spotLight lightIntensity =
      ⟨[.BeginBlock .VSGLGenerationPass,
        .TransitionResource .s_rsmDepthBuffer .NON_PIXEL_SHADER_RESOURCE false,
        .TransitionResource .s_rsmNormalBuffer .NON_PIXEL_SHADER_RESOURCE false,
        .TransitionResource .s_rsmDiffuseBuffer .NON_PIXEL_SHADER_RESOURCE false,
        .TransitionResource .s_rsmSpecularBuffer .NON_PIXEL_SHADER_RESOURCE false,
        .SetRootSignature .s_vsglRootSignature,
        .SetDynamicConstantBufferView Renderer.VSGL_ROOT_INDEX_CBV
          (.vsgl (math.XMMatrixInverse spotLight.GetViewProjMatrix) spotLight.GetPosition
            (math.XMVector3Cross spotLight.GetUpVec spotLight.GetRightVec)
            (photonPower RSM_WIDTH lightIntensity (planeWidth math.tan spotLight.GetFOV))),
        .SetBufferUAV Renderer.VSGL_ROOT_INDEX_UAV .s_sgLightBuffer,
        .SetDynamicDescriptors Renderer.VSGL_ROOT_INDEX_SRV 0 3
          (.handles [.DepthSRV .s_rsmDepthBuffer, .SRV .s_rsmNormalBuffer,
            .SRV .s_rsmDiffuseBuffer]),
        .SetConstants Renderer.VSGL_ROOT_INDEX_CONSTANTS 0,
        .SetPipelineState .s_vsglGenerationDiffusePSO,
        .Dispatch 1 1 1,
        .SetDynamicDescriptor Renderer.VSGL_ROOT_INDEX_SRV 2 (.SRV .s_rsmSpecularBuffer),
        .SetConstants Renderer.VSGL_ROOT_INDEX_CONSTANTS 1,
        .SetPipelineState .s_vsglGenerationSpecularPSO,
        .Dispatch 1 1 1,
        .EndBlock .VSGLGenerationPass], none⟩ := by
  simp only [Buffers.rsmMatches, Bool.and_eq_true] at h
  obtain ⟨⟨⟨⟨⟨⟨⟨a1, a2⟩, a3⟩, a4⟩, a5⟩, a6⟩, a7⟩, a8⟩ := h
  simp [Renderer.VSGLGenerationPass, Trace.ScopedTimer, Trace.block, Trace.seq, Trace.call,
    Trace.skip, Trace.assert, a1, a2, a3, a4, a5, a6, a7, a8]

/-- The two `VSGLGenerationPass` functions record the same calls. -/
theorem VSGLGenerationPass_eq (math : MathLib α) (b : Buffers) (spotLight : Camera α)
    (lightIntensity : α) :
    MyRenderer.VSGLGenerationPass math b spotLight lightIntensity =
      Renderer.VSGLGenerationPass math b spotLight lightIntensity := rfl

end GenerationCalls

/-! ## The draws of a frame on which every check passes -/

section FrameDraws

variable {α : Type}

/-- The indexed draws of the four draw passes of `Renderer` when the checks
pass: those of the first batch, then those of the cutout batch. -/
theorem Renderer_pass_draws (b : Buffers) (scene : Scene α) (hsg : Bool)
    (h : Renderer.checksPass scene = true) :
    (Renderer.ReflectiveShadowMapPass b scene).cmds.filter Cmd.isDrawIndexed =
      scene.m_model.m_pMesh.map (Mesh.drawCall scene.m_model.m_VertexStride) ++
        scene.m_modelCutout.m_pMesh.map (Mesh.drawCall scene.m_modelCutout.m_VertexStride) ∧
    (Renderer.ShadowMapPass b scene).cmds.filter Cmd.isDrawIndexed =
      scene.m_model.m_pMesh.map (Mesh.drawCallDepth scene.m_model.m_VertexStrideDepth) ++
        scene.m_modelCutout.m_pMesh.map (Mesh.drawCall scene.m_modelCutout.m_VertexStride) ∧
    (Renderer.DepthPass b scene).cmds.filter Cmd.isDrawIndexed =
      scene.m_model.m_pMesh.map (Mesh.drawCallDepth scene.m_model.m_VertexStrideDepth) ++
        scene.m_modelCutout.m_pMesh.map (Mesh.drawCall scene.m_modelCutout.m_VertexStride) ∧
    (Renderer.LightingPass b scene hsg).cmds.filter Cmd.isDrawIndexed =
      scene.m_model.m_pMesh.map (Mesh.drawCall scene.m_model.m_VertexStride) ++
        scene.m_modelCutout.m_pMesh.map (Mesh.drawCall scene.m_modelCutout.m_VertexStride) := by
  simp only [Renderer.checksPass, Bool.and_eq_true] at h
  obtain ⟨⟨h1, h2⟩, h3⟩ := h
  by_cases hc : 0 < scene.m_modelCutout.meshCount
  · simp [Renderer.ReflectiveShadowMapPass, Renderer.ShadowMapPass, Renderer.DepthPass,
      Renderer.LightingPass, Trace.block, Trace.seq, Trace.ScopedTimer, Trace.call, Trace.skip,
      Renderer_Draw_of_passes, Renderer_DrawDepth_of_passes, h1, h2, h3, hc, List.filter_cons,
      List.filter_append, filter_drawCmds_draws, filter_map_calls_all, Cmd.isDrawIndexed,
      Mesh.drawCall, Mesh.drawCallDepth, Renderer.bindCall]
  · have h0 : scene.m_modelCutout.m_pMesh = [] :=
      List.eq_nil_of_length_eq_zero (Nat.eq_zero_of_not_pos hc)
    simp [Renderer.ReflectiveShadowMapPass, Renderer.ShadowMapPass, Renderer.DepthPass,
      Renderer.LightingPass, Trace.block, Trace.seq, Trace.ScopedTimer, Trace.call, Trace.skip,
      Renderer_Draw_of_passes, Renderer_DrawDepth_of_passes, h1, h2, hc, h0, List.filter_cons,
      List.filter_append, filter_drawCmds_draws, filter_map_calls_all, Cmd.isDrawIndexed,
      Mesh.drawCall, Mesh.drawCallDepth, Renderer.bindCall]

/-- The indexed draws of the four draw passes of `MyRenderer` when the checks
pass: those of the first batch, then those of the cutout batch. -/
theorem MyRenderer_pass_draws (b : Buffers) (scene : Scene α)
    (h : MyRenderer.checksPass scene = true) :
    (MyRenderer.ReflectiveShadowMapPass b scene).cmds.filter Cmd.isDrawIndexed =
      scene.m_model.m_pMesh.map (Mesh.drawCall scene.m_model.m_VertexStride) ++
        scene.m_modelCutout.m_pMesh.map (Mesh.drawCall scene.m_modelCutout.m_VertexStride) ∧
    (MyRenderer.ShadowMapPass b scene).cmds.filter Cmd.isDrawIndexed =
      scene.m_model.m_pMesh.map (Mesh.drawCall scene.m_model.m_VertexStride) ++
        scene.m_modelCutout.m_pMesh.map (Mesh.drawCall scene.m_modelCutout.m_VertexStride) ∧
    (MyRenderer.DepthPass b scene).cmds.filter Cmd.isDrawIndexed =
      scene.m_model.m_pMesh.map (Mesh.drawCall scene.m_model.m_VertexStride) ++
        scene.m_modelCutout.m_pMesh.map (Mesh.drawCall scene.m_modelCutout.m_VertexStride) ∧
    (MyRenderer.LightingPass b scene).cmds.filter Cmd.isDrawIndexed =
      scene.m_model.m_pMesh.map (Mesh.drawCall scene.m_model.m_VertexStride) ++
        scene.m_modelCutout.m_pMesh.map (Mesh.drawCall scene.m_modelCutout.m_VertexStride) := by
  simp only [MyRenderer.checksPass, Bool.and_eq_true] at h
  obtain ⟨h1, h3⟩ := h
  by_cases hc : 0 < scene.m_modelCutout.meshCount
  · simp [MyRenderer.ReflectiveShadowMapPass, MyRenderer.ShadowMapPass, MyRenderer.DepthPass,
      MyRenderer.LightingPass, Trace.block, Trace.seq, Trace.ScopedTimer, Trace.call,
      Trace.skip, MyRenderer_Draw_of_passes, MyRenderer_DrawDepth_of_passes, h1, h3, hc,
      List.filter_cons, List.filter_append, filter_drawCmds_draws, filter_map_calls_all,
      Cmd.isDrawIndexed, Mesh.drawCall, MyRenderer.bindCall]
  · have h0 : scene.m_modelCutout.m_pMesh = [] :=
      List.eq_nil_of_length_eq_zero (Nat.eq_zero_of_not_pos hc)
    simp [MyRenderer.ReflectiveShadowMapPass, MyRenderer.ShadowMapPass, MyRenderer.DepthPass,
      MyRenderer.LightingPass, Trace.block, Trace.seq, Trace.ScopedTimer, Trace.call,
      Trace.skip, MyRenderer_Draw_of_passes, MyRenderer_DrawDepth_of_passes, h1, hc, h0,
      List.filter_cons, List.filter_append, filter_drawCmds_draws, filter_map_calls_all,
      Cmd.isDrawIndexed, Mesh.drawCall, MyRenderer.bindCall]

end FrameDraws

section FrameCalls

variable {α : Type} [Mul α] [Div α] [NatCast α] [OfNat α 2]

/-- What a frame of `Renderer::Render` on which every check passes records:
the calls of the resource initialisation and of the five passes, one after the
other. -/
theorem Renderer_Render_cmds_of_checks (math : MathLib α) (b : Buffers) (scene : Scene α)
    (hsg : Bool) (hb : b.rsmMatches = true) (h : Renderer.checksPass scene = true) :
    (Renderer.Render math b scene hsg).cmds =
      (Renderer.ResourceInit : Trace α).cmds ++ ((Renderer.ReflectiveShadowMapPass b scene).cmds ++
        ((Renderer.ShadowMapPass b scene).cmds ++
          ((Renderer.VSGLGenerationPass math b scene.m_spotLight scene.m_spotLightIntensity).cmds ++
            ((Renderer.DepthPass b scene).cmds ++ (Renderer.LightingPass b scene hsg).cmds)))) := by
  have hf := (Renderer_Render_failure math b scene hsg).2 ⟨hb, h⟩
  rw [Renderer.Render, Trace.failure_block_six] at hf
  obtain ⟨f0, f1, f2, f3, f4, -⟩ := hf
  rw [Renderer.Render, Trace.cmds_block_six, if_pos f0, if_pos f1, if_pos f2, if_pos f3,
    if_pos f4]

/-- What a frame of `MyRenderer::Render` on which every check passes records. -/
theorem MyRenderer_Render_cmds_of_checks (math : MathLib α) (b : Buffers) (scene : Scene α)
    (hb : b.rsmMatches = true) (h : MyRenderer.checksPass scene = true) :
    (MyRenderer.Render math b scene).cmds =
      (MyRenderer.ResourceInit : Trace α).cmds ++
        ((MyRenderer.ReflectiveShadowMapPass b scene).cmds ++
        ((MyRenderer.ShadowMapPass b scene).cmds ++
          ((MyRenderer.VSGLGenerationPass math b scene.m_spotLight
              scene.m_spotLightIntensity).cmds ++
            ((MyRenderer.DepthPass b scene).cmds ++ (MyRenderer.LightingPass b scene).cmds)))) := by
  have hf := (MyRenderer_Render_failure math b scene).2 ⟨hb, h⟩
  rw [MyRenderer.Render, Trace.failure_block_six] at hf
  obtain ⟨f0, f1, f2, f3, f4, -⟩ := hf
  rw [MyRenderer.Render, Trace.cmds_block_six, if_pos f0, if_pos f1, if_pos f2, if_pos f3,
    if_pos f4]

end FrameCalls

section PassDispatches

variable {α : Type}

/-- The draw passes dispatch nothing. -/
theorem Renderer_pass_dispatches (b : Buffers) (scene : Scene α) (hsg : Bool) :
    (Renderer.ReflectiveShadowMapPass b scene).cmds.filter Cmd.isDispatch = [] ∧
    (Renderer.ShadowMapPass b scene).cmds.filter Cmd.isDispatch = [] ∧
    (Renderer.DepthPass b scene).cmds.filter Cmd.isDispatch = [] ∧
    (Renderer.LightingPass b scene hsg).cmds.filter Cmd.isDispatch = [] := by
  have d1 := fun (ref : ModelRef) (model : Model) (srv : Nat) =>
    Renderer_Draw_all (α := α) (fun c => !c.isDispatch) ref model srv (fun _ => rfl)
      (fun _ => rfl) (fun _ => rfl) (fun _ _ _ => rfl)
  have d2 := fun (ref : ModelRef) (model : Model) =>
    Renderer_DrawDepth_all (α := α) (fun c => !c.isDispatch) ref model (fun _ => rfl)
      (fun _ => rfl) (fun _ _ _ => rfl)
  refine ⟨?_, ?_, ?_, ?_⟩ <;> apply filter_eq_nil_of_all_not <;>
  simp only [Renderer.ReflectiveShadowMapPass, Renderer.ShadowMapPass, Renderer.DepthPass,
    Renderer.LightingPass] <;>
  repeat' first
    | with_reducible exact d1 _ _ _
    | with_reducible exact d2 _ _
    | with_reducible exact all_cmds_block_nil _
    | with_reducible exact all_cmds_skip _
    | with_reducible apply all_cmds_block_cons
    | with_reducible apply all_cmds_ite
    | with_reducible apply all_cmds_timer _ _ _ rfl rfl
    | exact all_cmds_call _ _ rfl

theorem MyRenderer_pass_dispatches (b : Buffers) (scene : Scene α) :
    (MyRenderer.ReflectiveShadowMapPass b scene).cmds.filter Cmd.isDispatch = [] ∧
    (MyRenderer.ShadowMapPass b scene).cmds.filter Cmd.isDispatch = [] ∧
    (MyRenderer.DepthPass b scene).cmds.filter Cmd.isDispatch = [] ∧
    (MyRenderer.LightingPass b scene).cmds.filter Cmd.isDispatch = [] := by
  have d1 := fun (ref : ModelRef) (model : Model) =>
    MyRenderer_Draw_all (α := α) (fun c => !c.isDispatch) ref model (fun _ => rfl)
      (fun _ => rfl) (fun _ => rfl) (fun _ _ _ => rfl)
  have d2 := fun (ref : ModelRef) (model : Model) =>
    MyRenderer_DrawDepth_all (α := α) (fun c => !c.isDispatch) ref model (fun _ => rfl)
      (fun _ => rfl) (fun _ _ _ => rfl)
  refine ⟨?_, ?_, ?_, ?_⟩ <;> apply filter_eq_nil_of_all_not <;>
  simp only [MyRenderer.ReflectiveShadowMapPass, MyRenderer.ShadowMapPass, MyRenderer.DepthPass,
    MyRenderer.LightingPass] <;>
  repeat' first
    | with_reducible exact d1 _ _
    | with_reducible exact d2 _ _
    | with_reducible exact all_cmds_block_nil _
    | with_reducible exact all_cmds_skip _
    | with_reducible apply all_cmds_block_cons
    | with_reducible apply all_cmds_ite
    | with_reducible apply all_cmds_timer _ _ _ rfl rfl
    | exact all_cmds_call _ _ rfl

end PassDispatches

/-! ## Elided binds leave every draw with its own material table -/

section Elision

variable {α : Type}

/-- With naive rebinding every draw runs with the material table of its
submesh. -/
theorem materialTableAtDraws_drawRebinding (tbl : Nat → DescriptorArray) (bind : Nat → Cmd α)
    (draw : Mesh → Cmd α)
    (hb : ∀ i cur rest, materialTableAtDraws cur (bind i :: rest) =
      materialTableAtDraws (some (tbl i)) rest)
    (hd : ∀ m cur rest, materialTableAtDraws cur (draw m :: rest) =
      cur :: materialTableAtDraws cur rest)
    (meshes : List Mesh) (cur : Option DescriptorArray) :
    materialTableAtDraws cur (drawRebinding bind draw meshes) =
      meshes.map (fun m => some (tbl m.materialIndex)) := by
  induction meshes generalizing cur with
  | nil => rfl
  | cons mesh rest ih =>
    have e : drawRebinding bind draw (mesh :: rest) =
        bind mesh.materialIndex :: draw mesh :: drawRebinding bind draw rest := by
      simp [drawRebinding]
    rw [e, hb, hd, ih, List.map_cons]

/-- With the binds elided as `Draw` does, every draw runs with the material
table of its submesh, provided the tracked index is that of the table bound or
is not the index of the first submesh. -/
theorem materialTableAtDraws_drawCmds (tbl : Nat → DescriptorArray) (bind : Nat → Cmd α)
    (draw : Mesh → Cmd α)
    (hb : ∀ i cur rest, materialTableAtDraws cur (bind i :: rest) =
      materialTableAtDraws (some (tbl i)) rest)
    (hd : ∀ m cur rest, materialTableAtDraws cur (draw m :: rest) =
      cur :: materialTableAtDraws cur rest)
    (meshes : List Mesh) (mi : Nat) (cur : Option DescriptorArray)
    (h : cur = some (tbl mi) ∨ ∀ m, meshes.head? = some m → m.materialIndex ≠ mi) :
    materialTableAtDraws cur (drawCmds bind draw meshes mi) =
      meshes.map (fun m => some (tbl m.materialIndex)) := by
  induction meshes generalizing mi cur with
  | nil => rfl
  | cons mesh rest ih =>
    by_cases hm : mi = mesh.materialIndex
    · have hc : cur = some (tbl mi) := by
        rcases h with h | h
        · exact h
        · exact absurd hm.symm (h mesh rfl)
      subst hm
      subst hc
      simp only [drawCmds, if_true, List.nil_append, hd, List.map_cons]
      rw [ih _ _ (Or.inl rfl)]
    · simp only [drawCmds, if_neg hm, List.singleton_append, hb, hd, List.map_cons]
      rw [ih _ _ (Or.inl rfl)]

/-- An initial part of a batch without the sentinel index does not start with
it. -/
theorem head_takeWhile_ne (p : Mesh → Bool) (meshes : List Mesh) (mi : Nat)
    (h : ∀ m ∈ meshes, m.materialIndex ≠ mi) :
    ∀ m, (meshes.takeWhile p).head? = some m → m.materialIndex ≠ mi := by
  intro m hm
  have hmem : m ∈ meshes.takeWhile p := List.mem_of_mem_head? hm
  exact h m (( List.takeWhile_prefix p).subset hmem)

end Elision

/-! ## The two code paths, pass by pass -/

section CommonCalls

variable {α : Type}

end CommonCalls

section CommonPasses

variable {α : Type}

end CommonPasses

section CommonFrame

variable {α : Type} [Mul α] [Div α] [NatCast α] [OfNat α 2]

end CommonFrame

/-! ## Facts about checks along a trace -/

section MonitorLemmas

variable {α σ : Type}

theorem Monitor.after_of_append (m : Monitor α σ) (s : σ) (l1 l2 : List (Cmd α)) :
    m.after s (l1 ++ l2) = m.after (m.after s l1) l2 := by
  simp [Monitor.after, List.foldl_append]

theorem Monitor.accepts_of_append (m : Monitor α σ) (s : σ) (l1 l2 : List (Cmd α)) :
    m.accepts s (l1 ++ l2) = (m.accepts s l1 && m.accepts (m.after s l1) l2) := by
  induction l1 generalizing s with
  | nil => simp [Monitor.accepts, Monitor.after]
  | cons c rest ih =>
    simp [Monitor.accepts, Monitor.after, ih, Bool.and_assoc]

/-- A sequence is accepted exactly when each of its calls meets the condition
with what is known after the calls before it. -/
theorem Monitor.accepts_iff_ok (m : Monitor α σ) (s : σ) (l : List (Cmd α)) :
    m.accepts s l = true ↔
      ∀ pre c post, l = pre ++ c :: post → m.ok (m.after s pre) c = true := by
  induction l generalizing s with
  | nil =>
    simp only [Monitor.accepts, true_iff]
    intro pre c post h
    cases pre <;> cases h
  | cons d rest ih =>
    simp only [Monitor.accepts, Bool.and_eq_true, ih]
    constructor
    · rintro ⟨h1, h2⟩ pre c post e
      cases pre with
      | nil =>
        simp only [List.nil_append, List.cons.injEq] at e
        obtain ⟨rfl, _⟩ := e
        exact h1
      | cons p pre =>
        simp only [List.cons_append, List.cons.injEq] at e
        obtain ⟨rfl, e⟩ := e
        exact h2 pre c post e
    · intro h
      exact ⟨h [] d rest rfl, fun pre c post e => h (d :: pre) c post (by rw [e]; rfl)⟩

theorem Monitor.safe_skip (m : Monitor α σ) (s : σ) (K : σ → Prop) (k : K s) :
    m.safe s (Trace.skip : Trace α) K :=
  ⟨rfl, fun _ => k⟩

theorem Monitor.safe_call (m : Monitor α σ) (s : σ) (c : Cmd α) (K : σ → Prop)
    (h : m.ok s c = true) (k : K (m.step s c)) : m.safe s (Trace.call c) K :=
  ⟨by simp [Trace.cmds_call, Monitor.accepts, h], fun _ => k⟩

theorem Monitor.safe_assert (m : Monitor α σ) (s : σ) (c : Bool) (f : Failure) (K : σ → Prop)
    (k : c = true → K s) : m.safe s (Trace.assert c f : Trace α) K := by
  cases c
  · exact ⟨rfl, fun h => by cases h⟩
  · exact ⟨rfl, fun _ => k rfl⟩

theorem Monitor.safe_seq (m : Monitor α σ) (s : σ) (a b : Trace α) (K : σ → Prop)
    (h : m.safe s a (fun s1 => m.safe s1 b K)) : m.safe s (Trace.seq a b) K := by
  obtain ⟨ha, hk⟩ := h
  by_cases hf : a.failure = none
  · obtain ⟨hb, hk2⟩ := hk hf
    refine ⟨?_, ?_⟩
    · rw [Trace.cmds_seq, if_pos hf, Monitor.accepts_of_append, ha, hb]
      rfl
    · intro h2
      rw [Trace.failure_seq, if_pos hf] at h2
      rw [Trace.cmds_seq, if_pos hf, Monitor.after_of_append]
      exact hk2 h2
  · refine ⟨?_, ?_⟩
    · rw [Trace.cmds_seq, if_neg hf]
      exact ha
    · intro h2
      rw [Trace.failure_seq, if_neg hf] at h2
      exact absurd h2 hf

theorem Monitor.safe_block_nil (m : Monitor α σ) (s : σ) (K : σ → Prop) (k : K s) :
    m.safe s (Trace.block ([] : List (Trace α))) K :=
  Monitor.safe_skip m s K k

theorem Monitor.safe_block_cons (m : Monitor α σ) (s : σ) (t : Trace α)
    (rest : List (Trace α)) (K : σ → Prop)
    (h : m.safe s t (fun s1 => m.safe s1 (Trace.block rest) K)) :
    m.safe s (Trace.block (t :: rest)) K :=
  Monitor.safe_seq m s t (Trace.block rest) K h

theorem Monitor.safe_ite (m : Monitor α σ) (s : σ) (c : Prop) [Decidable c] (a b : Trace α)
    (K : σ → Prop) (ha : m.safe s a K) (hb : m.safe s b K) :
    m.safe s (if c then a else b) K := by
  split
  · exact ha
  · exact hb

/-- A sequence of calls that leave what is known alone and meet the condition
is accepted and leaves what is known alone. -/
theorem Monitor.accepts_of_all (m : Monitor α σ) (s : σ) (p : Cmd α → Bool)
    (hstep : ∀ c, p c = true → m.step s c = s) (hok : ∀ c, p c = true → m.ok s c = true)
    (l : List (Cmd α)) (h : l.all p = true) :
    m.accepts s l = true ∧ m.after s l = s := by
  induction l with
  | nil => exact ⟨rfl, rfl⟩
  | cons c rest ih =>
    simp only [List.all_cons, Bool.and_eq_true] at h
    obtain ⟨a1, a2⟩ := ih h.2
    refine ⟨?_, ?_⟩
    · simp [Monitor.accepts, hstep c h.1, hok c h.1, a1]
    · simp only [Monitor.after, List.foldl_cons, hstep c h.1]
      exact a2

theorem Monitor.safe_of_all (m : Monitor α σ) (s : σ) (p : Cmd α → Bool)
    (hstep : ∀ c, p c = true → m.step s c = s) (hok : ∀ c, p c = true → m.ok s c = true)
    (t : Trace α) (K : σ → Prop) (h : t.cmds.all p = true) (k : K s) : m.safe s t K := by
  obtain ⟨a1, a2⟩ := Monitor.accepts_of_all m s p hstep hok t.cmds h
  exact ⟨a1, fun _ => by rw [a2]; exact k⟩

end MonitorLemmas

/-! ## The bindings of a frame against the binding layouts -/

section Layout

variable {α : Type}

/-- What the layout check knows after a sequence of calls is the root signature
bound last. -/
theorem layoutMonitor_after (layout : RootSig → List RootParameter) (s : Option RootSig)
    (pre : List (Cmd α)) :
    (layoutMonitor layout).after s pre =
      match (pre.filterMap Cmd.rootSignature?).getLast? with
      | some sig => some sig
      | none => s := by
  induction pre generalizing s with
  | nil => rfl
  | cons c rest ih =>
    have e : (layoutMonitor layout).after s (c :: rest) =
        (layoutMonitor layout).after ((layoutMonitor layout).step s c) rest := rfl
    rw [e, ih]
    cases hc : c.rootSignature? with
    | none => simp [List.filterMap_cons, hc, layoutMonitor]
    | some sig =>
      simp only [List.filterMap_cons, hc, layoutMonitor]
      cases hl : (List.filterMap Cmd.rootSignature? rest).getLast? with
      | none =>
        have h0 : List.filterMap Cmd.rootSignature? rest = [] := List.getLast?_eq_none_iff.1 hl
        simp [h0]
      | some x =>
        obtain ⟨ys, hy⟩ := List.getLast?_eq_some_iff.1 hl
        rw [hy, ← List.cons_append, List.getLast?_append]
        simp

/-- The calls of the draw routines bind no root signature. -/
theorem layoutMonitor_step_of_isDrawRoutineCall (layout : RootSig → List RootParameter)
    (s : Option RootSig) (c : Cmd α) (h : c.isDrawRoutineCall = true) :
    (layoutMonitor layout).step s c = s := by
  cases c <;> first | rfl | cases h

/-- A call that is no binding call stays inside every layout. -/
theorem layoutMonitor_ok_of_no_rootIndex (layout : RootSig → List RootParameter)
    (s : Option RootSig) (c : Cmd α) (h1 : c.rootIndex? = none) (h2 : c.descriptorSpan? = none) :
    (layoutMonitor layout).ok s c = true := by
  cases s <;> simp [layoutMonitor, Cmd.withinLayout, h1, h2]

theorem Renderer_Draw_layout (layout : RootSig → List RootParameter) (s : Option RootSig)
    (ref : ModelRef) (model : Model) (srv : Nat) (K : Option RootSig → Prop)
    (hb : ∀ i, (layoutMonitor layout).ok s (Renderer.bindCall ref srv i : Cmd α) = true)
    (k : K s) : (layoutMonitor layout).safe s (Renderer.Draw ref model srv : Trace α) K :=
  Monitor.safe_of_all _ s (fun c => c.isDrawRoutineCall && (layoutMonitor layout).ok s c)
    (fun c h => layoutMonitor_step_of_isDrawRoutineCall layout s c (Bool.and_eq_true _ _ ▸ h).1)
    (fun c h => (Bool.and_eq_true _ _ ▸ h).2) _ K
    (Renderer_Draw_all _ ref model srv
      (fun d => by simp [Cmd.isDrawRoutineCall,
        layoutMonitor_ok_of_no_rootIndex layout s (.SetIndexBuffer ref d) rfl rfl])
      (fun d => by simp [Cmd.isDrawRoutineCall,
        layoutMonitor_ok_of_no_rootIndex layout s (.SetVertexBuffer 0 ref d) rfl rfl])
      (fun i => by simp [Cmd.isDrawRoutineCall, Renderer.bindCall]; exact hb i)
      (fun a b c => by
        simp [Cmd.isDrawRoutineCall,
          layoutMonitor_ok_of_no_rootIndex layout s (.DrawIndexed a b c) rfl rfl]))
    k

theorem Renderer_DrawDepth_layout (layout : RootSig → List RootParameter) (s : Option RootSig)
    (ref : ModelRef) (model : Model) (K : Option RootSig → Prop) (k : K s) :
    (layoutMonitor layout).safe s (Renderer.DrawDepth ref model : Trace α) K :=
  Monitor.safe_of_all _ s (fun c => c.isDrawRoutineCall && (layoutMonitor layout).ok s c)
    (fun c h => layoutMonitor_step_of_isDrawRoutineCall layout s c (Bool.and_eq_true _ _ ▸ h).1)
    (fun c h => (Bool.and_eq_true _ _ ▸ h).2) _ K
    (Renderer_DrawDepth_all _ ref model
      (fun d => by simp [Cmd.isDrawRoutineCall,
        layoutMonitor_ok_of_no_rootIndex layout s (.SetIndexBuffer ref d) rfl rfl])
      (fun d => by simp [Cmd.isDrawRoutineCall,
        layoutMonitor_ok_of_no_rootIndex layout s (.SetVertexBuffer 0 ref d) rfl rfl])
      (fun a b c => by
        simp [Cmd.isDrawRoutineCall,
          layoutMonitor_ok_of_no_rootIndex layout s (.DrawIndexed a b c) rfl rfl]))
    k

theorem MyRenderer_Draw_layout (layout : RootSig → List RootParameter) (s : Option RootSig)
    (ref : ModelRef) (model : Model) (K : Option RootSig → Prop)
    (hb : ∀ i, (layoutMonitor layout).ok s (MyRenderer.bindCall ref i : Cmd α) = true)
    (k : K s) : (layoutMonitor layout).safe s (MyRenderer.Draw ref model : Trace α) K :=
  Monitor.safe_of_all _ s (fun c => c.isDrawRoutineCall && (layoutMonitor layout).ok s c)
    (fun c h => layoutMonitor_step_of_isDrawRoutineCall layout s c (Bool.and_eq_true _ _ ▸ h).1)
    (fun c h => (Bool.and_eq_true _ _ ▸ h).2) _ K
    (MyRenderer_Draw_all _ ref model
      (fun d => by simp [Cmd.isDrawRoutineCall,
        layoutMonitor_ok_of_no_rootIndex layout s (.SetIndexBuffer ref d) rfl rfl])
      (fun d => by simp [Cmd.isDrawRoutineCall,
        layoutMonitor_ok_of_no_rootIndex layout s (.SetVertexBuffer 0 ref d) rfl rfl])
      (fun i => by simp [Cmd.isDrawRoutineCall, MyRenderer.bindCall]; exact hb i)
      (fun a b c => by
        simp [Cmd.isDrawRoutineCall,
          layoutMonitor_ok_of_no_rootIndex layout s (.DrawIndexed a b c) rfl rfl]))
    k

theorem MyRenderer_DrawDepth_layout (layout : RootSig → List RootParameter) (s : Option RootSig)
    (ref : ModelRef) (model : Model) (K : Option RootSig → Prop) (k : K s) :
    (layoutMonitor layout).safe s (MyRenderer.DrawDepth ref model : Trace α) K :=
  Monitor.safe_of_all _ s (fun c => c.isDrawRoutineCall && (layoutMonitor layout).ok s c)
    (fun c h => layoutMonitor_step_of_isDrawRoutineCall layout s c (Bool.and_eq_true _ _ ▸ h).1)
    (fun c h => (Bool.and_eq_true _ _ ▸ h).2) _ K
    (MyRenderer_DrawDepth_all _ ref model
      (fun d => by simp [Cmd.isDrawRoutineCall,
        layoutMonitor_ok_of_no_rootIndex layout s (.SetIndexBuffer ref d) rfl rfl])
      (fun d => by simp [Cmd.isDrawRoutineCall,
        layoutMonitor_ok_of_no_rootIndex layout s (.SetVertexBuffer 0 ref d) rfl rfl])
      (fun a b c => by
        simp [Cmd.isDrawRoutineCall,
          layoutMonitor_ok_of_no_rootIndex layout s (.DrawIndexed a b c) rfl rfl]))
    k

end Layout

section LayoutFrame

variable {α : Type} [Mul α] [Div α] [NatCast α] [OfNat α 2]

set_option maxRecDepth 8000 in
/-- Every call of a frame of `Renderer::Render` stays inside the layout of the
root signature bound last. -/
theorem Renderer_Render_layout (math : MathLib α) (b : Buffers) (scene : Scene α) (hsg : Bool) :
    (layoutMonitor Renderer.CreateRootSignature).safe none (Renderer.Render math b scene hsg)
      (fun _ => True) := by
  unfold Renderer.Render Renderer.ResourceInit Renderer.ReflectiveShadowMapPass
    Renderer.ShadowMapPass Renderer.VSGLGenerationPass Renderer.DepthPass Renderer.LightingPass
    Trace.ScopedTimer
  repeat' first
    | with_reducible exact trivial
    | with_reducible apply Renderer_Draw_layout
    | with_reducible apply Renderer_DrawDepth_layout
    | with_reducible apply Monitor.safe_block_cons
    | with_reducible apply Monitor.safe_block_nil
    | with_reducible apply Monitor.safe_ite
    | with_reducible apply Monitor.safe_skip
    | (with_reducible apply Monitor.safe_assert; intro _)
    | with_reducible apply Monitor.safe_call
    | (intro _; rfl)
    | rfl

set_option maxRecDepth 8000 in
/-- Every call of a frame of `MyRenderer::Render` stays inside the layout of
the root signature bound last. -/
theorem MyRenderer_Render_layout (math : MathLib α) (b : Buffers) (scene : Scene α) :
    (layoutMonitor MyRenderer.InitializeRootSignature).safe none (MyRenderer.Render math b scene)
      (fun _ => True) := by
  unfold MyRenderer.Render MyRenderer.ResourceInit MyRenderer.ReflectiveShadowMapPass
    MyRenderer.ShadowMapPass MyRenderer.VSGLGenerationPass MyRenderer.DepthPass
    MyRenderer.LightingPass Trace.ScopedTimer
  repeat' first
    | with_reducible exact trivial
    | with_reducible apply MyRenderer_Draw_layout
    | with_reducible apply MyRenderer_DrawDepth_layout
    | with_reducible apply Monitor.safe_block_cons
    | with_reducible apply Monitor.safe_block_nil
    | with_reducible apply Monitor.safe_ite
    | with_reducible apply Monitor.safe_skip
    | (with_reducible apply Monitor.safe_assert; intro _)
    | with_reducible apply Monitor.safe_call
    | (intro _; rfl)
    | rfl

end LayoutFrame

section LayoutMeaning

variable {α : Type}

/-- What the layout check asks of a call under a root signature: the root
index it binds to is one of the layout, and the descriptors it binds lie in the
descriptor range declared at that index. -/
theorem layoutMonitor_ok_iff (layout : RootSig → List RootParameter) (s : Option RootSig)
    (c : Cmd α) (h : (layoutMonitor layout).ok s c = true) :
    (∀ r, c.rootIndex? = some r → ∃ sig, s = some sig ∧ r < (layout sig).length) ∧
    (∀ r o n, c.descriptorSpan? = some (r, o, n) →
      ∃ sig reg size vis, s = some sig ∧
        (layout sig)[r]? = some (.InitAsDescriptorRange reg size vis) ∧ o + n ≤ size) := by
  cases s with
  | none =>
    simp only [layoutMonitor, Option.isNone_iff_eq_none] at h
    refine ⟨fun r hr => (by rw [h] at hr; cases hr), fun r o n hr => ?_⟩
    have hne : c.rootIndex? ≠ none := by
      cases c <;> simp_all [Cmd.descriptorSpan?, Cmd.rootIndex?]
    exact absurd h hne
  | some sig =>
    simp only [layoutMonitor, Cmd.withinLayout, Bool.and_eq_true] at h
    obtain ⟨h1, h2⟩ := h
    refine ⟨fun r hr => ⟨sig, rfl, ?_⟩, fun r o n hr => ?_⟩
    · rw [hr] at h1
      simpa using h1
    · rw [hr] at h2
      simp only at h2
      cases hp : (layout sig)[r]? with
      | none => simp [hp] at h2
      | some p =>
        cases p with
        | InitAsDescriptorRange reg size vis =>
          rw [hp] at h2
          exact ⟨sig, reg, size, vis, rfl, hp, of_decide_eq_true h2⟩
        | _ => simp [hp, RootParameter.rangeSize?] at h2

/-- At the start of a frame no root signature is bound: what the layout check
knows after a sequence of calls is the root signature bound last in it. -/
theorem layoutMonitor_after_none (layout : RootSig → List RootParameter) (pre : List (Cmd α)) :
    (layoutMonitor layout).after none pre = (pre.filterMap Cmd.rootSignature?).getLast? := by
  rw [layoutMonitor_after]
  cases (List.filterMap Cmd.rootSignature? pre).getLast? <;> rfl

/-- An accepted sequence of calls, in the terms of the claim. -/
theorem layoutMonitor_accepts (layout : RootSig → List RootParameter) (l : List (Cmd α))
    (h : (layoutMonitor layout).accepts none l = true) :
    ∀ pre c post, l = pre ++ c :: post →
      (∀ r, c.rootIndex? = some r →
        ∃ sig, (pre.filterMap Cmd.rootSignature?).getLast? = some sig ∧
          r < (layout sig).length) ∧
      (∀ r o n, c.descriptorSpan? = some (r, o, n) →
        ∃ sig reg size vis, (pre.filterMap Cmd.rootSignature?).getLast? = some sig ∧
          (layout sig)[r]? = some (.InitAsDescriptorRange reg size vis) ∧ o + n ≤ size) := by
  intro pre c post e
  have hok := (Monitor.accepts_iff_ok _ _ _).1 h pre c post e
  rw [layoutMonitor_after_none] at hok
  exact layoutMonitor_ok_iff layout _ c hok

theorem Trace.mem_cmds_seq_left (c : Cmd α) (a b : Trace α) (h : c ∈ a.cmds) :
    c ∈ (Trace.seq a b).cmds := by
  rw [Trace.cmds_seq]
  split
  · exact List.mem_append_left _ h
  · exact h

theorem Trace.mem_cmds_seq_right (c : Cmd α) (a b : Trace α) (ha : a.failure = none)
    (h : c ∈ b.cmds) : c ∈ (Trace.seq a b).cmds := by
  rw [Trace.cmds_seq, if_pos ha]
  exact List.mem_append_right _ h

end LayoutMeaning

/-! ## Split transitions along a trace -/

section Split

variable {α : Type}

theorem splitMonitor_after_tracked (s : SplitTracked) (l : List (Cmd α)) :
    ((splitMonitor (α := α)).after s l).tracked = s.tracked.after l := by
  induction l generalizing s with
  | nil => rfl
  | cons c rest ih =>
    have e : (splitMonitor (α := α)).after s (c :: rest) =
        (splitMonitor (α := α)).after (s.step c) rest := rfl
    rw [e, ih]
    rfl

/-- A transition that has begun stays pending along calls that do not
complete it. -/
theorem splitMonitor_mem_pending (s : SplitTracked) (l : List (Cmd α)) (X : Resource)
    (S : ResourceState) (h : (X, S) ∈ s.pending)
    (hl : ∀ fl, Cmd.TransitionResource X S fl ∉ l) :
    (X, S) ∈ ((splitMonitor (α := α)).after s l).pending := by
  induction l generalizing s with
  | nil => exact h
  | cons c rest ih =>
    have e : (splitMonitor (α := α)).after s (c :: rest) =
        (splitMonitor (α := α)).after (s.step c) rest := rfl
    rw [e]
    apply ih
    · cases c with
      | BeginResourceTransition r st => exact List.mem_cons_of_mem _ h
      | TransitionResource r st fl =>
        simp only [SplitTracked.step, List.mem_filter, bne_iff_ne, ne_eq]
        refine ⟨h, fun he => ?_⟩
        cases he
        exact hl fl (List.mem_cons_self _ _)
      | _ => exact h
    · exact fun fl hm => hl fl (List.mem_cons_of_mem _ hm)

/-- While a transition is pending no accepted call uses its resource. -/
theorem splitMonitor_unused (s : SplitTracked) (l : List (Cmd α)) (X : Resource)
    (S : ResourceState) (h : (X, S) ∈ s.pending)
    (ha : (splitMonitor (α := α)).accepts s l = true) :
    ∀ mid c rest, l = mid ++ c :: rest → (∀ fl, Cmd.TransitionResource X S fl ∉ mid) →
      X ∉ c.uses (s.tracked.after mid) := by
  intro mid c rest e hmid hx
  have hok := (Monitor.accepts_iff_ok _ _ _).1 ha mid c rest e
  have hp := splitMonitor_mem_pending s mid X S h hmid
  simp only [splitMonitor, List.all_eq_true, bne_iff_ne, ne_eq] at hok
  rw [← splitMonitor_after_tracked] at hx
  exact hok X hx (X, S) hp rfl

/-- If no transition is pending after a sequence of calls, a transition
pending before it was completed by one of them. -/
theorem splitMonitor_completed (s : SplitTracked) (l : List (Cmd α)) (X : Resource)
    (S : ResourceState) (h : (X, S) ∈ s.pending)
    (he : ((splitMonitor (α := α)).after s l).pending = []) :
    ∃ fl, Cmd.TransitionResource X S fl ∈ l := by
  by_contra hn
  have hp := splitMonitor_mem_pending s l X S h (fun fl hm => hn ⟨fl, hm⟩)
  rw [he] at hp
  cases hp

/-- An accepted frame, in the terms of the claim: after a
`BeginResourceTransition` no call uses the resource before a `TransitionResource`
to the same state, and if no transition is pending at the end, there is one. -/
theorem splitMonitor_accepts (b : Buffers) (l : List (Cmd α))
    (ha : (splitMonitor (α := α)).accepts (SplitTracked.init b) l = true) :
    ∀ pre X S post, l = pre ++ .BeginResourceTransition X S :: post →
      (∀ mid c rest, post = mid ++ c :: rest → (∀ fl, Cmd.TransitionResource X S fl ∉ mid) →
        X ∉ c.uses ((Tracked.init b).after (pre ++ .BeginResourceTransition X S :: mid))) ∧
      (((splitMonitor (α := α)).after (SplitTracked.init b) l).pending = [] →
        ∃ fl, Cmd.TransitionResource X S fl ∈ post) := by
  intro pre X S post e
  have e2 : l = (pre ++ [.BeginResourceTransition X S]) ++ post := by
    rw [e, List.append_assoc]
    rfl
  have hmem : (X, S) ∈ ((splitMonitor (α := α)).after (SplitTracked.init b)
      (pre ++ [.BeginResourceTransition X S])).pending := by
    rw [Monitor.after_of_append]
    exact List.mem_cons_self _ _
  rw [e2, Monitor.accepts_of_append, Bool.and_eq_true] at ha
  refine ⟨fun mid c rest em hmid => ?_, fun hend => ?_⟩
  · have hu := splitMonitor_unused _ post X S hmem ha.2 mid c rest em hmid
    rw [splitMonitor_after_tracked, ← Tracked.after_append] at hu
    have e3 : pre ++ Cmd.BeginResourceTransition X S :: mid =
        pre ++ [Cmd.BeginResourceTransition X S] ++ mid := by
      rw [List.append_assoc]
      rfl
    rw [e3]
    exact hu
  · rw [e2, Monitor.after_of_append] at hend
    exact splitMonitor_completed _ post X S hmem hend

/-- The calls of the draw routines begin and complete no transition and change
nothing of what is tracked. -/
theorem splitMonitor_step_of_isDrawRoutineCall (s : SplitTracked) (c : Cmd α)
    (h : c.isDrawRoutineCall = true) : (splitMonitor (α := α)).step s c = s := by
  obtain ⟨t, p⟩ := s
  have e : t.step c = t := Tracked.step_of_isDrawRoutineCall t c h
  cases c <;> first | exact Bool.noConfusion h | simp only [splitMonitor, SplitTracked.step, e]

/-- The calls of the draw routines use no pending resource where a draw uses
none. -/
theorem splitMonitor_ok_of_isDrawRoutineCall (s : SplitTracked) (c : Cmd α)
    (h : c.isDrawRoutineCall = true)
    (hd : (splitMonitor (α := α)).ok s (.DrawIndexed 0 0 0) = true) :
    (splitMonitor (α := α)).ok s c = true := by
  cases c <;> first | exact hd | rfl | exact Bool.noConfusion h | skip
  all_goals rename_i x; cases x <;> first | rfl | cases h

theorem Renderer_Draw_split (s : SplitTracked) (ref : ModelRef) (model : Model) (srv : Nat)
    (K : SplitTracked → Prop) (hd : (splitMonitor (α := α)).ok s (.DrawIndexed 0 0 0) = true)
    (k : K s) : (splitMonitor (α := α)).safe s (Renderer.Draw ref model srv) K :=
  Monitor.safe_of_all _ s Cmd.isDrawRoutineCall
    (fun c h => splitMonitor_step_of_isDrawRoutineCall s c h)
    (fun c h => splitMonitor_ok_of_isDrawRoutineCall s c h hd) _ K
    (Renderer_Draw_isDrawRoutineCall ref model srv) k

theorem Renderer_DrawDepth_split (s : SplitTracked) (ref : ModelRef) (model : Model)
    (K : SplitTracked → Prop) (hd : (splitMonitor (α := α)).ok s (.DrawIndexed 0 0 0) = true)
    (k : K s) : (splitMonitor (α := α)).safe s (Renderer.DrawDepth ref model) K :=
  Monitor.safe_of_all _ s Cmd.isDrawRoutineCall
    (fun c h => splitMonitor_step_of_isDrawRoutineCall s c h)
    (fun c h => splitMonitor_ok_of_isDrawRoutineCall s c h hd) _ K
    (Renderer_DrawDepth_isDrawRoutineCall ref model) k

theorem MyRenderer_Draw_split (s : SplitTracked) (ref : ModelRef) (model : Model)
    (K : SplitTracked → Prop) (hd : (splitMonitor (α := α)).ok s (.DrawIndexed 0 0 0) = true)
    (k : K s) : (splitMonitor (α := α)).safe s (MyRenderer.Draw ref model) K :=
  Monitor.safe_of_all _ s Cmd.isDrawRoutineCall
    (fun c h => splitMonitor_step_of_isDrawRoutineCall s c h)
    (fun c h => splitMonitor_ok_of_isDrawRoutineCall s c h hd) _ K
    (MyRenderer_Draw_isDrawRoutineCall ref model) k

theorem MyRenderer_DrawDepth_split (s : SplitTracked) (ref : ModelRef) (model : Model)
    (K : SplitTracked → Prop) (hd : (splitMonitor (α := α)).ok s (.DrawIndexed 0 0 0) = true)
    (k : K s) : (splitMonitor (α := α)).safe s (MyRenderer.DrawDepth ref model) K :=
  Monitor.safe_of_all _ s Cmd.isDrawRoutineCall
    (fun c h => splitMonitor_step_of_isDrawRoutineCall s c h)
    (fun c h => splitMonitor_ok_of_isDrawRoutineCall s c h hd) _ K
    (MyRenderer_DrawDepth_isDrawRoutineCall ref model) k

end Split

section SplitPasses

variable {α : Type}

theorem Monitor.safe_mono {σ : Type} (m : Monitor α σ) (s : σ) (t : Trace α) (K1 K2 : σ → Prop)
    (h : m.safe s t K1) (hk : ∀ s1, K1 s1 → K2 s1) : m.safe s t K2 :=
  ⟨h.1, fun hf => hk _ (h.2 hf)⟩

/-- The resource initialisation begins no transition and uses no pending
resource when none is pending. -/
theorem Renderer_ResourceInit_split (t : Tracked) :
    (splitMonitor (α := α)).safe ⟨t, []⟩ Renderer.ResourceInit (fun s1 => s1.pending = []) := by
  unfold Renderer.ResourceInit
  repeat' first
    | with_reducible apply Monitor.safe_block_cons
    | with_reducible apply Monitor.safe_block_nil
    | with_reducible apply Monitor.safe_call
    | rfl

theorem MyRenderer_ResourceInit_split (t : Tracked) :
    (splitMonitor (α := α)).safe ⟨t, []⟩ MyRenderer.ResourceInit (fun s1 => s1.pending = []) := by
  unfold MyRenderer.ResourceInit
  repeat' first
    | with_reducible apply Monitor.safe_block_cons
    | with_reducible apply Monitor.safe_block_nil
    | with_reducible apply Monitor.safe_call
    | rfl

/-- ReflectiveShadowMapPass, entered with no transition pending, ends with the
transitions of the four RSM targets pending. -/
theorem Renderer_ReflectiveShadowMapPass_split (t : Tracked) (b : Buffers) (scene : Scene α) :
    (splitMonitor (α := α)).safe ⟨t, []⟩ (Renderer.ReflectiveShadowMapPass b scene)
      (fun s1 => s1.pending = SPLIT_TRANSITIONS.reverse.drop 1) := by
  unfold Renderer.ReflectiveShadowMapPass Trace.ScopedTimer
  repeat' first
    | with_reducible apply Renderer_Draw_split
    | with_reducible apply Monitor.safe_block_cons
    | with_reducible apply Monitor.safe_block_nil
    | with_reducible apply Monitor.safe_ite
    | with_reducible apply Monitor.safe_skip
    | with_reducible apply Monitor.safe_call
    | rfl

theorem MyRenderer_ReflectiveShadowMapPass_split (t : Tracked) (b : Buffers)
    (scene : Scene α) :
    (splitMonitor (α := α)).safe ⟨t, []⟩ (MyRenderer.ReflectiveShadowMapPass b scene)
      (fun s1 => s1.pending = SPLIT_TRANSITIONS.reverse.drop 1) := by
  unfold MyRenderer.ReflectiveShadowMapPass Trace.ScopedTimer
  repeat' first
    | with_reducible apply MyRenderer_Draw_split
    | with_reducible apply Monitor.safe_block_cons
    | with_reducible apply Monitor.safe_block_nil
    | with_reducible apply Monitor.safe_ite
    | with_reducible apply Monitor.safe_skip
    | with_reducible apply Monitor.safe_call
    | rfl

/-- ShadowMapPass, entered with the transitions of the RSM targets pending,
ends with that of the shadow map pending too. -/
theorem Renderer_ShadowMapPass_split (t : Tracked) (b : Buffers) (scene : Scene α) :
    (splitMonitor (α := α)).safe ⟨t, SPLIT_TRANSITIONS.reverse.drop 1⟩
      (Renderer.ShadowMapPass b scene) (fun s1 => s1.pending = SPLIT_TRANSITIONS.reverse) := by
  unfold Renderer.ShadowMapPass Trace.ScopedTimer
  repeat' first
    | with_reducible apply Renderer_Draw_split
    | with_reducible apply Renderer_DrawDepth_split
    | with_reducible apply Monitor.safe_block_cons
    | with_reducible apply Monitor.safe_block_nil
    | with_reducible apply Monitor.safe_ite
    | with_reducible apply Monitor.safe_skip
    | with_reducible apply Monitor.safe_call
    | rfl

theorem MyRenderer_ShadowMapPass_split (t : Tracked) (b : Buffers) (scene : Scene α) :
    (splitMonitor (α := α)).safe ⟨t, SPLIT_TRANSITIONS.reverse.drop 1⟩
      (MyRenderer.ShadowMapPass b scene) (fun s1 => s1.pending = SPLIT_TRANSITIONS.reverse) := by
  unfold MyRenderer.ShadowMapPass Trace.ScopedTimer
  repeat' first
    | with_reducible apply MyRenderer_Draw_split
    | with_reducible apply MyRenderer_DrawDepth_split
    | with_reducible apply Monitor.safe_block_cons
    | with_reducible apply Monitor.safe_block_nil
    | with_reducible apply Monitor.safe_ite
    | with_reducible apply Monitor.safe_skip
    | with_reducible apply Monitor.safe_call
    | rfl

/-- VSGLGenerationPass completes the transitions of the four RSM targets
before it binds them, and leaves that of the shadow map pending. -/
theorem Renderer_VSGLGenerationPass_split
    [Mul α] [Div α] [NatCast α] [OfNat α 2] (t : Tracked) (math : MathLib α)
    (b : Buffers) (spotLight : Camera α) (lightIntensity : α) :
    (splitMonitor (α := α)).safe ⟨t, SPLIT_TRANSITIONS.reverse⟩
      (Renderer.VSGLGenerationPass math b spotLight lightIntensity)
      (fun s1 => s1.pending = SPLIT_TRANSITIONS.reverse.take 1) := by
  unfold Renderer.VSGLGenerationPass Trace.ScopedTimer
  repeat' first
    | with_reducible apply Monitor.safe_block_cons
    | with_reducible apply Monitor.safe_block_nil
    | (with_reducible apply Monitor.safe_assert; intro _)
    | with_reducible apply Monitor.safe_call
    | rfl

/-- DepthPass leaves the transition of the shadow map pending and does not use
the shadow map. -/
theorem Renderer_DepthPass_split (t : Tracked) (b : Buffers) (scene : Scene α) :
    (splitMonitor (α := α)).safe ⟨t, SPLIT_TRANSITIONS.reverse.take 1⟩
      (Renderer.DepthPass b scene) (fun s1 => s1.pending = SPLIT_TRANSITIONS.reverse.take 1) := by
  unfold Renderer.DepthPass Trace.ScopedTimer
  repeat' first
    | with_reducible apply Renderer_Draw_split
    | with_reducible apply Renderer_DrawDepth_split
    | with_reducible apply Monitor.safe_block_cons
    | with_reducible apply Monitor.safe_block_nil
    | with_reducible apply Monitor.safe_ite
    | with_reducible apply Monitor.safe_skip
    | with_reducible apply Monitor.safe_call
    | rfl

theorem MyRenderer_DepthPass_split (t : Tracked) (b : Buffers) (scene : Scene α) :
    (splitMonitor (α := α)).safe ⟨t, SPLIT_TRANSITIONS.reverse.take 1⟩
      (MyRenderer.DepthPass b scene)
      (fun s1 => s1.pending = SPLIT_TRANSITIONS.reverse.take 1) := by
  unfold MyRenderer.DepthPass Trace.ScopedTimer
  repeat' first
    | with_reducible apply MyRenderer_Draw_split
    | with_reducible apply MyRenderer_DrawDepth_split
    | with_reducible apply Monitor.safe_block_cons
    | with_reducible apply Monitor.safe_block_nil
    | with_reducible apply Monitor.safe_ite
    | with_reducible apply Monitor.safe_skip
    | with_reducible apply Monitor.safe_call
    | rfl

/-- LightingPass completes the transition of the shadow map before it binds
the shadow map, and ends with no transition pending. -/
theorem Renderer_LightingPass_split (t : Tracked) (b : Buffers) (scene : Scene α)
    (hsg : Bool) :
    (splitMonitor (α := α)).safe ⟨t, SPLIT_TRANSITIONS.reverse.take 1⟩
      (Renderer.LightingPass b scene hsg) (fun s1 => s1.pending = []) := by
  unfold Renderer.LightingPass Trace.ScopedTimer
  repeat' first
    | with_reducible apply Renderer_Draw_split
    | with_reducible apply Monitor.safe_block_cons
    | with_reducible apply Monitor.safe_block_nil
    | with_reducible apply Monitor.safe_ite
    | with_reducible apply Monitor.safe_skip
    | with_reducible apply Monitor.safe_call
    | rfl

theorem MyRenderer_LightingPass_split (t : Tracked) (b : Buffers) (scene : Scene α) :
    (splitMonitor (α := α)).safe ⟨t, SPLIT_TRANSITIONS.reverse.take 1⟩
      (MyRenderer.LightingPass b scene) (fun s1 => s1.pending = []) := by
  unfold MyRenderer.LightingPass Trace.ScopedTimer
  repeat' first
    | with_reducible apply MyRenderer_Draw_split
    | with_reducible apply Monitor.safe_block_cons
    | with_reducible apply Monitor.safe_block_nil
    | with_reducible apply Monitor.safe_ite
    | with_reducible apply Monitor.safe_skip
    | with_reducible apply Monitor.safe_call
    | rfl

end SplitPasses

section SplitFrame

variable {α : Type} [Mul α] [Div α] [NatCast α] [OfNat α 2]

/-- Every call of a frame of `Renderer::Render` uses no resource whose
transition is pending, and at the end of a frame no transition is pending. -/
theorem Renderer_Render_split (math : MathLib α) (b : Buffers) (scene : Scene α) (hsg : Bool) :
    (splitMonitor (α := α)).safe (SplitTracked.init b) (Renderer.Render math b scene hsg)
      (fun s => s.pending = []) := by
  unfold Renderer.Render
  apply Monitor.safe_block_cons
  apply Monitor.safe_mono _ _ _ _ _ (Renderer_ResourceInit_split (Tracked.init b))
  rintro ⟨t1, p1⟩ h1
  obtain rfl : p1 = _ := h1
  apply Monitor.safe_block_cons
  apply Monitor.safe_mono _ _ _ _ _ (Renderer_ReflectiveShadowMapPass_split t1 b scene)
  rintro ⟨t2, p2⟩ h2
  obtain rfl : p2 = _ := h2
  apply Monitor.safe_block_cons
  apply Monitor.safe_mono _ _ _ _ _ (Renderer_ShadowMapPass_split t2 b scene)
  rintro ⟨t3, p3⟩ h3
  obtain rfl : p3 = _ := h3
  apply Monitor.safe_block_cons
  apply Monitor.safe_mono _ _ _ _ _ (Renderer_VSGLGenerationPass_split t3 math b _ _)
  rintro ⟨t4, p4⟩ h4
  obtain rfl : p4 = _ := h4
  apply Monitor.safe_block_cons
  apply Monitor.safe_mono _ _ _ _ _ (Renderer_DepthPass_split t4 b scene)
  rintro ⟨t5, p5⟩ h5
  obtain rfl : p5 = _ := h5
  apply Monitor.safe_block_cons
  apply Monitor.safe_mono _ _ _ _ _ (Renderer_LightingPass_split t5 b scene hsg)
  rintro ⟨t6, p6⟩ h6
  exact Monitor.safe_block_nil _ _ _ h6

/-- Every call of a frame of `MyRenderer::Render` uses no resource whose
transition is pending, and at the end of a frame no transition is pending. -/
theorem MyRenderer_Render_split (math : MathLib α) (b : Buffers) (scene : Scene α) :
    (splitMonitor (α := α)).safe (SplitTracked.init b) (MyRenderer.Render math b scene)
      (fun s => s.pending = []) := by
  unfold MyRenderer.Render
  apply Monitor.safe_block_cons
  apply Monitor.safe_mono _ _ _ _ _ (MyRenderer_ResourceInit_split (Tracked.init b))
  rintro ⟨t1, p1⟩ h1
  obtain rfl : p1 = _ := h1
  apply Monitor.safe_block_cons
  apply Monitor.safe_mono _ _ _ _ _ (MyRenderer_ReflectiveShadowMapPass_split t1 b scene)
  rintro ⟨t2, p2⟩ h2
  obtain rfl : p2 = _ := h2
  apply Monitor.safe_block_cons
  apply Monitor.safe_mono _ _ _ _ _ (MyRenderer_ShadowMapPass_split t2 b scene)
  rintro ⟨t3, p3⟩ h3
  obtain rfl : p3 = _ := h3
  apply Monitor.safe_block_cons
  apply Monitor.safe_mono _ _ _ _ _
    (Renderer_VSGLGenerationPass_split t3 math b scene.m_spotLight scene.m_spotLightIntensity)
  rintro ⟨t4, p4⟩ h4
  obtain rfl : p4 = _ := h4
  apply Monitor.safe_block_cons
  apply Monitor.safe_mono _ _ _ _ _ (MyRenderer_DepthPass_split t4 b scene)
  rintro ⟨t5, p5⟩ h5
  obtain rfl : p5 = _ := h5
  apply Monitor.safe_block_cons
  apply Monitor.safe_mono _ _ _ _ _ (MyRenderer_LightingPass_split t5 b scene)
  rintro ⟨t6, p6⟩ h6
  exact Monitor.safe_block_nil _ _ _ h6

end SplitFrame

section BeginsOnly

variable {α : Type}

/-- A `BeginResourceTransition` of a sequence that begins only listed
transitions begins a listed one. -/
theorem mem_of_beginsOnly (allowed : List (Resource × ResourceState)) (l : List (Cmd α))
    (h : l.all (Cmd.beginsOnly allowed) = true) (X : Resource) (S : ResourceState)
    (hm : Cmd.BeginResourceTransition X S ∈ l) : (X, S) ∈ allowed := by
  have hc := List.all_eq_true.1 h _ hm
  simpa [Cmd.beginsOnly] using hc

end BeginsOnly

section Begins

variable {α : Type} [Mul α] [Div α] [NatCast α] [OfNat α 2]

/-- A frame of `Renderer::Render` begins no transition but the five listed. -/
theorem Renderer_Render_beginsOnly (math : MathLib α) (b : Buffers) (scene : Scene α)
    (hsg : Bool) :
    (Renderer.Render math b scene hsg).cmds.all (Cmd.beginsOnly SPLIT_TRANSITIONS) = true := by
  have d1 := fun (ref : ModelRef) (model : Model) (srv : Nat) =>
    Renderer_Draw_all (α := α) (Cmd.beginsOnly SPLIT_TRANSITIONS) ref model srv (fun _ => rfl)
      (fun _ => rfl) (fun _ => rfl) (fun _ _ _ => rfl)
  have d2 := fun (ref : ModelRef) (model : Model) =>
    Renderer_DrawDepth_all (α := α) (Cmd.beginsOnly SPLIT_TRANSITIONS) ref model (fun _ => rfl)
      (fun _ => rfl) (fun _ _ _ => rfl)
  simp only [Renderer.Render, Renderer.ResourceInit, Renderer.ReflectiveShadowMapPass,
    Renderer.ShadowMapPass, Renderer.VSGLGenerationPass, Renderer.DepthPass,
    Renderer.LightingPass]
  repeat' first
    | with_reducible exact d1 _ _ _
    | with_reducible exact d2 _ _
    | with_reducible exact all_cmds_block_nil _
    | with_reducible exact all_cmds_skip _
    | with_reducible apply all_cmds_block_cons
    | with_reducible apply all_cmds_ite
    | with_reducible apply all_cmds_timer _ _ _ rfl rfl
    | with_reducible exact all_cmds_assert _ _ _
    | exact all_cmds_call _ _ rfl

/-- A frame of `MyRenderer::Render` begins no transition but the five
listed. -/
theorem MyRenderer_Render_beginsOnly (math : MathLib α) (b : Buffers) (scene : Scene α) :
    (MyRenderer.Render math b scene).cmds.all (Cmd.beginsOnly SPLIT_TRANSITIONS) = true := by
  have d1 := fun (ref : ModelRef) (model : Model) =>
    MyRenderer_Draw_all (α := α) (Cmd.beginsOnly SPLIT_TRANSITIONS) ref model (fun _ => rfl)
      (fun _ => rfl) (fun _ => rfl) (fun _ _ _ => rfl)
  have d2 := fun (ref : ModelRef) (model : Model) =>
    MyRenderer_DrawDepth_all (α := α) (Cmd.beginsOnly SPLIT_TRANSITIONS) ref model
      (fun _ => rfl) (fun _ => rfl) (fun _ _ _ => rfl)
  simp only [MyRenderer.Render, MyRenderer.ResourceInit, MyRenderer.ReflectiveShadowMapPass,
    MyRenderer.ShadowMapPass, MyRenderer.VSGLGenerationPass, MyRenderer.DepthPass,
    MyRenderer.LightingPass]
  repeat' first
    | with_reducible exact d1 _ _
    | with_reducible exact d2 _ _
    | with_reducible exact all_cmds_block_nil _
    | with_reducible exact all_cmds_skip _
    | with_reducible apply all_cmds_block_cons
    | with_reducible apply all_cmds_ite
    | with_reducible apply all_cmds_timer _ _ _ rfl rfl
    | with_reducible exact all_cmds_assert _ _ _
    | exact all_cmds_call _ _ rfl

end Begins

/-! ## C21: the two code paths -/

/-- C22: with the configured values, `RSM_WIDTH` = 128 and
`THREAD_GROUP_WIDTH` = 32, the remainder `RSM_WIDTH % THREAD_GROUP_WIDTH` is
zero, so the `static_assert` of `VSGLGenerationPass` holds: the thread-group
width divides the resolution, four times 32 texels to a row. So it is with the
resolution 64 that the settings file allows, twice 32 texels to a row. -/
theorem C22_rsm_width_divisible_by_thread_group_width :
    RSM_WIDTH = 128 ∧ THREAD_GROUP_WIDTH = 32 ∧
    RSM_WIDTH % THREAD_GROUP_WIDTH = 0 ∧
    vsglStaticAssert RSM_WIDTH THREAD_GROUP_WIDTH = true ∧
    THREAD_GROUP_WIDTH ∣ RSM_WIDTH ∧
    RSM_WIDTH / THREAD_GROUP_WIDTH * THREAD_GROUP_WIDTH = RSM_WIDTH ∧
    RSM_WIDTH_ALTERNATIVE = 64 ∧
    RSM_WIDTH_ALTERNATIVE % THREAD_GROUP_WIDTH = 0 ∧
    vsglStaticAssert RSM_WIDTH_ALTERNATIVE THREAD_GROUP_WIDTH = true ∧
    THREAD_GROUP_WIDTH ∣ RSM_WIDTH_ALTERNATIVE ∧
    RSM_WIDTH_ALTERNATIVE / THREAD_GROUP_WIDTH * THREAD_GROUP_WIDTH = RSM_WIDTH_ALTERNATIVE := by
  refine ⟨rfl, rfl, rfl, rfl, ⟨4, rfl⟩, rfl, rfl, rfl, rfl, ⟨2, rfl⟩, rfl⟩

/-! ## C23: binding elision against naive rebinding -/

/-- C23: for every batch in which no submesh has the material index
`0xFFFFFFFF`, and whatever material table is bound when `Draw` is called, at
each indexed draw `Draw` records (one per submesh up to the first that fails a
check) the material table bound most recently is the table of the material
index of that submesh: the same tables, draw by draw, as with naive rebinding,
where the table is bound before every submesh. A first submesh that passes the
checks triggers a bind: the call after the two buffer bindings is the bind of
its table, then comes its draw. What `Draw` records does not depend on what was
recorded before it: the tracked index starts from the sentinel in every call.
Stated for `Renderer::Draw` and `MyRenderer::Draw`. -/
theorem C23_binding_elision_refines_rebinding {α : Type} (ref : ModelRef) (model : Model)
    (srvCount : Nat) (current : Option DescriptorArray)
    (hsentinel : ∀ m ∈ model.m_pMesh, m.materialIndex ≠ UINT32_MAX) :
    (materialTableAtDraws current (Renderer.Draw ref model srvCount : Trace α).cmds =
        (model.m_pMesh.takeWhile (Mesh.passesDraw model.m_VertexStride)).map
          (fun m => some (.GetSRVs ref m.materialIndex)) ∧
      materialTableAtDraws current (Renderer.Draw ref model srvCount : Trace α).cmds =
        materialTableAtDraws current
          (drawRebinding
            (fun i => (.SetDynamicDescriptors Renderer.ROOT_INDEX_PS_SRV 0 srvCount
              (.GetSRVs ref i) : Cmd α))
            (fun mesh => .DrawIndexed mesh.indexCount (mesh.indexDataByteOffset / SIZEOF_UINT16)
              (mesh.vertexDataByteOffset / model.m_VertexStride))
            (model.m_pMesh.takeWhile (Mesh.passesDraw model.m_VertexStride))) ∧
      ((Renderer.Draw ref model srvCount : Trace α).cmds.filter Cmd.isDrawIndexed).length =
        (model.m_pMesh.takeWhile (Mesh.passesDraw model.m_VertexStride)).length ∧
      (∀ m0 rest, model.m_pMesh = m0 :: rest → m0.passesDraw model.m_VertexStride = true →
        ∃ tail, (Renderer.Draw ref model srvCount : Trace α).cmds =
          .SetIndexBuffer ref false :: .SetVertexBuffer 0 ref false ::
            .SetDynamicDescriptors Renderer.ROOT_INDEX_PS_SRV 0 srvCount
              (.GetSRVs ref m0.materialIndex) ::
            .DrawIndexed m0.indexCount (m0.indexDataByteOffset / SIZEOF_UINT16)
              (m0.vertexDataByteOffset / model.m_VertexStride) :: tail) ∧
      (∀ before : Trace α, before.failure = none →
        (Trace.seq before (Renderer.Draw ref model srvCount)).cmds =
          before.cmds ++ (Renderer.Draw ref model srvCount : Trace α).cmds)) ∧
    (materialTableAtDraws current (MyRenderer.Draw ref model : Trace α).cmds =
        (model.m_pMesh.takeWhile (Mesh.passesDraw model.m_VertexStride)).map
          (fun m => some (.GetSRVs ref m.materialIndex)) ∧
      materialTableAtDraws current (MyRenderer.Draw ref model : Trace α).cmds =
        materialTableAtDraws current
          (drawRebinding
            (fun i => (.SetDescriptorTable MyRenderer.ROOT_INDEX_PS_SRV0 (.GetSRVs ref i) :
              Cmd α))
            (fun mesh => .DrawIndexed mesh.indexCount (mesh.indexDataByteOffset / SIZEOF_UINT16)
              (mesh.vertexDataByteOffset / model.m_VertexStride))
            (model.m_pMesh.takeWhile (Mesh.passesDraw model.m_VertexStride))) ∧
      ((MyRenderer.Draw ref model : Trace α).cmds.filter Cmd.isDrawIndexed).length =
        (model.m_pMesh.takeWhile (Mesh.passesDraw model.m_VertexStride)).length ∧
      (∀ m0 rest, model.m_pMesh = m0 :: rest → m0.passesDraw model.m_VertexStride = true →
        ∃ tail, (MyRenderer.Draw ref model : Trace α).cmds =
          .SetIndexBuffer ref false :: .SetVertexBuffer 0 ref false ::
            .SetDescriptorTable MyRenderer.ROOT_INDEX_PS_SRV0 (.GetSRVs ref m0.materialIndex) ::
            .DrawIndexed m0.indexCount (m0.indexDataByteOffset / SIZEOF_UINT16)
              (m0.vertexDataByteOffset / model.m_VertexStride) :: tail) ∧
      (∀ before : Trace α, before.failure = none →
        (Trace.seq before (MyRenderer.Draw ref model)).cmds =
          before.cmds ++ (MyRenderer.Draw ref model : Trace α).cmds)) := by
  have hh := head_takeWhile_ne (Mesh.passesDraw model.m_VertexStride) model.m_pMesh UINT32_MAX
    hsentinel
  have eR : (Renderer.Draw ref model srvCount : Trace α).cmds =
      .SetIndexBuffer ref false :: .SetVertexBuffer 0 ref false ::
        drawCmds (Renderer.bindCall ref srvCount) (Mesh.drawCall model.m_VertexStride)
          (model.m_pMesh.takeWhile (Mesh.passesDraw model.m_VertexStride)) UINT32_MAX := by
    rw [Renderer_Draw_cmds, Renderer_Draw_loop_cmds]
  have eM : (MyRenderer.Draw ref model : Trace α).cmds =
      .SetIndexBuffer ref false :: .SetVertexBuffer 0 ref false ::
        drawCmds (MyRenderer.bindCall ref) (Mesh.drawCall model.m_VertexStride)
          (model.m_pMesh.takeWhile (Mesh.passesDraw model.m_VertexStride)) UINT32_MAX := by
    rw [MyRenderer_Draw_cmds, MyRenderer_Draw_loop_cmds]
  have tR : materialTableAtDraws current (Renderer.Draw ref model srvCount : Trace α).cmds =
      (model.m_pMesh.takeWhile (Mesh.passesDraw model.m_VertexStride)).map
        (fun m => some (.GetSRVs ref m.materialIndex)) := by
    rw [eR]
    exact materialTableAtDraws_drawCmds (fun i => .GetSRVs ref i)
      (Renderer.bindCall ref srvCount) (Mesh.drawCall model.m_VertexStride) (fun _ _ _ => rfl)
      (fun _ _ _ => rfl) _ _ _ (Or.inr hh)
  have tM : materialTableAtDraws current (MyRenderer.Draw ref model : Trace α).cmds =
      (model.m_pMesh.takeWhile (Mesh.passesDraw model.m_VertexStride)).map
        (fun m => some (.GetSRVs ref m.materialIndex)) := by
    rw [eM]
    exact materialTableAtDraws_drawCmds (fun i => .GetSRVs ref i)
      (MyRenderer.bindCall ref) (Mesh.drawCall model.m_VertexStride) (fun _ _ _ => rfl)
      (fun _ _ _ => rfl) _ _ _ (Or.inr hh)
  refine ⟨⟨tR, ?_, ?_, ?_, ?_⟩, ⟨tM, ?_, ?_, ?_, ?_⟩⟩
  · rw [tR]
    exact (materialTableAtDraws_drawRebinding (fun i => .GetSRVs ref i)
      (fun i => (.SetDynamicDescriptors Renderer.ROOT_INDEX_PS_SRV 0 srvCount
        (.GetSRVs ref i) : Cmd α))
      (fun mesh => .DrawIndexed mesh.indexCount (mesh.indexDataByteOffset / SIZEOF_UINT16)
        (mesh.vertexDataByteOffset / model.m_VertexStride))
      (fun _ _ _ => rfl) (fun _ _ _ => rfl) _ _).symm
  · rw [eR]
    simp [List.filter_cons, Cmd.isDrawIndexed, filter_drawCmds_draws Cmd.isDrawIndexed
      (Renderer.bindCall ref srvCount) (Mesh.drawCall model.m_VertexStride) (fun _ => rfl)
      (fun _ => rfl)]
  · intro m0 rest hm hp
    have hne : ¬ UINT32_MAX = m0.materialIndex :=
      fun e => hsentinel m0 (by rw [hm]; exact List.mem_cons_self _ _) e.symm
    rw [eR, hm, List.takeWhile_cons_of_pos hp]
    exact ⟨_, by simp [drawCmds, hne, Renderer.bindCall, Mesh.drawCall]; rfl⟩
  · intro before hb
    rw [Trace.cmds_seq, if_pos hb]
  · rw [tM]
    exact (materialTableAtDraws_drawRebinding (fun i => .GetSRVs ref i)
      (fun i => (.SetDescriptorTable MyRenderer.ROOT_INDEX_PS_SRV0 (.GetSRVs ref i) : Cmd α))
      (fun mesh => .DrawIndexed mesh.indexCount (mesh.indexDataByteOffset / SIZEOF_UINT16)
        (mesh.vertexDataByteOffset / model.m_VertexStride))
      (fun _ _ _ => rfl) (fun _ _ _ => rfl) _ _).symm
  · rw [eM]
    simp [List.filter_cons, Cmd.isDrawIndexed, filter_drawCmds_draws Cmd.isDrawIndexed
      (MyRenderer.bindCall ref) (Mesh.drawCall model.m_VertexStride) (fun _ => rfl)
      (fun _ => rfl)]
  · intro m0 rest hm hp
    have hne : ¬ UINT32_MAX = m0.materialIndex :=
      fun e => hsentinel m0 (by rw [hm]; exact List.mem_cons_self _ _) e.symm
    rw [eM, hm, List.takeWhile_cons_of_pos hp]
    exact ⟨_, by simp [drawCmds, hne, MyRenderer.bindCall, Mesh.drawCall]; rfl⟩
  · intro before hb
    rw [Trace.cmds_seq, if_pos hb]

/-- C23 at the batch `modelThree` (material indices 7, 7, 9, none the
sentinel), with the table of index 7 of the same batch bound beforehand: the
three draws of `Renderer::Draw` run with the tables of the indices 7, 7
and 9. -/
theorem C23_witness_modelThree :
    (∀ m ∈ modelThree.m_pMesh, m.materialIndex ≠ UINT32_MAX) ∧
    materialTableAtDraws (some (.GetSRVs .m_model 7))
        (Renderer.Draw .m_model modelThree MODEL_SRV_COUNT : Trace ℚ).cmds =
      [some (.GetSRVs .m_model 7), some (.GetSRVs .m_model 7), some (.GetSRVs .m_model 9)] :=
  ⟨by decide,
    (C23_binding_elision_refines_rebinding .m_model modelThree MODEL_SRV_COUNT
      (some (.GetSRVs .m_model 7)) (by decide)).1.1.trans (by decide)⟩

/-! ## C24: split transitions are completed before the resource is used -/

/-- C24, the claim as stated fails. On the scene `sceneDepthMisaligned`, whose
first batch passes the checks of `Draw` and fails those of `DrawDepth`,
`Renderer::Render` runs ReflectiveShadowMapPass to its end, which begins the
transitions of the four RSM targets toward the non-pixel-shader-resource
state, and aborts in ShadowMapPass: the frame holds no `TransitionResource` of
any of them to that state, so none of the four begun transitions is followed
by its completion. -/
theorem C24_counterexample_aborted_after_begin :
    (Renderer.Render mathQ (Renderer.Create hdBuffer hdBuffer) sceneDepthMisaligned
      false).failure = some .vertexOffsetNotAligned ∧
    (Renderer.Render mathQ (Renderer.Create hdBuffer hdBuffer) sceneDepthMisaligned
      false).cmds.filter Cmd.isBeginResourceTransition =
      [.BeginResourceTransition .s_rsmDepthBuffer .NON_PIXEL_SHADER_RESOURCE,
       .BeginResourceTransition .s_rsmNormalBuffer .NON_PIXEL_SHADER_RESOURCE,
       .BeginResourceTransition .s_rsmDiffuseBuffer .NON_PIXEL_SHADER_RESOURCE,
       .BeginResourceTransition .s_rsmSpecularBuffer .NON_PIXEL_SHADER_RESOURCE] ∧
    (∀ X ∈ [Resource.s_rsmDepthBuffer, .s_rsmNormalBuffer, .s_rsmDiffuseBuffer,
        .s_rsmSpecularBuffer],
      (X, ResourceState.NON_PIXEL_SHADER_RESOURCE) ∉
        (Renderer.Render mathQ (Renderer.Create hdBuffer hdBuffer) sceneDepthMisaligned
          false).cmds.filterMap Cmd.transitionResource?) := by
  decide

/-- C24, amended: in every frame recorded by `Render`, aborted or not, each
`BeginResourceTransition` of a resource X to a state S is one of the five
listed (the four RSM targets at the end of ReflectiveShadowMapPass, the shadow
map at the end of ShadowMapPass), and no call recorded after it and before a
`TransitionResource` of X to the same state S binds, clears, writes or reads
X; and in every frame that runs to its end it is followed by such a
`TransitionResource`. Stated for both renderers. -/
theorem C24_split_transitions_completed_before_use {α : Type}
    [Mul α] [Div α] [NatCast α] [OfNat α 2] (math : MathLib α)
    (b : Buffers) (scene : Scene α) (hsg : Bool) :
    (∀ pre X S post,
      (Renderer.Render math b scene hsg).cmds = pre ++ .BeginResourceTransition X S :: post →
      (X, S) ∈ SPLIT_TRANSITIONS ∧
      (∀ mid c rest, post = mid ++ c :: rest →
        (∀ fl, Cmd.TransitionResource X S fl ∉ mid) →
        X ∉ c.uses ((Tracked.init b).after (pre ++ .BeginResourceTransition X S :: mid))) ∧
      ((Renderer.Render math b scene hsg).failure = none →
        ∃ fl, Cmd.TransitionResource X S fl ∈ post)) ∧
    (∀ pre X S post,
      (MyRenderer.Render math b scene).cmds = pre ++ .BeginResourceTransition X S :: post →
      (X, S) ∈ SPLIT_TRANSITIONS ∧
      (∀ mid c rest, post = mid ++ c :: rest →
        (∀ fl, Cmd.TransitionResource X S fl ∉ mid) →
        X ∉ c.uses ((Tracked.init b).after (pre ++ .BeginResourceTransition X S :: mid))) ∧
      ((MyRenderer.Render math b scene).failure = none →
        ∃ fl, Cmd.TransitionResource X S fl ∈ post)) := by
  constructor
  · intro pre X S post e
    obtain ⟨ha, hk⟩ := Renderer_Render_split math b scene hsg
    obtain ⟨h1, h2⟩ := splitMonitor_accepts b _ ha pre X S post e
    refine ⟨mem_of_beginsOnly _ _ (Renderer_Render_beginsOnly math b scene hsg) X S ?_, h1,
      fun hf => h2 (hk hf)⟩
    rw [e]
    exact List.mem_append_right _ (List.mem_cons_self _ _)
  · intro pre X S post e
    obtain ⟨ha, hk⟩ := MyRenderer_Render_split math b scene
    obtain ⟨h1, h2⟩ := splitMonitor_accepts b _ ha pre X S post e
    refine ⟨mem_of_beginsOnly _ _ (MyRenderer_Render_beginsOnly math b scene) X S ?_, h1,
      fun hf => h2 (hk hf)⟩
    rw [e]
    exact List.mem_append_right _ (List.mem_cons_self _ _)

/-- C24, amended, at the frame of `sceneGood`: the transition of the shadow
map begun by the call after the first 55 calls is completed later in the
frame, which runs to its end. -/
theorem C24_witness_shadow_map_of_sceneGood :
    (Renderer.Render mathQ (Renderer.Create hdBuffer hdBuffer) sceneGood false).cmds =
      (Renderer.Render mathQ (Renderer.Create hdBuffer hdBuffer) sceneGood false).cmds.take 55 ++
        .BeginResourceTransition .s_shadowMap .PIXEL_SHADER_RESOURCE ::
        (Renderer.Render mathQ (Renderer.Create hdBuffer hdBuffer) sceneGood false).cmds.drop 56 ∧
    (Renderer.Render mathQ (Renderer.Create hdBuffer hdBuffer) sceneGood false).failure = none ∧
    ∃ fl, Cmd.TransitionResource .s_shadowMap .PIXEL_SHADER_RESOURCE fl ∈
      (Renderer.Render mathQ (Renderer.Create hdBuffer hdBuffer) sceneGood false).cmds.drop 56 :=
  ⟨rfl, rfl,
    ((C24_split_transitions_completed_before_use mathQ (Renderer.Create hdBuffer hdBuffer)
      sceneGood false).1
      ((Renderer.Render mathQ (Renderer.Create hdBuffer hdBuffer) sceneGood false).cmds.take 55)
      .s_shadowMap .PIXEL_SHADER_RESOURCE
      ((Renderer.Render mathQ (Renderer.Create hdBuffer hdBuffer) sceneGood false).cmds.drop 56)
      rfl).2.2 rfl⟩

/-! ## C25: the draws and dispatches of a frame -/

/-- C25: on the buffers made by `Create` / `Initialize`, for every scene whose
checks all pass, with m submeshes in the first batch and c in the cutout
batch, the frame recorded by `Render` holds exactly 4 (m + c) indexed draws and
exactly 2 dispatches, and the indexed draws of each of the four graphics passes
are one per submesh of the first batch, in the order of the submeshes, followed
by one per submesh of the cutout batch, in the order of the submeshes; the
draws of the frame are those of the four passes, pass after pass. Stated for
`Renderer::Render` (first hypothesis) and `MyRenderer::Render` (second). -/
theorem C25_draws_and_dispatches_of_a_frame {α : Type}
    [Mul α] [Div α] [NatCast α] [OfNat α 2] (math : MathLib α)
    (sd sc : PixelBuffer) (scene : Scene α) (hsg : Bool) :
    (Renderer.checksPass scene = true →
      (Renderer.Render math (Renderer.Create sd sc) scene hsg).cmds.countP Cmd.isDrawIndexed =
        4 * (scene.m_model.meshCount + scene.m_modelCutout.meshCount) ∧
      (Renderer.Render math (Renderer.Create sd sc) scene hsg).cmds.countP Cmd.isDispatch = 2 ∧
      (Renderer.ReflectiveShadowMapPass (Renderer.Create sd sc) scene).cmds.filter
          Cmd.isDrawIndexed =
        scene.m_model.m_pMesh.map (Mesh.drawCall scene.m_model.m_VertexStride) ++
          scene.m_modelCutout.m_pMesh.map (Mesh.drawCall scene.m_modelCutout.m_VertexStride) ∧
      (Renderer.ShadowMapPass (Renderer.Create sd sc) scene).cmds.filter Cmd.isDrawIndexed =
        scene.m_model.m_pMesh.map (Mesh.drawCallDepth scene.m_model.m_VertexStrideDepth) ++
          scene.m_modelCutout.m_pMesh.map (Mesh.drawCall scene.m_modelCutout.m_VertexStride) ∧
      (Renderer.DepthPass (Renderer.Create sd sc) scene).cmds.filter Cmd.isDrawIndexed =
        scene.m_model.m_pMesh.map (Mesh.drawCallDepth scene.m_model.m_VertexStrideDepth) ++
          scene.m_modelCutout.m_pMesh.map (Mesh.drawCall scene.m_modelCutout.m_VertexStride) ∧
      (Renderer.LightingPass (Renderer.Create sd sc) scene hsg).cmds.filter Cmd.isDrawIndexed =
        scene.m_model.m_pMesh.map (Mesh.drawCall scene.m_model.m_VertexStride) ++
          scene.m_modelCutout.m_pMesh.map (Mesh.drawCall scene.m_modelCutout.m_VertexStride) ∧
      (Renderer.Render math (Renderer.Create sd sc) scene hsg).cmds.filter Cmd.isDrawIndexed =
        (Renderer.ReflectiveShadowMapPass (Renderer.Create sd sc) scene).cmds.filter
            Cmd.isDrawIndexed ++
          (Renderer.ShadowMapPass (Renderer.Create sd sc) scene).cmds.filter Cmd.isDrawIndexed ++
          (Renderer.DepthPass (Renderer.Create sd sc) scene).cmds.filter Cmd.isDrawIndexed ++
          (Renderer.LightingPass (Renderer.Create sd sc) scene hsg).cmds.filter
            Cmd.isDrawIndexed) ∧
    (MyRenderer.checksPass scene = true →
      (MyRenderer.Render math (MyRenderer.Initialize sd sc) scene).cmds.countP
          Cmd.isDrawIndexed =
        4 * (scene.m_model.meshCount + scene.m_modelCutout.meshCount) ∧
      (MyRenderer.Render math (MyRenderer.Initialize sd sc) scene).cmds.countP Cmd.isDispatch =
        2 ∧
      (∀ pass ∈ [MyRenderer.ReflectiveShadowMapPass (MyRenderer.Initialize sd sc) scene,
          MyRenderer.ShadowMapPass (MyRenderer.Initialize sd sc) scene,
          MyRenderer.DepthPass (MyRenderer.Initialize sd sc) scene,
          MyRenderer.LightingPass (MyRenderer.Initialize sd sc) scene],
        pass.cmds.filter Cmd.isDrawIndexed =
          scene.m_model.m_pMesh.map (Mesh.drawCall scene.m_model.m_VertexStride) ++
            scene.m_modelCutout.m_pMesh.map
              (Mesh.drawCall scene.m_modelCutout.m_VertexStride)) ∧
      (MyRenderer.Render math (MyRenderer.Initialize sd sc) scene).cmds.filter
          Cmd.isDrawIndexed =
        (MyRenderer.ReflectiveShadowMapPass (MyRenderer.Initialize sd sc) scene).cmds.filter
            Cmd.isDrawIndexed ++
          (MyRenderer.ShadowMapPass (MyRenderer.Initialize sd sc) scene).cmds.filter
            Cmd.isDrawIndexed ++
          (MyRenderer.DepthPass (MyRenderer.Initialize sd sc) scene).cmds.filter
            Cmd.isDrawIndexed ++
          (MyRenderer.LightingPass (MyRenderer.Initialize sd sc) scene).cmds.filter
            Cmd.isDrawIndexed) := by
  have hbR : (Renderer.Create sd sc).rsmMatches = true := rfl
  have hbM : (MyRenderer.Initialize sd sc).rsmMatches = true := rfl
  have vR := Renderer_VSGLGenerationPass_of_matches math _ scene.m_spotLight
    scene.m_spotLightIntensity hbR
  have vM : MyRenderer.VSGLGenerationPass math (MyRenderer.Initialize sd sc) scene.m_spotLight
      scene.m_spotLightIntensity = _ := vR
  constructor
  · intro h
    obtain ⟨p1, p2, p3, p4⟩ := Renderer_pass_draws (Renderer.Create sd sc) scene hsg h
    obtain ⟨q1, q2, q3, q4⟩ := Renderer_pass_dispatches (Renderer.Create sd sc) scene hsg
    have e := Renderer_Render_cmds_of_checks math _ scene hsg hbR h
    have r0 : (Renderer.ResourceInit : Trace α).cmds.filter Cmd.isDrawIndexed = [] := rfl
    have r1 : (Renderer.ResourceInit : Trace α).cmds.filter Cmd.isDispatch = [] := rfl
    refine ⟨?_, ?_, p1, p2, p3, p4, ?_⟩
    · rw [List.countP_eq_length_filter, e]
      simp only [List.filter_append, p1, p2, p3, p4, r0, vR]
      simp [Cmd.isDrawIndexed, Model.meshCount]
      omega
    · rw [List.countP_eq_length_filter, e]
      simp only [List.filter_append, q1, q2, q3, q4, r1, vR]
      simp [Cmd.isDispatch]
    · rw [e]
      simp only [List.filter_append, r0, vR]
      simp [Cmd.isDrawIndexed]
  · intro h
    obtain ⟨p1, p2, p3, p4⟩ := MyRenderer_pass_draws (MyRenderer.Initialize sd sc) scene h
    obtain ⟨q1, q2, q3, q4⟩ := MyRenderer_pass_dispatches (MyRenderer.Initialize sd sc) scene
    have e := MyRenderer_Render_cmds_of_checks math _ scene hbM h
    have r0 : (MyRenderer.ResourceInit : Trace α).cmds.filter Cmd.isDrawIndexed = [] := rfl
    have r1 : (MyRenderer.ResourceInit : Trace α).cmds.filter Cmd.isDispatch = [] := rfl
    refine ⟨?_, ?_, ?_, ?_⟩
    · rw [List.countP_eq_length_filter, e]
      simp only [List.filter_append, p1, p2, p3, p4, r0, vM]
      simp [Cmd.isDrawIndexed, Model.meshCount]
      omega
    · rw [List.countP_eq_length_filter, e]
      simp only [List.filter_append, q1, q2, q3, q4, r1, vM]
      simp [Cmd.isDispatch]
    · intro pass hp
      simp only [List.mem_cons, List.mem_singleton, List.not_mem_nil, or_false] at hp
      rcases hp with rfl | rfl | rfl | rfl
      · exact p1
      · exact p2
      · exact p3
      · exact p4
    · rw [e]
      simp only [List.filter_append, r0, vM]
      simp [Cmd.isDrawIndexed]

/-- C25 at the scene `sceneGood`, three submeshes in the first batch and one in
the cutout batch: sixteen indexed draws and two dispatches in both renderers. -/
theorem C25_witness_sceneGood :
    (Renderer.checksPass sceneGood = true ∧
      (Renderer.Render mathQ (Renderer.Create hdBuffer hdBuffer) sceneGood false).cmds.countP
        Cmd.isDrawIndexed = 4 * (3 + 1) ∧
      (Renderer.Render mathQ (Renderer.Create hdBuffer hdBuffer) sceneGood false).cmds.countP
        Cmd.isDispatch = 2) ∧
    (MyRenderer.checksPass sceneGood = true ∧
      (MyRenderer.Render mathQ (MyRenderer.Initialize hdBuffer hdBuffer) sceneGood).cmds.countP
        Cmd.isDrawIndexed = 4 * (3 + 1) ∧
      (MyRenderer.Render mathQ (MyRenderer.Initialize hdBuffer hdBuffer) sceneGood).cmds.countP
        Cmd.isDispatch = 2) :=
  ⟨⟨by decide,
    ((C25_draws_and_dispatches_of_a_frame mathQ hdBuffer hdBuffer sceneGood false).1
      (by decide)).1,
    ((C25_draws_and_dispatches_of_a_frame mathQ hdBuffer hdBuffer sceneGood false).1
      (by decide)).2.1⟩,
   ⟨by decide,
    ((C25_draws_and_dispatches_of_a_frame mathQ hdBuffer hdBuffer sceneGood false).2
      (by decide)).1,
    ((C25_draws_and_dispatches_of_a_frame mathQ hdBuffer hdBuffer sceneGood false).2
      (by decide)).2.1⟩⟩

/-! ## C26: the bindings of the two dispatches -/

/-- C26: for all buffers and whatever is bound when the pass begins, the two
dispatches of `VSGLGenerationPass` (there are none if an assertion of the pass
fails) see, at the root index of the shader-resource table, the three entries
RSM depth, RSM normal, RSM diffuse (the first dispatch) and RSM depth, RSM
normal, RSM specular (the second): slot 2 is the only one that differs; both
see the light-probe buffer as the one unordered-access buffer, at the same root
index, and both run with the same constant block, the one uploaded once before
the first dispatch. Stated for both renderers. -/
theorem C26_dispatch_bindings {α : Type}
    [Mul α] [Div α] [NatCast α] [OfNat α 2] (math : MathLib α) (b : Buffers)
    (spotLight : Camera α) (lightIntensity : α) (s : Tracked) :
    ((s.atDispatches (Renderer.VSGLGenerationPass math b spotLight lightIntensity).cmds).map
        (fun s1 => (s1.shaderResourceTable Renderer.VSGL_ROOT_INDEX_SRV 3, s1.unorderedAccess)) =
      (if b.rsmMatches = true then
        [([some .s_rsmDepthBuffer, some .s_rsmNormalBuffer, some .s_rsmDiffuseBuffer],
            [(Renderer.VSGL_ROOT_INDEX_UAV, .s_sgLightBuffer)]),
         ([some .s_rsmDepthBuffer, some .s_rsmNormalBuffer, some .s_rsmSpecularBuffer],
            [(Renderer.VSGL_ROOT_INDEX_UAV, .s_sgLightBuffer)])]
       else []) ∧
     constantsAtDispatches none
        (Renderer.VSGLGenerationPass math b spotLight lightIntensity).cmds =
      (if b.rsmMatches = true then
        List.replicate 2 (some (Renderer.VSGL_ROOT_INDEX_CBV,
          .vsgl (math.XMMatrixInverse spotLight.GetViewProjMatrix) spotLight.GetPosition
            (math.XMVector3Cross spotLight.GetUpVec spotLight.GetRightVec)
            (photonPower RSM_WIDTH lightIntensity (planeWidth math.tan spotLight.GetFOV))))
       else [])) ∧
    ((s.atDispatches (MyRenderer.VSGLGenerationPass math b spotLight lightIntensity).cmds).map
        (fun s1 =>
          (s1.shaderResourceTable MyRenderer.VSGL_ROOT_INDEX_SRV 3, s1.unorderedAccess)) =
      (if b.rsmMatches = true then
        [([some .s_rsmDepthBuffer, some .s_rsmNormalBuffer, some .s_rsmDiffuseBuffer],
            [(MyRenderer.VSGL_ROOT_INDEX_UAV, .s_sgLightBuffer)]),
         ([some .s_rsmDepthBuffer, some .s_rsmNormalBuffer, some .s_rsmSpecularBuffer],
            [(MyRenderer.VSGL_ROOT_INDEX_UAV, .s_sgLightBuffer)])]
       else []) ∧
     constantsAtDispatches none
        (MyRenderer.VSGLGenerationPass math b spotLight lightIntensity).cmds =
      (if b.rsmMatches = true then
        List.replicate 2 (some (MyRenderer.VSGL_ROOT_INDEX_CBV,
          .vsgl (math.XMMatrixInverse spotLight.GetViewProjMatrix) spotLight.GetPosition
            (math.XMVector3Cross spotLight.GetUpVec spotLight.GetRightVec)
            (photonPower RSM_WIDTH lightIntensity (planeWidth math.tan spotLight.GetFOV))))
       else [])) := by
  rw [VSGLGenerationPass_eq]
  cases h : b.rsmMatches
  · obtain ⟨f, _, e⟩ := Renderer_VSGLGenerationPass_of_mismatch math b spotLight lightIntensity h
    rw [e]
    exact ⟨⟨rfl, rfl⟩, ⟨rfl, rfl⟩⟩
  · rw [Renderer_VSGLGenerationPass_of_matches math b spotLight lightIntensity h]
    exact ⟨⟨rfl, rfl⟩, ⟨rfl, rfl⟩⟩

/-! ## C27: the bindings stay inside the binding layout -/

/-- C27: for every scene and all buffers, aborted frames included, at every
call `c` of the command stream of `Render`, with `pre` the calls before it: if
`c` binds to a root index, a root signature was bound in `pre` and the index
is smaller than the number of root parameters of the one bound last; and if
`c` binds n descriptors at offset o of the table of root index r, the root
parameter at r of that signature is a descriptor range and o + n is at most
its size. The sizes declared by `Renderer::Create` are 1 for the depth layout,
4 for the RSM layout, 5 for the lighting layout and 3 for the VSGL layout, and
`LightingPass` binds the shadow map as one descriptor at offset 4. For
`MyRenderer`, whose lighting layout declares the material range (size 4) and
the range of the table with the shadow map (size 1) at two root indices, the
same holds with the layouts of `MyRenderer::Initialize`. -/
theorem C27_bindings_within_layout {α : Type}
    [Mul α] [Div α] [NatCast α] [OfNat α 2] (math : MathLib α) (b : Buffers)
    (scene : Scene α) (hsg : Bool) :
    (∀ pre c post, (Renderer.Render math b scene hsg).cmds = pre ++ c :: post →
      (∀ r, c.rootIndex? = some r →
        ∃ sig, (pre.filterMap Cmd.rootSignature?).getLast? = some sig ∧
          r < (Renderer.CreateRootSignature sig).length) ∧
      (∀ r o n, c.descriptorSpan? = some (r, o, n) →
        ∃ sig reg size vis, (pre.filterMap Cmd.rootSignature?).getLast? = some sig ∧
          (Renderer.CreateRootSignature sig)[r]? = some (.InitAsDescriptorRange reg size vis) ∧
          o + n ≤ size)) ∧
    ((Renderer.CreateRootSignature .s_depthRootSignature).map RootParameter.rangeSize? =
        [none, some 1] ∧
      (Renderer.CreateRootSignature .s_rsmRootSignature).map RootParameter.rangeSize? =
        [none, some 4] ∧
      (Renderer.CreateRootSignature .s_lightingRootSignature).map RootParameter.rangeSize? =
        [none, some 5, none, none] ∧
      (Renderer.CreateRootSignature .s_vsglRootSignature).map RootParameter.rangeSize? =
        [none, none, some 3, none]) ∧
    (.SetDynamicDescriptors Renderer.ROOT_INDEX_PS_SRV 4 1 (.handles [.DepthSRV .s_shadowMap]) ∈
      (Renderer.LightingPass b scene hsg).cmds) ∧
    (∀ pre c post, (MyRenderer.Render math b scene).cmds = pre ++ c :: post →
      (∀ r, c.rootIndex? = some r →
        ∃ sig, (pre.filterMap Cmd.rootSignature?).getLast? = some sig ∧
          r < (MyRenderer.InitializeRootSignature sig).length) ∧
      (∀ r o n, c.descriptorSpan? = some (r, o, n) →
        ∃ sig reg size vis, (pre.filterMap Cmd.rootSignature?).getLast? = some sig ∧
          (MyRenderer.InitializeRootSignature sig)[r]? =
            some (.InitAsDescriptorRange reg size vis) ∧
          o + n ≤ size)) ∧
    ((MyRenderer.InitializeRootSignature .s_depthRootSignature).map RootParameter.rangeSize? =
        [none, some 1] ∧
      (MyRenderer.InitializeRootSignature .s_rsmRootSignature).map RootParameter.rangeSize? =
        [none, some 4] ∧
      (MyRenderer.InitializeRootSignature .s_lightingRootSignature).map RootParameter.rangeSize? =
        [none, some 4, some 1, none, none] ∧
      (MyRenderer.InitializeRootSignature .s_vsglRootSignature).map RootParameter.rangeSize? =
        [none, none, some 3, none]) := by
  refine ⟨layoutMonitor_accepts _ _ (Renderer_Render_layout math b scene hsg).1,
    by decide, ?_, layoutMonitor_accepts _ _ (MyRenderer_Render_layout math b scene).1,
    by decide⟩
  simp only [Renderer.LightingPass, Trace.ScopedTimer, Trace.block_cons]
  refine Trace.mem_cmds_seq_right _ _ _ rfl (Trace.mem_cmds_seq_left _ _ _ ?_)
  iterate 9 refine Trace.mem_cmds_seq_right _ _ _ rfl ?_
  exact Trace.mem_cmds_seq_left _ _ _ (List.mem_singleton_self _)

/-- C27 at the binding of the shadow map in the frame of `sceneGood`, the call
after the first 102 calls: the lighting root signature is the one bound last,
and offset 4 plus one descriptor is within its range of size 5. -/
theorem C27_witness_shadow_map_binding :
    (Renderer.Render mathQ (Renderer.Create hdBuffer hdBuffer) sceneGood false).cmds =
      (Renderer.Render mathQ (Renderer.Create hdBuffer hdBuffer) sceneGood false).cmds.take 102 ++
        .SetDynamicDescriptors Renderer.ROOT_INDEX_PS_SRV 4 1
          (.handles [.DepthSRV .s_shadowMap]) ::
        (Renderer.Render mathQ (Renderer.Create hdBuffer hdBuffer) sceneGood false).cmds.drop 103 ∧
    ∃ sig reg size vis,
      (((Renderer.Render mathQ (Renderer.Create hdBuffer hdBuffer) sceneGood false).cmds.take
        102).filterMap Cmd.rootSignature?).getLast? = some sig ∧
      (Renderer.CreateRootSignature sig)[Renderer.ROOT_INDEX_PS_SRV]? =
        some (.InitAsDescriptorRange reg size vis) ∧ 4 + 1 ≤ size :=
  ⟨rfl,
    ((C27_bindings_within_layout mathQ (Renderer.Create hdBuffer hdBuffer) sceneGood false).1
      ((Renderer.Render mathQ (Renderer.Create hdBuffer hdBuffer) sceneGood false).cmds.take 102)
      (.SetDynamicDescriptors Renderer.ROOT_INDEX_PS_SRV 4 1 (.handles [.DepthSRV .s_shadowMap]))
      ((Renderer.Render mathQ (Renderer.Create hdBuffer hdBuffer) sceneGood false).cmds.drop 103)
      rfl).2 _ _ _ rfl⟩

/-! ## C28: the arguments of an indexed draw are exact quotients -/

/-- C28: a submesh reached by the loop of a draw routine that satisfies the
assertions of the routine with a vertex stride that is not zero is drawn with
exact quotients. With `startIndex` the index byte offset divided by
`sizeof(uint16_t)` and `baseVertexLocation` the vertex byte offset divided by
the vertex stride, `startIndex * 2` is the index byte offset, `startIndex` is a
multiple of 3, `baseVertexLocation * vertexStride` is the vertex byte offset,
and the indexed draw the loop records first is that of the submesh, with its
index count unchanged; the iteration does not abort (no division or modulo by
zero, no failed assertion): what aborts the loop, if anything does, is a later
submesh. The first half is `Draw` of both renderers and `DrawDepth` of
`MyRenderer`, which read the vertex byte offset of the full vertex buffer; the
second half is `DrawDepth` of `Renderer`, which reads that of the depth-only
vertex buffer. -/
theorem C28_draw_arguments_are_exact_quotients {α : Type} :
    (∀ (vertexStride : Nat) (mesh : Mesh), mesh.passesDraw vertexStride = true →
      vertexStride ≠ 0 ∧
      mesh.indexDataByteOffset / SIZEOF_UINT16 * 2 = mesh.indexDataByteOffset ∧
      3 ∣ mesh.indexDataByteOffset / SIZEOF_UINT16 ∧
      mesh.vertexDataByteOffset / vertexStride * vertexStride = mesh.vertexDataByteOffset ∧
      ∀ (ref : ModelRef) (srvCount : Nat) (rest : List Mesh) (materialIndex : Nat),
        (((Renderer.Draw.loop ref vertexStride srvCount (mesh :: rest) materialIndex :
            Trace α).cmds.filter Cmd.isDrawIndexed).head? =
          some (.DrawIndexed mesh.indexCount (mesh.indexDataByteOffset / SIZEOF_UINT16)
            (mesh.vertexDataByteOffset / vertexStride)) ∧
         (Renderer.Draw.loop ref vertexStride srvCount (mesh :: rest) materialIndex :
            Trace α).failure =
          (Renderer.Draw.loop ref vertexStride srvCount rest mesh.materialIndex :
            Trace α).failure) ∧
        (((MyRenderer.Draw.loop ref vertexStride (mesh :: rest) materialIndex :
            Trace α).cmds.filter Cmd.isDrawIndexed).head? =
          some (.DrawIndexed mesh.indexCount (mesh.indexDataByteOffset / SIZEOF_UINT16)
            (mesh.vertexDataByteOffset / vertexStride)) ∧
         (MyRenderer.Draw.loop ref vertexStride (mesh :: rest) materialIndex :
            Trace α).failure =
          (MyRenderer.Draw.loop ref vertexStride rest mesh.materialIndex : Trace α).failure) ∧
        (((MyRenderer.DrawDepth.loop vertexStride (mesh :: rest) :
            Trace α).cmds.filter Cmd.isDrawIndexed).head? =
          some (.DrawIndexed mesh.indexCount (mesh.indexDataByteOffset / SIZEOF_UINT16)
            (mesh.vertexDataByteOffset / vertexStride)) ∧
         (MyRenderer.DrawDepth.loop vertexStride (mesh :: rest) : Trace α).failure =
          (MyRenderer.DrawDepth.loop vertexStride rest : Trace α).failure)) ∧
    (∀ (vertexStride : Nat) (mesh : Mesh), mesh.passesDrawDepth vertexStride = true →
      vertexStride ≠ 0 ∧
      mesh.indexDataByteOffset / SIZEOF_UINT16 * 2 = mesh.indexDataByteOffset ∧
      3 ∣ mesh.indexDataByteOffset / SIZEOF_UINT16 ∧
      mesh.vertexDataByteOffsetDepth / vertexStride * vertexStride =
        mesh.vertexDataByteOffsetDepth ∧
      ∀ (rest : List Mesh),
        ((Renderer.DrawDepth.loop vertexStride (mesh :: rest) :
            Trace α).cmds.filter Cmd.isDrawIndexed).head? =
          some (.DrawIndexed mesh.indexCount (mesh.indexDataByteOffset / SIZEOF_UINT16)
            (mesh.vertexDataByteOffsetDepth / vertexStride)) ∧
        (Renderer.DrawDepth.loop vertexStride (mesh :: rest) : Trace α).failure =
          (Renderer.DrawDepth.loop vertexStride rest : Trace α).failure) := by
  refine ⟨?_, ?_⟩
  · intro vertexStride mesh h
    obtain ⟨-, h2, h3, h4⟩ := (Mesh.passesDraw_iff vertexStride mesh).1 h
    simp only [Mesh.passesDraw, Bool.and_eq_true] at h
    obtain ⟨⟨⟨a1, a2⟩, a3⟩, a4⟩ := h
    refine ⟨h3, ?_, ?_, Nat.div_mul_cancel h4, ?_⟩
    · simp only [SIZEOF_UINT16]; omega
    · simp only [SIZEOF_UINT16]; omega
    · intro ref srvCount rest materialIndex
      refine ⟨⟨?_, ?_⟩, ⟨?_, ?_⟩, ⟨?_, ?_⟩⟩
      · by_cases hm : materialIndex = mesh.materialIndex <;>
        simp [Renderer.Draw.loop, Trace.block_cons, Trace.block_nil, Trace.cmds_seq,
          Trace.failure_seq, Trace.cmds_assert, Trace.failure_assert, Trace.cmds_call,
          Trace.failure_call, Trace.cmds_skip, Trace.failure_skip, a1, a2, a3, a4, hm,
          Cmd.isDrawIndexed]
      · by_cases hm : materialIndex = mesh.materialIndex <;>
        simp [Renderer.Draw.loop, Trace.block_cons, Trace.block_nil, Trace.cmds_seq,
          Trace.failure_seq, Trace.cmds_assert, Trace.failure_assert, Trace.cmds_call,
          Trace.failure_call, Trace.cmds_skip, Trace.failure_skip, a1, a2, a3, a4, hm] <;>
        exact fun e => e.symm
      · by_cases hm : mesh.materialIndex = materialIndex <;>
        simp [MyRenderer.Draw.loop, Trace.block_cons, Trace.block_nil, Trace.cmds_seq,
          Trace.failure_seq, Trace.cmds_assert, Trace.failure_assert, Trace.cmds_call,
          Trace.failure_call, Trace.cmds_skip, Trace.failure_skip, a1, a2, a3, a4, hm,
          Cmd.isDrawIndexed]
      · by_cases hm : mesh.materialIndex = materialIndex <;>
        simp [MyRenderer.Draw.loop, Trace.block_cons, Trace.block_nil, Trace.cmds_seq,
          Trace.failure_seq, Trace.cmds_assert, Trace.failure_assert, Trace.cmds_call,
          Trace.failure_call, Trace.cmds_skip, Trace.failure_skip, a1, a2, a3, a4, hm] <;>
        exact fun e => e.symm
      · simp [MyRenderer.DrawDepth.loop, Trace.block_cons, Trace.block_nil, Trace.cmds_seq,
          Trace.failure_seq, Trace.cmds_assert, Trace.failure_assert, Trace.cmds_call,
          Trace.failure_call, Trace.cmds_skip, Trace.failure_skip, a1, a2, a3, a4,
          Cmd.isDrawIndexed]
      · simp [MyRenderer.DrawDepth.loop, Trace.block_cons, Trace.block_nil, Trace.cmds_seq,
          Trace.failure_seq, Trace.cmds_assert, Trace.failure_assert, Trace.cmds_call,
          Trace.failure_call, Trace.cmds_skip, Trace.failure_skip, a1, a2, a3, a4]
        exact fun e => e.symm
  · intro vertexStride mesh h
    obtain ⟨-, h2, h3, h4⟩ := (Mesh.passesDrawDepth_iff vertexStride mesh).1 h
    simp only [Mesh.passesDrawDepth, Bool.and_eq_true] at h
    obtain ⟨⟨⟨a1, a2⟩, a3⟩, a4⟩ := h
    refine ⟨h3, ?_, ?_, Nat.div_mul_cancel h4, ?_⟩
    · simp only [SIZEOF_UINT16]; omega
    · simp only [SIZEOF_UINT16]; omega
    · intro rest
      refine ⟨?_, ?_⟩
      · simp [Renderer.DrawDepth.loop, Trace.block_cons, Trace.block_nil, Trace.cmds_seq,
          Trace.failure_seq, Trace.cmds_assert, Trace.failure_assert, Trace.cmds_call,
          Trace.failure_call, Trace.cmds_skip, Trace.failure_skip, a1, a2, a3, a4,
          Cmd.isDrawIndexed]
      · simp [Renderer.DrawDepth.loop, Trace.block_cons, Trace.block_nil, Trace.cmds_seq,
          Trace.failure_seq, Trace.cmds_assert, Trace.failure_assert, Trace.cmds_call,
          Trace.failure_call, Trace.cmds_skip, Trace.failure_skip, a1, a2, a3, a4]
        exact fun e => e.symm

/-- The statement of C28 at a mesh of two triangles: with the strides 32 and
12 of the two vertex buffers, the draw is `DrawIndexed 6 3 2`. -/
theorem C28_witness_meshAligned :
    (meshAligned.passesDraw 32 = true ∧
      ((Renderer.Draw.loop .m_model 32 MODEL_SRV_COUNT [meshAligned] UINT32_MAX :
          Trace ℚ).cmds.filter Cmd.isDrawIndexed).head? = some (.DrawIndexed 6 3 2)) ∧
    (meshAligned.passesDrawDepth 12 = true ∧
      ((Renderer.DrawDepth.loop 12 [meshAligned] : Trace ℚ).cmds.filter
        Cmd.isDrawIndexed).head? = some (.DrawIndexed 6 3 2)) :=
  ⟨⟨by decide,
    ((C28_draw_arguments_are_exact_quotients.1 32 meshAligned (by decide)).2.2.2.2
      .m_model MODEL_SRV_COUNT [] UINT32_MAX).1.1⟩,
   ⟨by decide,
    ((C28_draw_arguments_are_exact_quotients.2 12 meshAligned (by decide)).2.2.2.2 []).1⟩⟩

/-! ## C29: what the HSG toggle changes -/

/-- C29: for every scene and all buffers, aborted or not, the command stream
`Renderer::Render` records with the toggle on is the stream it records with the
toggle off with each selection of a plain lighting pipeline replaced by the
selection of its HSG variant, call by call, and the two frames fail alike; so
the calls that select no lighting pipeline (transitions, clears, bindings,
draws with their arguments, dispatches, the other selections) are the same in
both. The frame is the five statements before `LightingPass`, which do not read
the toggle and select no lighting pipeline, followed by `LightingPass`, and the
selections of a lighting pipeline in `LightingPass` are one for the first
batch and one for the cutout batch if it is not empty and the pass was not
aborted before. -/
theorem C29_toggle_changes_lighting_selections_only {α : Type}
    [Mul α] [Div α] [NatCast α] [OfNat α 2] (math : MathLib α)
    (b : Buffers) (scene : Scene α) :
    (Renderer.Render math b scene true).cmds =
      (Renderer.Render math b scene false).cmds.map Cmd.withHSG ∧
    (Renderer.Render math b scene true).failure =
      (Renderer.Render math b scene false).failure ∧
    (Renderer.Render math b scene true).cmds.filter (fun c => !c.isLightingSelection) =
      (Renderer.Render math b scene false).cmds.filter (fun c => !c.isLightingSelection) ∧
    (∀ c : Cmd α, c.withHSG ≠ c →
      (c = .SetPipelineState .s_lightingPSO ∧ c.withHSG = .SetPipelineState .s_lightingHSGPSO) ∨
      (c = .SetPipelineState .s_lightingCutoutPSO ∧
        c.withHSG = .SetPipelineState .s_lightingHSGCutoutPSO)) ∧
    (∀ hsg, Renderer.Render math b scene hsg =
      Trace.seq
        (Trace.block [Renderer.ResourceInit, Renderer.ReflectiveShadowMapPass b scene,
          Renderer.ShadowMapPass b scene,
          Renderer.VSGLGenerationPass math b scene.m_spotLight scene.m_spotLightIntensity,
          Renderer.DepthPass b scene])
        (Renderer.LightingPass b scene hsg)) ∧
    (Trace.block [(Renderer.ResourceInit : Trace α), Renderer.ReflectiveShadowMapPass b scene,
      Renderer.ShadowMapPass b scene,
      Renderer.VSGLGenerationPass math b scene.m_spotLight scene.m_spotLightIntensity,
      Renderer.DepthPass b scene]).cmds.filter Cmd.isLightingSelection = [] ∧
    (∀ hsg, (Renderer.LightingPass b scene hsg).cmds.filter Cmd.isLightingSelection =
      .SetPipelineState (lightingPipeline hsg false) ::
        (if 0 < scene.m_modelCutout.meshCount ∧
            (Renderer.Draw .m_model scene.m_model MODEL_SRV_COUNT : Trace α).failure = none then
          [.SetPipelineState (lightingPipeline hsg true)] else [])) := by
  have hseq : ∀ hsg, Renderer.Render math b scene hsg =
      Trace.seq
        (Trace.block [Renderer.ResourceInit, Renderer.ReflectiveShadowMapPass b scene,
          Renderer.ShadowMapPass b scene,
          Renderer.VSGLGenerationPass math b scene.m_spotLight scene.m_spotLightIntensity,
          Renderer.DepthPass b scene])
        (Renderer.LightingPass b scene hsg) :=
    fun hsg => Trace.block_five_seq _ _ _ _ _ _
  have hall := Renderer_before_LightingPass_all math b scene
  obtain ⟨l1, l2⟩ := Renderer_LightingPass_toggle b scene
  have hmap : (Renderer.Render math b scene true).cmds =
      (Renderer.Render math b scene false).cmds.map Cmd.withHSG := by
    rw [hseq true, hseq false]
    exact (Trace.seq_map _ _ _ _ _
      ⟨(map_eq_self_of_all _ _ Cmd.withHSG_of_not_isLightingSelection _ hall).symm, rfl⟩
      ⟨l1, l2⟩).1
  refine ⟨hmap, ?_, ?_, ?_, hseq, ?_, ?_⟩
  · rw [hseq true, hseq false]
    rw [Trace.failure_seq, Trace.failure_seq, l2]
  · rw [hmap]
    apply filter_map_of_fixed
    · intro c
      cases c <;> first | rfl | skip
      rename_i pso
      cases pso <;> rfl
    · exact Cmd.withHSG_of_not_isLightingSelection
  · intro c h
    cases c <;> first | exact absurd rfl h | skip
    rename_i pso
    cases pso <;> first | exact absurd rfl h | exact Or.inl ⟨rfl, rfl⟩ | exact Or.inr ⟨rfl, rfl⟩
  · apply filter_eq_nil_of_all_not
    exact hall
  · intro hsg
    have e1 := fun (ref : ModelRef) (model : Model) (srv : Nat) =>
      Renderer_Draw_filter (α := α) Cmd.isLightingSelection ref model srv (fun _ => rfl)
        (fun _ => rfl) (fun _ => rfl) (fun _ _ _ => rfl)
    by_cases hc : 0 < scene.m_modelCutout.meshCount <;>
    by_cases h1 : (Renderer.Draw .m_model scene.m_model MODEL_SRV_COUNT :
      Trace α).failure = none <;>
    by_cases h2 : (Renderer.Draw .m_modelCutout scene.m_modelCutout MODEL_SRV_COUNT :
      Trace α).failure = none <;>
    cases hsg <;>
    simp [Renderer.LightingPass, Trace.ScopedTimer, Trace.block_cons, Trace.block_nil,
      Trace.cmds_seq, Trace.failure_seq, Trace.cmds_call, Trace.failure_call, Trace.cmds_skip,
      Trace.failure_skip, hc, h1, h2, List.filter_append, List.filter_cons, e1,
      Cmd.isLightingSelection, lightingPipeline, PSO.isLighting]

/-! ## C30: the viewport of a pass covers its depth target -/

/-- C30: for every scene and all buffers, aborted or not, each of the four
graphics passes binds one depth-stencil view and sets one viewport and scissor
rectangle, and the rectangle is (0, 0, W, H) with W and H the width and the
height of the buffer of that view: the RSM depth buffer in
`ReflectiveShadowMapPass`, the shadow map in `ShadowMapPass`, the scene depth
buffer in `DepthPass` and, through its read-only view, in `LightingPass`.
Stated for both renderers. -/
theorem C30_viewport_covers_depth_target {α : Type} (b : Buffers) (scene : Scene α)
    (hsg : Bool) :
    ((Renderer.ReflectiveShadowMapPass b scene).cmds.filterMap Cmd.depthTarget? =
        [.DSV .s_rsmDepthBuffer] ∧
      (Renderer.ReflectiveShadowMapPass b scene).cmds.filterMap Cmd.viewportAndScissor? =
        [(0, 0, b.s_rsmDepthBuffer.GetWidth, b.s_rsmDepthBuffer.GetHeight)] ∧
      b.fullRectangle (.DSV .s_rsmDepthBuffer) =
        some (0, 0, b.s_rsmDepthBuffer.GetWidth, b.s_rsmDepthBuffer.GetHeight) ∧
      (Renderer.ShadowMapPass b scene).cmds.filterMap Cmd.depthTarget? = [.DSV .s_shadowMap] ∧
      (Renderer.ShadowMapPass b scene).cmds.filterMap Cmd.viewportAndScissor? =
        [(0, 0, b.s_shadowMap.GetWidth, b.s_shadowMap.GetHeight)] ∧
      b.fullRectangle (.DSV .s_shadowMap) =
        some (0, 0, b.s_shadowMap.GetWidth, b.s_shadowMap.GetHeight) ∧
      (Renderer.DepthPass b scene).cmds.filterMap Cmd.depthTarget? =
        [.DSV .g_SceneDepthBuffer] ∧
      (Renderer.DepthPass b scene).cmds.filterMap Cmd.viewportAndScissor? =
        [(0, 0, b.g_SceneDepthBuffer.GetWidth, b.g_SceneDepthBuffer.GetHeight)] ∧
      b.fullRectangle (.DSV .g_SceneDepthBuffer) =
        some (0, 0, b.g_SceneDepthBuffer.GetWidth, b.g_SceneDepthBuffer.GetHeight) ∧
      (Renderer.LightingPass b scene hsg).cmds.filterMap Cmd.depthTarget? =
        [.DSV_DepthReadOnly .g_SceneDepthBuffer] ∧
      (Renderer.LightingPass b scene hsg).cmds.filterMap Cmd.viewportAndScissor? =
        [(0, 0, b.g_SceneDepthBuffer.GetWidth, b.g_SceneDepthBuffer.GetHeight)] ∧
      b.fullRectangle (.DSV_DepthReadOnly .g_SceneDepthBuffer) =
        some (0, 0, b.g_SceneDepthBuffer.GetWidth, b.g_SceneDepthBuffer.GetHeight)) ∧
    ((MyRenderer.ReflectiveShadowMapPass b scene).cmds.filterMap Cmd.depthTarget? =
        [.DSV .s_rsmDepthBuffer] ∧
      (MyRenderer.ReflectiveShadowMapPass b scene).cmds.filterMap Cmd.viewportAndScissor? =
        [(0, 0, b.s_rsmDepthBuffer.GetWidth, b.s_rsmDepthBuffer.GetHeight)] ∧
      (MyRenderer.ShadowMapPass b scene).cmds.filterMap Cmd.depthTarget? =
        [.DSV .s_shadowMap] ∧
      (MyRenderer.ShadowMapPass b scene).cmds.filterMap Cmd.viewportAndScissor? =
        [(0, 0, b.s_shadowMap.GetWidth, b.s_shadowMap.GetHeight)] ∧
      (MyRenderer.DepthPass b scene).cmds.filterMap Cmd.depthTarget? =
        [.DSV .g_SceneDepthBuffer] ∧
      (MyRenderer.DepthPass b scene).cmds.filterMap Cmd.viewportAndScissor? =
        [(0, 0, b.g_SceneDepthBuffer.GetWidth, b.g_SceneDepthBuffer.GetHeight)] ∧
      (MyRenderer.LightingPass b scene).cmds.filterMap Cmd.depthTarget? =
        [.DSV_DepthReadOnly .g_SceneDepthBuffer] ∧
      (MyRenderer.LightingPass b scene).cmds.filterMap Cmd.viewportAndScissor? =
        [(0, 0, b.g_SceneDepthBuffer.GetWidth, b.g_SceneDepthBuffer.GetHeight)]) := by
  have e1 := fun (ref : ModelRef) (model : Model) (srv : Nat) =>
    Renderer_Draw_filterMap (α := α) Cmd.depthTarget? ref model srv (fun _ => rfl)
      (fun _ => rfl) (fun _ => rfl) (fun _ _ _ => rfl)
  have e2 := fun (ref : ModelRef) (model : Model) =>
    Renderer_DrawDepth_filterMap (α := α) Cmd.depthTarget? ref model (fun _ => rfl)
      (fun _ => rfl) (fun _ _ _ => rfl)
  have e3 := fun (ref : ModelRef) (model : Model) =>
    MyRenderer_Draw_filterMap (α := α) Cmd.depthTarget? ref model (fun _ => rfl)
      (fun _ => rfl) (fun _ => rfl) (fun _ _ _ => rfl)
  have e4 := fun (ref : ModelRef) (model : Model) =>
    MyRenderer_DrawDepth_filterMap (α := α) Cmd.depthTarget? ref model (fun _ => rfl)
      (fun _ => rfl) (fun _ _ _ => rfl)
  have f1 := fun (ref : ModelRef) (model : Model) (srv : Nat) =>
    Renderer_Draw_filterMap (α := α) Cmd.viewportAndScissor? ref model srv (fun _ => rfl)
      (fun _ => rfl) (fun _ => rfl) (fun _ _ _ => rfl)
  have f2 := fun (ref : ModelRef) (model : Model) =>
    Renderer_DrawDepth_filterMap (α := α) Cmd.viewportAndScissor? ref model (fun _ => rfl)
      (fun _ => rfl) (fun _ _ _ => rfl)
  have f3 := fun (ref : ModelRef) (model : Model) =>
    MyRenderer_Draw_filterMap (α := α) Cmd.viewportAndScissor? ref model (fun _ => rfl)
      (fun _ => rfl) (fun _ => rfl) (fun _ _ _ => rfl)
  have f4 := fun (ref : ModelRef) (model : Model) =>
    MyRenderer_DrawDepth_filterMap (α := α) Cmd.viewportAndScissor? ref model (fun _ => rfl)
      (fun _ => rfl) (fun _ _ _ => rfl)
  constructor
  · simp [Renderer.ReflectiveShadowMapPass, Renderer.ShadowMapPass, Renderer.DepthPass,
      Renderer.LightingPass, Trace.ScopedTimer, Trace.block_cons, Trace.block_nil,
      Trace.cmds_seq, Trace.failure_seq, Trace.cmds_call, Trace.failure_call, Trace.cmds_skip,
      Trace.failure_skip, apply_ite (List.filterMap Cmd.depthTarget?), List.filterMap_append,
      List.filterMap_cons, e1, e2, Cmd.depthTarget?, apply_ite Trace.cmds,
      apply_ite (List.filterMap Cmd.viewportAndScissor?), f1, f2, Cmd.viewportAndScissor?,
      Buffers.fullRectangle, Buffers.extent, Descriptor.resource]
  · simp [MyRenderer.ReflectiveShadowMapPass, MyRenderer.ShadowMapPass, MyRenderer.DepthPass,
      MyRenderer.LightingPass, Trace.ScopedTimer, Trace.block_cons, Trace.block_nil,
      Trace.cmds_seq, Trace.failure_seq, Trace.cmds_call, Trace.failure_call, Trace.cmds_skip,
      Trace.failure_skip, apply_ite (List.filterMap Cmd.depthTarget?), List.filterMap_append,
      List.filterMap_cons, e3, e4, Cmd.depthTarget?, apply_ite Trace.cmds,
      apply_ite (List.filterMap Cmd.viewportAndScissor?), f3, f4, Cmd.viewportAndScissor?]

end VSGL
